import Mathlib

/-!
# DWA local planner: a shallow embedding of `src/dwa_planner.cpp`

The planner computes with `float` and `double`.  The embedding is given twice.  The first
replaces both by an arbitrary linearly ordered field `α` with a floor function (`ℚ` for
evaluation, `ℝ` for the mathematical reading): rounding, overflow to infinity and the drift
of floating-point loop counters are outside it.  It carries what no rounding can change,
the flags, the counters of the watchdog and the choice of a branch, and the scenarios
whose numbers are binary fractions, for which the C++ computes exactly.  The second, the
functions named `..._fp`, follows each operation of the C++ by the rounding of its type,
taken from a parameter `Rounding α` (`Rounding.ieee` is IEEE 754 binary32 and binary64).
It carries what can turn on a rounding: the samples and the running minimum of
`dwa_planning`, the command of `calc_cmd_vel`, the footprint test, `calc_intersection` and
`raycast`.  The functions `float_counter` and `sampleAxis_float` are the two counted loops
in IEEE arithmetic on their own.  Two IEEE behaviours that exact
arithmetic cannot imitate are modelled explicitly, because Lean's `x / 0 = 0` would
otherwise invent a result: the division by the sample counts in `dwa_planning` and the
division by the denominator in `calc_intersection`.

The C math library (`cos`, `sin`, `atan2`, `hypot`, and Eigen's 2-norm, which is the same
function as `hypot`) is a parameter `Libm α`; theorems hold for every such library and
name the laws they need as hypotheses.

Undefined behaviour (`back()`/`front()` of an empty vector, reading past the end of the
grid) and loops that never exit are reported as `none`.
-/

namespace DWA

variable {α : Type} [LinearOrderedField α] [FloorRing α]

/-! ## Data model -/

/-- The C math library functions the planner calls. `hypot x y` also stands for
`Eigen::Vector2d(x, y).norm()`. -/
structure Libm (α : Type) where
  cos : α → α
  sin : α → α
  atan2 : α → α → α
  hypot : α → α → α

/-- Embedding of `DWAPlanner::State`: pose and the command that produced it. -/
structure State (α : Type) where
  x_ : α
  y_ : α
  yaw_ : α
  velocity_ : α
  yawrate_ : α
  deriving DecidableEq, Repr

/-- Embedding of `DWAPlanner::Window`. -/
structure Window (α : Type) where
  min_velocity_ : α
  max_velocity_ : α
  min_yawrate_ : α
  max_yawrate_ : α
  deriving DecidableEq, Repr

/-- A planar point (`geometry_msgs::Point`, `Point32`; `z` is never read). -/
structure Point (α : Type) where
  x : α
  y : α
  deriving DecidableEq, Repr

/-- The two components of `geometry_msgs::Twist` the planner reads and writes
(`linear.x`, `angular.z`); a default-constructed message is all zero. -/
structure Twist (α : Type) where
  linear_x : α
  angular_z : α
  deriving DecidableEq, Repr

/-- The goal as `calc_cmd_vel` builds it: `Eigen::Vector3d goal(x, y, tf::getYaw(...))`. -/
structure Goal (α : Type) where
  x : α
  y : α
  yaw : α
  deriving DecidableEq, Repr

/-- The fields of `sensor_msgs::LaserScan` read by `scan_to_obs`. -/
structure LaserScan (α : Type) where
  angle_min : α
  angle_increment : α
  ranges : List α

/-- The fields of `nav_msgs::OccupancyGrid` read by `raycast`
(`width`, `height` are `uint32`, `data` is a vector of `int8`). -/
structure OccupancyGrid (α : Type) where
  resolution : α
  origin_x : α
  origin_y : α
  width : Nat
  height : Nat
  data : List Int

/-- The parameters the constructor reads from the parameter server. -/
structure Params (α : Type) where
  TARGET_VELOCITY : α
  MAX_VELOCITY : α
  MIN_VELOCITY : α
  MAX_YAWRATE : α
  MAX_ACCELERATION : α
  MAX_D_YAWRATE : α
  ANGLE_RESOLUTION : α
  PREDICT_TIME : α
  DT : α
  TO_GOAL_COST_GAIN : α
  SPEED_COST_GAIN : α
  OBSTACLE_COST_GAIN : α
  GOAL_THRESHOLD : α
  TURN_DIRECTION_THRESHOLD : α
  ANGLE_TO_GOAL_TH : α
  USE_SCAN_AS_INPUT : Bool
  USE_FOOTPRINT : Bool
  SUBSCRIBE_COUNT_TH : Int
  VELOCITY_SAMPLES : Int
  YAWRATE_SAMPLES : Int

/-- The member variables of `class DWAPlanner` that the planning code reads or writes.
The three counters are C++ `int`; they are unbounded integers here (signed overflow is
undefined behaviour and needs 2^31 stale ticks). -/
structure DWAPlanner (α : Type) where
  target_velocity_ : α
  max_velocity_ : α
  min_velocity_ : α
  max_yawrate_ : α
  max_acceleration_ : α
  max_d_yawrate_ : α
  angle_resolution_ : α
  predict_time_ : α
  dt_ : α
  to_goal_cost_gain_ : α
  speed_cost_gain_ : α
  obs_cost_gain_ : α
  dist_to_goal_th_ : α
  turn_direction_th_ : α
  angle_to_goal_th_ : α
  use_scan_as_input_ : Bool
  use_footprint_ : Bool
  subscribe_count_th_ : Int
  velocity_samples_ : Int
  yawrate_samples_ : Int
  footprint_subscribed_ : Bool
  local_goal_subscribed_ : Bool
  odom_updated_ : Bool
  local_map_updated_ : Bool
  scan_updated_ : Bool
  has_reached_ : Bool
  has_finished_ : Bool
  odom_not_subscribe_count_ : Int
  local_map_not_subscribe_count_ : Int
  scan_not_subscribe_count_ : Int
  current_cmd_vel_ : Twist α
  local_goal_ : Goal α
  footprint_ : List (Point α)
  obs_list_ : List (Point α)

/-- The running minimum kept by the search loop of `dwa_planning`
(`min_cost`, `best_traj`, `trajectories`; the three `min_*_cost` are only logged). -/
structure Search (α : Type) where
  min_cost : α
  best_traj : List (State α)
  trajectories : List (List (State α))

/-- The four outputs of `evaluate_trajectory`. -/
structure Costs (α : Type) where
  to_goal_cost : α
  speed_cost : α
  obs_cost : α
  total_cost : α
  deriving DecidableEq, Repr

/-- What one iteration of the `process` loop publishes; `moved` records what `can_move`
returned. -/
structure Published (α : Type) where
  moved : Bool
  cmd_vel : Twist α
  finish_flag : Bool

/-- A message delivered by `ros::spinOnce()` to one of the seven callbacks. For
`local_goal`, `transformed` is the result of `transformPose`, `none` when it throws. -/
inductive Event (α : Type) where
  | local_goal (msg : Goal α) (transformed : Option (Goal α))
  | scan (msg : LaserScan α)
  | local_map (msg : OccupancyGrid α)
  | odom (twist : Twist α)
  | target_velocity (linear_x : α)
  | footprint (polygon : List (Point α))
  | dist_to_goal_th (data : α)

/-! ## Constants -/

/-- The constant `DBL_EPSILON` = 2^-52. -/
def DBL_EPSILON : α := 1 / 4503599627370496

/-- The constant `M_PI` as the `double` it is: 884279719003555 / 2^48. -/
def M_PI : α := 884279719003555 / 281474976710656

/-- The literal `1e6`: initial `min_cost`, collision cost and sentinel coordinates. -/
def SENTINEL : α := 1000000

/-- Embedding of `State::State(void)`. -/
def State.origin : State α := ⟨0, 0, 0, 0, 0⟩

/-- A default-constructed `geometry_msgs::Twist`. -/
def Twist.zero : Twist α := ⟨0, 0⟩

/-- The parameter defaults of the constructor. -/
def Params.defaults : Params α where
  TARGET_VELOCITY := 4 / 5
  MAX_VELOCITY := 1
  MIN_VELOCITY := 0
  MAX_YAWRATE := 4 / 5
  MAX_ACCELERATION := 1
  MAX_D_YAWRATE := 2
  ANGLE_RESOLUTION := 1 / 5
  PREDICT_TIME := 3
  DT := 1 / 10
  TO_GOAL_COST_GAIN := 1
  SPEED_COST_GAIN := 1
  OBSTACLE_COST_GAIN := 1
  GOAL_THRESHOLD := 3 / 10
  TURN_DIRECTION_THRESHOLD := 1
  ANGLE_TO_GOAL_TH := M_PI
  USE_SCAN_AS_INPUT := false
  USE_FOOTPRINT := false
  SUBSCRIBE_COUNT_TH := 3
  VELOCITY_SAMPLES := 3
  YAWRATE_SAMPLES := 20

/-- The constructor `DWAPlanner::DWAPlanner`: member initialisers, parameters, and the
three assignments at its end. -/
def DWAPlanner.construct (c : Params α) : DWAPlanner α where
  target_velocity_ := c.TARGET_VELOCITY
  max_velocity_ := c.MAX_VELOCITY
  min_velocity_ := c.MIN_VELOCITY
  max_yawrate_ := c.MAX_YAWRATE
  max_acceleration_ := c.MAX_ACCELERATION
  max_d_yawrate_ := c.MAX_D_YAWRATE
  angle_resolution_ := c.ANGLE_RESOLUTION
  predict_time_ := c.PREDICT_TIME
  dt_ := c.DT
  to_goal_cost_gain_ := c.TO_GOAL_COST_GAIN
  speed_cost_gain_ := c.SPEED_COST_GAIN
  obs_cost_gain_ := c.OBSTACLE_COST_GAIN
  dist_to_goal_th_ := c.GOAL_THRESHOLD
  turn_direction_th_ := c.TURN_DIRECTION_THRESHOLD
  angle_to_goal_th_ := c.ANGLE_TO_GOAL_TH
  use_scan_as_input_ := c.USE_SCAN_AS_INPUT
  use_footprint_ := c.USE_FOOTPRINT
  subscribe_count_th_ := c.SUBSCRIBE_COUNT_TH
  velocity_samples_ := c.VELOCITY_SAMPLES
  yawrate_samples_ := c.YAWRATE_SAMPLES
  footprint_subscribed_ := !c.USE_FOOTPRINT
  local_goal_subscribed_ := false
  odom_updated_ := false
  local_map_updated_ := c.USE_SCAN_AS_INPUT
  scan_updated_ := !c.USE_SCAN_AS_INPUT
  has_reached_ := false
  has_finished_ := false
  odom_not_subscribe_count_ := 0
  local_map_not_subscribe_count_ := 0
  scan_not_subscribe_count_ := 0
  current_cmd_vel_ := Twist.zero
  local_goal_ := ⟨0, 0, 0⟩
  footprint_ := []
  obs_list_ := []

/-! ## Loops with a floating-point counter -/

/-- The counter values of `for (float t = lo; t <= hi; t += step)`, at most `fuel` of
them. -/
def forRangeAux (hi step : α) : Nat → α → List α
  | 0, _ => []
  | fuel + 1, t => if t ≤ hi then t :: forRangeAux hi step fuel (t + step) else []

/-- The counter values of `for (float t = lo; t <= hi; t += step)` for `0 < step`: the fuel
`⌊(hi - lo) / step⌋ + 1` is never exhausted (`forRangeAux_fuel`). -/
def forRange (lo hi step : α) : List α :=
  forRangeAux hi step (⌊(hi - lo) / step⌋₊ + 1) lo

/-- The counter values of `for (float t = lo; t <= hi; t += step)`, or `none` when the
loop is entered with a step that is not positive and so never exits. -/
def forLoop (lo hi step : α) : Option (List α) :=
  if lo ≤ hi ∧ step ≤ 0 then none else some (forRange lo hi step)

/-- The values one axis of the search loop of `dwa_planning` visits: the loop
`for (float v = lo; v <= hi; v += max((hi - lo) / n, DBL_EPSILON))`.
For `n = 0` the quotient is `+inf` or `NaN` (or the loop is not entered at all), the counter
becomes `+inf` or `NaN` after the first pass and the loop exits: one pass when `lo ≤ hi`. -/
def sampleAxis (lo hi : α) (n : Int) : List α :=
  if n = 0 then (if lo ≤ hi then [lo] else [])
  else forRange lo hi (max ((hi - lo) / (n : α)) DBL_EPSILON)

/-! ## Trajectory generation -/

/-- Embedding of `DWAPlanner::motion`. -/
def motion (L : Libm α) (p : DWAPlanner α) (state : State α) (velocity yawrate : α) :
    State α :=
  let yaw := state.yaw_ + yawrate * p.dt_
  let x := state.x_ + velocity * L.cos yaw * p.dt_
  let y := state.y_ + velocity * L.sin yaw * p.dt_
  ⟨x, y, yaw, velocity, yawrate⟩

/-- The body of the loop of `generate_trajectory`, once per counter value. -/
def rollout (L : Libm α) (p : DWAPlanner α) (velocity yawrate : α) :
    List α → State α → List (State α)
  | [], _ => []
  | _ :: ts, state =>
    let next := motion L p state velocity yawrate
    next :: rollout L p velocity yawrate ts next

/-- Embedding of `DWAPlanner::generate_trajectory`; `none` when the loop never exits
(`0 ≤ predict_time_` with `dt_ ≤ 0`). -/
def generate_trajectory (L : Libm α) (p : DWAPlanner α) (velocity yawrate : α) :
    Option (List (State α)) :=
  (forLoop 0 p.predict_time_ p.dt_).map
    (fun ts => rollout L p velocity yawrate ts State.origin)

/-! ## Collision and clearance geometry -/

/-- The z component of the cross product of two planar vectors, as Eigen computes it for
vectors with z = 0. -/
def cross_z (ax ay bx by_ : α) : α := ax * by_ - ay * bx

/-- Embedding of `DWAPlanner::transform_footprint`: rotate by `yaw_`, translate by `(x_, y_)`. -/
def transform_footprint (L : Libm α) (p : DWAPlanner α) (target_pose : State α) :
    List (Point α) :=
  p.footprint_.map (fun point =>
    ⟨L.cos target_pose.yaw_ * point.x - L.sin target_pose.yaw_ * point.y + target_pose.x_,
     L.sin target_pose.yaw_ * point.x + L.cos target_pose.yaw_ * point.y + target_pose.y_⟩)

/-- The pairs `(points[i], points[i + 1])`, the last one wrapping to `points[0]`, in the
order the loops over `i` visit them. -/
def edges (footprint : List (Point α)) : List (Point α × Point α) :=
  footprint.zip (footprint.rotate 1)

/-- Embedding of `DWAPlanner::is_inside_of_triangle` on the triangle `A B C` (the caller always passes
exactly three points, so the `exit(1)` branch is never taken). -/
def is_inside_of_triangle (target_point A B C : Point α) : Bool :=
  let cross1 := cross_z (B.x - A.x) (B.y - A.y) (target_point.x - B.x) (target_point.y - B.y)
  let cross2 := cross_z (C.x - B.x) (C.y - B.y) (target_point.x - C.x) (target_point.y - C.y)
  let cross3 := cross_z (A.x - C.x) (A.y - C.y) (target_point.x - A.x) (target_point.y - A.y)
  decide ((0 < cross1 ∧ 0 < cross2 ∧ 0 < cross3) ∨ (cross1 < 0 ∧ cross2 < 0 ∧ cross3 < 0))

/-- Embedding of `DWAPlanner::is_inside_of_robot`. -/
def is_inside_of_robot (obstacle : Point α) (footprint : List (Point α)) (state : State α) :
    Bool :=
  (edges footprint).any (fun e =>
    is_inside_of_triangle obstacle ⟨state.x_, state.y_⟩ e.1 e.2)

/-- The loop of `calc_intersection` over the remaining edges. `none` is a point whose
coordinates are `NaN`: with a zero denominator `s` and `t` are `NaN` when their numerators are
zero too, every comparison with `NaN` is false and the edge counts as crossed; if a numerator
is not zero its quotient is infinite and the edge is not crossed. -/
def calc_intersection_loop (obstacle : Point α) (state : State α) :
    List (Point α × Point α) → Option (Point α)
  | [] => some ⟨SENTINEL, SENTINEL⟩
  | (C, D) :: rest =>
    let bax := state.x_ - obstacle.x
    let bay := state.y_ - obstacle.y
    let deno := cross_z bax bay (D.x - C.x) (D.y - C.y)
    let s_num := cross_z (C.x - obstacle.x) (C.y - obstacle.y) (D.x - C.x) (D.y - C.y)
    let t_num := cross_z bax bay (obstacle.x - C.x) (obstacle.y - C.y)
    if deno = 0 then
      if s_num = 0 ∧ t_num = 0 then none
      else calc_intersection_loop obstacle state rest
    else
      let s := s_num / deno
      let t := t_num / deno
      if ¬ (s < 0 ∨ 1 < s ∨ t < 0 ∨ 1 < t) then
        some ⟨obstacle.x + s * bax, obstacle.y + s * bay⟩
      else calc_intersection_loop obstacle state rest

/-- Embedding of `DWAPlanner::calc_intersection`. -/
def calc_intersection (obstacle : Point α) (state : State α) (footprint : List (Point α)) :
    Option (Point α) :=
  calc_intersection_loop obstacle state (edges footprint)

/-- Embedding of `DWAPlanner::calc_dist_from_robot`; `none` is `NaN`. -/
def calc_dist_from_robot (L : Libm α) (p : DWAPlanner α) (obstacle : Point α)
    (state : State α) : Option α :=
  let footprint := transform_footprint L p state
  if is_inside_of_robot obstacle footprint state then some 0
  else
    match calc_intersection obstacle state footprint with
    | none => none
    | some intersection =>
      some (L.hypot (obstacle.x - intersection.x) (obstacle.y - intersection.y))

/-- Embedding of `DWAPlanner::check_collision`. -/
def check_collision (L : Libm α) (p : DWAPlanner α) (traj : List (State α)) : Bool :=
  traj.any (fun state =>
    p.obs_list_.any (fun obs => is_inside_of_robot obs (transform_footprint L p state) state))

/-! ## Dynamic window and cost evaluation -/

/-- Embedding of `DWAPlanner::calc_dynamic_window`. -/
def calc_dynamic_window (p : DWAPlanner α) : Window α where
  min_velocity_ := max (p.current_cmd_vel_.linear_x - p.max_acceleration_ * p.dt_) p.min_velocity_
  max_velocity_ := min (p.current_cmd_vel_.linear_x + p.max_acceleration_ * p.dt_) p.max_velocity_
  min_yawrate_ := max (p.current_cmd_vel_.angular_z - p.max_d_yawrate_ * p.dt_) (-p.max_yawrate_)
  max_yawrate_ := min (p.current_cmd_vel_.angular_z + p.max_d_yawrate_ * p.dt_) p.max_yawrate_

/-- Embedding of `DWAPlanner::calc_to_goal_cost`; `none` for `back()` of an empty trajectory. -/
def calc_to_goal_cost (L : Libm α) (traj : List (State α)) (goal : Goal α) : Option α :=
  traj.getLast?.map (fun last => L.hypot (last.x_ - goal.x) (last.y_ - goal.y))

/-- Embedding of `DWAPlanner::calc_speed_cost`; `none` for `traj[traj.size() - 1]` of an empty
trajectory. -/
def calc_speed_cost (p : DWAPlanner α) (traj : List (State α)) : Option α :=
  traj.getLast?.map (fun last => abs (p.target_velocity_ - abs last.velocity_))

/-- The clearance of one `(state, obs)` pair in `calc_obs_cost`; `none` is `NaN`. -/
def clearance (L : Libm α) (p : DWAPlanner α) (state : State α) (obs : Point α) : Option α :=
  if p.use_footprint_ = true then calc_dist_from_robot L p obs state
  else some (L.hypot (state.x_ - obs.x) (state.y_ - obs.y))

/-- The two nested loops of `calc_obs_cost` over the clearances in visiting order, with
the running `min_dist`. A `NaN` clearance is not below `DBL_EPSILON` and `std::min` keeps
`min_dist`. -/
def calc_obs_cost_loop : List (Option α) → α → α
  | [], min_dist => 1 / min_dist
  | none :: rest, min_dist => calc_obs_cost_loop rest min_dist
  | some dist :: rest, min_dist =>
    if dist < DBL_EPSILON then SENTINEL
    else calc_obs_cost_loop rest (min min_dist dist)

/-- Embedding of `DWAPlanner::calc_obs_cost`. -/
def calc_obs_cost (L : Libm α) (p : DWAPlanner α) (traj : List (State α)) : α :=
  calc_obs_cost_loop
    (traj.flatMap (fun state => p.obs_list_.map (fun obs => clearance L p state obs))) 1000

/-- Embedding of `DWAPlanner::evaluate_trajectory`. -/
def evaluate_trajectory (L : Libm α) (p : DWAPlanner α) (trajectory : List (State α))
    (goal : Goal α) : Option (Costs α) :=
  match calc_to_goal_cost L trajectory goal, calc_speed_cost p trajectory with
  | some g, some s =>
    let to_goal_cost := p.to_goal_cost_gain_ * g
    let speed_cost := p.speed_cost_gain_ * s
    let obs_cost := p.obs_cost_gain_ * calc_obs_cost L p trajectory
    some ⟨to_goal_cost, speed_cost, obs_cost, to_goal_cost + speed_cost + obs_cost⟩
  | _, _ => none

/-! ## The search -/

/-- The body shared by the two places where `dwa_planning` tries a sample: generate,
record, evaluate, and overwrite the best when `min_cost >= total_cost`. -/
def try_candidate (L : Libm α) (p : DWAPlanner α) (goal : Goal α) (v y : α)
    (s : Search α) : Option (Search α) :=
  match generate_trajectory L p v y with
  | none => none
  | some traj =>
    match evaluate_trajectory L p traj goal with
    | none => none
    | some c =>
      if s.min_cost ≥ c.total_cost then
        some ⟨c.total_cost, traj, s.trajectories ++ [traj]⟩
      else some ⟨s.min_cost, s.best_traj, s.trajectories ++ [traj]⟩

/-- One pass of the outer loop of `dwa_planning`: the inner loop over the yaw-rates, then
the extra sample with yaw-rate 0 when the window straddles zero. -/
def search_row (L : Libm α) (p : DWAPlanner α) (goal : Goal α) (w : Window α)
    (s : Search α) (v : α) : Option (Search α) :=
  match (sampleAxis w.min_yawrate_ w.max_yawrate_ p.yawrate_samples_).foldlM
      (fun acc y => try_candidate L p goal v y acc) s with
  | none => none
  | some s1 =>
    if w.min_yawrate_ < 0 ∧ 0 < w.max_yawrate_ then try_candidate L p goal v 0 s1
    else some s1

/-- The state of the search of `dwa_planning` when its two loops are done. -/
def dwa_search (L : Libm α) (p : DWAPlanner α) (goal : Goal α) : Option (Search α) :=
  let dynamic_window := calc_dynamic_window p
  (sampleAxis dynamic_window.min_velocity_ dynamic_window.max_velocity_
      p.velocity_samples_).foldlM
    (fun acc v => search_row L p goal dynamic_window acc v) ⟨SENTINEL, [], []⟩

/-- Embedding of `DWAPlanner::dwa_planning`. -/
def dwa_planning (L : Libm α) (p : DWAPlanner α) (goal : Goal α) :
    Option (List (State α)) :=
  match dwa_search L p goal with
  | none => none
  | some s =>
    if s.min_cost = SENTINEL then generate_trajectory L p 0 0
    else some s.best_traj

/-! ## The orchestrator -/

/-- Embedding of `DWAPlanner::can_adjust_robot_direction`. -/
def can_adjust_robot_direction (L : Libm α) (p : DWAPlanner α) (goal : Goal α) :
    Option Bool :=
  let angle_to_goal := L.atan2 goal.y goal.x
  if abs angle_to_goal < p.angle_to_goal_th_ then some false
  else
    let yawrate := min (max goal.yaw (-p.max_yawrate_)) p.max_yawrate_
    match generate_trajectory L p 0 yawrate with
    | none => none
    | some traj => some (!check_collision L p traj)

/-- The end of `calc_cmd_vel`: with a footprint, `best_traj.back()` is read to publish the
predicted footprint. -/
def publish_selected (p : DWAPlanner α) (best_traj : List (State α))
    (result : Twist α × DWAPlanner α) : Option (Twist α × DWAPlanner α) :=
  if p.use_footprint_ = true ∧ best_traj = [] then none else some result

/-- Embedding of `DWAPlanner::calc_cmd_vel`: the command and the planner with `has_reached_` and
`has_finished_` updated. -/
def calc_cmd_vel (L : Libm α) (p : DWAPlanner α) : Option (Twist α × DWAPlanner α) :=
  let goal := p.local_goal_
  if p.dist_to_goal_th_ < L.hypot goal.x goal.y ∨ p.has_reached_ = true then
    match can_adjust_robot_direction L p goal with
    | none => none
    | some true =>
      let angle_to_goal := L.atan2 goal.y goal.x
      let cmd_vel : Twist α := ⟨0, min (max angle_to_goal (-p.max_yawrate_)) p.max_yawrate_⟩
      match generate_trajectory L p cmd_vel.linear_x cmd_vel.angular_z with
      | none => none
      | some best_traj => publish_selected p best_traj (cmd_vel, p)
    | some false =>
      match dwa_planning L p goal with
      | none => none
      | some best_traj =>
        match best_traj.head? with
        | none => none
        | some front => publish_selected p best_traj (⟨front.velocity_, front.yawrate_⟩, p)
  else
    let cmd_vel : Twist α :=
      if p.turn_direction_th_ < abs goal.yaw then
        ⟨0, min (max goal.yaw (-p.max_yawrate_)) p.max_yawrate_⟩
      else Twist.zero
    let p1 : DWAPlanner α :=
      if p.turn_direction_th_ < abs goal.yaw then { p with has_reached_ := true }
      else { p with has_finished_ := true, has_reached_ := false }
    match generate_trajectory L p cmd_vel.linear_x cmd_vel.angular_z with
    | none => none
    | some best_traj => publish_selected p best_traj (cmd_vel, p1)

/-- Embedding of `DWAPlanner::can_move`: the answer and the planner with the counters advanced. -/
def can_move (p : DWAPlanner α) : Bool × DWAPlanner α :=
  let p1 : DWAPlanner α := { p with
    odom_not_subscribe_count_ :=
      if p.odom_updated_ then p.odom_not_subscribe_count_ else p.odom_not_subscribe_count_ + 1
    local_map_not_subscribe_count_ :=
      if p.local_map_updated_ then p.local_map_not_subscribe_count_
      else p.local_map_not_subscribe_count_ + 1
    scan_not_subscribe_count_ :=
      if p.scan_updated_ then p.scan_not_subscribe_count_ else p.scan_not_subscribe_count_ + 1 }
  (p1.footprint_subscribed_ && p1.local_goal_subscribed_ &&
    decide (p1.odom_not_subscribe_count_ ≤ p1.subscribe_count_th_) &&
    decide (p1.local_map_not_subscribe_count_ ≤ p1.subscribe_count_th_) &&
    decide (p1.scan_not_subscribe_count_ ≤ p1.subscribe_count_th_), p1)

/-! ## Obstacle extraction -/

/-- The loop of `scan_to_obs` over the remaining ranges, `angle` being the current
bearing. -/
def scan_to_obs_loop (L : Libm α) (angle_increment : α) : List α → α → List (Point α)
  | [], _ => []
  | r :: rest, angle =>
    ⟨r * L.cos angle, r * L.sin angle⟩ ::
      scan_to_obs_loop L angle_increment rest (angle + angle_increment)

/-- Embedding of `DWAPlanner::scan_to_obs`: the new `obs_list_`. -/
def scan_to_obs (L : Libm α) (scan : LaserScan α) : List (Point α) :=
  scan_to_obs_loop L scan.angle_increment scan.ranges scan.angle_min

/-- The inner loop of `raycast` along one ray, over the remaining distances: `some (some
pose)` when it breaks on an occupied cell, `some none` when it runs out, `none` when it reads
past the end of `data`. The index is computed in `uint32`. -/
def raycast_ray (L : Libm α) (map : OccupancyGrid α) (angle : α) :
    List α → Option (Option (Point α))
  | [] => some none
  | dist :: rest =>
    let x := dist * L.cos angle
    let y := dist * L.sin angle
    let index_x : Int := ⌊(x - map.origin_x) / map.resolution⌋
    let index_y : Int := ⌊(y - map.origin_y) / map.resolution⌋
    if (0 ≤ index_x ∧ index_x < map.width) ∧ (0 ≤ index_y ∧ index_y < map.height) then
      match map.data.get? ((index_x + index_y * map.width).toNat % 4294967296) with
      | none => none
      | some cell =>
        if cell = 100 then some (some ⟨x, y⟩)
        else raycast_ray L map angle rest
    else raycast_ray L map angle rest

/-- Embedding of `DWAPlanner::raycast`: the new `obs_list_`. `none` also for a grid whose resolution
is not positive (division by zero, or a march that never passes `max_search_dist`) and for
an `angle_resolution_` that is not positive (the loop over the angles never exits). -/
def raycast (L : Libm α) (p : DWAPlanner α) (map : OccupancyGrid α) :
    Option (List (Point α)) :=
  if map.resolution ≤ 0 then none
  else
    let max_search_dist := L.hypot map.origin_x map.origin_y
    match forLoop (-M_PI) M_PI p.angle_resolution_ with
    | none => none
    | some angles =>
      angles.foldlM
        (fun obs angle =>
          match raycast_ray L map angle (forRange 0 max_search_dist map.resolution) with
          | none => none
          | some none => some obs
          | some (some pose) => some (obs ++ [pose]))
        []

/-! ## Callbacks and the control loop -/

/-- The seven subscriber callbacks. -/
def callback (L : Libm α) (p : DWAPlanner α) : Event α → Option (DWAPlanner α)
  | Event.local_goal msg transformed =>
    match transformed with
    | some g => some { p with local_goal_ := g, local_goal_subscribed_ := true }
    | none => some { p with local_goal_ := msg }
  | Event.scan msg =>
    some { p with
      obs_list_ := if p.use_scan_as_input_ then scan_to_obs L msg else p.obs_list_
      scan_not_subscribe_count_ := 0
      scan_updated_ := true }
  | Event.local_map msg =>
    if p.use_scan_as_input_ then
      some { p with local_map_not_subscribe_count_ := 0, local_map_updated_ := true }
    else
      match raycast L p msg with
      | none => none
      | some obs =>
        some { p with
          obs_list_ := obs
          local_map_not_subscribe_count_ := 0
          local_map_updated_ := true }
  | Event.odom twist =>
    some { p with current_cmd_vel_ := twist, odom_not_subscribe_count_ := 0, odom_updated_ := true }
  | Event.target_velocity linear_x => some { p with target_velocity_ := linear_x }
  | Event.footprint polygon => some { p with footprint_ := polygon, footprint_subscribed_ := true }
  | Event.dist_to_goal_th data => some { p with dist_to_goal_th_ := data }

/-- Embedding of `ros::spinOnce()`: the pending messages are handed to their callbacks in turn. -/
def spinOnce (L : Libm α) (p : DWAPlanner α) (events : List (Event α)) :
    Option (DWAPlanner α) :=
  events.foldlM (fun acc e => callback L acc e) p

/-- One pass of the loop of `DWAPlanner::process`: decide, publish, clear the freshness
flags, then let `spinOnce` deliver `events`. -/
def process_iteration (L : Libm α) (p : DWAPlanner α) (events : List (Event α)) :
    Option (Published α × DWAPlanner α) :=
  let gate := can_move p
  let step : Option (Twist α × DWAPlanner α) :=
    if gate.1 = true then calc_cmd_vel L gate.2 else some (Twist.zero, gate.2)
  match step with
  | none => none
  | some (cmd_vel, p2) =>
    let p3 : DWAPlanner α := { p2 with
      scan_updated_ := if p2.use_scan_as_input_ then false else p2.scan_updated_
      local_map_updated_ := if p2.use_scan_as_input_ then p2.local_map_updated_ else false
      odom_updated_ := false
      has_finished_ := false }
    match spinOnce L p3 events with
    | none => none
    | some p4 => some (⟨gate.1, cmd_vel, p2.has_finished_⟩, p4)

/-- The loop of `DWAPlanner::process` for as many passes as `ticks` has entries: what was
published in each pass, and the planner afterwards. -/
def process (L : Libm α) : DWAPlanner α → List (List (Event α)) →
    Option (List (Published α) × DWAPlanner α)
  | p, [] => some ([], p)
  | p, events :: rest =>
    match process_iteration L p events with
    | none => none
    | some (out, p1) =>
      match process L p1 rest with
      | none => none
      | some (outs, p2) => some (out :: outs, p2)

/-! ## Vocabulary of the statements -/

/-- The square footprint of half-width `w`, counter-clockwise from `(w, w)`. -/
def square_footprint (w : α) : List (Point α) :=
  [⟨w, w⟩, ⟨-w, w⟩, ⟨-w, -w⟩, ⟨w, -w⟩]

/-- The coordinates of `point` in the frame of the robot at `state`: translate by
`-(x_, y_)`, rotate by `-yaw_`. `transform_footprint` is the inverse map when
`cos² + sin² = 1`. -/
def robot_frame (L : Libm α) (state : State α) (point : Point α) : Point α :=
  ⟨L.cos state.yaw_ * (point.x - state.x_) + L.sin state.yaw_ * (point.y - state.y_),
   -(L.sin state.yaw_ * (point.x - state.x_)) + L.cos state.yaw_ * (point.y - state.y_)⟩

/-- The samples `(velocity, yawrate)` in the order the two loops of `dwa_planning` try
them: ascending velocity, within a velocity ascending yaw-rate, then the extra yaw-rate 0. -/
def candidates (p : DWAPlanner α) : List (α × α) :=
  let w := calc_dynamic_window p
  (sampleAxis w.min_velocity_ w.max_velocity_ p.velocity_samples_).flatMap (fun v =>
    (sampleAxis w.min_yawrate_ w.max_yawrate_ p.yawrate_samples_).map (fun y => (v, y)) ++
      (if w.min_yawrate_ < 0 ∧ 0 < w.max_yawrate_ then [(v, 0)] else []))

/-- The total cost `dwa_planning` computes for the sample `(velocity, yawrate)`. -/
def candidate_cost (L : Libm α) (p : DWAPlanner α) (goal : Goal α) (c : α × α) : Option α :=
  match generate_trajectory L p c.1 c.2 with
  | none => none
  | some traj => (evaluate_trajectory L p traj goal).map (fun k => k.total_cost)

/-- A library over `ℚ` for evaluating the model at concrete inputs. It returns what the C
library returns at yaw 0 (`cos 0 = 1`, `sin 0 = 0`), for `hypot` with a zero argument and for
`atan2` on the x axis (`atan2(0, x)` is `0` for `x ≥ 0` and `M_PI` for `x < 0`); elsewhere it
is a coarse approximation. -/
def Libm.onAxes : Libm ℚ where
  cos := fun t => 1 - t ^ 2 / 2
  sin := fun t => t
  atan2 := fun y x =>
    if y = 0 then (if 0 ≤ x then 0 else M_PI) else if 0 < y then M_PI / 2 else -(M_PI / 2)
  hypot := fun x y => if y = 0 then abs x else if x = 0 then abs y else abs x + abs y

/-- A planner with the default parameters that uses the square footprint of half-width
`w`, after `footprint_callback` delivered it. -/
def square_planner (w : α) : DWAPlanner α :=
  { DWAPlanner.construct { (Params.defaults : Params α) with USE_FOOTPRINT := true } with
    footprint_ := square_footprint w
    footprint_subscribed_ := true }

/-- A planner that can only drive straight: the defaults except no yaw-rate change, one
sample per axis, a step of 1/8 s and a horizon of one step; odometry reports 1/2 m/s; the
goal is `goal`; point robot, no obstacles. Step, horizon and window bounds are binary
fractions, so the `float` loop counters of the source take exactly the values of the model. -/
def straight_planner (goal : Goal ℚ) : DWAPlanner ℚ :=
  { DWAPlanner.construct { (Params.defaults : Params ℚ) with
      MAX_D_YAWRATE := 0
      PREDICT_TIME := 1 / 8
      DT := 1 / 8
      VELOCITY_SAMPLES := 1
      YAWRATE_SAMPLES := 1 } with
    current_cmd_vel_ := ⟨1 / 2, 0⟩
    local_goal_ := goal
    local_goal_subscribed_ := true }

/-- A robot that cannot translate and has an obstacle on its centre: the defaults except
obstacle-cost weight 1/2, acceleration limit 0, yaw-rate limit 1, one sample per axis, a step
of 1/8 s and a horizon of one step; odometry reports yaw-rate 1; the goal is `(1, 0, 0)`;
point robot. Step, horizon and window bounds are binary fractions, so the `float` loop
counters of the source take exactly the values of the model. -/
def blocked_planner : DWAPlanner ℚ :=
  { DWAPlanner.construct { (Params.defaults : Params ℚ) with
      OBSTACLE_COST_GAIN := 1 / 2
      MAX_ACCELERATION := 0
      MAX_YAWRATE := 1
      PREDICT_TIME := 1 / 8
      DT := 1 / 8
      VELOCITY_SAMPLES := 1
      YAWRATE_SAMPLES := 1 } with
    current_cmd_vel_ := ⟨0, 1⟩
    local_goal_ := ⟨1, 0, 0⟩
    local_goal_subscribed_ := true
    obs_list_ := [⟨0, 0⟩] }

/-- The default planner holding the goal `(0, 0, 0)` with `has_reached_` set, as an earlier
pass of `calc_cmd_vel` leaves it when the goal is within `dist_to_goal_th_` and its heading
exceeds `turn_direction_th_`. -/
def latched_planner : DWAPlanner ℚ :=
  { DWAPlanner.construct (Params.defaults : Params ℚ) with
    local_goal_ := ⟨0, 0, 0⟩
    local_goal_subscribed_ := true
    has_reached_ := true }

/-- Whether the message goes to `odom_callback`. -/
def Event.is_odom : Event α → Bool
  | Event.odom _ => true
  | _ => false

/-- Whether the message refreshes the obstacle input of the configured mode: a scan when
`use_scan_as_input_`, a local map otherwise. -/
def Event.is_obstacle (use_scan_as_input_ : Bool) : Event α → Bool
  | Event.scan _ => use_scan_as_input_
  | Event.local_map _ => !use_scan_as_input_
  | _ => false

/-- The fields the staleness watchdog reads and writes. -/
structure Watchdog where
  use_scan_as_input_ : Bool
  subscribe_count_th_ : Int
  footprint_subscribed_ : Bool
  local_goal_subscribed_ : Bool
  odom_updated_ : Bool
  local_map_updated_ : Bool
  scan_updated_ : Bool
  odom_not_subscribe_count_ : Int
  local_map_not_subscribe_count_ : Int
  scan_not_subscribe_count_ : Int
  deriving DecidableEq, Repr

/-- The watchdog fields of a planner. -/
def DWAPlanner.watchdog (p : DWAPlanner α) : Watchdog :=
  ⟨p.use_scan_as_input_, p.subscribe_count_th_, p.footprint_subscribed_,
    p.local_goal_subscribed_, p.odom_updated_, p.local_map_updated_, p.scan_updated_,
    p.odom_not_subscribe_count_, p.local_map_not_subscribe_count_,
    p.scan_not_subscribe_count_⟩

/-- The watchdog state at the start of a pass in which odometry has been stale for `n`
passes and everything else is in order: footprint and goal received, the obstacle input
fresh, its counters 0. -/
def Watchdog.odom_stale_for (w : Watchdog) (n : Int) : Prop :=
  w.footprint_subscribed_ = true ∧ w.local_goal_subscribed_ = true ∧
  w.odom_updated_ = false ∧ w.local_map_updated_ = true ∧ w.scan_updated_ = true ∧
  w.odom_not_subscribe_count_ = n ∧ w.local_map_not_subscribe_count_ = 0 ∧
  w.scan_not_subscribe_count_ = 0

instance (w : Watchdog) (n : Int) : Decidable (w.odom_stale_for n) := by
  unfold Watchdog.odom_stale_for
  infer_instance

/-- The default planner in scan mode, as constructed. -/
def scan_planner : DWAPlanner ℚ :=
  DWAPlanner.construct { (Params.defaults : Params ℚ) with USE_SCAN_AS_INPUT := true }

/-- What arrives during the first pass of the loop in the runs below: the goal `(0, 0, 0)`,
transformed successfully, and an empty scan. No odometry. -/
def goal_and_scan : List (Event ℚ) :=
  [Event.local_goal ⟨0, 0, 0⟩ (some ⟨0, 0, 0⟩), Event.scan ⟨0, 0, []⟩]

/-- The default planner in scan mode at the start of a pass, after a pass in which goal,
scan and odometry had all arrived and none since but a scan: every counter 0, the scan flag
set, the odometry flag clear. The goal is `(0, 0, 0)`. -/
def fresh_scan_planner : DWAPlanner ℚ :=
  { scan_planner with
    local_goal_subscribed_ := true
    scan_updated_ := true }

/-- Four passes of the loop, an empty scan arriving in each and nothing else. -/
def four_scans : List (List (Event ℚ)) :=
  List.replicate 4 [Event.scan ⟨0, 0, []⟩]

/-- The planner with the square footprint of half-width 1 holding the goal `(-1, 0, 0)`,
one metre behind the robot, with one obstacle at `(6/5, 0)`: ahead of the robot, outside the
footprint, within reach of its corners. -/
def corner_planner : DWAPlanner ℚ :=
  { square_planner (1 : ℚ) with
    local_goal_ := ⟨-1, 0, 0⟩
    local_goal_subscribed_ := true
    obs_list_ := [⟨6 / 5, 0⟩] }

/-- The library `Libm.onAxes` with, off yaw 0, the cosine 4/5 and sine 3/5 of the 3-4-5
triangle: a rotation by about 0.6435 rad, within 0.01 of `cos` and `sin` at 0.64 rad. -/
def Libm.threeFourFive : Libm ℚ :=
  { Libm.onAxes with
    cos := fun t => if t = 0 then 1 else 4 / 5
    sin := fun t => if t = 0 then 0 else 3 / 5 }

/-- The default planner (point robot) with a single obstacle two kilometres ahead, at
`(2000, 0)`. -/
def far_obstacle_planner : DWAPlanner ℚ :=
  { DWAPlanner.construct (Params.defaults : Params ℚ) with obs_list_ := [⟨2000, 0⟩] }

/-! ## The loop counter of `generate_trajectory` in floating point -/

/-- Round to nearest, ties to even, in a binary format with `bits` significant bits: 24
for `float`, 53 for `double`. The exponent range is not modelled (no overflow, no
subnormal numbers). -/
def round_to_bits (bits : Nat) (x : ℚ) : ℚ :=
  if x = 0 then 0
  else
    let ulp : ℚ := 2 ^ (Int.log 2 (abs x) - ((bits : Int) - 1))
    let q := x / ulp
    let f : Int := ⌊q⌋
    let r := q - f
    let n : Int :=
      if r < 1 / 2 then f else if 1 / 2 < r then f + 1 else if f % 2 = 0 then f else f + 1
    n * ulp

/-- The `double` nearest to 0.1: 7205759403792794 / 2^56. -/
def DOUBLE_TENTH : ℚ := 3602879701896397 / 36028797018963968

/-- The counter values of `for (float t = 0; t <= predict_time_; t += dt_)` as the C++
computes them: `t` is a `float`, it is compared with the `double` `predict_time_`, and
`t += dt_` forms the sum in `double` and stores it as `float`. `none` when the loop has not
exited after `fuel` passes (a rounded sum can stop growing). Called with `t = 0`. -/
def float_counter (predict_time dt : ℚ) : Nat → ℚ → Option (List ℚ)
  | 0, _ => none
  | fuel + 1, t =>
    if t ≤ predict_time then
      (float_counter predict_time dt fuel
        (round_to_bits 24 (round_to_bits 53 (t + dt)))).map (fun ts => t :: ts)
    else some []

/-- The function `generate_trajectory` with the loop counter in floating point; the motion
model is the exact one. -/
def generate_trajectory_float (L : Libm ℚ) (p : DWAPlanner ℚ) (velocity yawrate : ℚ)
    (fuel : Nat) : Option (List (State ℚ)) :=
  (float_counter p.predict_time_ p.dt_ fuel 0).map
    (fun ts => rollout L p velocity yawrate ts State.origin)

/-- The default planner with `PREDICT_TIME` = `DT` = 0.1, both the `double` nearest to
0.1. -/
def tenth_planner : DWAPlanner ℚ :=
  DWAPlanner.construct { (Params.defaults : Params ℚ) with
    PREDICT_TIME := DOUBLE_TENTH
    DT := DOUBLE_TENTH }

/-! ## The sample loop of `dwa_planning` in floating point -/

/-- The counter values of
`for (float v = lo; v <= hi; v += max((hi - lo) / n, DBL_EPSILON))` as the C++ computes
them: `lo`, `hi` and the step are `double`s (the difference and the quotient are rounded), the
counter is a `float` that starts at `lo` rounded, is compared with the `double` `hi`, and is
advanced by a sum formed in `double` and stored as `float`. `none` when the loop has not
exited after `fuel` passes. For `n = 0` and `lo ≤ hi` the step is `+inf` or `NaN` and the loop
makes at most one pass, as in `sampleAxis`. -/
def sampleAxis_float (lo hi : ℚ) (n : Int) (fuel : Nat) : Option (List ℚ) :=
  if n = 0 ∧ lo ≤ hi then
    (if round_to_bits 24 lo ≤ hi then some [round_to_bits 24 lo] else some [])
  else
    float_counter hi (max (round_to_bits 53 (round_to_bits 53 (hi - lo) / (n : ℚ))) DBL_EPSILON)
      fuel (round_to_bits 24 lo)

/-- The default planner with `MAX_ACCELERATION` = 0 whose odometry reports 0.5 m/s: the
velocity window is `[1/2, 1/2]`. -/
def constant_speed_planner : DWAPlanner ℚ :=
  { DWAPlanner.construct { (Params.defaults : Params ℚ) with MAX_ACCELERATION := 0 } with
    current_cmd_vel_ := ⟨1 / 2, 0⟩ }

/-! ## A grid for the ray casting claims -/

/-- A grid of one cell of side 1, occupied, that covers the robot: it spans
`[-1/2, 1/2) × [0, 1)`. -/
def own_cell_grid : OccupancyGrid ℚ :=
  ⟨1, -1 / 2, 0, 1, 1, [100]⟩

/-! ## The program in machine arithmetic

The functions whose result can turn on a rounding, once more with the roundings the C++
performs: an arithmetic operation is the exact operation followed by the rounding of its
type, a narrowing conversion is `float`. -/

/-- How the machine rounds a real number: to the nearest `double` and to the nearest
`float`. A theorem that quantifies over every `Rounding` holds of the program whatever the
two functions are. -/
structure Rounding (α : Type) where
  double : α → α
  float : α → α

/-- IEEE 754 binary64 and binary32, round to nearest, ties to even. -/
def Rounding.ieee : Rounding ℚ := ⟨round_to_bits 53, round_to_bits 24⟩

/-- The counter values of `for (float t = start; t <= hi; t += step)` with `hi` and `step`
doubles: the counter is compared as it is, the sum is formed in `double` and stored as
`float`. `none` when the loop has not exited after `fuel` passes. -/
def loop_fp (R : Rounding α) (hi step : α) : Nat → α → Option (List α)
  | 0, _ => none
  | fuel + 1, t =>
    if t ≤ hi then
      (loop_fp R hi step fuel (R.float (R.double (t + step)))).map (fun ts => t :: ts)
    else some []

/-- The values one axis of the search loop of `dwa_planning` visits, in machine arithmetic:
the loop `for (float v = lo; v <= hi; v += max((hi - lo) / n, DBL_EPSILON))`. For `n = 0` and
`lo ≤ hi` the step is `+inf` or `NaN` and the loop makes at most one pass. -/
def samples_fp (R : Rounding α) (lo hi : α) (n : Int) (fuel : Nat) : Option (List α) :=
  if n = 0 ∧ lo ≤ hi then (if R.float lo ≤ hi then some [R.float lo] else some [])
  else
    loop_fp R hi (max (R.double (R.double (hi - lo) / (n : α))) DBL_EPSILON) fuel (R.float lo)

/-- The function `calc_dynamic_window` in machine arithmetic. -/
def calc_dynamic_window_fp (R : Rounding α) (p : DWAPlanner α) : Window α where
  min_velocity_ :=
    max (R.double (p.current_cmd_vel_.linear_x - R.double (p.max_acceleration_ * p.dt_)))
      p.min_velocity_
  max_velocity_ :=
    min (R.double (p.current_cmd_vel_.linear_x + R.double (p.max_acceleration_ * p.dt_)))
      p.max_velocity_
  min_yawrate_ :=
    max (R.double (p.current_cmd_vel_.angular_z - R.double (p.max_d_yawrate_ * p.dt_)))
      (-p.max_yawrate_)
  max_yawrate_ :=
    min (R.double (p.current_cmd_vel_.angular_z + R.double (p.max_d_yawrate_ * p.dt_)))
      p.max_yawrate_

/-- The function `motion` in machine arithmetic. -/
def motion_fp (R : Rounding α) (L : Libm α) (p : DWAPlanner α) (state : State α)
    (velocity yawrate : α) : State α :=
  let yaw := R.double (state.yaw_ + R.double (yawrate * p.dt_))
  let x := R.double (state.x_ + R.double (R.double (velocity * L.cos yaw) * p.dt_))
  let y := R.double (state.y_ + R.double (R.double (velocity * L.sin yaw) * p.dt_))
  ⟨x, y, yaw, velocity, yawrate⟩

/-- The body of the loop of `generate_trajectory` in machine arithmetic, once per counter
value. -/
def rollout_fp (R : Rounding α) (L : Libm α) (p : DWAPlanner α) (velocity yawrate : α) :
    List α → State α → List (State α)
  | [], _ => []
  | _ :: ts, state =>
    let next := motion_fp R L p state velocity yawrate
    next :: rollout_fp R L p velocity yawrate ts next

/-- The function `generate_trajectory` in machine arithmetic; `none` when its loop has not
exited after `fuel` passes. -/
def generate_trajectory_fp (R : Rounding α) (L : Libm α) (p : DWAPlanner α)
    (velocity yawrate : α) (fuel : Nat) : Option (List (State α)) :=
  (loop_fp R p.predict_time_ p.dt_ fuel 0).map
    (fun ts => rollout_fp R L p velocity yawrate ts State.origin)

/-- The z component of `Eigen::Vector3d::cross` in `double`: two products and their
difference, each rounded. -/
def cross_fp (R : Rounding α) (ax ay bx by_ : α) : α :=
  R.double (R.double (ax * by_) - R.double (ay * bx))

/-- The function `transform_footprint` in machine arithmetic: the yaw is narrowed to `float`
for `Rotation2Df`, whose entries are the `float` overloads of the cosine and the sine (here
`L.cos` and `L.sin` at the narrowed yaw stand for `cosf` and `sinf`), the rotation is a
`float` matrix product, the pose is added in `double` and the vertex is stored in the
`float32` fields of `Point32`. -/
def transform_footprint_fp (R : Rounding α) (L : Libm α) (p : DWAPlanner α)
    (target_pose : State α) : List (Point α) :=
  p.footprint_.map (fun point =>
    ⟨R.float (R.double (R.float (R.float (L.cos (R.float target_pose.yaw_) * point.x) -
        R.float (L.sin (R.float target_pose.yaw_) * point.y)) + target_pose.x_)),
     R.float (R.double (R.float (R.float (L.sin (R.float target_pose.yaw_) * point.x) +
        R.float (L.cos (R.float target_pose.yaw_) * point.y)) + target_pose.y_))⟩)

/-- The function `is_inside_of_triangle` in machine arithmetic: the six difference vectors
and the three cross products are doubles. -/
def is_inside_of_triangle_fp (R : Rounding α) (target_point A B C : Point α) : Bool :=
  let cross1 := cross_fp R (R.double (B.x - A.x)) (R.double (B.y - A.y))
    (R.double (target_point.x - B.x)) (R.double (target_point.y - B.y))
  let cross2 := cross_fp R (R.double (C.x - B.x)) (R.double (C.y - B.y))
    (R.double (target_point.x - C.x)) (R.double (target_point.y - C.y))
  let cross3 := cross_fp R (R.double (A.x - C.x)) (R.double (A.y - C.y))
    (R.double (target_point.x - A.x)) (R.double (target_point.y - A.y))
  decide ((0 < cross1 ∧ 0 < cross2 ∧ 0 < cross3) ∨ (cross1 < 0 ∧ cross2 < 0 ∧ cross3 < 0))

/-- The function `is_inside_of_robot` in machine arithmetic: the apex `state_point` is a
`Point32`, so the pose is narrowed to `float`. -/
def is_inside_of_robot_fp (R : Rounding α) (obstacle : Point α) (footprint : List (Point α))
    (state : State α) : Bool :=
  (edges footprint).any (fun e =>
    is_inside_of_triangle_fp R obstacle ⟨R.float state.x_, R.float state.y_⟩ e.1 e.2)

/-- The loop of `calc_intersection` over the remaining edges in machine arithmetic; `none`
is a point whose coordinates are `NaN`, as in `calc_intersection_loop`. -/
def calc_intersection_loop_fp (R : Rounding α) (obstacle : Point α) (state : State α) :
    List (Point α × Point α) → Option (Point α)
  | [] => some ⟨SENTINEL, SENTINEL⟩
  | (C, D) :: rest =>
    let bax := R.double (state.x_ - obstacle.x)
    let bay := R.double (state.y_ - obstacle.y)
    let deno := cross_fp R bax bay (R.double (D.x - C.x)) (R.double (D.y - C.y))
    let s_num := cross_fp R (R.double (C.x - obstacle.x)) (R.double (C.y - obstacle.y))
      (R.double (D.x - C.x)) (R.double (D.y - C.y))
    let t_num := cross_fp R bax bay (R.double (obstacle.x - C.x)) (R.double (obstacle.y - C.y))
    if deno = 0 then
      if s_num = 0 ∧ t_num = 0 then none
      else calc_intersection_loop_fp R obstacle state rest
    else
      let s := R.double (s_num / deno)
      let t := R.double (t_num / deno)
      if ¬ (s < 0 ∨ 1 < s ∨ t < 0 ∨ 1 < t) then
        some ⟨R.double (obstacle.x + R.double (s * bax)),
          R.double (obstacle.y + R.double (s * bay))⟩
      else calc_intersection_loop_fp R obstacle state rest

/-- The function `calc_intersection` in machine arithmetic. -/
def calc_intersection_fp (R : Rounding α) (obstacle : Point α) (state : State α)
    (footprint : List (Point α)) : Option (Point α) :=
  calc_intersection_loop_fp R obstacle state (edges footprint)

/-- The function `calc_dist_from_robot` in machine arithmetic; it returns a `float`, and
`none` is `NaN`. -/
def calc_dist_from_robot_fp (R : Rounding α) (L : Libm α) (p : DWAPlanner α)
    (obstacle : Point α) (state : State α) : Option α :=
  let footprint := transform_footprint_fp R L p state
  if is_inside_of_robot_fp R obstacle footprint state then some 0
  else
    match calc_intersection_fp R obstacle state footprint with
    | none => none
    | some intersection =>
      some (R.float (L.hypot (R.double (obstacle.x - intersection.x))
        (R.double (obstacle.y - intersection.y))))

/-- The `float dist` of one `(state, obs)` pair in `calc_obs_cost`; `none` is `NaN`. -/
def clearance_fp (R : Rounding α) (L : Libm α) (p : DWAPlanner α) (state : State α)
    (obs : Point α) : Option α :=
  if p.use_footprint_ = true then calc_dist_from_robot_fp R L p obs state
  else some (R.float (L.hypot (R.double (state.x_ - obs.x)) (R.double (state.y_ - obs.y))))

/-- The two nested loops of `calc_obs_cost` over the clearances in visiting order, with the
running `float min_dist`; the quotient `1.0 / min_dist` is a double stored as `float`. -/
def calc_obs_cost_loop_fp (R : Rounding α) : List (Option α) → α → α
  | [], min_dist => R.float (R.double (1 / min_dist))
  | none :: rest, min_dist => calc_obs_cost_loop_fp R rest min_dist
  | some dist :: rest, min_dist =>
    if dist < DBL_EPSILON then SENTINEL
    else calc_obs_cost_loop_fp R rest (min min_dist dist)

/-- The function `calc_obs_cost` in machine arithmetic. -/
def calc_obs_cost_fp (R : Rounding α) (L : Libm α) (p : DWAPlanner α)
    (traj : List (State α)) : α :=
  calc_obs_cost_loop_fp R
    (traj.flatMap (fun state => p.obs_list_.map (fun obs => clearance_fp R L p state obs)))
    1000

/-- The `float total_cost` that `evaluate_trajectory` writes, in machine arithmetic: each
term is a double product stored as `float`, the sum is a `float` sum; `none` for `back()` of
an empty trajectory. -/
def evaluate_trajectory_fp (R : Rounding α) (L : Libm α) (p : DWAPlanner α)
    (trajectory : List (State α)) (goal : Goal α) : Option α :=
  trajectory.getLast?.map (fun last =>
    let to_goal_cost := R.float (R.double (p.to_goal_cost_gain_ *
      R.float (L.hypot (R.double (last.x_ - goal.x)) (R.double (last.y_ - goal.y)))))
    let speed_cost := R.float (R.double (p.speed_cost_gain_ *
      R.float (abs (R.double (p.target_velocity_ - abs last.velocity_)))))
    let obs_cost := R.float (R.double (p.obs_cost_gain_ * calc_obs_cost_fp R L p trajectory))
    R.float (R.float (to_goal_cost + speed_cost) + obs_cost))

/-- The body shared by the two places where `dwa_planning` tries a sample, in machine
arithmetic. -/
def try_candidate_fp (R : Rounding α) (L : Libm α) (p : DWAPlanner α) (goal : Goal α)
    (fuel : Nat) (s : Search α) (c : α × α) : Option (Search α) :=
  match generate_trajectory_fp R L p c.1 c.2 fuel with
  | none => none
  | some traj =>
    match evaluate_trajectory_fp R L p traj goal with
    | none => none
    | some total_cost =>
      if s.min_cost ≥ total_cost then some ⟨total_cost, traj, s.trajectories ++ [traj]⟩
      else some ⟨s.min_cost, s.best_traj, s.trajectories ++ [traj]⟩

/-- The samples `(velocity, yawrate)` that the two loops of `dwa_planning` try, in machine
arithmetic and in the order they are tried; `none` when a loop has not exited after `fuel`
passes. The inner loop runs only when the outer loop makes a pass. -/
def candidates_fp (R : Rounding α) (p : DWAPlanner α) (fuel : Nat) : Option (List (α × α)) :=
  let w := calc_dynamic_window_fp R p
  match samples_fp R w.min_velocity_ w.max_velocity_ p.velocity_samples_ fuel with
  | none => none
  | some [] => some []
  | some (v :: vs) =>
    match samples_fp R w.min_yawrate_ w.max_yawrate_ p.yawrate_samples_ fuel with
    | none => none
    | some ys =>
      some ((v :: vs).flatMap (fun v =>
        ys.map (fun y => (v, y)) ++
          (if w.min_yawrate_ < 0 ∧ 0 < w.max_yawrate_ then [(v, 0)] else [])))

/-- The total cost `dwa_planning` computes for the sample `(velocity, yawrate)`, in machine
arithmetic. -/
def candidate_cost_fp (R : Rounding α) (L : Libm α) (p : DWAPlanner α) (goal : Goal α)
    (fuel : Nat) (c : α × α) : Option α :=
  match generate_trajectory_fp R L p c.1 c.2 fuel with
  | none => none
  | some traj => evaluate_trajectory_fp R L p traj goal

/-- The function `dwa_planning` in machine arithmetic; `none` when a loop has not exited
after `fuel` passes, or for `back()` of an empty trajectory. -/
def dwa_planning_fp (R : Rounding α) (L : Libm α) (p : DWAPlanner α) (goal : Goal α)
    (fuel : Nat) : Option (List (State α)) :=
  match candidates_fp R p fuel with
  | none => none
  | some cs =>
    match cs.foldlM (try_candidate_fp R L p goal fuel) ⟨SENTINEL, [], []⟩ with
    | none => none
    | some s =>
      if s.min_cost = SENTINEL then generate_trajectory_fp R L p 0 0 fuel
      else some s.best_traj

/-- The sample of `raycast` at distance `dist` on the ray of bearing `angle`, in machine
arithmetic: both are `float`s, `cos` and `sin` are the `float` overloads, the product is a
`float`. -/
def ray_point_fp (R : Rounding α) (L : Libm α) (angle dist : α) : Point α :=
  ⟨R.float (dist * L.cos angle), R.float (dist * L.sin angle)⟩

/-- The index into `data` that `raycast` computes for a point, in `uint32`, in machine
arithmetic. -/
def cell_index_fp (R : Rounding α) (map : OccupancyGrid α) (pose : Point α) : Nat :=
  ((⌊R.double (R.double (pose.x - map.origin_x) / map.resolution)⌋ +
    ⌊R.double (R.double (pose.y - map.origin_y) / map.resolution)⌋ * (map.width : Int)).toNat)
    % 4294967296

/-- Whether `raycast` takes the point for an obstacle, in machine arithmetic: its cell
indices, by the floor formula, are within the grid, and the cell read holds 100. -/
def cell_hit_fp (R : Rounding α) (map : OccupancyGrid α) (pose : Point α) : Prop :=
  ((0 ≤ ⌊R.double (R.double (pose.x - map.origin_x) / map.resolution)⌋ ∧
      ⌊R.double (R.double (pose.x - map.origin_x) / map.resolution)⌋ < (map.width : Int)) ∧
    (0 ≤ ⌊R.double (R.double (pose.y - map.origin_y) / map.resolution)⌋ ∧
      ⌊R.double (R.double (pose.y - map.origin_y) / map.resolution)⌋ < (map.height : Int))) ∧
  map.data.get? (cell_index_fp R map pose) = some 100

instance (R : Rounding α) (map : OccupancyGrid α) (pose : Point α) :
    Decidable (cell_hit_fp R map pose) := by
  unfold cell_hit_fp
  infer_instance

/-- The inner loop of `raycast` along one ray in machine arithmetic, from the counter value
`dist`: `some (some pose)` at the first hit, `some none` when the counter passes
`max_search_dist` without one, `none` when the loop has not ended after `fuel` passes or reads
past the end of `data`. The counter and `resolution` are `float`s, so is their sum. -/
def raycast_ray_fp (R : Rounding α) (L : Libm α) (map : OccupancyGrid α) (angle : α) :
    Nat → α → Option (Option (Point α))
  | 0, _ => none
  | fuel + 1, dist =>
    if dist ≤ L.hypot map.origin_x map.origin_y then
      if (0 ≤ ⌊R.double (R.double ((ray_point_fp R L angle dist).x - map.origin_x) /
              map.resolution)⌋ ∧
            ⌊R.double (R.double ((ray_point_fp R L angle dist).x - map.origin_x) /
              map.resolution)⌋ < (map.width : Int)) ∧
          (0 ≤ ⌊R.double (R.double ((ray_point_fp R L angle dist).y - map.origin_y) /
              map.resolution)⌋ ∧
            ⌊R.double (R.double ((ray_point_fp R L angle dist).y - map.origin_y) /
              map.resolution)⌋ < (map.height : Int)) then
        match map.data.get? (cell_index_fp R map (ray_point_fp R L angle dist)) with
        | none => none
        | some cell =>
          if cell = 100 then some (some (ray_point_fp R L angle dist))
          else raycast_ray_fp R L map angle fuel (R.float (dist + map.resolution))
      else raycast_ray_fp R L map angle fuel (R.float (dist + map.resolution))
    else some none

/-- The outer loop of `raycast` in machine arithmetic, from the counter value `angle` with
the obstacles gathered so far. -/
def raycast_loop_fp (R : Rounding α) (L : Libm α) (p : DWAPlanner α) (map : OccupancyGrid α)
    (ray_fuel : Nat) : Nat → α → List (Point α) → Option (List (Point α))
  | 0, _, _ => none
  | fuel + 1, angle, obs =>
    if angle ≤ M_PI then
      match raycast_ray_fp R L map angle ray_fuel 0 with
      | none => none
      | some none =>
        raycast_loop_fp R L p map ray_fuel fuel
          (R.float (R.double (angle + p.angle_resolution_))) obs
      | some (some pose) =>
        raycast_loop_fp R L p map ray_fuel fuel
          (R.float (R.double (angle + p.angle_resolution_))) (obs ++ [pose])
    else some obs

/-- The function `raycast` in machine arithmetic: the new `obs_list_`, or `none` when a loop
has not ended after `fuel` passes or a read goes past the end of `data`. -/
def raycast_fp (R : Rounding α) (L : Libm α) (p : DWAPlanner α) (map : OccupancyGrid α)
    (fuel : Nat) : Option (List (Point α)) :=
  raycast_loop_fp R L p map fuel fuel (R.float (-M_PI)) []

/-- The `k`-th value of the counter `dist` of `raycast`, in machine arithmetic. -/
def dist_at (R : Rounding α) (map : OccupancyGrid α) (k : Nat) : α :=
  (fun dist => R.float (dist + map.resolution))^[k] 0

/-! ## Scenarios in machine arithmetic -/

/-- The `double` nearest to 0.2. -/
def DOUBLE_FIFTH : ℚ := 3602879701896397 / 18014398509481984

/-- The default planner, its angle resolution the `double` nearest to 0.2. -/
def rays_planner : DWAPlanner ℚ :=
  DWAPlanner.construct { (Params.defaults : Params ℚ) with ANGLE_RESOLUTION := DOUBLE_FIFTH }

/-- A grid of two cells of side 1 that starts at the robot, `[0, 2) × [0, 1)`; the cell
away from the robot is occupied. -/
def off_ray_grid : OccupancyGrid ℚ :=
  ⟨1, 0, 0, 2, 1, [0, 100]⟩

/-- The function `check_collision` in machine arithmetic. -/
def check_collision_fp (R : Rounding α) (L : Libm α) (p : DWAPlanner α)
    (traj : List (State α)) : Bool :=
  traj.any (fun state =>
    p.obs_list_.any (fun obs =>
      is_inside_of_robot_fp R obs (transform_footprint_fp R L p state) state))

/-- The function `can_adjust_robot_direction` in machine arithmetic; `none` when the loop of
`generate_trajectory` has not exited after `fuel` passes. -/
def can_adjust_robot_direction_fp (R : Rounding α) (L : Libm α) (p : DWAPlanner α)
    (goal : Goal α) (fuel : Nat) : Option Bool :=
  let angle_to_goal := L.atan2 goal.y goal.x
  if abs angle_to_goal < p.angle_to_goal_th_ then some false
  else
    let yawrate := min (max goal.yaw (-p.max_yawrate_)) p.max_yawrate_
    match generate_trajectory_fp R L p 0 yawrate fuel with
    | none => none
    | some traj => some (!check_collision_fp R L p traj)

/-- The function `calc_cmd_vel` in machine arithmetic: the command and the planner with
`has_reached_` and `has_finished_` updated; `none` when a loop has not exited after `fuel`
passes, or for `front()` or `back()` of an empty trajectory. -/
def calc_cmd_vel_fp (R : Rounding α) (L : Libm α) (p : DWAPlanner α) (fuel : Nat) :
    Option (Twist α × DWAPlanner α) :=
  let goal := p.local_goal_
  if p.dist_to_goal_th_ < L.hypot goal.x goal.y ∨ p.has_reached_ = true then
    match can_adjust_robot_direction_fp R L p goal fuel with
    | none => none
    | some true =>
      let angle_to_goal := L.atan2 goal.y goal.x
      let cmd_vel : Twist α := ⟨0, min (max angle_to_goal (-p.max_yawrate_)) p.max_yawrate_⟩
      match generate_trajectory_fp R L p cmd_vel.linear_x cmd_vel.angular_z fuel with
      | none => none
      | some best_traj => publish_selected p best_traj (cmd_vel, p)
    | some false =>
      match dwa_planning_fp R L p goal fuel with
      | none => none
      | some best_traj =>
        match best_traj.head? with
        | none => none
        | some front => publish_selected p best_traj (⟨front.velocity_, front.yawrate_⟩, p)
  else
    let cmd_vel : Twist α :=
      if p.turn_direction_th_ < abs goal.yaw then
        ⟨0, min (max goal.yaw (-p.max_yawrate_)) p.max_yawrate_⟩
      else Twist.zero
    let p1 : DWAPlanner α :=
      if p.turn_direction_th_ < abs goal.yaw then { p with has_reached_ := true }
      else { p with has_finished_ := true, has_reached_ := false }
    match generate_trajectory_fp R L p cmd_vel.linear_x cmd_vel.angular_z fuel with
    | none => none
    | some best_traj => publish_selected p best_traj (cmd_vel, p1)

/-- The `double` nearest to 0.8. -/
def DOUBLE_FOUR_FIFTHS : ℚ := 3602879701896397 / 4503599627370496

/-- The `double` nearest to 0.3. -/
def DOUBLE_THREE_TENTHS : ℚ := 5404319552844595 / 18014398509481984

/-- The `double` nearest to -0.70000001. -/
def DOUBLE_TURNING : ℚ := -6305039568390687 / 9007199254740992

/-- The planner with the parameters at their defaults, as the doubles the machine stores,
except `TO_GOAL_COST_GAIN = 0` and `YAWRATE_SAMPLES = 1`; the odometry reads the velocity
0.5 and the yaw-rate -0.70000001, the goal is 2 m straight ahead, there is no obstacle. -/
def hard_turn_planner : DWAPlanner ℚ :=
  { DWAPlanner.construct
      { (Params.defaults : Params ℚ) with
        TARGET_VELOCITY := DOUBLE_FOUR_FIFTHS
        MAX_YAWRATE := DOUBLE_FOUR_FIFTHS
        ANGLE_RESOLUTION := DOUBLE_FIFTH
        DT := DOUBLE_TENTH
        GOAL_THRESHOLD := DOUBLE_THREE_TENTHS
        TO_GOAL_COST_GAIN := 0
        YAWRATE_SAMPLES := 1 } with
    current_cmd_vel_ := ⟨1 / 2, DOUBLE_TURNING⟩
    local_goal_ := ⟨2, 0, 0⟩ }

/-- The `float` nearest to 0.8, `0.800000011920928955078125`. -/
def FLOAT_FOUR_FIFTHS : ℚ := 13421773 / 16777216

/-- The obstacle `(-3.0117437340200692, -3.0117437340200683)`, as doubles: next to the
diagonal of the third quadrant, about 3 away from the robot on either axis. -/
def corner_obstacle : Point ℚ :=
  ⟨-6781843979134105 / 2251799813685248, -6781843979134103 / 2251799813685248⟩

/-- The `double` nearest to 1.10000001. -/
def DOUBLE_NEAR_EDGE : ℚ := 2476979817571771 / 2251799813685248

/-- The unit square around `(0, 0.1)` as `transform_footprint` stores it: the vertices are
`float`s, `1.10000002384185791015625` and `-0.89999997615814208984375` for `1.1` and `-0.9`. -/
def lifted_square : List (Point ℚ) :=
  [⟨1, 9227469 / 8388608⟩, ⟨-1, 9227469 / 8388608⟩, ⟨-1, -7549747 / 8388608⟩, ⟨1, -7549747 / 8388608⟩]

/-- The value of `cosf` at 0.75, `0x1.769fecp-1`. -/
def COSF_THREE_QUARTERS : ℚ := 6137851 / 8388608

/-- The value of `sinf` at 0.75, `0x1.5cffc2p-1`. -/
def SINF_THREE_QUARTERS : ℚ := 11436001 / 16777216

/-- The library `Libm.onAxes` with the values of `cosf` and `sinf` at 0.75. -/
def Libm.atThreeQuarters : Libm ℚ :=
  { Libm.onAxes with
    cos := fun t => if t = 3 / 4 then COSF_THREE_QUARTERS else Libm.onAxes.cos t
    sin := fun t => if t = 3 / 4 then SINF_THREE_QUARTERS else Libm.onAxes.sin t }

/-- The unit square turned by 0.75 rad about the origin as `transform_footprint` stores it. -/
def turned_square : List (Point ℚ) :=
  [⟨839701 / 16777216, 2963963 / 2097152⟩,
    ⟨-2963963 / 2097152, 839701 / 16777216⟩,
    ⟨-839701 / 16777216, -2963963 / 2097152⟩,
    ⟨2963963 / 2097152, -839701 / 16777216⟩]

/-- The point `(-0.4363570718612602, 0.9601924932232687)`, as doubles: next to the first
edge of `turned_square`, on its outer side. -/
def near_edge_point : Point ℚ :=
  ⟨-7860710184939409 / 18014398509481984, 8648645109368521 / 9007199254740992⟩

/-! # Theorems -/

set_option linter.unusedSectionVars false

/-! ## Loops: the fuel is enough -/

theorem forRangeAux_of_gt (hi step : α) (fuel : Nat) (t : α) (h : hi < t) :
    forRangeAux hi step fuel t = [] := by
  cases fuel with
  | zero => rfl
  | succ n => simp [forRangeAux, not_le.mpr h]

theorem forRangeAux_succ (hi step : α) (fuel : Nat) (t : α) :
    forRangeAux hi step (fuel + 1) t =
      if t ≤ hi then t :: forRangeAux hi step fuel (t + step) else [] := rfl

theorem floor_step (hi step t : α) (hstep : 0 < step) (hnext : t + step ≤ hi) :
    ⌊(hi - (t + step)) / step⌋₊ + 1 = ⌊(hi - t) / step⌋₊ := by
  have hq : (hi - (t + step)) / step = (hi - t) / step - 1 := by
    field_simp
    ring
  have h1 : (1 : α) ≤ (hi - t) / step := by
    rw [le_div_iff₀ hstep]; linarith
  rw [hq, Nat.floor_sub_one]
  have : 1 ≤ ⌊(hi - t) / step⌋₊ := Nat.le_floor (by simpa using h1)
  omega

/-- Once the fuel reaches `⌊(hi - t) / step⌋ + 1`, more fuel changes nothing: the loop has
left through its own test. -/
theorem forRangeAux_fuel (hi step : α) (hstep : 0 < step) :
    ∀ (fuel : Nat) (t : α), ⌊(hi - t) / step⌋₊ + 1 ≤ fuel →
      forRangeAux hi step fuel t = forRangeAux hi step (⌊(hi - t) / step⌋₊ + 1) t := by
  intro fuel
  induction fuel with
  | zero => intro t h; omega
  | succ n ih =>
    intro t h
    rw [forRangeAux_succ, forRangeAux_succ]
    by_cases hle : t ≤ hi
    · simp only [hle, if_true]
      congr 1
      by_cases hnext : t + step ≤ hi
      · have hfl := floor_step hi step t hstep hnext
        rw [ih (t + step) (by omega), ← hfl]
      · have hgt : hi < t + step := not_le.mp hnext
        rw [forRangeAux_of_gt hi step n (t + step) hgt,
          forRangeAux_of_gt hi step _ (t + step) hgt]
    · simp only [hle, if_false]

theorem forRange_of_gt (lo hi step : α) (h : hi < lo) : forRange lo hi step = [] :=
  forRangeAux_of_gt hi step _ lo h

theorem forRange_cons (lo hi step : α) (hstep : 0 < step) (h : lo ≤ hi) :
    forRange lo hi step = lo :: forRange (lo + step) hi step := by
  unfold forRange
  rw [forRangeAux_succ]
  simp only [h, if_true]
  congr 1
  by_cases hnext : lo + step ≤ hi
  · rw [floor_step hi step lo hstep hnext]
  · have hgt : hi < lo + step := not_le.mp hnext
    rw [forRangeAux_of_gt hi step _ _ hgt, forRangeAux_of_gt hi step _ _ hgt]

theorem forRange_ne_nil (lo hi step : α) (h : lo ≤ hi) : forRange lo hi step ≠ [] := by
  unfold forRange
  simp [forRangeAux, h]

theorem forLoop_of_pos (lo hi step : α) (hstep : 0 < step) :
    forLoop lo hi step = some (forRange lo hi step) := by
  unfold forLoop
  simp [not_le.mpr hstep]

/-! ## Geometry -/

theorem edges_map (f : Point α → Point α) (fp : List (Point α)) :
    edges (fp.map f) = (edges fp).map (Prod.map f f) := by
  unfold edges
  rw [← List.map_rotate, List.zip_map]

theorem mem_edges {fp : List (Point α)} {e : Point α × Point α} (h : e ∈ edges fp) :
    e.1 ∈ fp ∧ e.2 ∈ fp := by
  unfold edges at h
  obtain ⟨b, d⟩ := e
  have h1 := List.of_mem_zip h
  exact ⟨h1.1, List.mem_rotate.mp h1.2⟩

/-- The robot centre is never reported inside: with the target on the first vertex the
third cross product is zero. -/
theorem is_inside_of_triangle_apex (A B C : Point α) :
    is_inside_of_triangle A A B C = false := by
  simp [is_inside_of_triangle, cross_z]

theorem is_inside_of_robot_center (footprint : List (Point α)) (state : State α) :
    is_inside_of_robot ⟨state.x_, state.y_⟩ footprint state = false := by
  unfold is_inside_of_robot
  rw [List.any_eq_false]
  intro e _
  simp [is_inside_of_triangle_apex]

/-- The triangle test is invariant under the rigid motion of `transform_footprint`. -/
theorem is_inside_of_triangle_transform (c s X Y : α) (hcs : c ^ 2 + s ^ 2 = 1)
    (pt b d : Point α) :
    is_inside_of_triangle pt ⟨X, Y⟩
        ⟨c * b.x - s * b.y + X, s * b.x + c * b.y + Y⟩
        ⟨c * d.x - s * d.y + X, s * d.x + c * d.y + Y⟩ =
      is_inside_of_triangle
        ⟨c * (pt.x - X) + s * (pt.y - Y), -(s * (pt.x - X)) + c * (pt.y - Y)⟩ ⟨0, 0⟩ b d := by
  unfold is_inside_of_triangle cross_z
  have e1 : (c * b.x - s * b.y + X - X) * (pt.y - (s * b.x + c * b.y + Y)) -
      (s * b.x + c * b.y + Y - Y) * (pt.x - (c * b.x - s * b.y + X)) =
      (b.x - 0) * (-(s * (pt.x - X)) + c * (pt.y - Y) - b.y) -
      (b.y - 0) * (c * (pt.x - X) + s * (pt.y - Y) - b.x) := by ring
  have e2 : (c * d.x - s * d.y + X - (c * b.x - s * b.y + X)) * (pt.y - (s * d.x + c * d.y + Y)) -
      (s * d.x + c * d.y + Y - (s * b.x + c * b.y + Y)) * (pt.x - (c * d.x - s * d.y + X)) =
      (d.x - b.x) * (-(s * (pt.x - X)) + c * (pt.y - Y) - d.y) -
      (d.y - b.y) * (c * (pt.x - X) + s * (pt.y - Y) - d.x) := by
    linear_combination (-((d.x - b.x) * d.y - (d.y - b.y) * d.x)) * hcs
  have e3 : (X - (c * d.x - s * d.y + X)) * (pt.y - Y) -
      (Y - (s * d.x + c * d.y + Y)) * (pt.x - X) =
      (0 - d.x) * (-(s * (pt.x - X)) + c * (pt.y - Y) - 0) -
      (0 - d.y) * (c * (pt.x - X) + s * (pt.y - Y) - 0) := by ring
  simp only [e1, e2, e3]

/-- The convexity step behind `inside_triangle_in_box`: `D * u = c3 * bu + c1 * du` with
positive weights below `D` keeps `u` strictly between the bounds of `bu` and `du`. -/
theorem box_aux (D c1 c2 c3 u bu du w : α) (hsum : c2 = D - c1 - c3)
    (h1 : 0 < c1) (h2 : 0 < c2) (h3 : 0 < c3) (hw : 0 < w)
    (hb1 : -w ≤ bu) (hb2 : bu ≤ w) (hd1 : -w ≤ du) (hd2 : du ≤ w)
    (hu : D * u = c3 * bu + c1 * du) : -w < u ∧ u < w := by
  have hD : 0 < D := by linarith
  have p1 := mul_nonneg h3.le (sub_nonneg.mpr hb2)
  have p2 := mul_nonneg h1.le (sub_nonneg.mpr hd2)
  have p3 := mul_nonneg h3.le (sub_nonneg.mpr hb1)
  have p4 := mul_nonneg h1.le (sub_nonneg.mpr hd1)
  have p5 := mul_pos h2 hw
  have e5 : c2 * w = D * w - c1 * w - c3 * w := by rw [hsum]; ring
  constructor
  · by_contra hc
    have p6 := mul_nonneg hD.le (sub_nonneg.mpr (not_lt.mp hc))
    have e1 : c3 * (bu - -w) = c3 * bu + c3 * w := by ring
    have e2 : c1 * (du - -w) = c1 * du + c1 * w := by ring
    have e6 : D * (-w - u) = -(D * w) - D * u := by ring
    linarith
  · by_contra hc
    have p6 := mul_nonneg hD.le (sub_nonneg.mpr (not_lt.mp hc))
    have e1 : c3 * (w - bu) = c3 * w - c3 * bu := by ring
    have e2 : c1 * (w - du) = c1 * w - c1 * du := by ring
    have e6 : D * (u - w) = D * u - D * w := by ring
    linarith

/-- A point that passes the test for the triangle `(0, 0), b, d`, whose two vertices lie in
the closed box of half-width `w`, lies in the open box. -/
theorem inside_triangle_in_box (w : α) (hw : 0 < w) (l b d : Point α)
    (hb : abs b.x ≤ w ∧ abs b.y ≤ w) (hd : abs d.x ≤ w ∧ abs d.y ≤ w)
    (h : is_inside_of_triangle l ⟨0, 0⟩ b d = true) : abs l.x < w ∧ abs l.y < w := by
  unfold is_inside_of_triangle cross_z at h
  simp only [decide_eq_true_eq] at h
  obtain ⟨hbx1, hbx2⟩ := abs_le.mp hb.1
  obtain ⟨hby1, hby2⟩ := abs_le.mp hb.2
  obtain ⟨hdx1, hdx2⟩ := abs_le.mp hd.1
  obtain ⟨hdy1, hdy2⟩ := abs_le.mp hd.2
  rw [abs_lt, abs_lt]
  rcases h with ⟨h1, h2, h3⟩ | ⟨h1, h2, h3⟩
  · exact ⟨box_aux (b.x * d.y - b.y * d.x) _ _ _ l.x b.x d.x w (by ring) h1 h2 h3 hw
        hbx1 hbx2 hdx1 hdx2 (by ring),
      box_aux (b.x * d.y - b.y * d.x) _ _ _ l.y b.y d.y w (by ring) h1 h2 h3 hw
        hby1 hby2 hdy1 hdy2 (by ring)⟩
  · exact ⟨box_aux (-(b.x * d.y - b.y * d.x)) _ _ _ l.x b.x d.x w (by ring)
        (neg_pos.mpr h1) (neg_pos.mpr h2) (neg_pos.mpr h3) hw hbx1 hbx2 hdx1 hdx2 (by ring),
      box_aux (-(b.x * d.y - b.y * d.x)) _ _ _ l.y b.y d.y w (by ring)
        (neg_pos.mpr h1) (neg_pos.mpr h2) (neg_pos.mpr h3) hw hby1 hby2 hdy1 hdy2 (by ring)⟩

theorem mem_square_footprint {w : α} (hw : 0 < w) {v : Point α}
    (h : v ∈ square_footprint w) : abs v.x ≤ w ∧ abs v.y ≤ w := by
  simp only [square_footprint, List.mem_cons, List.mem_singleton, List.mem_nil_iff,
    or_false] at h
  rcases h with rfl | rfl | rfl | rfl <;> simp [abs_of_pos hw, hw.le]

/-- Whatever passes `is_inside_of_robot` for a footprint made of corners of the square has
robot-frame coordinates strictly inside the square. -/
theorem is_inside_of_robot_square (L : Libm α) (p : DWAPlanner α) (state : State α) (w : α)
    (obstacle : Point α) (hw : 0 < w)
    (hfp : ∀ v ∈ p.footprint_, v ∈ square_footprint w)
    (hrot : L.cos state.yaw_ ^ 2 + L.sin state.yaw_ ^ 2 = 1)
    (h : is_inside_of_robot obstacle (transform_footprint L p state) state = true) :
    abs (robot_frame L state obstacle).x < w ∧ abs (robot_frame L state obstacle).y < w := by
  unfold is_inside_of_robot transform_footprint at h
  rw [edges_map, List.any_map, List.any_eq_true] at h
  obtain ⟨e, he, hin⟩ := h
  obtain ⟨hb, hd⟩ := mem_edges he
  simp only [Function.comp, Prod.map] at hin
  rw [is_inside_of_triangle_transform _ _ _ _ hrot] at hin
  exact inside_triangle_in_box w hw _ e.1 e.2 (mem_square_footprint hw (hfp _ hb))
    (mem_square_footprint hw (hfp _ hd)) hin

/-- C9 (the code contradicts it): for every footprint, in particular the square
`(±w, ±w)`, every pose and every library, `is_inside_of_robot` reports the exact robot
centre `(state.x_, state.y_)` as not inside. -/
theorem C9_center_reported_outside (L : Libm α) (p : DWAPlanner α) (state : State α) :
    is_inside_of_robot ⟨state.x_, state.y_⟩ (transform_footprint L p state) state = false :=
  is_inside_of_robot_center _ state

/-- C10 (the code contradicts it): with the square footprint of half-width 1 and the robot
at the origin pose, the obstacle `(1/2, 1/2)`, strictly inside the square on the diagonal, is
not reported inside, no edge is crossed, and `calc_dist_from_robot` returns the distance to
the sentinel point `(1e6, 1e6)` instead of 0. -/
theorem C10_diagonal_point_sentinel_distance (L : Libm α) (p : DWAPlanner α)
    (hfp : p.footprint_ = square_footprint 1) (hcos : L.cos 0 = 1) (hsin : L.sin 0 = 0) :
    abs (robot_frame L State.origin (⟨1 / 2, 1 / 2⟩ : Point α)).x < 1 ∧
    abs (robot_frame L State.origin (⟨1 / 2, 1 / 2⟩ : Point α)).y < 1 ∧
    calc_dist_from_robot L p ⟨1 / 2, 1 / 2⟩ State.origin =
      some (L.hypot (1 / 2 - 1000000) (1 / 2 - 1000000)) := by
  refine ⟨?_, ?_, ?_⟩
  · simp only [robot_frame, State.origin, hcos, hsin]
    rw [abs_lt]; constructor <;> norm_num
  · simp only [robot_frame, State.origin, hcos, hsin]
    rw [abs_lt]; constructor <;> norm_num
  · simp only [calc_dist_from_robot, transform_footprint, hfp, square_footprint,
      State.origin, hcos, hsin, is_inside_of_robot, edges, calc_intersection,
      is_inside_of_triangle, cross_z, List.map, List.rotate, List.zip]
    norm_num [calc_intersection_loop, cross_z, SENTINEL]

theorem C10_diagonal_point_sentinel_distance_witness :
    (square_planner (1 : ℚ)).footprint_ = square_footprint 1 ∧
    Libm.onAxes.cos 0 = 1 ∧ Libm.onAxes.sin 0 = 0 ∧
    calc_dist_from_robot Libm.onAxes (square_planner 1) ⟨1 / 2, 1 / 2⟩ State.origin =
      some (Libm.onAxes.hypot (1 / 2 - 1000000) (1 / 2 - 1000000)) :=
  ⟨rfl, by norm_num [Libm.onAxes], by norm_num [Libm.onAxes],
    (C10_diagonal_point_sentinel_distance Libm.onAxes (square_planner 1) rfl
      (by norm_num [Libm.onAxes]) (by norm_num [Libm.onAxes])).2.2⟩

/-! ## Trajectories and costs are defined -/

theorem rollout_length (L : Libm α) (p : DWAPlanner α) (v y : α) :
    ∀ (ts : List α) (s : State α), (rollout L p v y ts s).length = ts.length := by
  intro ts
  induction ts with
  | nil => intro s; rfl
  | cons t ts ih => intro s; simp [rollout, ih]

theorem generate_trajectory_eq (L : Libm α) (p : DWAPlanner α) (v y : α) (hdt : 0 < p.dt_) :
    generate_trajectory L p v y =
      some (rollout L p v y (forRange 0 p.predict_time_ p.dt_) State.origin) := by
  unfold generate_trajectory
  rw [forLoop_of_pos _ _ _ hdt]
  rfl

theorem generate_trajectory_ne_nil (L : Libm α) (p : DWAPlanner α) (v y : α)
    (hdt : 0 < p.dt_) (hT : 0 ≤ p.predict_time_) :
    ∃ traj, generate_trajectory L p v y = some traj ∧ traj ≠ [] := by
  refine ⟨_, generate_trajectory_eq L p v y hdt, ?_⟩
  intro h
  have hlen := rollout_length L p v y (forRange 0 p.predict_time_ p.dt_) State.origin
  rw [h] at hlen
  exact forRange_ne_nil 0 p.predict_time_ p.dt_ hT (List.length_eq_zero.mp hlen.symm)

theorem evaluate_trajectory_isSome (L : Libm α) (p : DWAPlanner α) (traj : List (State α))
    (goal : Goal α) (h : traj ≠ []) : ∃ c, evaluate_trajectory L p traj goal = some c := by
  obtain ⟨last, hlast⟩ : ∃ last, traj.getLast? = some last := by
    cases hq : traj.getLast? with
    | none => exact absurd (List.getLast?_eq_none_iff.mp hq) h
    | some last => exact ⟨last, rfl⟩
  simp [evaluate_trajectory, calc_to_goal_cost, calc_speed_cost, hlast]

/-- What `try_candidate` does when the rollout is well defined: it records the trajectory
and overwrites the best when `min_cost >= total_cost`. -/
theorem try_candidate_eq (L : Libm α) (p : DWAPlanner α) (goal : Goal α) (v y : α)
    (hdt : 0 < p.dt_) (hT : 0 ≤ p.predict_time_) :
    ∃ traj k, traj ≠ [] ∧ generate_trajectory L p v y = some traj ∧
      candidate_cost L p goal (v, y) = some k ∧
      ∀ s : Search α, try_candidate L p goal v y s =
        some (if s.min_cost ≥ k then ⟨k, traj, s.trajectories ++ [traj]⟩
          else ⟨s.min_cost, s.best_traj, s.trajectories ++ [traj]⟩) := by
  obtain ⟨traj, hgen, hne⟩ := generate_trajectory_ne_nil L p v y hdt hT
  obtain ⟨c, hc⟩ := evaluate_trajectory_isSome L p traj goal hne
  refine ⟨traj, c.total_cost, hne, hgen, ?_, ?_⟩
  · simp [candidate_cost, hgen, hc]
  · intro s
    simp only [try_candidate, hgen, hc]
    split <;> rfl

/-! ## The two loops visit `candidates` in order -/

theorem foldlM_flatMap {σ β γ : Type} (f : β → List γ) (g : σ → γ → Option σ) :
    ∀ (l : List β) (s : σ),
      l.foldlM (fun acc b => (f b).foldlM g acc) s = (l.flatMap f).foldlM g s := by
  intro l
  induction l with
  | nil => intro s; rfl
  | cons b l ih =>
    intro s
    rw [List.foldlM_cons, List.flatMap_cons, List.foldlM_append]
    cases h : (f b).foldlM g s with
    | none => rfl
    | some s1 => exact ih s1

theorem search_row_eq (L : Libm α) (p : DWAPlanner α) (goal : Goal α) (w : Window α)
    (s : Search α) (v : α) :
    search_row L p goal w s v =
      ((sampleAxis w.min_yawrate_ w.max_yawrate_ p.yawrate_samples_).map (fun y => (v, y)) ++
        (if w.min_yawrate_ < 0 ∧ 0 < w.max_yawrate_ then [(v, 0)] else [])).foldlM
        (fun (acc : Search α) (c : α × α) => try_candidate L p goal c.1 c.2 acc) s := by
  unfold search_row
  rw [List.foldlM_append, List.foldlM_map]
  cases h : (sampleAxis w.min_yawrate_ w.max_yawrate_ p.yawrate_samples_).foldlM
      (fun acc y => try_candidate L p goal v y acc) s with
  | none => rfl
  | some s1 =>
    by_cases hz : w.min_yawrate_ < 0 ∧ 0 < w.max_yawrate_
    · cases h2 : try_candidate L p goal v 0 s1 <;> simp [hz, h2]
    · simp [hz]

theorem dwa_search_eq (L : Libm α) (p : DWAPlanner α) (goal : Goal α) :
    dwa_search L p goal =
      (candidates p).foldlM (fun (acc : Search α) (c : α × α) => try_candidate L p goal c.1 c.2 acc)
        ⟨SENTINEL, [], []⟩ := by
  unfold dwa_search candidates
  simp only [search_row_eq]
  rw [← foldlM_flatMap]
  -- foldlM_flatMap _ _ _ _

/-! ## The running minimum -/

/-- The state of the search after the samples `cs`, started from `s0`: either no sample
cost was at most `s0.min_cost` and the best is unchanged, or the best is the sample of least
cost, the last one among equals. -/
theorem fold_try_candidate_spec (L : Libm α) (p : DWAPlanner α) (goal : Goal α)
    (hdt : 0 < p.dt_) (hT : 0 ≤ p.predict_time_) :
    ∀ (cs : List (α × α)) (s0 : Search α),
      ∃ s, cs.foldlM (fun (acc : Search α) (c : α × α) =>
          try_candidate L p goal c.1 c.2 acc) s0 = some s ∧
        ((s.min_cost = s0.min_cost ∧ s.best_traj = s0.best_traj ∧
            ∀ (j : Nat) (c : α × α) (k : α), cs[j]? = some c →
              candidate_cost L p goal c = some k → s0.min_cost < k) ∨
          (∃ (i : Nat) (c : α × α) (traj : List (State α)) (k : α),
            cs[i]? = some c ∧ generate_trajectory L p c.1 c.2 = some traj ∧ traj ≠ [] ∧
            candidate_cost L p goal c = some k ∧ s.min_cost = k ∧ s.best_traj = traj ∧
            k ≤ s0.min_cost ∧
            ∀ (j : Nat) (c' : α × α) (k' : α), cs[j]? = some c' →
              candidate_cost L p goal c' = some k' → k ≤ k' ∧ (i < j → k < k'))) := by
  intro cs
  induction cs with
  | nil =>
    intro s0
    refine ⟨s0, rfl, Or.inl ⟨rfl, rfl, ?_⟩⟩
    intro j c k hj
    simp at hj
  | cons c cs ih =>
    intro s0
    obtain ⟨traj, k, hne, hgen, hcost, hstep⟩ := try_candidate_eq L p goal c.1 c.2 hdt hT
    rw [List.foldlM_cons, hstep s0]
    simp only [Option.some_bind, Option.bind_eq_bind]
    by_cases hk : s0.min_cost ≥ k
    · simp only [hk, if_true]
      obtain ⟨s, hs, hcase⟩ := ih ⟨k, traj, s0.trajectories ++ [traj]⟩
      refine ⟨s, hs, Or.inr ?_⟩
      rcases hcase with ⟨hmin, hbest, hall⟩ | ⟨i, c', traj', k', hi, hgen', hne', hcost', hmin, hbest, hle, hall⟩
      · refine ⟨0, c, traj, k, by simp, hgen, hne, hcost, hmin, hbest, hk, ?_⟩
        intro j c2 k2 hj hc2
        cases j with
        | zero =>
          simp only [List.getElem?_cons_zero, Option.some.injEq] at hj
          subst hj
          rw [hcost] at hc2
          simp only [Option.some.injEq] at hc2
          subst hc2
          exact ⟨le_refl _, fun h => absurd h (lt_irrefl 0)⟩
        | succ j =>
          simp only [List.getElem?_cons_succ] at hj
          have := hall j c2 k2 hj hc2
          exact ⟨this.le, fun _ => this⟩
      · refine ⟨i + 1, c', traj', k', by simpa using hi, hgen', hne', hcost', hmin, hbest,
          le_trans hle hk, ?_⟩
        intro j c2 k2 hj hc2
        cases j with
        | zero =>
          simp only [List.getElem?_cons_zero, Option.some.injEq] at hj
          subst hj
          rw [hcost] at hc2
          simp only [Option.some.injEq] at hc2
          subst hc2
          exact ⟨hle, fun h => absurd h (Nat.not_lt_zero _)⟩
        | succ j =>
          simp only [List.getElem?_cons_succ] at hj
          have := hall j c2 k2 hj hc2
          exact ⟨this.1, fun h => this.2 (Nat.lt_of_succ_lt_succ h)⟩
    · simp only [hk, if_false]
      have hlt : s0.min_cost < k := not_le.mp hk
      obtain ⟨s, hs, hcase⟩ := ih ⟨s0.min_cost, s0.best_traj, s0.trajectories ++ [traj]⟩
      refine ⟨s, hs, ?_⟩
      rcases hcase with ⟨hmin, hbest, hall⟩ | ⟨i, c', traj', k', hi, hgen', hne', hcost', hmin, hbest, hle, hall⟩
      · refine Or.inl ⟨hmin, hbest, ?_⟩
        intro j c2 k2 hj hc2
        cases j with
        | zero =>
          simp only [List.getElem?_cons_zero, Option.some.injEq] at hj
          subst hj
          rw [hcost] at hc2
          simp only [Option.some.injEq] at hc2
          subst hc2
          exact hlt
        | succ j =>
          simp only [List.getElem?_cons_succ] at hj
          exact hall j c2 k2 hj hc2
      · refine Or.inr ⟨i + 1, c', traj', k', by simpa using hi, hgen', hne', hcost', hmin,
          hbest, hle, ?_⟩
        intro j c2 k2 hj hc2
        cases j with
        | zero =>
          simp only [List.getElem?_cons_zero, Option.some.injEq] at hj
          subst hj
          rw [hcost] at hc2
          simp only [Option.some.injEq] at hc2
          subst hc2
          have hle' : k' ≤ s0.min_cost := hle
          exact ⟨(lt_of_le_of_lt hle' hlt).le, fun h => absurd h (Nat.not_lt_zero _)⟩
        | succ j =>
          simp only [List.getElem?_cons_succ] at hj
          have := hall j c2 k2 hj hc2
          exact ⟨this.1, fun h => this.2 (Nat.lt_of_succ_lt_succ h)⟩

/-- The outcome of `dwa_planning` when rollouts are well defined (`0 < dt_`,
`0 ≤ predict_time_`): the stop trajectory when no sample costs less than `1e6`, otherwise the
sample of least cost, the last one among equals. -/
theorem dwa_planning_spec (L : Libm α) (p : DWAPlanner α) (goal : Goal α)
    (hdt : 0 < p.dt_) (hT : 0 ≤ p.predict_time_) :
    ((∀ (j : Nat) (c : α × α) (k : α), (candidates p)[j]? = some c →
          candidate_cost L p goal c = some k → SENTINEL ≤ k) ∧
        dwa_planning L p goal = generate_trajectory L p 0 0) ∨
      (∃ (i : Nat) (c : α × α) (traj : List (State α)) (k : α),
        (candidates p)[i]? = some c ∧ generate_trajectory L p c.1 c.2 = some traj ∧
        traj ≠ [] ∧ candidate_cost L p goal c = some k ∧ k < SENTINEL ∧
        dwa_planning L p goal = some traj ∧
        ∀ (j : Nat) (c' : α × α) (k' : α), (candidates p)[j]? = some c' →
          candidate_cost L p goal c' = some k' → k ≤ k' ∧ (i < j → k < k')) := by
  obtain ⟨s, hs, hcase⟩ := fold_try_candidate_spec L p goal hdt hT (candidates p)
    ⟨SENTINEL, [], []⟩
  rw [← dwa_search_eq] at hs
  rcases hcase with ⟨hmin, _, hall⟩ | ⟨i, c, traj, k, hi, hgen, hne, hcost, hmin, hbest, hle, hall⟩
  · left
    refine ⟨fun j c k hj hc => (hall j c k hj hc).le, ?_⟩
    simp only [dwa_planning, hs]
    simp only at hmin
    simp [hmin]
  · by_cases hk : k = SENTINEL
    · left
      refine ⟨fun j c' k' hj hc => hk ▸ (hall j c' k' hj hc).1, ?_⟩
      simp only [dwa_planning, hs]
      simp [hmin, hk]
    · right
      refine ⟨i, c, traj, k, hi, hgen, hne, hcost, lt_of_le_of_ne hle hk, ?_, hall⟩
      simp only [dwa_planning, hs]
      simp [hmin, hk, hbest]

/-! ## Evaluation at concrete inputs, and the search claims -/

theorem steps_one_eighth : forRange (0 : ℚ) (1 / 8) (1 / 8) = [0, 1 / 8] := by
  rw [forRange_cons _ _ _ (by norm_num) (by norm_num),
    forRange_cons _ _ _ (by norm_num) (by norm_num), forRange_of_gt _ _ _ (by norm_num)]
  norm_num

theorem straight_candidates (goal : Goal ℚ) :
    candidates (straight_planner goal) = [(3 / 8, 0), (5 / 8, 0)] := by
  have hv : sampleAxis (3 / 8 : ℚ) (5 / 8) 1 = [3 / 8, 5 / 8] := by
    simp only [sampleAxis]
    norm_num [DBL_EPSILON]
    rw [forRange_cons _ _ _ (by norm_num) (by norm_num),
      forRange_cons _ _ _ (by norm_num) (by norm_num), forRange_of_gt _ _ _ (by norm_num)]
    norm_num
  have hy : sampleAxis (0 : ℚ) 0 1 = [0] := by
    simp only [sampleAxis]
    norm_num [DBL_EPSILON]
    rw [forRange_cons _ _ _ (by norm_num) (by norm_num), forRange_of_gt _ _ _ (by norm_num)]
  simp only [candidates, calc_dynamic_window, straight_planner, DWAPlanner.construct,
    Params.defaults]
  norm_num [hv, hy]

theorem straight_generate (goal : Goal ℚ) (v : ℚ) :
    generate_trajectory Libm.onAxes (straight_planner goal) v 0 =
      some [⟨v / 8, 0, 0, v, 0⟩, ⟨v / 4, 0, 0, v, 0⟩] := by
  rw [generate_trajectory_eq _ _ _ _ (by norm_num [straight_planner, DWAPlanner.construct, Params.defaults])]
  have : forRange (0 : ℚ) (straight_planner goal).predict_time_ (straight_planner goal).dt_ =
      [0, 1 / 8] := steps_one_eighth
  rw [this]
  simp only [rollout, motion, State.origin, Libm.onAxes, straight_planner,
    DWAPlanner.construct, Params.defaults]
  norm_num
  constructor <;> ring

theorem straight_cost (goal : Goal ℚ) (v : ℚ) (hy : goal.y = 0) :
    candidate_cost Libm.onAxes (straight_planner goal) goal (v, 0) =
      some (abs (v / 4 - goal.x) + abs (4 / 5 - abs v) + 1 / 1000) := by
  simp only [candidate_cost, straight_generate, evaluate_trajectory, calc_to_goal_cost,
    calc_speed_cost, calc_obs_cost, List.getLast?, List.getLast, Option.map]
  simp [straight_planner, DWAPlanner.construct, Params.defaults, Libm.onAxes, hy,
    calc_obs_cost_loop]

/-- C2 (as stated, refuted): the straight-driving planner with the goal 2000 km ahead has
collision-free samples (there are no obstacles), every sample costs more than `1e6`, and
`dwa_planning` returns the stop trajectory, which is none of the enumerated samples. -/
theorem C2_far_goal_returns_no_candidate :
    (∃ c ∈ candidates (straight_planner ⟨2000000, 0, 0⟩), ∃ traj,
      generate_trajectory Libm.onAxes (straight_planner ⟨2000000, 0, 0⟩) c.1 c.2 = some traj ∧
      calc_obs_cost Libm.onAxes (straight_planner ⟨2000000, 0, 0⟩) traj ≠ SENTINEL) ∧
    ¬ ∃ c ∈ candidates (straight_planner ⟨2000000, 0, 0⟩),
      dwa_planning Libm.onAxes (straight_planner ⟨2000000, 0, 0⟩) ⟨2000000, 0, 0⟩ =
        generate_trajectory Libm.onAxes (straight_planner ⟨2000000, 0, 0⟩) c.1 c.2 := by
  constructor
  · refine ⟨(3 / 8, 0), by simp [straight_candidates], _, straight_generate _ _, ?_⟩
    simp only [calc_obs_cost, straight_planner, DWAPlanner.construct, Params.defaults,
      calc_obs_cost_loop, SENTINEL, List.flatMap_cons, List.flatMap_nil, List.map_nil,
      List.append_nil]
    norm_num
  · have hplan : dwa_planning Libm.onAxes (straight_planner ⟨2000000, 0, 0⟩) ⟨2000000, 0, 0⟩ =
        generate_trajectory Libm.onAxes (straight_planner ⟨2000000, 0, 0⟩) 0 0 := by
      rcases dwa_planning_spec Libm.onAxes (straight_planner ⟨2000000, 0, 0⟩) ⟨2000000, 0, 0⟩
        (by norm_num [straight_planner, DWAPlanner.construct, Params.defaults])
        (by norm_num [straight_planner, DWAPlanner.construct, Params.defaults]) with
        ⟨_, h⟩ | ⟨i, c, traj, k, hi, _, _, hcost, hk, _, _⟩
      · exact h
      · exfalso
        have hc : c ∈ candidates (straight_planner ⟨2000000, 0, 0⟩) :=
          List.getElem?_mem hi
        rw [straight_candidates] at hc
        simp only [List.mem_cons, List.mem_singleton, List.mem_nil_iff, or_false] at hc
        rcases hc with rfl | rfl
        · rw [straight_cost _ _ rfl] at hcost
          simp only [Option.some.injEq] at hcost
          rw [← hcost] at hk
          norm_num [SENTINEL, abs_of_neg, abs_of_pos] at hk
        · rw [straight_cost _ _ rfl] at hcost
          simp only [Option.some.injEq] at hcost
          rw [← hcost] at hk
          norm_num [SENTINEL, abs_of_neg, abs_of_pos] at hk
    rintro ⟨c, hc, heq⟩
    rw [hplan, straight_candidates] at *
    simp only [List.mem_cons, List.mem_singleton, List.mem_nil_iff, or_false] at hc
    rcases hc with rfl | rfl
    · rw [straight_generate, straight_generate] at heq
      norm_num at heq
    · rw [straight_generate, straight_generate] at heq
      norm_num at heq

/-! ### The blocked robot -/

theorem blocked_candidates : candidates blocked_planner = [(0, 3 / 4), (0, 1)] := by
  have hv : sampleAxis (0 : ℚ) 0 1 = [0] := by
    simp only [sampleAxis]
    norm_num [DBL_EPSILON]
    rw [forRange_cons _ _ _ (by norm_num) (by norm_num), forRange_of_gt _ _ _ (by norm_num)]
  have hy : sampleAxis (3 / 4 : ℚ) 1 1 = [3 / 4, 1] := by
    simp only [sampleAxis]
    norm_num [DBL_EPSILON]
    rw [forRange_cons _ _ _ (by norm_num) (by norm_num),
      forRange_cons _ _ _ (by norm_num) (by norm_num), forRange_of_gt _ _ _ (by norm_num)]
    norm_num
  simp only [candidates, calc_dynamic_window, blocked_planner, DWAPlanner.construct,
    Params.defaults]
  norm_num [hv, hy]

theorem blocked_generate (y : ℚ) :
    generate_trajectory Libm.onAxes blocked_planner 0 y =
      some [⟨0, 0, y / 8, 0, y⟩, ⟨0, 0, y / 4, 0, y⟩] := by
  rw [generate_trajectory_eq _ _ _ _ (by norm_num [blocked_planner, DWAPlanner.construct, Params.defaults])]
  have : forRange (0 : ℚ) blocked_planner.predict_time_ blocked_planner.dt_ =
      [0, 1 / 8] := steps_one_eighth
  rw [this]
  simp only [rollout, motion, State.origin, Libm.onAxes, blocked_planner,
    DWAPlanner.construct, Params.defaults]
  norm_num
  constructor <;> ring

theorem blocked_obs_cost (y : ℚ) :
    calc_obs_cost Libm.onAxes blocked_planner [⟨0, 0, y / 8, 0, y⟩, ⟨0, 0, y / 4, 0, y⟩] =
      SENTINEL := by
  simp only [calc_obs_cost, blocked_planner, DWAPlanner.construct, Params.defaults,
    List.flatMap_cons, List.flatMap_nil, List.map_cons, List.map_nil, List.append_nil,
    List.cons_append, List.nil_append, clearance, Libm.onAxes, calc_obs_cost_loop]
  norm_num [DBL_EPSILON]

/-- C1 (the code contradicts it): for the blocked robot with obstacle-cost weight 1/2 every
enumerated sample takes the collision short-circuit, yet `dwa_planning` returns the
trajectory of the sample `(0, 1)`, one of the colliding candidates, and not the trajectory
of velocity 0 and yaw-rate 0. -/
theorem C1_half_weight_returns_colliding_candidate :
    (∀ c ∈ candidates blocked_planner, ∃ traj,
      generate_trajectory Libm.onAxes blocked_planner c.1 c.2 = some traj ∧
      calc_obs_cost Libm.onAxes blocked_planner traj = SENTINEL) ∧
    (0, 1) ∈ candidates blocked_planner ∧
    dwa_planning Libm.onAxes blocked_planner ⟨1, 0, 0⟩ =
      generate_trajectory Libm.onAxes blocked_planner 0 1 ∧
    dwa_planning Libm.onAxes blocked_planner ⟨1, 0, 0⟩ ≠
      generate_trajectory Libm.onAxes blocked_planner 0 0 := by
  have hplan : dwa_planning Libm.onAxes blocked_planner ⟨1, 0, 0⟩ =
      generate_trajectory Libm.onAxes blocked_planner 0 1 := by
    simp only [dwa_planning, dwa_search_eq, blocked_candidates, List.foldlM_cons,
      List.foldlM_nil, try_candidate, blocked_generate, evaluate_trajectory,
      calc_to_goal_cost, calc_speed_cost, blocked_obs_cost, List.getLast?, List.getLast,
      Option.map]
    simp only [blocked_planner, DWAPlanner.construct, Params.defaults, Libm.onAxes, SENTINEL]
    have habs : |(4 : ℚ) / 5| = 4 / 5 := abs_of_pos (by norm_num)
    norm_num [habs]
  refine ⟨?_, by simp [blocked_candidates], hplan, ?_⟩
  · intro c hc
    rw [blocked_candidates] at hc
    simp only [List.mem_cons, List.mem_singleton, List.mem_nil_iff, or_false] at hc
    rcases hc with rfl | rfl
    · exact ⟨_, blocked_generate _, blocked_obs_cost _⟩
    · exact ⟨_, blocked_generate _, blocked_obs_cost _⟩
  · rw [hplan, blocked_generate, blocked_generate]
    norm_num

/-! ## The orchestrator -/

theorem dwa_planning_ne_nil (L : Libm α) (p : DWAPlanner α) (goal : Goal α)
    (hdt : 0 < p.dt_) (hT : 0 ≤ p.predict_time_) :
    ∃ traj, dwa_planning L p goal = some traj ∧ traj ≠ [] := by
  rcases dwa_planning_spec L p goal hdt hT with
    ⟨_, h⟩ | ⟨_, _, traj, _, _, _, hne, _, _, hplan, _⟩
  · obtain ⟨traj, hgen, hne⟩ := generate_trajectory_ne_nil L p 0 0 hdt hT
    exact ⟨traj, h.trans hgen, hne⟩
  · exact ⟨traj, hplan, hne⟩

theorem publish_selected_of_ne_nil (p : DWAPlanner α) (best_traj : List (State α))
    (result : Twist α × DWAPlanner α) (h : best_traj ≠ []) :
    publish_selected p best_traj result = some result := by
  simp [publish_selected, h]

/-- Far from the goal, or with `has_reached_` set, `calc_cmd_vel` takes the rotate/search
branch: it returns a command and leaves the planner, `has_finished_` included, as it was. -/
theorem calc_cmd_vel_far_or_latched (L : Libm α) (p : DWAPlanner α) (hdt : 0 < p.dt_)
    (hT : 0 ≤ p.predict_time_)
    (hfar : p.dist_to_goal_th_ < L.hypot p.local_goal_.x p.local_goal_.y ∨
      p.has_reached_ = true) :
    ∃ cmd_vel, calc_cmd_vel L p = some (cmd_vel, p) := by
  unfold calc_cmd_vel
  simp only [hfar, if_true]
  have hadj : ∃ b, can_adjust_robot_direction L p p.local_goal_ = some b := by
    unfold can_adjust_robot_direction
    simp only
    split
    · exact ⟨false, rfl⟩
    · obtain ⟨traj, hgen, _⟩ := generate_trajectory_ne_nil L p 0
        (min (max p.local_goal_.yaw (-p.max_yawrate_)) p.max_yawrate_) hdt hT
      rw [hgen]
      exact ⟨_, rfl⟩
  obtain ⟨b, hb⟩ := hadj
  rw [hb]
  cases b with
  | true =>
    obtain ⟨traj, hgen, hne⟩ := generate_trajectory_ne_nil L p 0
      (min (max (L.atan2 p.local_goal_.y p.local_goal_.x) (-p.max_yawrate_)) p.max_yawrate_)
      hdt hT
    simp only [hgen, publish_selected_of_ne_nil _ _ _ hne]
    exact ⟨_, rfl⟩
  | false =>
    obtain ⟨traj, hplan, hne⟩ := dwa_planning_ne_nil L p p.local_goal_ hdt hT
    obtain ⟨front, rest, rfl⟩ := List.exists_cons_of_ne_nil hne
    simp only [hplan, List.head?_cons, publish_selected_of_ne_nil _ _ _ hne]
    exact ⟨_, rfl⟩

/-- The function `calc_cmd_vel` returns whenever rollouts are well defined. -/
theorem calc_cmd_vel_isSome (L : Libm α) (p : DWAPlanner α) (hdt : 0 < p.dt_)
    (hT : 0 ≤ p.predict_time_) : ∃ r, calc_cmd_vel L p = some r := by
  by_cases hfar : p.dist_to_goal_th_ < L.hypot p.local_goal_.x p.local_goal_.y ∨
      p.has_reached_ = true
  · obtain ⟨cmd_vel, h⟩ := calc_cmd_vel_far_or_latched L p hdt hT hfar
    exact ⟨_, h⟩
  · unfold calc_cmd_vel
    simp only [hfar, if_false]
    by_cases hturn : p.turn_direction_th_ < abs p.local_goal_.yaw
    · obtain ⟨traj, hgen, hne⟩ := generate_trajectory_ne_nil L p 0
        (min (max p.local_goal_.yaw (-p.max_yawrate_)) p.max_yawrate_) hdt hT
      simp only [hturn, if_true, hgen, publish_selected_of_ne_nil _ _ _ hne]
      exact ⟨_, rfl⟩
    · obtain ⟨traj, hgen, hne⟩ := generate_trajectory_ne_nil L p 0 0 hdt hT
      simp only [hturn, if_false, Twist.zero, hgen, publish_selected_of_ne_nil _ _ _ hne]
      exact ⟨_, rfl⟩

/-- C3 (the code contradicts it): with `has_reached_` set, whatever the goal, so also for
a goal within the distance threshold whose heading is within the turn threshold,
`calc_cmd_vel` takes the rotate/search branch, returns its command and leaves
`has_finished_` and `has_reached_` unchanged: the finished signal is not raised. -/
theorem C3_latched_goal_not_finished (L : Libm α) (p : DWAPlanner α) (hdt : 0 < p.dt_)
    (hT : 0 ≤ p.predict_time_) (hr : p.has_reached_ = true)
    (hf : p.has_finished_ = false) :
    ∃ cmd_vel p1, calc_cmd_vel L p = some (cmd_vel, p1) ∧ p1.has_finished_ = false ∧
      p1.has_reached_ = true := by
  obtain ⟨cmd_vel, h⟩ := calc_cmd_vel_far_or_latched L p hdt hT (Or.inr hr)
  exact ⟨cmd_vel, p, h, hf, hr⟩

theorem C3_latched_goal_not_finished_witness :
    (0 : ℚ) < (latched_planner).dt_ ∧ (0 : ℚ) ≤ latched_planner.predict_time_ ∧
    latched_planner.has_reached_ = true ∧ latched_planner.has_finished_ = false ∧
    Libm.onAxes.hypot latched_planner.local_goal_.x latched_planner.local_goal_.y ≤
      latched_planner.dist_to_goal_th_ ∧
    abs latched_planner.local_goal_.yaw ≤ latched_planner.turn_direction_th_ ∧
    ∃ cmd_vel p1, calc_cmd_vel Libm.onAxes latched_planner = some (cmd_vel, p1) ∧
      p1.has_finished_ = false ∧ p1.has_reached_ = true :=
  ⟨by norm_num [latched_planner, DWAPlanner.construct, Params.defaults],
    by norm_num [latched_planner, DWAPlanner.construct, Params.defaults], rfl, rfl,
    by norm_num [latched_planner, DWAPlanner.construct, Params.defaults, Libm.onAxes],
    by norm_num [latched_planner, DWAPlanner.construct, Params.defaults],
    C3_latched_goal_not_finished Libm.onAxes latched_planner
      (by norm_num [latched_planner, DWAPlanner.construct, Params.defaults])
      (by norm_num [latched_planner, DWAPlanner.construct, Params.defaults]) rfl rfl⟩

theorem check_collision_no_obstacles (L : Libm α) (p : DWAPlanner α)
    (traj : List (State α)) (h : p.obs_list_ = []) : check_collision L p traj = false := by
  unfold check_collision
  rw [h]
  simp

theorem can_adjust_robot_direction_eq (L : Libm α) (p : DWAPlanner α) (goal : Goal α)
    (h : ¬ abs (L.atan2 goal.y goal.x) < p.angle_to_goal_th_) :
    can_adjust_robot_direction L p goal =
      (generate_trajectory L p 0 (min (max goal.yaw (-p.max_yawrate_)) p.max_yawrate_)).map
        (fun traj => !check_collision L p traj) := by
  unfold can_adjust_robot_direction
  simp only [h, if_false]
  cases generate_trajectory L p 0 (min (max goal.yaw (-p.max_yawrate_)) p.max_yawrate_) <;> rfl

/-- The rotate-in-place branch of `calc_cmd_vel`: the emitted yaw-rate is the clamped
bearing `atan2(goal.y, goal.x)`. -/
theorem calc_cmd_vel_rotate (L : Libm α) (p : DWAPlanner α) (hdt : 0 < p.dt_)
    (hT : 0 ≤ p.predict_time_)
    (hfar : p.dist_to_goal_th_ < L.hypot p.local_goal_.x p.local_goal_.y ∨
      p.has_reached_ = true)
    (hadj : can_adjust_robot_direction L p p.local_goal_ = some true) :
    calc_cmd_vel L p =
      some (⟨0, min (max (L.atan2 p.local_goal_.y p.local_goal_.x) (-p.max_yawrate_))
        p.max_yawrate_⟩, p) := by
  unfold calc_cmd_vel
  simp only [hfar, if_true, hadj]
  obtain ⟨traj, hgen, hne⟩ := generate_trajectory_ne_nil L p 0
    (min (max (L.atan2 p.local_goal_.y p.local_goal_.x) (-p.max_yawrate_)) p.max_yawrate_)
    hdt hT
  simp only [hgen, publish_selected_of_ne_nil _ _ _ hne]

/-! ## Rotation in place -/

/-- The number of passes of `for (float t = lo; t <= hi; t += step)`. -/
theorem forRange_length (step : α) (hstep : 0 < step) :
    ∀ (n : Nat) (lo hi : α), lo ≤ hi → ⌊(hi - lo) / step⌋₊ = n →
      (forRange lo hi step).length = n + 1 := by
  intro n
  induction n with
  | zero =>
    intro lo hi hle hn
    rw [forRange_cons lo hi step hstep hle]
    have hgt : hi < lo + step := by
      by_contra hc
      have := floor_step hi step lo hstep (not_lt.mp hc)
      omega
    rw [forRange_of_gt _ _ _ hgt]
    rfl
  | succ n ih =>
    intro lo hi hle hn
    rw [forRange_cons lo hi step hstep hle]
    have hnext : lo + step ≤ hi := by
      by_contra hc
      have hlt : hi - lo < step := by linarith [not_le.mp hc]
      have h0 : (hi - lo) / step < 1 := by
        rw [div_lt_one hstep]; exact hlt
      have : ⌊(hi - lo) / step⌋₊ = 0 := Nat.floor_eq_zero.mpr h0
      omega
    have := floor_step hi step lo hstep hnext
    rw [List.length_cons, ih (lo + step) hi hnext (by omega)]

/-- Rolling out velocity 0 turns the robot on the spot: the `i`-th state keeps the
position and has turned `i + 1` steps. -/
theorem rollout_spin (L : Libm α) (p : DWAPlanner α) (y : α) :
    ∀ (ts : List α) (s : State α) (i : Nat), i < ts.length →
      (rollout L p 0 y ts s)[i]? =
        some ⟨s.x_, s.y_, s.yaw_ + ((i : α) + 1) * (y * p.dt_), 0, y⟩ := by
  intro ts
  induction ts with
  | nil => intro s i hi; simp at hi
  | cons t ts ih =>
    intro s i hi
    cases i with
    | zero =>
      simp [rollout, motion]
    | succ i =>
      simp only [rollout, List.getElem?_cons_succ]
      rw [ih _ i (by simpa using hi)]
      simp only [motion, Option.some.injEq, State.mk.injEq, and_true]
      refine ⟨by ring, by ring, ?_⟩
      push_cast
      ring

theorem edges_square_footprint (w : α) :
    edges (square_footprint w) =
      [(⟨w, w⟩, ⟨-w, w⟩), (⟨-w, w⟩, ⟨-w, -w⟩), (⟨-w, -w⟩, ⟨w, -w⟩), (⟨w, -w⟩, ⟨w, w⟩)] :=
  rfl

theorem corner_steps : (forRange (0 : ℚ) corner_planner.predict_time_ corner_planner.dt_).length
    = 31 := by
  have hdt : (0 : ℚ) < corner_planner.dt_ := by
    norm_num [corner_planner, square_planner, DWAPlanner.construct, Params.defaults]
  refine forRange_length _ hdt 30 0 _ ?_ ?_
  · norm_num [corner_planner, square_planner, DWAPlanner.construct, Params.defaults]
  · rw [Nat.floor_eq_iff]
    · norm_num [corner_planner, square_planner, DWAPlanner.construct, Params.defaults]
    · norm_num [corner_planner, square_planner, DWAPlanner.construct, Params.defaults]

/-- C4 (the code contradicts it): for the square robot of half-width 1 with the goal
`(-1, 0, 0)` behind it and an obstacle at `(6/5, 0)`, and every library that is exact on the
axes and within 0.015 of `cos` and `sin` at 0.64 rad: `can_adjust_robot_direction` submits
to `check_collision` the trajectory of velocity 0 and yaw-rate 0 (the clamped goal heading)
and accepts, `calc_cmd_vel` emits the rotation of yaw-rate 4/5 (the clamped bearing), and
the trajectory of that rotation collides: after 8 steps a corner has swept over the
obstacle. -/
theorem C4_emitted_rotation_unchecked_and_collides (L : Libm ℚ)
    (hcos0 : L.cos 0 = 1) (hsin0 : L.sin 0 = 0)
    (hatan : M_PI ≤ L.atan2 0 (-1)) (hhyp : L.hypot (-1) 0 = 1)
    (hrot : L.cos (16 / 25) ^ 2 + L.sin (16 / 25) ^ 2 = 1)
    (hc : 79 / 100 < L.cos (16 / 25) ∧ L.cos (16 / 25) < 82 / 100)
    (hs : 58 / 100 < L.sin (16 / 25) ∧ L.sin (16 / 25) < 61 / 100) :
    can_adjust_robot_direction L corner_planner corner_planner.local_goal_ =
      (generate_trajectory L corner_planner 0 0).map
        (fun traj => !check_collision L corner_planner traj) ∧
    can_adjust_robot_direction L corner_planner corner_planner.local_goal_ = some true ∧
    calc_cmd_vel L corner_planner = some (⟨0, 4 / 5⟩, corner_planner) ∧
    ∃ traj, generate_trajectory L corner_planner 0 (4 / 5) = some traj ∧
      check_collision L corner_planner traj = true := by
  have hdt : (0 : ℚ) < corner_planner.dt_ := by
    norm_num [corner_planner, square_planner, DWAPlanner.construct, Params.defaults]
  have hT : (0 : ℚ) ≤ corner_planner.predict_time_ := by
    norm_num [corner_planner, square_planner, DWAPlanner.construct, Params.defaults]
  have hdtv : corner_planner.dt_ = 1 / 10 := rfl
  have hgoal : corner_planner.local_goal_ = ⟨-1, 0, 0⟩ := rfl
  have hth : corner_planner.angle_to_goal_th_ = M_PI := rfl
  have hmax : corner_planner.max_yawrate_ = 4 / 5 := rfl
  have hdist : corner_planner.dist_to_goal_th_ = 3 / 10 := rfl
  have hobs : corner_planner.obs_list_ = [⟨6 / 5, 0⟩] := rfl
  have hfp : corner_planner.footprint_ = square_footprint 1 := rfl
  have hpi3 : (3 : ℚ) < M_PI := by norm_num [M_PI]
  have hpi : ¬ abs (L.atan2 corner_planner.local_goal_.y corner_planner.local_goal_.x) <
      corner_planner.angle_to_goal_th_ := by
    rw [hgoal, hth, not_lt]
    exact le_trans hatan (le_abs_self _)
  have hclamp : min (max corner_planner.local_goal_.yaw (-corner_planner.max_yawrate_))
      corner_planner.max_yawrate_ = 0 := by
    rw [hgoal, hmax]; norm_num
  have hemit : min (max (L.atan2 corner_planner.local_goal_.y corner_planner.local_goal_.x)
      (-corner_planner.max_yawrate_)) corner_planner.max_yawrate_ = 4 / 5 := by
    rw [hgoal, hmax]
    have h1 : (4 : ℚ) / 5 ≤ L.atan2 0 (-1) := by linarith
    rw [max_eq_left (by linarith), min_eq_right h1]
  have hadj := can_adjust_robot_direction_eq L corner_planner corner_planner.local_goal_ hpi
  rw [hclamp] at hadj
  -- the checked trajectory: the robot stands still, the obstacle is outside the square
  have hstill : check_collision L corner_planner
      (rollout L corner_planner 0 0 (forRange 0 corner_planner.predict_time_
        corner_planner.dt_) State.origin) = false := by
    unfold check_collision
    rw [List.any_eq_false]
    intro state hstate
    obtain ⟨i, hi⟩ := List.getElem?_of_mem hstate
    have hlen : i < (forRange (0 : ℚ) corner_planner.predict_time_ corner_planner.dt_).length := by
      have := (List.getElem?_eq_some_iff.mp hi).1
      rwa [rollout_length] at this
    rw [rollout_spin L corner_planner 0 _ _ i hlen] at hi
    simp only [State.origin, zero_mul, mul_zero, add_zero, Option.some.injEq] at hi
    subst hi
    rw [hobs]
    simp only [List.any_cons, List.any_nil, Bool.or_false, Bool.not_eq_true]
    by_contra hne
    have hin : is_inside_of_robot (⟨6 / 5, 0⟩ : Point ℚ)
        (transform_footprint L corner_planner ⟨0, 0, 0, 0, 0⟩) ⟨0, 0, 0, 0, 0⟩ = true := by
      simpa using hne
    have hbox := is_inside_of_robot_square L corner_planner ⟨0, 0, 0, 0, 0⟩ 1 ⟨6 / 5, 0⟩
      (by norm_num) (fun v hv => hfp ▸ hv) (by simp only [hcos0, hsin0]; norm_num) hin
    simp only [robot_frame, hcos0, hsin0] at hbox
    have := hbox.1
    rw [abs_lt] at this
    norm_num at this
  have htrue : can_adjust_robot_direction L corner_planner corner_planner.local_goal_ =
      some true := by
    rw [hadj, generate_trajectory_eq _ _ _ _ hdt]
    simp [hstill]
  refine ⟨hadj, htrue, ?_, _, generate_trajectory_eq _ _ _ _ hdt, ?_⟩
  · rw [calc_cmd_vel_rotate L corner_planner hdt hT ?_ htrue, hemit]
    left
    rw [hdist, hgoal, hhyp]
    norm_num
  · -- the emitted trajectory: after 8 steps the robot has turned 16/25 rad
    have h8 := rollout_spin L corner_planner (4 / 5)
      (forRange 0 corner_planner.predict_time_ corner_planner.dt_) State.origin 7
      (by rw [corner_steps]; norm_num)
    have hyaw : State.origin.yaw_ + (((7 : Nat) : ℚ) + 1) * (4 / 5 * corner_planner.dt_) =
        16 / 25 := by
      rw [hdtv]; norm_num [State.origin]
    rw [hyaw] at h8
    have hmem := List.getElem?_mem h8
    unfold check_collision
    rw [List.any_eq_true]
    refine ⟨_, hmem, ?_⟩
    rw [hobs]
    simp only [List.any_cons, List.any_nil, Bool.or_false]
    unfold is_inside_of_robot transform_footprint
    rw [edges_map, List.any_map, List.any_eq_true, hfp]
    refine ⟨(⟨1, -1⟩, ⟨1, 1⟩), by simp [edges_square_footprint], ?_⟩
    simp only [Function.comp, Prod.map, State.origin]
    refine Eq.trans (is_inside_of_triangle_transform (L.cos (16 / 25)) (L.sin (16 / 25)) 0 0
      hrot ⟨6 / 5, 0⟩ ⟨1, -1⟩ ⟨1, 1⟩) ?_
    simp only [is_inside_of_triangle, cross_z, decide_eq_true_eq]
    left
    obtain ⟨hc1, hc2⟩ := hc
    obtain ⟨hs1, hs2⟩ := hs
    refine ⟨?_, ?_, ?_⟩ <;> norm_num <;> linarith

theorem C4_emitted_rotation_unchecked_and_collides_witness :
    Libm.threeFourFive.cos 0 = 1 ∧ Libm.threeFourFive.sin 0 = 0 ∧
    M_PI ≤ Libm.threeFourFive.atan2 0 (-1) ∧ Libm.threeFourFive.hypot (-1) 0 = 1 ∧
    Libm.threeFourFive.cos (16 / 25) ^ 2 + Libm.threeFourFive.sin (16 / 25) ^ 2 = 1 ∧
    (79 / 100 < Libm.threeFourFive.cos (16 / 25) ∧
      Libm.threeFourFive.cos (16 / 25) < 82 / 100) ∧
    (58 / 100 < Libm.threeFourFive.sin (16 / 25) ∧
      Libm.threeFourFive.sin (16 / 25) < 61 / 100) ∧
    can_adjust_robot_direction Libm.threeFourFive corner_planner corner_planner.local_goal_ =
      some true ∧
    calc_cmd_vel Libm.threeFourFive corner_planner = some (⟨0, 4 / 5⟩, corner_planner) ∧
    ∃ traj, generate_trajectory Libm.threeFourFive corner_planner 0 (4 / 5) = some traj ∧
      check_collision Libm.threeFourFive corner_planner traj = true :=
  have h1 : Libm.threeFourFive.cos 0 = 1 := by norm_num [Libm.threeFourFive]
  have h2 : Libm.threeFourFive.sin 0 = 0 := by norm_num [Libm.threeFourFive]
  have h3 : M_PI ≤ Libm.threeFourFive.atan2 0 (-1) := by
    norm_num [Libm.threeFourFive, Libm.onAxes]
  have h4 : Libm.threeFourFive.hypot (-1) 0 = 1 := by
    norm_num [Libm.threeFourFive, Libm.onAxes]
  have h5 : Libm.threeFourFive.cos (16 / 25) ^ 2 + Libm.threeFourFive.sin (16 / 25) ^ 2 = 1 := by
    norm_num [Libm.threeFourFive]
  have h6 : 79 / 100 < Libm.threeFourFive.cos (16 / 25) ∧
      Libm.threeFourFive.cos (16 / 25) < 82 / 100 := by
    norm_num [Libm.threeFourFive]
  have h7 : 58 / 100 < Libm.threeFourFive.sin (16 / 25) ∧
      Libm.threeFourFive.sin (16 / 25) < 61 / 100 := by
    norm_num [Libm.threeFourFive]
  ⟨h1, h2, h3, h4, h5, h6, h7,
    (C4_emitted_rotation_unchecked_and_collides Libm.threeFourFive h1 h2 h3 h4 h5 h6 h7).2⟩

/-! ## The staleness watchdog -/

theorem publish_selected_eq (p : DWAPlanner α) (best_traj : List (State α))
    (result r : Twist α × DWAPlanner α) (h : publish_selected p best_traj result = some r) :
    r = result := by
  unfold publish_selected at h
  split at h
  · exact absurd h (by simp)
  · exact (Option.some.inj h).symm

/-- The function `calc_cmd_vel` writes `has_reached_` and `has_finished_` only. -/
theorem calc_cmd_vel_watchdog (L : Libm α) (p p1 : DWAPlanner α) (cmd_vel : Twist α)
    (h : calc_cmd_vel L p = some (cmd_vel, p1)) : p1.watchdog = p.watchdog := by
  unfold calc_cmd_vel at h
  simp only at h
  split at h
  · split at h
    · exact absurd h (by simp)
    · split at h
      · exact absurd h (by simp)
      · have := publish_selected_eq _ _ _ _ h
        rw [Prod.mk.injEq] at this
        rw [this.2]
    · split at h
      · exact absurd h (by simp)
      · split at h
        · exact absurd h (by simp)
        · have := publish_selected_eq _ _ _ _ h
          rw [Prod.mk.injEq] at this
          rw [this.2]
  · split at h
    · exact absurd h (by simp)
    · have := publish_selected_eq _ _ _ _ h
      rw [Prod.mk.injEq] at this
      rw [this.2]
      split <;> rfl

/-- What one callback does to the watchdog fields. -/
theorem callback_watchdog (L : Libm α) (p p1 : DWAPlanner α) (e : Event α)
    (h : callback L p e = some p1) :
    p1.subscribe_count_th_ = p.subscribe_count_th_ ∧
    p1.use_scan_as_input_ = p.use_scan_as_input_ ∧
    (p.footprint_subscribed_ = true → p1.footprint_subscribed_ = true) ∧
    (p.local_goal_subscribed_ = true → p1.local_goal_subscribed_ = true) ∧
    (p.local_map_updated_ = true → p1.local_map_updated_ = true) ∧
    (p.scan_updated_ = true → p1.scan_updated_ = true) ∧
    (p.local_map_not_subscribe_count_ = 0 → p1.local_map_not_subscribe_count_ = 0) ∧
    (p.scan_not_subscribe_count_ = 0 → p1.scan_not_subscribe_count_ = 0) ∧
    (e.is_odom = false → p1.odom_updated_ = p.odom_updated_ ∧
      p1.odom_not_subscribe_count_ = p.odom_not_subscribe_count_) ∧
    (e.is_obstacle p.use_scan_as_input_ = true →
      (if p.use_scan_as_input_ = true then p1.scan_updated_ else p1.local_map_updated_) =
        true) := by
  cases e with
  | local_goal msg transformed =>
    cases transformed <;>
    · simp only [callback, Option.some.injEq] at h
      subst h
      simp [Event.is_odom, Event.is_obstacle]
  | scan msg =>
    simp only [callback, Option.some.injEq] at h
    subst h
    by_cases hs : p.use_scan_as_input_ = true <;> simp [Event.is_odom, Event.is_obstacle, hs]
  | local_map msg =>
    simp only [callback] at h
    split at h
    · rename_i hs
      simp only [Option.some.injEq] at h
      subst h
      simp [Event.is_odom, Event.is_obstacle, hs]
    · rename_i hs
      split at h
      · exact absurd h (by simp)
      · simp only [Option.some.injEq] at h
        subst h
        simp [Event.is_odom, Event.is_obstacle, hs]
  | odom twist =>
    simp only [callback, Option.some.injEq] at h
    subst h
    simp [Event.is_odom, Event.is_obstacle]
  | target_velocity v =>
    simp only [callback, Option.some.injEq] at h
    subst h
    simp [Event.is_odom, Event.is_obstacle]
  | footprint polygon =>
    simp only [callback, Option.some.injEq] at h
    subst h
    simp [Event.is_odom, Event.is_obstacle]
  | dist_to_goal_th d =>
    simp only [callback, Option.some.injEq] at h
    subst h
    simp [Event.is_odom, Event.is_obstacle]

/-- What `spinOnce` does to the watchdog fields. -/
theorem spinOnce_watchdog (L : Libm α) :
    ∀ (events : List (Event α)) (p p1 : DWAPlanner α), spinOnce L p events = some p1 →
      p1.subscribe_count_th_ = p.subscribe_count_th_ ∧
      p1.use_scan_as_input_ = p.use_scan_as_input_ ∧
      (p.footprint_subscribed_ = true → p1.footprint_subscribed_ = true) ∧
      (p.local_goal_subscribed_ = true → p1.local_goal_subscribed_ = true) ∧
      (p.local_map_updated_ = true → p1.local_map_updated_ = true) ∧
      (p.scan_updated_ = true → p1.scan_updated_ = true) ∧
      (p.local_map_not_subscribe_count_ = 0 → p1.local_map_not_subscribe_count_ = 0) ∧
      (p.scan_not_subscribe_count_ = 0 → p1.scan_not_subscribe_count_ = 0) ∧
      ((∀ e ∈ events, e.is_odom = false) → p1.odom_updated_ = p.odom_updated_ ∧
        p1.odom_not_subscribe_count_ = p.odom_not_subscribe_count_) ∧
      ((∃ e ∈ events, e.is_obstacle p.use_scan_as_input_ = true) →
        (if p.use_scan_as_input_ = true then p1.scan_updated_ else p1.local_map_updated_) =
          true) := by
  intro events
  induction events with
  | nil =>
    intro p p1 h
    simp only [spinOnce, List.foldlM_nil] at h
    have : p = p1 := Option.some.inj h
    subst this
    simp
  | cons e rest ih =>
    intro p p1 h
    simp only [spinOnce, List.foldlM_cons] at h
    cases hc : callback L p e with
    | none => rw [hc] at h; exact absurd h (by simp)
    | some p0 =>
      rw [hc] at h
      have hrest : spinOnce L p0 rest = some p1 := h
      obtain ⟨a1, a2, a3, a4, a5, a6, a7, a8, a9, a10⟩ := callback_watchdog L p p0 e hc
      obtain ⟨b1, b2, b3, b4, b5, b6, b7, b8, b9, b10⟩ := ih p0 p1 hrest
      refine ⟨b1.trans a1, b2.trans a2, fun x => b3 (a3 x), fun x => b4 (a4 x),
        fun x => b5 (a5 x), fun x => b6 (a6 x), fun x => b7 (a7 x), fun x => b8 (a8 x), ?_, ?_⟩
      · intro hno
        have h1 := a9 (hno e (List.mem_cons_self _ _))
        have h2 := b9 (fun e' he' => hno e' (List.mem_cons_of_mem _ he'))
        exact ⟨h2.1.trans h1.1, h2.2.trans h1.2⟩
      · rintro ⟨e', he', hobs⟩
        rcases List.mem_cons.mp he' with rfl | hin
        · have h1 := a10 hobs
          by_cases hs : p.use_scan_as_input_ = true
          · simp only [hs, if_true] at h1 ⊢
            exact b6 h1
          · simp only [hs, if_false] at h1 ⊢
            exact b5 h1
        · have h2 := b10 ⟨e', hin, by rw [a2]; exact hobs⟩
          rw [a2] at h2
          exact h2

/-- The parts of a pass of the loop that returned. -/
theorem process_iteration_some (L : Libm α) (p p1 : DWAPlanner α) (events : List (Event α))
    (out : Published α) (h : process_iteration L p events = some (out, p1)) :
    ∃ (cmd_vel : Twist α) (p2 : DWAPlanner α),
      p2.watchdog = (can_move p).2.watchdog ∧
      ((can_move p).1 = false → cmd_vel = Twist.zero) ∧
      out = ⟨(can_move p).1, cmd_vel, p2.has_finished_⟩ ∧
      spinOnce L { p2 with
        scan_updated_ := if p2.use_scan_as_input_ then false else p2.scan_updated_
        local_map_updated_ := if p2.use_scan_as_input_ then p2.local_map_updated_ else false
        odom_updated_ := false
        has_finished_ := false } events = some p1 := by
  unfold process_iteration at h
  simp only at h
  split at h
  · exact absurd h (by simp)
  · rename_i cmd_vel p2 hstep
    split at h
    · exact absurd h (by simp)
    · rename_i p4 hspin
      simp only [Option.some.injEq, Prod.mk.injEq] at h
      refine ⟨cmd_vel, p2, ?_, ?_, h.1.symm, h.2 ▸ hspin⟩
      · by_cases hg : (can_move p).1 = true
        · rw [if_pos hg] at hstep
          exact calc_cmd_vel_watchdog L _ _ _ hstep
        · rw [if_neg hg] at hstep
          simp only [Option.some.injEq, Prod.mk.injEq] at hstep
          rw [hstep.2]
      · intro hg
        rw [if_neg (by simp [hg])] at hstep
        simp only [Option.some.injEq, Prod.mk.injEq] at hstep
        exact hstep.1.symm

/-- One pass of the loop with stale odometry and everything else in order. -/
theorem process_iteration_odom_stale (L : Libm α) (p p1 : DWAPlanner α)
    (events : List (Event α)) (out : Published α) (n : Nat)
    (h : process_iteration L p events = some (out, p1))
    (hw : p.watchdog.odom_stale_for n)
    (hno : ∀ e ∈ events, e.is_odom = false)
    (hobs : ∃ e ∈ events, e.is_obstacle p.use_scan_as_input_ = true) :
    (out.moved = true ↔ (n : Int) + 1 ≤ p.subscribe_count_th_) ∧
    (out.moved = false → out.cmd_vel = Twist.zero) ∧
    p1.watchdog.odom_stale_for ((n + 1 : Nat) : Int) ∧
    p1.subscribe_count_th_ = p.subscribe_count_th_ ∧
    p1.use_scan_as_input_ = p.use_scan_as_input_ := by
  obtain ⟨cmd_vel, p2, hw2, hzero, hout, hspin⟩ := process_iteration_some L p p1 events out h
  obtain ⟨f1, f2, f3, f4, f5, f6, f7, f8⟩ := hw
  simp only [DWAPlanner.watchdog] at f1 f2 f3 f4 f5 f6 f7 f8
  simp only [DWAPlanner.watchdog, Watchdog.mk.injEq, can_move, f3, f4, f5, f6, f7, f8] at hw2
  obtain ⟨g1, g2, g3, g4, g5, g6, g7, g8, g9, g10⟩ := hw2
  have hmoved : (can_move p).1 = decide ((n : Int) + 1 ≤ p.subscribe_count_th_) := by
    simp only [can_move, f1, f2, f3, f4, f5, f6, f7, f8]
    by_cases hle : (n : Int) + 1 ≤ p.subscribe_count_th_
    · have h0 : (0 : Int) ≤ p.subscribe_count_th_ := by omega
      simp [hle, h0]
    · simp [hle]
  obtain ⟨s1, s2, s3, s4, s5, s6, s7, s8, s9, s10⟩ := spinOnce_watchdog L events _ p1 hspin
  simp only at s1 s2 s3 s4 s5 s6 s7 s8 s9 s10
  have hodom := s9 hno
  have hfresh := s10 (by rw [g1]; exact hobs)
  refine ⟨?_, ?_, ?_, s1.trans g2, s2.trans g1⟩
  · rw [hout]
    simp [hmoved]
  · rw [hout]
    intro hm
    exact hzero hm
  · simp only [Watchdog.odom_stale_for, DWAPlanner.watchdog]
    refine ⟨s3 (g3.trans f1), s4 (g4.trans f2), hodom.1, ?_, ?_, ?_, s7 g9, s8 g10⟩
    · by_cases hs : p2.use_scan_as_input_ = true
      · simp only [hs, if_true] at s5
        exact s5 g6
      · simp only [hs, if_false] at hfresh
        exact hfresh
    · by_cases hs : p2.use_scan_as_input_ = true
      · simp only [hs, if_true] at hfresh
        exact hfresh
      · simp only [hs, if_false] at s6
        exact s6 g7
    · rw [hodom.2, g8]
      push_cast
      ring

theorem process_cons_some (L : Libm α) (p p' : DWAPlanner α) (events : List (Event α))
    (rest : List (List (Event α))) (outs : List (Published α))
    (h : process L p (events :: rest) = some (outs, p')) :
    ∃ out p1 outs1, process_iteration L p events = some (out, p1) ∧
      process L p1 rest = some (outs1, p') ∧ outs = out :: outs1 := by
  simp only [process] at h
  split at h
  · exact absurd h (by simp)
  · rename_i out p1 hit
    split at h
    · exact absurd h (by simp)
    · rename_i outs1 p2 hrest
      simp only [Option.some.injEq, Prod.mk.injEq] at h
      exact ⟨out, p1, outs1, hit, h.2 ▸ hrest, h.1.symm⟩

/-- A run of the loop with stale odometry and everything else in order, started when
odometry has been stale for `n` passes. -/
theorem process_odom_stale (L : Libm α) :
    ∀ (ticks : List (List (Event α))) (p p' : DWAPlanner α) (outs : List (Published α))
      (n : Nat),
      process L p ticks = some (outs, p') →
      p.watchdog.odom_stale_for n →
      (∀ events ∈ ticks, ∀ e ∈ events, e.is_odom = false) →
      (∀ events ∈ ticks, ∃ e ∈ events, e.is_obstacle p.use_scan_as_input_ = true) →
      outs.length = ticks.length ∧
      p'.watchdog.odom_stale_for ((n + ticks.length : Nat) : Int) ∧
      ∀ (k : Nat) (out : Published α), outs[k]? = some out →
        (out.moved = true ↔ (n : Int) + k + 1 ≤ p.subscribe_count_th_) ∧
        (out.moved = false → out.cmd_vel = Twist.zero) := by
  intro ticks
  induction ticks with
  | nil =>
    intro p p' outs n h hw _ _
    simp only [process, Option.some.injEq, Prod.mk.injEq] at h
    obtain ⟨rfl, rfl⟩ := h
    refine ⟨rfl, by simpa using hw, ?_⟩
    intro k out hk
    simp at hk
  | cons events rest ih =>
    intro p p' outs n h hw hno hobs
    obtain ⟨out, p1, outs1, hit, hrest, rfl⟩ := process_cons_some L p p' events rest outs h
    obtain ⟨i1, i2, i3, i4, i5⟩ := process_iteration_odom_stale L p p1 events out n hit hw
      (hno events (List.mem_cons_self _ _)) (hobs events (List.mem_cons_self _ _))
    obtain ⟨r1, r2, r3⟩ := ih p1 p' outs1 (n + 1) hrest i3
      (fun ev hev => hno ev (List.mem_cons_of_mem _ hev))
      (fun ev hev => by rw [i5]; exact hobs ev (List.mem_cons_of_mem _ hev))
    refine ⟨by simp [r1], ?_, ?_⟩
    · have : n + 1 + rest.length = n + (events :: rest).length := by
        simp only [List.length_cons]; omega
      rw [← this]
      exact r2
    · intro k out' hk
      cases k with
      | zero =>
        simp only [List.getElem?_cons_zero, Option.some.injEq] at hk
        subst hk
        simpa using ⟨i1, i2⟩
      | succ k =>
        simp only [List.getElem?_cons_succ] at hk
        have := r3 k out' hk
        rw [i4] at this
        refine ⟨?_, this.2⟩
        rw [this.1]
        push_cast
        constructor <;> intro hh <;> omega

/-- C5: start from a state in which footprint and goal have been received, every
staleness counter is 0, the obstacle flags are set and the odometry flag is clear, and let the
loop make `ticks.length` passes in which no odometry arrives and the obstacle input of the
configured mode arrives in every pass. Then the `k`-th pass (counting from 1) has `can_move`
true exactly when `k ≤ subscribe_count_th_`, every pass in which `can_move` is false
publishes the zero command, and after the run the odometry counter equals the number of
passes. -/
theorem C5_stale_odometry_refused_after_threshold (L : Libm α) (p p' : DWAPlanner α)
    (ticks : List (List (Event α))) (outs : List (Published α))
    (hstart : p.watchdog.odom_stale_for 0)
    (hno : ∀ events ∈ ticks, ∀ e ∈ events, e.is_odom = false)
    (hobs : ∀ events ∈ ticks, ∃ e ∈ events, e.is_obstacle p.use_scan_as_input_ = true)
    (hrun : process L p ticks = some (outs, p')) :
    outs.length = ticks.length ∧
    p'.odom_not_subscribe_count_ = (ticks.length : Int) ∧
    ∀ (k : Nat) (out : Published α), outs[k]? = some out →
      (out.moved = true ↔ (k : Int) + 1 ≤ p.subscribe_count_th_) ∧
      (out.moved = false → out.cmd_vel = Twist.zero) := by
  obtain ⟨h1, h2, h3⟩ := process_odom_stale L ticks p p' outs 0 hrun (by simpa using hstart)
    hno hobs
  refine ⟨h1, ?_, ?_⟩
  · have := h2.2.2.2.2.2.1
    simpa [DWAPlanner.watchdog] using this
  · intro k out hk
    simpa using h3 k out hk

/-! ## The loop keeps running -/

theorem calc_cmd_vel_horizon (L : Libm α) (p p1 : DWAPlanner α) (cmd_vel : Twist α)
    (h : calc_cmd_vel L p = some (cmd_vel, p1)) :
    p1.dt_ = p.dt_ ∧ p1.predict_time_ = p.predict_time_ := by
  unfold calc_cmd_vel at h
  simp only at h
  split at h
  · split at h
    · exact absurd h (by simp)
    · split at h
      · exact absurd h (by simp)
      · have := publish_selected_eq _ _ _ _ h
        rw [Prod.mk.injEq] at this
        rw [this.2]
        exact ⟨rfl, rfl⟩
    · split at h
      · exact absurd h (by simp)
      · split at h
        · exact absurd h (by simp)
        · have := publish_selected_eq _ _ _ _ h
          rw [Prod.mk.injEq] at this
          rw [this.2]
          exact ⟨rfl, rfl⟩
  · split at h
    · exact absurd h (by simp)
    · have := publish_selected_eq _ _ _ _ h
      rw [Prod.mk.injEq] at this
      rw [this.2]
      split <;> exact ⟨rfl, rfl⟩

theorem callback_horizon (L : Libm α) (p p1 : DWAPlanner α) (e : Event α)
    (h : callback L p e = some p1) :
    p1.dt_ = p.dt_ ∧ p1.predict_time_ = p.predict_time_ := by
  cases e with
  | local_goal msg transformed =>
    cases transformed <;>
    · simp only [callback, Option.some.injEq] at h
      subst h
      exact ⟨rfl, rfl⟩
  | local_map msg =>
    simp only [callback] at h
    split at h
    · simp only [Option.some.injEq] at h
      subst h
      exact ⟨rfl, rfl⟩
    · split at h
      · exact absurd h (by simp)
      · simp only [Option.some.injEq] at h
        subst h
        exact ⟨rfl, rfl⟩
  | scan msg | odom twist | target_velocity v | footprint polygon | dist_to_goal_th d =>
    simp only [callback, Option.some.injEq] at h
    subst h
    exact ⟨rfl, rfl⟩

/-- In scan mode every callback returns: `raycast` is not called. -/
theorem callback_isSome_of_scan (L : Libm α) (p : DWAPlanner α) (e : Event α)
    (hs : p.use_scan_as_input_ = true) : ∃ p1, callback L p e = some p1 := by
  cases e with
  | local_goal msg transformed => cases transformed <;> exact ⟨_, rfl⟩
  | local_map msg => simp [callback, hs]
  | scan msg | odom twist | target_velocity v | footprint polygon | dist_to_goal_th d =>
    exact ⟨_, rfl⟩

theorem spinOnce_isSome_of_scan (L : Libm α) :
    ∀ (events : List (Event α)) (p : DWAPlanner α), p.use_scan_as_input_ = true →
      ∃ p1, spinOnce L p events = some p1 ∧ p1.dt_ = p.dt_ ∧
        p1.predict_time_ = p.predict_time_ ∧ p1.use_scan_as_input_ = true := by
  intro events
  induction events with
  | nil => intro p hs; exact ⟨p, rfl, rfl, rfl, hs⟩
  | cons e rest ih =>
    intro p hs
    obtain ⟨p0, h0⟩ := callback_isSome_of_scan L p e hs
    have hw := callback_watchdog L p p0 e h0
    have hh := callback_horizon L p p0 e h0
    obtain ⟨p1, h1, h2, h3, h4⟩ := ih p0 (hw.2.1.trans hs)
    refine ⟨p1, ?_, h2.trans hh.1, h3.trans hh.2, h4⟩
    simp only [spinOnce, List.foldlM_cons, h0]
    exact h1

/-- In scan mode, with well-defined rollouts, a pass of the loop returns. -/
theorem process_iteration_isSome (L : Libm α) (p : DWAPlanner α) (events : List (Event α))
    (hdt : 0 < p.dt_) (hT : 0 ≤ p.predict_time_) (hs : p.use_scan_as_input_ = true) :
    ∃ out p1, process_iteration L p events = some (out, p1) ∧ 0 < p1.dt_ ∧
      0 ≤ p1.predict_time_ ∧ p1.use_scan_as_input_ = true := by
  have hstep : ∃ cmd_vel p2, (if (can_move p).1 = true then calc_cmd_vel L (can_move p).2
      else some (Twist.zero, (can_move p).2)) = some (cmd_vel, p2) ∧ p2.dt_ = p.dt_ ∧
      p2.predict_time_ = p.predict_time_ ∧ p2.use_scan_as_input_ = true := by
    by_cases hg : (can_move p).1 = true
    · obtain ⟨⟨cmd_vel, p2⟩, h2⟩ := calc_cmd_vel_isSome L (can_move p).2 hdt hT
      have hh := calc_cmd_vel_horizon L _ _ _ h2
      have hw := calc_cmd_vel_watchdog L _ _ _ h2
      refine ⟨cmd_vel, p2, by rw [if_pos hg, h2], hh.1, hh.2, ?_⟩
      have := congrArg Watchdog.use_scan_as_input_ hw
      exact this.trans hs
    · exact ⟨Twist.zero, (can_move p).2, by rw [if_neg hg], rfl, rfl, hs⟩
  obtain ⟨cmd_vel, p2, h2, d2, t2, s2⟩ := hstep
  obtain ⟨p4, h4, d4, t4, s4⟩ := spinOnce_isSome_of_scan L events
    { p2 with
      scan_updated_ := if p2.use_scan_as_input_ then false else p2.scan_updated_
      local_map_updated_ := if p2.use_scan_as_input_ then p2.local_map_updated_ else false
      odom_updated_ := false
      has_finished_ := false } s2
  refine ⟨⟨(can_move p).1, cmd_vel, p2.has_finished_⟩, p4, ?_, ?_, ?_, s4⟩
  · unfold process_iteration
    simp only [h2, h4]
  · rw [d4]; exact d2 ▸ hdt
  · rw [t4]; exact t2 ▸ hT

theorem process_isSome (L : Libm α) :
    ∀ (ticks : List (List (Event α))) (p : DWAPlanner α), 0 < p.dt_ → 0 ≤ p.predict_time_ →
      p.use_scan_as_input_ = true → ∃ outs p', process L p ticks = some (outs, p') := by
  intro ticks
  induction ticks with
  | nil => intro p _ _ _; exact ⟨[], p, rfl⟩
  | cons events rest ih =>
    intro p hdt hT hs
    obtain ⟨out, p1, h1, d1, t1, s1⟩ := process_iteration_isSome L p events hdt hT hs
    obtain ⟨outs, p', h'⟩ := ih p1 d1 t1 s1
    exact ⟨out :: outs, p', by simp only [process, h1, h']⟩

theorem C5_stale_odometry_refused_after_threshold_witness :
    fresh_scan_planner.watchdog.odom_stale_for 0 ∧
    (∀ events ∈ four_scans, ∀ e ∈ events, e.is_odom = false) ∧
    (∀ events ∈ four_scans, ∃ e ∈ events,
      e.is_obstacle fresh_scan_planner.use_scan_as_input_ = true) ∧
    ∃ outs p', process Libm.onAxes fresh_scan_planner four_scans = some (outs, p') ∧
      outs.length = four_scans.length ∧
      p'.odom_not_subscribe_count_ = (four_scans.length : Int) ∧
      ∀ (k : Nat) (out : Published ℚ), outs[k]? = some out →
        (out.moved = true ↔ (k : Int) + 1 ≤ fresh_scan_planner.subscribe_count_th_) ∧
        (out.moved = false → out.cmd_vel = Twist.zero) := by
  have hstart : fresh_scan_planner.watchdog.odom_stale_for 0 := by
    simp [Watchdog.odom_stale_for, DWAPlanner.watchdog, fresh_scan_planner, scan_planner,
      DWAPlanner.construct, Params.defaults]
  have hno : ∀ events ∈ four_scans, ∀ e ∈ events, e.is_odom = false := by
    simp [four_scans, Event.is_odom]
  have hobs : ∀ events ∈ four_scans, ∃ e ∈ events,
      e.is_obstacle fresh_scan_planner.use_scan_as_input_ = true := by
    simp [four_scans, Event.is_obstacle, fresh_scan_planner, scan_planner,
      DWAPlanner.construct, Params.defaults]
  obtain ⟨outs, p', hrun⟩ := process_isSome Libm.onAxes four_scans fresh_scan_planner
    (by norm_num [fresh_scan_planner, scan_planner, DWAPlanner.construct, Params.defaults])
    (by norm_num [fresh_scan_planner, scan_planner, DWAPlanner.construct, Params.defaults])
    rfl
  exact ⟨hstart, hno, hobs, outs, p', hrun,
    C5_stale_odometry_refused_after_threshold Libm.onAxes fresh_scan_planner p' four_scans
      outs hstart hno hobs hrun⟩

/-- One pass of the loop in which no odometry arrives, started with the odometry flag
clear. -/
theorem process_iteration_no_odom (L : Libm α) (p p1 : DWAPlanner α)
    (events : List (Event α)) (out : Published α) (n : Nat)
    (h : process_iteration L p events = some (out, p1))
    (hflag : p.odom_updated_ = false) (hcount : p.odom_not_subscribe_count_ = n)
    (hno : ∀ e ∈ events, e.is_odom = false) :
    (out.moved = true → (n : Int) + 1 ≤ p.subscribe_count_th_) ∧
    p1.odom_updated_ = false ∧ p1.odom_not_subscribe_count_ = ((n + 1 : Nat) : Int) ∧
    p1.subscribe_count_th_ = p.subscribe_count_th_ := by
  obtain ⟨cmd_vel, p2, hw2, _, hout, hspin⟩ := process_iteration_some L p p1 events out h
  simp only [DWAPlanner.watchdog, Watchdog.mk.injEq, can_move, hflag, hcount] at hw2
  obtain ⟨g1, g2, g3, g4, g5, g6, g7, g8, g9, g10⟩ := hw2
  obtain ⟨s1, s2, s3, s4, s5, s6, s7, s8, s9, s10⟩ := spinOnce_watchdog L events _ p1 hspin
  simp only at s1 s9
  have hodom := s9 hno
  refine ⟨?_, hodom.1, ?_, s1.trans g2⟩
  · rw [hout]
    simp only [can_move, hflag, hcount]
    intro hm
    simp only [Bool.and_eq_true, decide_eq_true_eq] at hm
    simpa using hm.1.1.2
  · rw [hodom.2, g8]
    push_cast
    ring

/-- A run of the loop in which no odometry arrives, started with the odometry flag clear
and the odometry counter at `n`. -/
theorem process_no_odom (L : Libm α) :
    ∀ (ticks : List (List (Event α))) (p p' : DWAPlanner α) (outs : List (Published α))
      (n : Nat),
      process L p ticks = some (outs, p') →
      p.odom_updated_ = false → p.odom_not_subscribe_count_ = n →
      (∀ events ∈ ticks, ∀ e ∈ events, e.is_odom = false) →
      p'.odom_not_subscribe_count_ = ((n + ticks.length : Nat) : Int) ∧
      ∀ (k : Nat) (out : Published α), outs[k]? = some out → out.moved = true →
        (n : Int) + k + 1 ≤ p.subscribe_count_th_ := by
  intro ticks
  induction ticks with
  | nil =>
    intro p p' outs n h _ hcount _
    simp only [process, Option.some.injEq, Prod.mk.injEq] at h
    obtain ⟨rfl, rfl⟩ := h
    refine ⟨by simpa using hcount, ?_⟩
    intro k out hk
    simp at hk
  | cons events rest ih =>
    intro p p' outs n h hflag hcount hno
    obtain ⟨out, p1, outs1, hit, hrest, rfl⟩ := process_cons_some L p p' events rest outs h
    obtain ⟨i1, i2, i3, i4⟩ := process_iteration_no_odom L p p1 events out n hit hflag hcount
      (hno events (List.mem_cons_self _ _))
    obtain ⟨r1, r2⟩ := ih p1 p' outs1 (n + 1) hrest i2 i3
      (fun ev hev => hno ev (List.mem_cons_of_mem _ hev))
    refine ⟨?_, ?_⟩
    · have : n + 1 + rest.length = n + (events :: rest).length := by
        simp only [List.length_cons]; omega
      rw [← this]
      exact r1
    · intro k out' hk hm
      cases k with
      | zero =>
        simp only [List.getElem?_cons_zero, Option.some.injEq] at hk
        subst hk
        simpa using i1 hm
      | succ k =>
        simp only [List.getElem?_cons_succ] at hk
        have := r2 k out' hk hm
        rw [i4] at this
        push_cast at this ⊢
        omega

/-- C6 (as stated, refuted): the default planner in scan mode, never given odometry,
receives the goal and a scan during the first pass of the loop; `can_move` then returns true
in the second pass. -/
theorem C6_second_pass_moves_without_odometry :
    (process_iteration Libm.onAxes scan_planner goal_and_scan).map
      (fun r => (can_move r.2).1) = some true := by
  simp [process_iteration, can_move, spinOnce, callback, scan_planner, goal_and_scan,
    DWAPlanner.construct, Params.defaults, scan_to_obs, scan_to_obs_loop]

/-- C6 (amended): if odometry has never been received since construction, then after
`k` passes of the loop the odometry counter is `k`, and `can_move` returns false in the
`k`-th pass whenever `k > SUBSCRIBE_COUNT_TH`; it is not refused on account of odometry in the
first `SUBSCRIBE_COUNT_TH` passes. -/
theorem C6_never_received_odometry_refused_after_threshold (L : Libm α) (c : Params α)
    (ticks : List (List (Event α))) (outs : List (Published α)) (p' : DWAPlanner α)
    (hno : ∀ events ∈ ticks, ∀ e ∈ events, e.is_odom = false)
    (hrun : process L (DWAPlanner.construct c) ticks = some (outs, p')) :
    p'.odom_not_subscribe_count_ = (ticks.length : Int) ∧
    ∀ (k : Nat) (out : Published α), outs[k]? = some out →
      c.SUBSCRIBE_COUNT_TH < (k : Int) + 1 → out.moved = false := by
  obtain ⟨h1, h2⟩ := process_no_odom L ticks (DWAPlanner.construct c) p' outs 0 hrun rfl rfl hno
  refine ⟨by simpa using h1, ?_⟩
  intro k out hk hlt
  by_contra hm
  have hm' : out.moved = true := by simpa using hm
  have := h2 k out hk hm'
  have hth : (DWAPlanner.construct c).subscribe_count_th_ = c.SUBSCRIBE_COUNT_TH := rfl
  rw [hth] at this
  push_cast at this
  omega

theorem C6_never_received_odometry_refused_after_threshold_witness :
    (∀ events ∈ goal_and_scan :: four_scans, ∀ e ∈ events, e.is_odom = false) ∧
    ∃ outs p', process Libm.onAxes
        (DWAPlanner.construct { (Params.defaults : Params ℚ) with USE_SCAN_AS_INPUT := true })
        (goal_and_scan :: four_scans) = some (outs, p') ∧
      p'.odom_not_subscribe_count_ = ((goal_and_scan :: four_scans).length : Int) ∧
      ∀ (k : Nat) (out : Published ℚ), outs[k]? = some out →
        ({ (Params.defaults : Params ℚ) with USE_SCAN_AS_INPUT := true }).SUBSCRIBE_COUNT_TH
          < (k : Int) + 1 → out.moved = false := by
  have hno : ∀ events ∈ goal_and_scan :: four_scans, ∀ e ∈ events, e.is_odom = false := by
    simp [four_scans, goal_and_scan, Event.is_odom]
  obtain ⟨outs, p', hrun⟩ := process_isSome Libm.onAxes (goal_and_scan :: four_scans)
    (DWAPlanner.construct { (Params.defaults : Params ℚ) with USE_SCAN_AS_INPUT := true })
    (by norm_num [DWAPlanner.construct, Params.defaults])
    (by norm_num [DWAPlanner.construct, Params.defaults]) rfl
  exact ⟨hno, outs, p', hrun,
    C6_never_received_odometry_refused_after_threshold Libm.onAxes _ _ outs p' hno hrun⟩

/-! ## The dynamic window -/

/-- C11: `check_collision` returns true exactly when some state of the trajectory and some
obstacle of `obs_list_` pass `is_inside_of_robot` on the footprint transformed to that
state. -/
theorem C11_check_collision_iff (L : Libm α) (p : DWAPlanner α) (traj : List (State α)) :
    check_collision L p traj = true ↔
      ∃ state ∈ traj, ∃ obs ∈ p.obs_list_,
        is_inside_of_robot obs (transform_footprint L p state) state = true := by
  simp only [check_collision, List.any_eq_true]

/-- A clearance below `DBL_EPSILON` anywhere in the visiting order makes the two loops of
`calc_obs_cost` return `1e6`, whatever the running minimum. -/
theorem calc_obs_cost_loop_collision :
    ∀ (ds : List (Option α)) (min_dist d : α), some d ∈ ds → d < DBL_EPSILON →
      calc_obs_cost_loop ds min_dist = SENTINEL := by
  intro ds
  induction ds with
  | nil => intro _ _ h; simp at h
  | cons x rest ih =>
    intro min_dist d hmem hd
    cases x with
    | none =>
      simp only [calc_obs_cost_loop]
      exact ih min_dist d (by simpa using hmem) hd
    | some d0 =>
      simp only [calc_obs_cost_loop]
      by_cases h0 : d0 < DBL_EPSILON
      · simp [h0]
      · simp only [h0, if_false]
        rcases List.mem_cons.mp hmem with heq | hin
        · exact absurd (Option.some.inj heq ▸ hd) h0
        · exact ih _ d hin hd

theorem mem_clearances (L : Libm α) (p : DWAPlanner α) (traj : List (State α))
    (x : Option α) :
    x ∈ traj.flatMap (fun state => p.obs_list_.map (fun obs => clearance L p state obs)) ↔
      ∃ state ∈ traj, ∃ obs ∈ p.obs_list_, clearance L p state obs = x := by
  simp only [List.mem_flatMap, List.mem_map]

/-- C12: in point-robot mode, when some obstacle has the coordinates of some state of the
trajectory (and `hypot(0, 0) = 0`), `calc_obs_cost` returns the collision sentinel `1e6`,
wherever the pair comes in the visiting order and whatever the other clearances are;
`evaluate_trajectory` returns with `obs_cost_gain_` times that as obstacle cost. -/
theorem C12_coincident_obstacle_costs_sentinel (L : Libm α) (p : DWAPlanner α)
    (traj : List (State α)) (goal : Goal α) (state : State α) (obs : Point α)
    (hmode : p.use_footprint_ = false) (hhyp : L.hypot 0 0 = 0)
    (hstate : state ∈ traj) (hobs : obs ∈ p.obs_list_)
    (hx : obs.x = state.x_) (hy : obs.y = state.y_) :
    calc_obs_cost L p traj = SENTINEL ∧
    ∃ c, evaluate_trajectory L p traj goal = some c ∧
      c.obs_cost = p.obs_cost_gain_ * SENTINEL := by
  have hcost : calc_obs_cost L p traj = SENTINEL := by
    unfold calc_obs_cost
    refine calc_obs_cost_loop_collision _ _ 0 ?_ ?_
    · rw [mem_clearances]
      refine ⟨state, hstate, obs, hobs, ?_⟩
      simp [clearance, hmode, hx, hy, hhyp]
    · simp [DBL_EPSILON]
  obtain ⟨c, hc⟩ := evaluate_trajectory_isSome L p traj goal (List.ne_nil_of_mem hstate)
  refine ⟨hcost, c, hc, ?_⟩
  unfold evaluate_trajectory at hc
  split at hc
  · simp only [Option.some.injEq] at hc
    rw [← hc, hcost]
  · exact absurd hc (by simp)

theorem C12_coincident_obstacle_costs_sentinel_witness :
    blocked_planner.use_footprint_ = false ∧ Libm.onAxes.hypot 0 0 = 0 ∧
    calc_obs_cost Libm.onAxes blocked_planner [⟨1, 1, 0, 0, 0⟩, ⟨0, 0, 0, 0, 0⟩] = SENTINEL ∧
    ∃ c, evaluate_trajectory Libm.onAxes blocked_planner [⟨1, 1, 0, 0, 0⟩, ⟨0, 0, 0, 0, 0⟩]
        ⟨1, 0, 0⟩ = some c ∧ c.obs_cost = blocked_planner.obs_cost_gain_ * SENTINEL :=
  ⟨rfl, by norm_num [Libm.onAxes],
    C12_coincident_obstacle_costs_sentinel Libm.onAxes blocked_planner
      [⟨1, 1, 0, 0, 0⟩, ⟨0, 0, 0, 0, 0⟩] ⟨1, 0, 0⟩ ⟨0, 0, 0, 0, 0⟩ ⟨0, 0⟩ rfl
      (by norm_num [Libm.onAxes]) (by simp) (by simp [blocked_planner]) rfl rfl⟩

/-- Without a clearance below `DBL_EPSILON` the two loops of `calc_obs_cost` return the
reciprocal of the least of the starting `min_dist` and the clearances that are not `NaN`. -/
theorem calc_obs_cost_loop_min :
    ∀ (ds : List (Option α)) (min_dist : α), (∀ d, some d ∈ ds → DBL_EPSILON ≤ d) →
      ∃ m, calc_obs_cost_loop ds min_dist = 1 / m ∧ m ≤ min_dist ∧
        (∀ d, some d ∈ ds → m ≤ d) ∧ (m = min_dist ∨ some m ∈ ds) := by
  intro ds
  induction ds with
  | nil => intro min_dist _; exact ⟨min_dist, rfl, le_refl _, by simp, Or.inl rfl⟩
  | cons x rest ih =>
    intro min_dist hall
    cases x with
    | none =>
      obtain ⟨m, h1, h2, h3, h4⟩ := ih min_dist (fun d hd => hall d (List.mem_cons_of_mem _ hd))
      refine ⟨m, by simpa [calc_obs_cost_loop] using h1, h2, ?_, ?_⟩
      · intro d hd
        rcases List.mem_cons.mp hd with heq | hin
        · exact absurd heq (by simp)
        · exact h3 d hin
      · rcases h4 with h | h
        · exact Or.inl h
        · exact Or.inr (List.mem_cons_of_mem _ h)
    | some d0 =>
      have h0 : ¬ d0 < DBL_EPSILON := not_lt.mpr (hall d0 (List.mem_cons_self _ _))
      obtain ⟨m, h1, h2, h3, h4⟩ := ih (min min_dist d0)
        (fun d hd => hall d (List.mem_cons_of_mem _ hd))
      refine ⟨m, by simpa [calc_obs_cost_loop, h0] using h1, le_trans h2 (min_le_left _ _), ?_, ?_⟩
      · intro d hd
        rcases List.mem_cons.mp hd with heq | hin
        · rw [Option.some.inj heq]
          exact le_trans h2 (min_le_right _ _)
        · exact h3 d hin
      · rcases h4 with h | h
        · rcases min_choice min_dist d0 with hc | hc
          · exact Or.inl (h.trans hc)
          · exact Or.inr (by rw [h, hc]; exact List.mem_cons_self _ _)
        · exact Or.inr (List.mem_cons_of_mem _ h)

theorem far_obstacle_clearance :
    clearance Libm.onAxes far_obstacle_planner State.origin ⟨2000, 0⟩ = some 2000 := by
  simp [clearance, far_obstacle_planner, DWAPlanner.construct, Params.defaults,
    Libm.onAxes, State.origin]

/-- C13 (as stated, refuted): for the default point robot and a one-state trajectory at
the origin, the only obstacle, at `(2000, 0)`, has clearance 2000, above the epsilon, yet the
obstacle cost of `evaluate_trajectory` is `1/1000`, not `obs_cost_gain_ / 2000`. -/
theorem C13_far_obstacle_cost_capped :
    far_obstacle_planner.obs_list_ = [⟨2000, 0⟩] ∧
    clearance Libm.onAxes far_obstacle_planner State.origin ⟨2000, 0⟩ = some 2000 ∧
    (evaluate_trajectory Libm.onAxes far_obstacle_planner [State.origin] ⟨0, 0, 0⟩).map
      (fun c => c.obs_cost) = some (1 / 1000) ∧
    (1 / 1000 : ℚ) ≠ far_obstacle_planner.obs_cost_gain_ / 2000 := by
  refine ⟨rfl, far_obstacle_clearance, ?_, ?_⟩
  · simp only [evaluate_trajectory, calc_to_goal_cost, calc_speed_cost, calc_obs_cost,
      List.getLast?, List.getLast, Option.map, far_obstacle_planner, DWAPlanner.construct,
      Params.defaults, List.flatMap_cons, List.flatMap_nil, List.map_cons, List.map_nil,
      List.append_nil, clearance, Libm.onAxes, State.origin, calc_obs_cost_loop]
    norm_num [DBL_EPSILON]
  · norm_num [far_obstacle_planner, DWAPlanner.construct, Params.defaults]

/-- C13 (amended): for every non-empty trajectory and obstacle set in which no clearance
is below the epsilon, the obstacle cost computed by `evaluate_trajectory` is `obs_cost_gain_`
divided by `m`, the least of 1000 and the clearances of all (state, obstacle) pairs (a
clearance that is `NaN` is passed over): `m` is at most 1000, at most every clearance, and is
1000 or one of the clearances. -/
theorem C13_obstacle_cost_is_gain_over_capped_minimum (L : Libm α) (p : DWAPlanner α)
    (traj : List (State α)) (goal : Goal α) (hne : traj ≠ [])
    (hclear : ∀ state ∈ traj, ∀ obs ∈ p.obs_list_, ∀ d,
      clearance L p state obs = some d → DBL_EPSILON ≤ d) :
    ∃ c m, evaluate_trajectory L p traj goal = some c ∧
      c.obs_cost = p.obs_cost_gain_ / m ∧ m ≤ 1000 ∧
      (∀ state ∈ traj, ∀ obs ∈ p.obs_list_, ∀ d,
        clearance L p state obs = some d → m ≤ d) ∧
      (m = 1000 ∨ ∃ state ∈ traj, ∃ obs ∈ p.obs_list_, clearance L p state obs = some m) := by
  obtain ⟨c, hc⟩ := evaluate_trajectory_isSome L p traj goal hne
  obtain ⟨m, h1, h2, h3, h4⟩ := calc_obs_cost_loop_min
    (traj.flatMap (fun state => p.obs_list_.map (fun obs => clearance L p state obs))) 1000
    (fun d hd => by
      obtain ⟨state, hs, obs, ho, heq⟩ := (mem_clearances L p traj _).mp hd
      exact hclear state hs obs ho d heq)
  refine ⟨c, m, hc, ?_, h2, ?_, ?_⟩
  · unfold evaluate_trajectory at hc
    split at hc
    · simp only [Option.some.injEq] at hc
      rw [← hc]
      simp only [calc_obs_cost, h1]
      ring
    · exact absurd hc (by simp)
  · intro state hs obs ho d heq
    exact h3 d ((mem_clearances L p traj _).mpr ⟨state, hs, obs, ho, heq⟩)
  · rcases h4 with h | h
    · exact Or.inl h
    · exact Or.inr ((mem_clearances L p traj _).mp h)

theorem C13_obstacle_cost_is_gain_over_capped_minimum_witness :
    ([State.origin] : List (State ℚ)) ≠ [] ∧
    (∀ state ∈ ([State.origin] : List (State ℚ)), ∀ obs ∈ far_obstacle_planner.obs_list_,
      ∀ d, clearance Libm.onAxes far_obstacle_planner state obs = some d →
        DBL_EPSILON ≤ d) ∧
    ∃ c m, evaluate_trajectory Libm.onAxes far_obstacle_planner [State.origin] ⟨0, 0, 0⟩ =
        some c ∧
      c.obs_cost = far_obstacle_planner.obs_cost_gain_ / m ∧ m ≤ 1000 ∧
      (∀ state ∈ ([State.origin] : List (State ℚ)), ∀ obs ∈ far_obstacle_planner.obs_list_,
        ∀ d, clearance Libm.onAxes far_obstacle_planner state obs = some d → m ≤ d) ∧
      (m = 1000 ∨ ∃ state ∈ ([State.origin] : List (State ℚ)),
        ∃ obs ∈ far_obstacle_planner.obs_list_,
          clearance Libm.onAxes far_obstacle_planner state obs = some m) :=
  have hclear : ∀ state ∈ ([State.origin] : List (State ℚ)),
      ∀ obs ∈ far_obstacle_planner.obs_list_, ∀ d,
        clearance Libm.onAxes far_obstacle_planner state obs = some d →
          DBL_EPSILON ≤ d := by
    intro state hs obs ho d hd
    simp only [List.mem_singleton] at hs
    subst hs
    have ho' : obs = ⟨2000, 0⟩ := by simpa [far_obstacle_planner] using ho
    subst ho'
    rw [far_obstacle_clearance] at hd
    rw [← Option.some.inj hd]
    norm_num [DBL_EPSILON]
  ⟨by simp, hclear,
    C13_obstacle_cost_is_gain_over_capped_minimum Libm.onAxes far_obstacle_planner
      [State.origin] ⟨0, 0, 0⟩ (by simp) hclear⟩

/-! ## Cost terms, the stop trajectory, the footprint at the origin -/

/-- C14: for a trajectory with last state `last`, `evaluate_trajectory` yields the goal
cost `to_goal_cost_gain_ * hypot(last.x - goal.x, last.y - goal.y)`, the speed cost
`speed_cost_gain_ * |target_velocity_ - |last.velocity||`, the obstacle cost
`obs_cost_gain_ * calc_obs_cost`, and their sum as total; the goal heading plays no part. -/
theorem C14_evaluate_trajectory_terms (L : Libm α) (p : DWAPlanner α)
    (traj : List (State α)) (goal : Goal α) (last : State α)
    (hlast : traj.getLast? = some last) :
    evaluate_trajectory L p traj goal =
      some ⟨p.to_goal_cost_gain_ * L.hypot (last.x_ - goal.x) (last.y_ - goal.y),
        p.speed_cost_gain_ * abs (p.target_velocity_ - abs last.velocity_),
        p.obs_cost_gain_ * calc_obs_cost L p traj,
        p.to_goal_cost_gain_ * L.hypot (last.x_ - goal.x) (last.y_ - goal.y) +
          p.speed_cost_gain_ * abs (p.target_velocity_ - abs last.velocity_) +
          p.obs_cost_gain_ * calc_obs_cost L p traj⟩ ∧
    ∀ yaw, evaluate_trajectory L p traj ⟨goal.x, goal.y, yaw⟩ =
      evaluate_trajectory L p traj goal := by
  constructor
  · simp [evaluate_trajectory, calc_to_goal_cost, calc_speed_cost, hlast]
  · intro yaw
    simp [evaluate_trajectory, calc_to_goal_cost, calc_speed_cost, hlast]

theorem C14_evaluate_trajectory_terms_witness :
    ([⟨1, 2, 3, 1 / 2, 0⟩] : List (State ℚ)).getLast? = some ⟨1, 2, 3, 1 / 2, 0⟩ ∧
    ∀ yaw, evaluate_trajectory Libm.onAxes far_obstacle_planner [⟨1, 2, 3, 1 / 2, 0⟩]
        ⟨5, 2, yaw⟩ =
      evaluate_trajectory Libm.onAxes far_obstacle_planner [⟨1, 2, 3, 1 / 2, 0⟩] ⟨5, 2, 0⟩ :=
  ⟨rfl, (C14_evaluate_trajectory_terms Libm.onAxes far_obstacle_planner
    [⟨1, 2, 3, 1 / 2, 0⟩] ⟨5, 2, 0⟩ ⟨1, 2, 3, 1 / 2, 0⟩ rfl).2⟩

theorem motion_origin (L : Libm α) (p : DWAPlanner α) :
    motion L p State.origin 0 0 = State.origin := by
  simp [motion, State.origin]

theorem rollout_zero (L : Libm α) (p : DWAPlanner α) :
    ∀ (ts : List α), ∀ s ∈ rollout L p 0 0 ts State.origin, s = State.origin := by
  intro ts
  induction ts with
  | nil => intro s hs; simp [rollout] at hs
  | cons t ts ih =>
    intro s hs
    simp only [rollout, motion_origin, List.mem_cons] at hs
    rcases hs with h | h
    · exact h
    · exact ih s h

/-- C16: whenever the loop of `generate_trajectory` exits (`dt_ > 0`, or
`predict_time_ < 0` so that it is not entered), the trajectory for velocity 0 and yaw-rate 0
is returned and every state of it is the origin pose with velocity 0 and yaw-rate 0. The
output vector is cleared first, so nothing of its previous content is part of the result. -/
theorem C16_stop_trajectory_stays_at_origin (L : Libm α) (p : DWAPlanner α)
    (h : 0 < p.dt_ ∨ p.predict_time_ < 0) :
    ∃ traj, generate_trajectory L p 0 0 = some traj ∧ ∀ s ∈ traj, s = State.origin := by
  have hloop : forLoop 0 p.predict_time_ p.dt_ = some (forRange 0 p.predict_time_ p.dt_) := by
    unfold forLoop
    rw [if_neg]
    rintro ⟨h1, h2⟩
    rcases h with h | h
    · exact absurd h (not_lt.mpr h2)
    · exact absurd h (not_lt.mpr h1)
  refine ⟨rollout L p 0 0 (forRange 0 p.predict_time_ p.dt_) State.origin, ?_,
    rollout_zero L p _⟩
  simp [generate_trajectory, hloop]

theorem C16_stop_trajectory_stays_at_origin_witness :
    ((0 : ℚ) < blocked_planner.dt_ ∨ blocked_planner.predict_time_ < 0) ∧
    ∃ traj, generate_trajectory Libm.onAxes blocked_planner 0 0 = some traj ∧
      ∀ s ∈ traj, s = State.origin :=
  have h : (0 : ℚ) < blocked_planner.dt_ ∨ blocked_planner.predict_time_ < 0 :=
    Or.inl (by norm_num [blocked_planner, DWAPlanner.construct, Params.defaults])
  ⟨h, C16_stop_trajectory_stays_at_origin Libm.onAxes blocked_planner h⟩

/-- C17: at the pose `(0, 0, 0)`, with `cos 0 = 1` and `sin 0 = 0`, `transform_footprint`
returns the stored footprint: the same vertices in the same order. -/
theorem C17_transform_footprint_at_origin (L : Libm α) (p : DWAPlanner α) (v w : α)
    (hcos : L.cos 0 = 1) (hsin : L.sin 0 = 0) :
    transform_footprint L p ⟨0, 0, 0, v, w⟩ = p.footprint_ := by
  unfold transform_footprint
  simp only [hcos, hsin, one_mul, zero_mul, sub_zero, add_zero, zero_add]
  exact List.map_id _

theorem C17_transform_footprint_at_origin_witness :
    Libm.onAxes.cos 0 = 1 ∧ Libm.onAxes.sin 0 = 0 ∧
    transform_footprint Libm.onAxes (square_planner (1 : ℚ)) ⟨0, 0, 0, 0, 0⟩ =
      (square_planner (1 : ℚ)).footprint_ :=
  ⟨by norm_num [Libm.onAxes], by norm_num [Libm.onAxes],
    C17_transform_footprint_at_origin Libm.onAxes (square_planner 1) 0 0
      (by norm_num [Libm.onAxes]) (by norm_num [Libm.onAxes])⟩

/-! ## The number of states of a trajectory -/

/-- In exact arithmetic `generate_trajectory` returns `⌊predict_time_ / dt_⌋ + 1` states,
whatever the velocity and yaw-rate. -/
theorem generate_trajectory_length (L : Libm α) (p : DWAPlanner α) (v y : α)
    (hdt : 0 < p.dt_) (hT : 0 ≤ p.predict_time_) :
    ∃ traj, generate_trajectory L p v y = some traj ∧
      traj.length = ⌊p.predict_time_ / p.dt_⌋₊ + 1 := by
  refine ⟨_, generate_trajectory_eq L p v y hdt, ?_⟩
  rw [rollout_length]
  exact forRange_length p.dt_ hdt _ 0 p.predict_time_ hT (by rw [sub_zero])

theorem log_double_tenth : Int.log 2 (abs DOUBLE_TENTH) = -4 := by
  have hpos : (0 : ℚ) < abs DOUBLE_TENTH := by norm_num [DOUBLE_TENTH]
  apply le_antisymm
  · have h : Int.log 2 (abs DOUBLE_TENTH) < -3 :=
      (Int.lt_zpow_iff_log_lt (by norm_num : 1 < 2) hpos).mp (by
        rw [abs_of_pos (by norm_num [DOUBLE_TENTH])]
        norm_num [DOUBLE_TENTH, zpow_neg])
    omega
  · exact (Int.zpow_le_iff_le_log (by norm_num : 1 < 2) hpos).mp (by
      rw [abs_of_pos (by norm_num [DOUBLE_TENTH])]
      norm_num [DOUBLE_TENTH, zpow_neg])

/-- The value `DOUBLE_TENTH` is a `double`. -/
theorem round_double_tenth : round_to_bits 53 DOUBLE_TENTH = DOUBLE_TENTH := by
  have hne : DOUBLE_TENTH ≠ 0 := by norm_num [DOUBLE_TENTH]
  simp only [round_to_bits, hne, if_false, log_double_tenth]
  have hq : DOUBLE_TENTH / 2 ^ ((-4 : Int) - (((53 : Nat) : Int) - 1)) = 7205759403792794 := by
    norm_num [DOUBLE_TENTH, zpow_neg]
  rw [hq]
  have hf : ⌊(7205759403792794 : ℚ)⌋ = 7205759403792794 := by
    exact_mod_cast Int.floor_intCast (7205759403792794 : ℤ)
  rw [hf]
  norm_num [DOUBLE_TENTH, zpow_neg]

/-- The `float` nearest to `DOUBLE_TENTH` is 13421773 / 2^27, which is larger. -/
theorem round_float_tenth : round_to_bits 24 DOUBLE_TENTH = 13421773 / 134217728 := by
  have hne : DOUBLE_TENTH ≠ 0 := by norm_num [DOUBLE_TENTH]
  simp only [round_to_bits, hne, if_false, log_double_tenth]
  have hq : DOUBLE_TENTH / 2 ^ ((-4 : Int) - (((24 : Nat) : Int) - 1)) =
      3602879701896397 / 268435456 := by
    norm_num [DOUBLE_TENTH, zpow_neg]
  rw [hq]
  have hf : ⌊(3602879701896397 : ℚ) / 268435456⌋ = 13421772 := by
    rw [Int.floor_eq_iff]
    constructor <;> norm_num
  rw [hf]
  norm_num [zpow_neg]

/-- C15 (the code contradicts it): with `predict_time_` = `dt_` = 0.1 (the `double`), so
that `T ≥ 0`, `dt > 0` and `⌊T / dt⌋ + 1 = 2`, the loop of `generate_trajectory` makes one
pass and the trajectory has one state, whatever the velocity and yaw-rate: the counter is a
`float`, and after the first pass it holds the `float` nearest to 0.1, which exceeds the
`double` 0.1 it is compared with. -/
theorem C15_float_counter_drops_last_state (L : Libm ℚ) (v y : ℚ) (fuel : Nat) :
    (0 : ℚ) ≤ tenth_planner.predict_time_ ∧ (0 : ℚ) < tenth_planner.dt_ ∧
    ⌊tenth_planner.predict_time_ / tenth_planner.dt_⌋₊ + 1 = 2 ∧
    (generate_trajectory_float L tenth_planner v y (fuel + 2)).map List.length = some 1 := by
  have hT : tenth_planner.predict_time_ = DOUBLE_TENTH := rfl
  have hdt : tenth_planner.dt_ = DOUBLE_TENTH := rfl
  have hpos : (0 : ℚ) < DOUBLE_TENTH := by norm_num [DOUBLE_TENTH]
  refine ⟨by rw [hT]; exact hpos.le, by rw [hdt]; exact hpos, ?_, ?_⟩
  · rw [hT, hdt, div_self hpos.ne']
    simp
  · simp only [generate_trajectory_float, hT, hdt, float_counter, hpos.le, if_true, zero_add,
      round_double_tenth, round_float_tenth]
    have hgt : ¬ ((13421773 : ℚ) / 134217728 ≤ DOUBLE_TENTH) := by
      norm_num [DOUBLE_TENTH]
    simp [hgt, rollout]

/-! ## The latch of the alignment mode -/

/-- With `has_reached_` set, a call of `calc_cmd_vel` that returns leaves the planner as it
was. -/
theorem calc_cmd_vel_latched (L : Libm α) (p p1 : DWAPlanner α) (cmd_vel : Twist α)
    (hr : p.has_reached_ = true) (h : calc_cmd_vel L p = some (cmd_vel, p1)) : p1 = p := by
  unfold calc_cmd_vel at h
  simp only [hr, or_true, if_true] at h
  cases hadj : can_adjust_robot_direction L p p.local_goal_ with
  | none => simp [hadj] at h
  | some b =>
    cases b with
    | true =>
      simp only [hadj] at h
      cases hgen : generate_trajectory L p 0
          (min (max (L.atan2 p.local_goal_.y p.local_goal_.x) (-p.max_yawrate_))
            p.max_yawrate_) with
      | none => simp [hgen] at h
      | some traj =>
        simp only [hgen] at h
        have := publish_selected_eq _ _ _ _ h
        exact (Prod.mk.inj this).2
    | false =>
      simp only [hadj] at h
      cases hplan : dwa_planning L p p.local_goal_ with
      | none => simp [hplan] at h
      | some traj =>
        simp only [hplan] at h
        cases hfront : traj.head? with
        | none => simp [hfront] at h
        | some front =>
          simp only [hfront] at h
          have := publish_selected_eq _ _ _ _ h
          exact (Prod.mk.inj this).2

/-- For a goal beyond the distance threshold, or with `has_reached_` set, a call of
`calc_cmd_vel` that returns has taken the rotate/search branch: its command is the rotation towards the goal bearing or the first
state of the trajectory of `dwa_planning`. -/
theorem calc_cmd_vel_rotate_or_search (L : Libm α) (p p1 : DWAPlanner α) (cmd_vel : Twist α)
    (hfar : p.dist_to_goal_th_ < L.hypot p.local_goal_.x p.local_goal_.y ∨
      p.has_reached_ = true)
    (h : calc_cmd_vel L p = some (cmd_vel, p1)) :
    (can_adjust_robot_direction L p p.local_goal_ = some true ∧
      cmd_vel = ⟨0, min (max (L.atan2 p.local_goal_.y p.local_goal_.x) (-p.max_yawrate_))
        p.max_yawrate_⟩) ∨
    (can_adjust_robot_direction L p p.local_goal_ = some false ∧
      ∃ best_traj front, dwa_planning L p p.local_goal_ = some best_traj ∧
        best_traj.head? = some front ∧ cmd_vel = ⟨front.velocity_, front.yawrate_⟩) := by
  unfold calc_cmd_vel at h
  simp only [hfar, if_true] at h
  cases hadj : can_adjust_robot_direction L p p.local_goal_ with
  | none => simp [hadj] at h
  | some b =>
    cases b with
    | true =>
      simp only [hadj] at h
      cases hgen : generate_trajectory L p 0
          (min (max (L.atan2 p.local_goal_.y p.local_goal_.x) (-p.max_yawrate_))
            p.max_yawrate_) with
      | none => simp [hgen] at h
      | some traj =>
        simp only [hgen] at h
        have := publish_selected_eq _ _ _ _ h
        exact Or.inl ⟨rfl, (Prod.mk.inj this).1⟩
    | false =>
      simp only [hadj] at h
      cases hplan : dwa_planning L p p.local_goal_ with
      | none => simp [hplan] at h
      | some traj =>
        simp only [hplan] at h
        cases hfront : traj.head? with
        | none => simp [hfront] at h
        | some front =>
          simp only [hfront] at h
          have := publish_selected_eq _ _ _ _ h
          exact Or.inr ⟨rfl, traj, front, rfl, hfront, (Prod.mk.inj this).1⟩

/-- No callback writes `has_reached_` or `has_finished_`. -/
theorem callback_latch (L : Libm α) (p p1 : DWAPlanner α) (e : Event α)
    (h : callback L p e = some p1) :
    p1.has_reached_ = p.has_reached_ ∧ p1.has_finished_ = p.has_finished_ := by
  cases e with
  | local_goal msg transformed =>
    cases transformed <;> simp only [callback, Option.some.injEq] at h <;> subst h <;>
      exact ⟨rfl, rfl⟩
  | scan msg =>
    simp only [callback, Option.some.injEq] at h
    subst h
    exact ⟨rfl, rfl⟩
  | local_map msg =>
    simp only [callback] at h
    split at h
    · simp only [Option.some.injEq] at h
      subst h
      exact ⟨rfl, rfl⟩
    · split at h
      · exact absurd h (by simp)
      · simp only [Option.some.injEq] at h
        subst h
        exact ⟨rfl, rfl⟩
  | odom twist =>
    simp only [callback, Option.some.injEq] at h
    subst h
    exact ⟨rfl, rfl⟩
  | target_velocity x =>
    simp only [callback, Option.some.injEq] at h
    subst h
    exact ⟨rfl, rfl⟩
  | footprint polygon =>
    simp only [callback, Option.some.injEq] at h
    subst h
    exact ⟨rfl, rfl⟩
  | dist_to_goal_th d =>
    simp only [callback, Option.some.injEq] at h
    subst h
    exact ⟨rfl, rfl⟩

theorem spinOnce_latch (L : Libm α) :
    ∀ (events : List (Event α)) (p p1 : DWAPlanner α), spinOnce L p events = some p1 →
      p1.has_reached_ = p.has_reached_ ∧ p1.has_finished_ = p.has_finished_ := by
  intro events
  induction events with
  | nil =>
    intro p p1 h
    simp only [spinOnce, List.foldlM_nil, Option.pure_def, Option.some.injEq] at h
    subst h
    exact ⟨rfl, rfl⟩
  | cons e rest ih =>
    intro p p1 h
    simp only [spinOnce, List.foldlM_cons, Option.bind_eq_bind] at h
    cases hc : callback L p e with
    | none => simp [hc] at h
    | some p2 =>
      simp only [hc, Option.some_bind] at h
      obtain ⟨h1, h2⟩ := callback_latch L p p2 e hc
      obtain ⟨h3, h4⟩ := ih p2 p1 h
      exact ⟨h3.trans h1, h4.trans h2⟩

/-- One pass of the loop of `process` from a planner with `has_reached_` set: the flag is
still set afterwards, `has_finished_` is clear afterwards, and the finished flag published
is the `has_finished_` the pass started with. -/
theorem process_iteration_latch (L : Libm α) (p p1 : DWAPlanner α) (events : List (Event α))
    (out : Published α) (hr : p.has_reached_ = true)
    (h : process_iteration L p events = some (out, p1)) :
    p1.has_reached_ = true ∧ p1.has_finished_ = false ∧ out.finish_flag = p.has_finished_ := by
  unfold process_iteration at h
  simp only [] at h
  have hg1 : (can_move p).2.has_reached_ = true := hr
  have hg2 : (can_move p).2.has_finished_ = p.has_finished_ := rfl
  split at h
  · exact absurd h (by simp)
  · rename_i cmd_vel p2 hstep
    have hp2 : p2.has_reached_ = true ∧ p2.has_finished_ = p.has_finished_ := by
      by_cases hm : (can_move p).1 = true
      · rw [if_pos hm] at hstep
        have := calc_cmd_vel_latched L _ _ _ hg1 hstep
        rw [this]
        exact ⟨hg1, hg2⟩
      · rw [if_neg hm] at hstep
        have := (Prod.mk.inj (Option.some.inj hstep)).2
        rw [← this]
        exact ⟨hg1, hg2⟩
    split at h
    · exact absurd h (by simp)
    · rename_i p4 hspin
      obtain ⟨h1, h2⟩ := spinOnce_latch L _ _ _ hspin
      simp only [Option.some.injEq, Prod.mk.injEq] at h
      obtain ⟨hout, hp⟩ := h
      subst hp
      subst hout
      exact ⟨h1.trans hp2.1, h2, hp2.2⟩

/-- Any number of passes of the loop of `process` from a planner with `has_reached_` set
leave it set; the first pass publishes the `has_finished_` it started with and every later
pass publishes a clear finished flag. -/
theorem process_latch (L : Libm α) :
    ∀ (ticks : List (List (Event α))) (p p1 : DWAPlanner α) (outs : List (Published α)),
      p.has_reached_ = true → process L p ticks = some (outs, p1) →
      p1.has_reached_ = true ∧
        ∀ out ∈ outs, out.finish_flag = true → p.has_finished_ = true := by
  intro ticks
  induction ticks with
  | nil =>
    intro p p1 outs hr h
    simp only [process, Option.some.injEq, Prod.mk.injEq] at h
    obtain ⟨h1, h2⟩ := h
    subst h1
    subst h2
    exact ⟨hr, by simp⟩
  | cons events rest ih =>
    intro p p1 outs hr h
    obtain ⟨out, p2, outs1, hit, hrest, houts⟩ := process_cons_some L p p1 events rest outs h
    obtain ⟨h1, h2, h3⟩ := process_iteration_latch L p p2 events out hr hit
    obtain ⟨h4, h5⟩ := ih p2 p1 outs1 h1 hrest
    refine ⟨h4, ?_⟩
    intro o ho hflag
    rw [houts] at ho
    rcases List.mem_cons.mp ho with rfl | ho
    · rw [← h3]
      exact hflag
    · have := h5 o ho hflag
      rw [h2] at this
      exact absurd this (by simp)

/-! ## A window of width zero -/

theorem log_half : Int.log 2 (abs (1 / 2 : ℚ)) = -1 := by
  have hpos : (0 : ℚ) < abs (1 / 2 : ℚ) := by norm_num
  apply le_antisymm
  · have h : Int.log 2 (abs (1 / 2 : ℚ)) < 0 :=
      (Int.lt_zpow_iff_log_lt (by norm_num : 1 < 2) hpos).mp (by
        rw [abs_of_pos (by norm_num)]
        norm_num)
    omega
  · exact (Int.zpow_le_iff_le_log (by norm_num : 1 < 2) hpos).mp (by
      rw [abs_of_pos (by norm_num)]
      norm_num [zpow_neg])

theorem log_half_plus : Int.log 2 (abs ((1 / 2 : ℚ) + DBL_EPSILON)) = -1 := by
  have hpos : (0 : ℚ) < abs ((1 / 2 : ℚ) + DBL_EPSILON) := by norm_num [DBL_EPSILON]
  apply le_antisymm
  · have h : Int.log 2 (abs ((1 / 2 : ℚ) + DBL_EPSILON)) < 0 :=
      (Int.lt_zpow_iff_log_lt (by norm_num : 1 < 2) hpos).mp (by
        rw [abs_of_pos (by norm_num [DBL_EPSILON])]
        norm_num [DBL_EPSILON])
    omega
  · exact (Int.zpow_le_iff_le_log (by norm_num : 1 < 2) hpos).mp (by
      rw [abs_of_pos (by norm_num [DBL_EPSILON])]
      norm_num [DBL_EPSILON, zpow_neg])

/-- The value 1/2 is a `float`. -/
theorem round_float_half : round_to_bits 24 (1 / 2) = 1 / 2 := by
  have hne : (1 / 2 : ℚ) ≠ 0 := by norm_num
  simp only [round_to_bits, hne, if_false, log_half]
  have hq : (1 / 2 : ℚ) / 2 ^ ((-1 : Int) - (((24 : Nat) : Int) - 1)) = 8388608 := by
    norm_num [zpow_neg]
  rw [hq]
  have hf : ⌊(8388608 : ℚ)⌋ = 8388608 := by
    exact_mod_cast Int.floor_intCast (8388608 : ℤ)
  rw [hf]
  norm_num [zpow_neg]

/-- The sum `1/2 + DBL_EPSILON` is a `double`. -/
theorem round_double_half_plus :
    round_to_bits 53 ((1 / 2 : ℚ) + DBL_EPSILON) = 1 / 2 + DBL_EPSILON := by
  have hne : (1 / 2 : ℚ) + DBL_EPSILON ≠ 0 := by norm_num [DBL_EPSILON]
  simp only [round_to_bits, hne, if_false, log_half_plus]
  have hq : ((1 / 2 : ℚ) + DBL_EPSILON) / 2 ^ ((-1 : Int) - (((53 : Nat) : Int) - 1)) =
      4503599627370498 := by
    norm_num [DBL_EPSILON, zpow_neg]
  rw [hq]
  have hf : ⌊(4503599627370498 : ℚ)⌋ = 4503599627370498 := by
    exact_mod_cast Int.floor_intCast (4503599627370498 : ℤ)
  rw [hf]
  norm_num [DBL_EPSILON, zpow_neg]

/-- The `float` nearest to `1/2 + DBL_EPSILON` is 1/2. -/
theorem round_float_half_plus : round_to_bits 24 ((1 / 2 : ℚ) + DBL_EPSILON) = 1 / 2 := by
  have hne : (1 / 2 : ℚ) + DBL_EPSILON ≠ 0 := by norm_num [DBL_EPSILON]
  simp only [round_to_bits, hne, if_false, log_half_plus]
  have hq : ((1 / 2 : ℚ) + DBL_EPSILON) / 2 ^ ((-1 : Int) - (((24 : Nat) : Int) - 1)) =
      2251799813685249 / 268435456 := by
    norm_num [DBL_EPSILON, zpow_neg]
  rw [hq]
  have hf : ⌊(2251799813685249 : ℚ) / 268435456⌋ = 8388608 := by
    rw [Int.floor_eq_iff]
    constructor <;> norm_num
  rw [hf]
  norm_num [zpow_neg]

/-- A `float` counter at 1/2 advanced by `DBL_EPSILON` stays at 1/2: the loop with the
bound 1/2 has not exited after any number of passes. -/
theorem float_counter_stuck :
    ∀ fuel : Nat, float_counter (1 / 2) DBL_EPSILON fuel (1 / 2) = none := by
  intro fuel
  induction fuel with
  | zero => rfl
  | succ n ih =>
    simp only [float_counter, le_refl, if_true, round_double_half_plus, round_float_half_plus,
      ih, Option.map_none']

/-- C22 (the code contradicts it): with `max_acceleration_` = 0 and an odometry velocity of
0.5, within the limits, so that `predict_time_ ≥ 0`, `dt_ > 0` and the velocity window is
`[1/2, 1/2]`, the outer loop of `dwa_planning` has not exited after any number of passes:
the step is `DBL_EPSILON`, and the `float` counter `v`, at 1/2, is unchanged by adding it.
Nothing but the loop condition ends that loop, so `dwa_planning` does not return. -/
theorem C22_zero_width_window_never_exits (fuel : Nat) :
    (0 : ℚ) ≤ constant_speed_planner.predict_time_ ∧
    (0 : ℚ) < constant_speed_planner.dt_ ∧
    (calc_dynamic_window constant_speed_planner).min_velocity_ = 1 / 2 ∧
    (calc_dynamic_window constant_speed_planner).max_velocity_ = 1 / 2 ∧
    sampleAxis_float (calc_dynamic_window constant_speed_planner).min_velocity_
      (calc_dynamic_window constant_speed_planner).max_velocity_
      constant_speed_planner.velocity_samples_ fuel = none := by
  have hmin : (calc_dynamic_window constant_speed_planner).min_velocity_ = 1 / 2 := by
    norm_num [calc_dynamic_window, constant_speed_planner, DWAPlanner.construct,
      Params.defaults]
  have hmax : (calc_dynamic_window constant_speed_planner).max_velocity_ = 1 / 2 := by
    norm_num [calc_dynamic_window, constant_speed_planner, DWAPlanner.construct,
      Params.defaults]
  have hn : constant_speed_planner.velocity_samples_ = 3 := rfl
  refine ⟨by norm_num [constant_speed_planner, DWAPlanner.construct, Params.defaults],
    by norm_num [constant_speed_planner, DWAPlanner.construct, Params.defaults],
    hmin, hmax, ?_⟩
  rw [hmin, hmax, hn]
  have hstep : max (round_to_bits 53 (round_to_bits 53 ((1 / 2 : ℚ) - 1 / 2) / ((3 : Int) : ℚ)))
      DBL_EPSILON = DBL_EPSILON := by
    have h0 : round_to_bits 53 ((1 / 2 : ℚ) - 1 / 2) = 0 := by simp [round_to_bits]
    rw [h0, zero_div]
    have h1 : round_to_bits 53 (0 : ℚ) = 0 := by simp [round_to_bits]
    rw [h1]
    exact max_eq_right (by norm_num [DBL_EPSILON])
  unfold sampleAxis_float
  rw [if_neg (by norm_num), hstep, round_float_half]
  exact float_counter_stuck fuel

/-! ## The window lies within the limits -/

/-- The window of `calc_dynamic_window` lies within the configured limits. -/
theorem calc_dynamic_window_within (p : DWAPlanner α) :
    p.min_velocity_ ≤ (calc_dynamic_window p).min_velocity_ ∧
    (calc_dynamic_window p).max_velocity_ ≤ p.max_velocity_ ∧
    -p.max_yawrate_ ≤ (calc_dynamic_window p).min_yawrate_ ∧
    (calc_dynamic_window p).max_yawrate_ ≤ p.max_yawrate_ :=
  ⟨le_max_right _ _, min_le_right _ _, le_max_right _ _, min_le_right _ _⟩

/-! ## The window contains the current command -/

/-- C24: when the current velocity lies within `[min_velocity_, max_velocity_]`, the current
yaw-rate within `[-max_yawrate_, max_yawrate_]`, and `max_acceleration_ * dt_` and
`max_d_yawrate_ * dt_` are not negative, the window of `calc_dynamic_window` contains the
current velocity and yaw-rate, has min ≤ max on both axes and lies within the configured
limits. -/
theorem C24_window_contains_current_command (p : DWAPlanner α)
    (hv : p.min_velocity_ ≤ p.current_cmd_vel_.linear_x ∧
      p.current_cmd_vel_.linear_x ≤ p.max_velocity_)
    (hw : -p.max_yawrate_ ≤ p.current_cmd_vel_.angular_z ∧
      p.current_cmd_vel_.angular_z ≤ p.max_yawrate_)
    (ha : 0 ≤ p.max_acceleration_ * p.dt_) (hd : 0 ≤ p.max_d_yawrate_ * p.dt_) :
    ((calc_dynamic_window p).min_velocity_ ≤ p.current_cmd_vel_.linear_x ∧
      p.current_cmd_vel_.linear_x ≤ (calc_dynamic_window p).max_velocity_) ∧
    ((calc_dynamic_window p).min_yawrate_ ≤ p.current_cmd_vel_.angular_z ∧
      p.current_cmd_vel_.angular_z ≤ (calc_dynamic_window p).max_yawrate_) ∧
    (calc_dynamic_window p).min_velocity_ ≤ (calc_dynamic_window p).max_velocity_ ∧
    (calc_dynamic_window p).min_yawrate_ ≤ (calc_dynamic_window p).max_yawrate_ ∧
    p.min_velocity_ ≤ (calc_dynamic_window p).min_velocity_ ∧
    (calc_dynamic_window p).max_velocity_ ≤ p.max_velocity_ ∧
    -p.max_yawrate_ ≤ (calc_dynamic_window p).min_yawrate_ ∧
    (calc_dynamic_window p).max_yawrate_ ≤ p.max_yawrate_ := by
  have h1 : (calc_dynamic_window p).min_velocity_ ≤ p.current_cmd_vel_.linear_x :=
    max_le (by linarith) hv.1
  have h2 : p.current_cmd_vel_.linear_x ≤ (calc_dynamic_window p).max_velocity_ :=
    le_min (by linarith) hv.2
  have h3 : (calc_dynamic_window p).min_yawrate_ ≤ p.current_cmd_vel_.angular_z :=
    max_le (by linarith) hw.1
  have h4 : p.current_cmd_vel_.angular_z ≤ (calc_dynamic_window p).max_yawrate_ :=
    le_min (by linarith) hw.2
  obtain ⟨w1, w2, w3, w4⟩ := calc_dynamic_window_within p
  exact ⟨⟨h1, h2⟩, ⟨h3, h4⟩, le_trans h1 h2, le_trans h3 h4, w1, w2, w3, w4⟩

theorem C24_window_contains_current_command_witness :
    ((straight_planner ⟨1, 0, 0⟩).min_velocity_ ≤
        (straight_planner ⟨1, 0, 0⟩).current_cmd_vel_.linear_x ∧
      (straight_planner ⟨1, 0, 0⟩).current_cmd_vel_.linear_x ≤
        (straight_planner ⟨1, 0, 0⟩).max_velocity_) ∧
    (calc_dynamic_window (straight_planner ⟨1, 0, 0⟩)).min_velocity_ ≤
      (straight_planner ⟨1, 0, 0⟩).current_cmd_vel_.linear_x ∧
    (straight_planner ⟨1, 0, 0⟩).current_cmd_vel_.linear_x ≤
      (calc_dynamic_window (straight_planner ⟨1, 0, 0⟩)).max_velocity_ :=
  have hv : (straight_planner ⟨1, 0, 0⟩).min_velocity_ ≤
        (straight_planner ⟨1, 0, 0⟩).current_cmd_vel_.linear_x ∧
      (straight_planner ⟨1, 0, 0⟩).current_cmd_vel_.linear_x ≤
        (straight_planner ⟨1, 0, 0⟩).max_velocity_ := by
    constructor <;> norm_num [straight_planner, DWAPlanner.construct, Params.defaults]
  ⟨hv, (C24_window_contains_current_command (straight_planner ⟨1, 0, 0⟩) hv
    (by constructor <;> norm_num [straight_planner, DWAPlanner.construct, Params.defaults])
    (by norm_num [straight_planner, DWAPlanner.construct, Params.defaults])
    (by norm_num [straight_planner, DWAPlanner.construct, Params.defaults])).1⟩

/-! ## Evaluating the machine arithmetic -/

/-- How `round_to_bits` evaluates: a value of binary exponent `e` whose quotient by the unit
in the last place is within 1/2 of the integer `n` rounds to `n` units. -/
theorem round_to_bits_eq (bits : Nat) (x : ℚ) (e n : Int)
    (h1 : (2 : ℚ) ^ e ≤ abs x) (h2 : abs x < (2 : ℚ) ^ (e + 1))
    (h3 : (n : ℚ) - 1 / 2 < x / (2 : ℚ) ^ (e - ((bits : Int) - 1)))
    (h4 : x / (2 : ℚ) ^ (e - ((bits : Int) - 1)) < (n : ℚ) + 1 / 2) :
    round_to_bits bits x = (n : ℚ) * (2 : ℚ) ^ (e - ((bits : Int) - 1)) := by
  have hpos : (0 : ℚ) < abs x := lt_of_lt_of_le (zpow_pos (by norm_num) e) h1
  have hx : x ≠ 0 := abs_pos.mp hpos
  have hlog : Int.log 2 (abs x) = e := by
    apply le_antisymm
    · have h : Int.log 2 (abs x) < e + 1 :=
        (Int.lt_zpow_iff_log_lt (by norm_num : 1 < 2) hpos).mp (by exact_mod_cast h2)
      omega
    · exact (Int.zpow_le_iff_le_log (by norm_num : 1 < 2) hpos).mp (by exact_mod_cast h1)
  simp only [round_to_bits, hx, if_false, hlog]
  generalize x / (2 : ℚ) ^ (e - ((bits : Int) - 1)) = q at h3 h4
  congr 1
  by_cases hq : (n : ℚ) ≤ q
  · have hf : ⌊q⌋ = n := by
      rw [Int.floor_eq_iff]
      exact ⟨hq, by linarith⟩
    rw [hf]
    have hr : q - (n : ℚ) < 1 / 2 := by linarith
    simp only [hr, if_true]
  · have hq' : q < (n : ℚ) := not_le.mp hq
    have hf : ⌊q⌋ = n - 1 := by
      rw [Int.floor_eq_iff]
      push_cast
      exact ⟨by linarith, by linarith⟩
    rw [hf]
    push_cast
    have hr1 : ¬ (q - ((n : ℚ) - 1) < 1 / 2) := by linarith
    have hr2 : 1 / 2 < q - ((n : ℚ) - 1) := by linarith
    simp only [hr1, hr2, if_false, if_true]
    ring

theorem round_to_bits_pos (bits : Nat) (x v : ℚ) (e n : Int)
    (h1 : (2 : ℚ) ^ e ≤ x) (h2 : x < (2 : ℚ) ^ (e + 1))
    (h3 : (n : ℚ) - 1 / 2 < x / (2 : ℚ) ^ (e - ((bits : Int) - 1)))
    (h4 : x / (2 : ℚ) ^ (e - ((bits : Int) - 1)) < (n : ℚ) + 1 / 2)
    (hv : v = (n : ℚ) * (2 : ℚ) ^ (e - ((bits : Int) - 1))) : round_to_bits bits x = v := by
  have hx : 0 < x := lt_of_lt_of_le (zpow_pos (by norm_num) e) h1
  rw [hv]
  exact round_to_bits_eq bits x e n (by rw [abs_of_pos hx]; exact h1)
    (by rw [abs_of_pos hx]; exact h2) h3 h4

theorem round_to_bits_neg (bits : Nat) (x v : ℚ) (e n : Int)
    (h1 : (2 : ℚ) ^ e ≤ -x) (h2 : -x < (2 : ℚ) ^ (e + 1))
    (h3 : (n : ℚ) - 1 / 2 < x / (2 : ℚ) ^ (e - ((bits : Int) - 1)))
    (h4 : x / (2 : ℚ) ^ (e - ((bits : Int) - 1)) < (n : ℚ) + 1 / 2)
    (hv : v = (n : ℚ) * (2 : ℚ) ^ (e - ((bits : Int) - 1))) : round_to_bits bits x = v := by
  have hx : x < 0 := by
    have := lt_of_lt_of_le (zpow_pos (by norm_num : (0 : ℚ) < 2) e) h1
    linarith
  rw [hv]
  exact round_to_bits_eq bits x e n (by rw [abs_of_neg hx]; exact h1)
    (by rw [abs_of_neg hx]; exact h2) h3 h4

theorem round_to_bits_zero (bits : Nat) (x : ℚ) (h : x = 0) : round_to_bits bits x = 0 := by
  simp [round_to_bits, h]

/-- A cross product evaluated from its two rounded products and their rounded difference. -/
theorem cross_fp_eq (R : Rounding α) (ax ay bx by_ p1 p2 d : α)
    (h1 : R.double (ax * by_) = p1) (h2 : R.double (ay * bx) = p2)
    (h3 : R.double (p1 - p2) = d) : cross_fp R ax ay bx by_ = d := by
  unfold cross_fp
  rw [h1, h2, h3]

/-- An edge of `calc_intersection` whose `s` falls outside `[0, 1]` is passed over. -/
theorem calc_intersection_loop_fp_reject_s (R : Rounding α) (obstacle : Point α)
    (state : State α) (C D : Point α) (rest : List (Point α × Point α))
    (bax bay dx dy cax cay deno sn s : α)
    (hbax : R.double (state.x_ - obstacle.x) = bax)
    (hbay : R.double (state.y_ - obstacle.y) = bay)
    (hdx : R.double (D.x - C.x) = dx) (hdy : R.double (D.y - C.y) = dy)
    (hcax : R.double (C.x - obstacle.x) = cax) (hcay : R.double (C.y - obstacle.y) = cay)
    (hdeno : cross_fp R bax bay dx dy = deno) (hsn : cross_fp R cax cay dx dy = sn)
    (hs : R.double (sn / deno) = s) (hd0 : deno ≠ 0) (hrej : s < 0 ∨ 1 < s) :
    calc_intersection_loop_fp R obstacle state ((C, D) :: rest) =
      calc_intersection_loop_fp R obstacle state rest := by
  have hrej' : s < 0 ∨ 1 < s ∨
      R.double (cross_fp R bax bay (R.double (obstacle.x - C.x))
        (R.double (obstacle.y - C.y)) / deno) < 0 ∨
      1 < R.double (cross_fp R bax bay (R.double (obstacle.x - C.x))
        (R.double (obstacle.y - C.y)) / deno) := by
    rcases hrej with h | h
    · exact Or.inl h
    · exact Or.inr (Or.inl h)
  simp only [calc_intersection_loop_fp, hbax, hbay, hdx, hdy, hcax, hcay, hdeno, hsn, hs, hd0,
    if_false, hrej', not_true_eq_false]

/-- An edge of `calc_intersection` whose `t` falls outside `[0, 1]` is passed over. -/
theorem calc_intersection_loop_fp_reject_t (R : Rounding α) (obstacle : Point α)
    (state : State α) (C D : Point α) (rest : List (Point α × Point α))
    (bax bay dx dy acx acy deno tn t : α)
    (hbax : R.double (state.x_ - obstacle.x) = bax)
    (hbay : R.double (state.y_ - obstacle.y) = bay)
    (hdx : R.double (D.x - C.x) = dx) (hdy : R.double (D.y - C.y) = dy)
    (hacx : R.double (obstacle.x - C.x) = acx) (hacy : R.double (obstacle.y - C.y) = acy)
    (hdeno : cross_fp R bax bay dx dy = deno) (htn : cross_fp R bax bay acx acy = tn)
    (ht : R.double (tn / deno) = t) (hd0 : deno ≠ 0) (hrej : t < 0 ∨ 1 < t) :
    calc_intersection_loop_fp R obstacle state ((C, D) :: rest) =
      calc_intersection_loop_fp R obstacle state rest := by
  have hrej' : R.double (cross_fp R (R.double (C.x - obstacle.x))
        (R.double (C.y - obstacle.y)) dx dy / deno) < 0 ∨
      1 < R.double (cross_fp R (R.double (C.x - obstacle.x))
        (R.double (C.y - obstacle.y)) dx dy / deno) ∨ t < 0 ∨ 1 < t := by
    rcases hrej with h | h
    · exact Or.inr (Or.inr (Or.inl h))
    · exact Or.inr (Or.inr (Or.inr h))
  simp only [calc_intersection_loop_fp, hbax, hbay, hdx, hdy, hacx, hacy, hdeno, htn, ht, hd0,
    if_false, hrej', not_true_eq_false]

/-- How `round_to_bits` evaluates at a tie: a quotient halfway between `f` and `f + 1`
rounds to the even one of the two. -/
theorem round_to_bits_tie (bits : Nat) (x v : ℚ) (e f n : Int)
    (h1 : (2 : ℚ) ^ e ≤ abs x) (h2 : abs x < (2 : ℚ) ^ (e + 1))
    (hq : x / (2 : ℚ) ^ (e - ((bits : Int) - 1)) = (f : ℚ) + 1 / 2)
    (hn : n = if f % 2 = 0 then f else f + 1)
    (hv : v = (n : ℚ) * (2 : ℚ) ^ (e - ((bits : Int) - 1))) : round_to_bits bits x = v := by
  have hpos : (0 : ℚ) < abs x := lt_of_lt_of_le (zpow_pos (by norm_num) e) h1
  have hx : x ≠ 0 := abs_pos.mp hpos
  have hlog : Int.log 2 (abs x) = e := by
    apply le_antisymm
    · have h : Int.log 2 (abs x) < e + 1 :=
        (Int.lt_zpow_iff_log_lt (by norm_num : 1 < 2) hpos).mp (by exact_mod_cast h2)
      omega
    · exact (Int.zpow_le_iff_le_log (by norm_num : 1 < 2) hpos).mp (by exact_mod_cast h1)
  simp only [round_to_bits, hx, if_false, hlog, hq]
  have hf : ⌊(f : ℚ) + 1 / 2⌋ = f := by
    rw [Int.floor_eq_iff]
    constructor <;> norm_num
  rw [hf, hv, hn]
  have hr1 : ¬ ((f : ℚ) + 1 / 2 - (f : ℚ) < 1 / 2) := by norm_num
  have hr2 : ¬ ((1 : ℚ) / 2 < (f : ℚ) + 1 / 2 - (f : ℚ)) := by norm_num
  simp only [hr1, hr2, if_false]

/-- The fan of `is_inside_of_robot` returns true when its first triangle passes. -/
theorem is_inside_of_robot_fp_first (R : Rounding α) (obstacle v0 v1 : Point α)
    (rest : List (Point α)) (state : State α)
    (h : is_inside_of_triangle_fp R obstacle ⟨R.float state.x_, R.float state.y_⟩ v0 v1 =
      true) :
    is_inside_of_robot_fp R obstacle (v0 :: v1 :: rest) state = true := by
  unfold is_inside_of_robot_fp edges
  rw [List.rotate_cons_succ, List.rotate_zero]
  simp only [List.cons_append, List.zip_cons_cons, List.any_cons, h, Bool.true_or]

/-- A certificate in natural numbers for `round_to_bits` at a positive value `p / q` with
unit in the last place `1 / 2 ^ k`: the value has `bits` significant bits at that unit, and
twice its quotient by the unit lies strictly between `2 * n - 1` and `2 * n + 1`. -/
theorem round_to_bits_cert (bits k p q n N M : Nat) (x v : ℚ)
    (hx : x = (p : ℚ) / (q : ℚ)) (hv : v = (N : ℚ) / (M : ℚ)) (hq : 0 < q) (hM : 0 < M)
    (h1 : 2 ^ (bits - 1) * q ≤ p * 2 ^ k) (h2 : p * 2 ^ k < 2 ^ bits * q)
    (h3 : 2 * n * q < 2 * p * 2 ^ k + q) (h4 : 2 * p * 2 ^ k < (2 * n + 1) * q)
    (h5 : N * 2 ^ k = n * M) (hbits : 0 < bits) :
    round_to_bits bits x = v := by
  have hq' : (0 : ℚ) < (q : ℚ) := by exact_mod_cast hq
  have hM' : (0 : ℚ) < (M : ℚ) := by exact_mod_cast hM
  have hk : (0 : ℚ) < (2 : ℚ) ^ k := pow_pos (by norm_num) k
  have hkz : (2 : ℚ) ^ ((bits : Int) - 1 - (k : Int) - ((bits : Int) - 1)) = 1 / (2 : ℚ) ^ k := by
    rw [show (bits : Int) - 1 - (k : Int) - ((bits : Int) - 1) = -(k : Int) by ring]
    rw [zpow_neg, zpow_natCast, one_div]
  have hez : (2 : ℚ) ^ ((bits : Int) - 1 - (k : Int)) = (2 : ℚ) ^ (bits - 1) / (2 : ℚ) ^ k := by
    rw [zpow_sub₀ (by norm_num : (2 : ℚ) ≠ 0)]
    have : ((bits : Int) - 1) = ((bits - 1 : Nat) : Int) := by omega
    rw [this, zpow_natCast, zpow_natCast]
  have hez1 : (2 : ℚ) ^ ((bits : Int) - 1 - (k : Int) + 1) = (2 : ℚ) ^ bits / (2 : ℚ) ^ k := by
    rw [show (bits : Int) - 1 - (k : Int) + 1 = (bits : Int) - (k : Int) by ring]
    rw [zpow_sub₀ (by norm_num : (2 : ℚ) ≠ 0), zpow_natCast, zpow_natCast]
  have c1 : ((2 : ℚ) ^ (bits - 1) * q ≤ p * 2 ^ k) := by exact_mod_cast h1
  have c2 : ((p : ℚ) * 2 ^ k < 2 ^ bits * q) := by exact_mod_cast h2
  have c3 : (2 * (n : ℚ) * q < 2 * p * 2 ^ k + q) := by exact_mod_cast h3
  have c4 : (2 * (p : ℚ) * 2 ^ k < (2 * n + 1) * q) := by exact_mod_cast h4
  have c5 : ((N : ℚ) * 2 ^ k = n * M) := by exact_mod_cast h5
  refine round_to_bits_pos bits x v ((bits : Int) - 1 - (k : Int)) (n : Int) ?_ ?_ ?_ ?_ ?_
  · rw [hx, hez, div_le_div_iff₀ hk hq']
    exact c1
  · rw [hx, hez1, div_lt_div_iff₀ hq' hk]
    exact c2
  · rw [hx, hkz, div_div_eq_mul_div, div_one, Int.cast_natCast, div_mul_eq_mul_div,
      lt_div_iff₀ hq']
    linarith
  · rw [hx, hkz, div_div_eq_mul_div, div_one, Int.cast_natCast, div_mul_eq_mul_div,
      div_lt_iff₀ hq']
    linarith
  · rw [hv, hkz, Int.cast_natCast, div_eq_iff hM'.ne']
    field_simp
    linarith

/-- The certificate of `round_to_bits_cert` for a negative value `-(p / q)`. -/
theorem round_to_bits_cert_neg (bits k p q n N M : Nat) (x v : ℚ)
    (hx : x = -((p : ℚ) / (q : ℚ))) (hv : v = -((N : ℚ) / (M : ℚ))) (hq : 0 < q) (hM : 0 < M)
    (h1 : 2 ^ (bits - 1) * q ≤ p * 2 ^ k) (h2 : p * 2 ^ k < 2 ^ bits * q)
    (h3 : 2 * n * q < 2 * p * 2 ^ k + q) (h4 : 2 * p * 2 ^ k < (2 * n + 1) * q)
    (h5 : N * 2 ^ k = n * M) (hbits : 0 < bits) :
    round_to_bits bits x = v := by
  have hq' : (0 : ℚ) < (q : ℚ) := by exact_mod_cast hq
  have hM' : (0 : ℚ) < (M : ℚ) := by exact_mod_cast hM
  have hk : (0 : ℚ) < (2 : ℚ) ^ k := pow_pos (by norm_num) k
  have hkz : (2 : ℚ) ^ ((bits : Int) - 1 - (k : Int) - ((bits : Int) - 1)) = 1 / (2 : ℚ) ^ k := by
    rw [show (bits : Int) - 1 - (k : Int) - ((bits : Int) - 1) = -(k : Int) by ring]
    rw [zpow_neg, zpow_natCast, one_div]
  have hez : (2 : ℚ) ^ ((bits : Int) - 1 - (k : Int)) = (2 : ℚ) ^ (bits - 1) / (2 : ℚ) ^ k := by
    rw [zpow_sub₀ (by norm_num : (2 : ℚ) ≠ 0)]
    have : ((bits : Int) - 1) = ((bits - 1 : Nat) : Int) := by omega
    rw [this, zpow_natCast, zpow_natCast]
  have hez1 : (2 : ℚ) ^ ((bits : Int) - 1 - (k : Int) + 1) = (2 : ℚ) ^ bits / (2 : ℚ) ^ k := by
    rw [show (bits : Int) - 1 - (k : Int) + 1 = (bits : Int) - (k : Int) by ring]
    rw [zpow_sub₀ (by norm_num : (2 : ℚ) ≠ 0), zpow_natCast, zpow_natCast]
  have c1 : ((2 : ℚ) ^ (bits - 1) * q ≤ p * 2 ^ k) := by exact_mod_cast h1
  have c2 : ((p : ℚ) * 2 ^ k < 2 ^ bits * q) := by exact_mod_cast h2
  have c3 : (2 * (n : ℚ) * q < 2 * p * 2 ^ k + q) := by exact_mod_cast h3
  have c4 : (2 * (p : ℚ) * 2 ^ k < (2 * n + 1) * q) := by exact_mod_cast h4
  have c5 : ((N : ℚ) * 2 ^ k = n * M) := by exact_mod_cast h5
  refine round_to_bits_neg bits x v ((bits : Int) - 1 - (k : Int)) (-(n : Int)) ?_ ?_ ?_ ?_ ?_
  · rw [hx, neg_neg, hez, div_le_div_iff₀ hk hq']
    exact c1
  · rw [hx, neg_neg, hez1, div_lt_div_iff₀ hq' hk]
    exact c2
  · rw [hx, hkz, div_div_eq_mul_div, div_one, Int.cast_neg, Int.cast_natCast, neg_mul,
      div_mul_eq_mul_div, lt_neg, neg_sub, sub_neg_eq_add, div_lt_iff₀ hq']
    linarith
  · rw [hx, hkz, div_div_eq_mul_div, div_one, Int.cast_neg, Int.cast_natCast, neg_mul,
      div_mul_eq_mul_div, neg_lt, neg_add, neg_neg, lt_div_iff₀ hq']
    linarith
  · rw [hv, hkz, Int.cast_neg, Int.cast_natCast, neg_mul, neg_inj, div_eq_iff hM'.ne']
    field_simp
    linarith

/-- The certificate of `round_to_bits_cert` at a tie: twice the quotient by the unit is the
odd number `2 * f + 1`, and the even one of `f` and `f + 1` is taken. -/
theorem round_to_bits_cert_tie (bits k p q f n N M : Nat) (x v : ℚ) (neg : Bool)
    (hx : x = (if neg = true then -1 else 1) * ((p : ℚ) / (q : ℚ)))
    (hv : v = (if neg = true then -1 else 1) * ((N : ℚ) / (M : ℚ))) (hq : 0 < q) (hM : 0 < M)
    (h1 : 2 ^ (bits - 1) * q ≤ p * 2 ^ k) (h2 : p * 2 ^ k < 2 ^ bits * q)
    (h3 : 2 * p * 2 ^ k = (2 * f + 1) * q)
    (hn : n = if f % 2 = 0 then f else f + 1)
    (h5 : N * 2 ^ k = n * M) (hbits : 0 < bits) :
    round_to_bits bits x = v := by
  have hq' : (0 : ℚ) < (q : ℚ) := by exact_mod_cast hq
  have hM' : (0 : ℚ) < (M : ℚ) := by exact_mod_cast hM
  have hk : (0 : ℚ) < (2 : ℚ) ^ k := pow_pos (by norm_num) k
  have hkz : (2 : ℚ) ^ ((bits : Int) - 1 - (k : Int) - ((bits : Int) - 1)) = 1 / (2 : ℚ) ^ k := by
    rw [show (bits : Int) - 1 - (k : Int) - ((bits : Int) - 1) = -(k : Int) by ring]
    rw [zpow_neg, zpow_natCast, one_div]
  have hez : (2 : ℚ) ^ ((bits : Int) - 1 - (k : Int)) = (2 : ℚ) ^ (bits - 1) / (2 : ℚ) ^ k := by
    rw [zpow_sub₀ (by norm_num : (2 : ℚ) ≠ 0)]
    have : ((bits : Int) - 1) = ((bits - 1 : Nat) : Int) := by omega
    rw [this, zpow_natCast, zpow_natCast]
  have hez1 : (2 : ℚ) ^ ((bits : Int) - 1 - (k : Int) + 1) = (2 : ℚ) ^ bits / (2 : ℚ) ^ k := by
    rw [show (bits : Int) - 1 - (k : Int) + 1 = (bits : Int) - (k : Int) by ring]
    rw [zpow_sub₀ (by norm_num : (2 : ℚ) ≠ 0), zpow_natCast, zpow_natCast]
  have c1 : ((2 : ℚ) ^ (bits - 1) * q ≤ p * 2 ^ k) := by exact_mod_cast h1
  have c2 : ((p : ℚ) * 2 ^ k < 2 ^ bits * q) := by exact_mod_cast h2
  have c3 : (2 * (p : ℚ) * 2 ^ k = (2 * f + 1) * q) := by exact_mod_cast h3
  have c5 : ((N : ℚ) * 2 ^ k = n * M) := by exact_mod_cast h5
  have hpq : (0 : ℚ) < (p : ℚ) / q :=
    lt_of_lt_of_le (div_pos (pow_pos (by norm_num) _) hk) ((div_le_div_iff₀ hk hq').mpr c1)
  have hquot : (p : ℚ) / q / (1 / 2 ^ k) = (f : ℚ) + 1 / 2 := by
    rw [div_div_eq_mul_div, div_one, div_mul_eq_mul_div, div_eq_iff hq'.ne']
    linarith
  have hval : (N : ℚ) / M = (n : ℚ) * (1 / 2 ^ k) := by
    rw [div_eq_iff hM'.ne']
    field_simp
    linarith
  cases neg with
  | false =>
    simp only [Bool.false_eq_true, if_false, one_mul] at hx hv
    refine round_to_bits_tie bits x v ((bits : Int) - 1 - (k : Int)) (f : Int) (n : Int)
      ?_ ?_ ?_ ?_ ?_
    · rw [hx, abs_of_pos hpq, hez, div_le_div_iff₀ hk hq']
      exact c1
    · rw [hx, abs_of_pos hpq, hez1, div_lt_div_iff₀ hq' hk]
      exact c2
    · rw [hx, hkz, hquot, Int.cast_natCast]
    · rw [hn]
      split <;> rename_i h
      · have : (f : Int) % 2 = 0 := by omega
        simp [this]
      · have : ¬ (f : Int) % 2 = 0 := by omega
        simp [this]
    · rw [hv, hkz, Int.cast_natCast, hval]
  | true =>
    simp only [if_true, neg_mul, one_mul] at hx hv
    refine round_to_bits_tie bits x v ((bits : Int) - 1 - (k : Int)) (-(f : Int) - 1)
      (-(n : Int)) ?_ ?_ ?_ ?_ ?_
    · rw [hx, abs_neg, abs_of_pos hpq, hez, div_le_div_iff₀ hk hq']
      exact c1
    · rw [hx, abs_neg, abs_of_pos hpq, hez1, div_lt_div_iff₀ hq' hk]
      exact c2
    · rw [hx, hkz, neg_div, hquot]
      push_cast
      ring
    · rw [hn]
      split <;> rename_i h
      · have h1 : ¬ (-(f : Int) - 1) % 2 = 0 := by omega
        simp only [h1, if_false]
        omega
      · have h1 : (-(f : Int) - 1) % 2 = 0 := by omega
        simp only [h1, if_true]
        omega
    · rw [hv, hkz, hval, Int.cast_neg, Int.cast_natCast, neg_mul]

/-! ## Ray casting in machine arithmetic -/

/-- One pass of the inner loop of `raycast`, in the vocabulary of `cell_hit_fp`. -/
theorem raycast_ray_fp_succ (R : Rounding α) (L : Libm α) (map : OccupancyGrid α)
    (angle dist : α) (fuel : Nat) :
    raycast_ray_fp R L map angle (fuel + 1) dist =
      if dist ≤ L.hypot map.origin_x map.origin_y then
        if (0 ≤ ⌊R.double (R.double ((ray_point_fp R L angle dist).x - map.origin_x) /
                map.resolution)⌋ ∧
              ⌊R.double (R.double ((ray_point_fp R L angle dist).x - map.origin_x) /
                map.resolution)⌋ < (map.width : Int)) ∧
            (0 ≤ ⌊R.double (R.double ((ray_point_fp R L angle dist).y - map.origin_y) /
                map.resolution)⌋ ∧
              ⌊R.double (R.double ((ray_point_fp R L angle dist).y - map.origin_y) /
                map.resolution)⌋ < (map.height : Int)) then
          match map.data.get? (cell_index_fp R map (ray_point_fp R L angle dist)) with
          | none => none
          | some cell =>
            if cell = 100 then some (some (ray_point_fp R L angle dist))
            else raycast_ray_fp R L map angle fuel (R.float (dist + map.resolution))
        else raycast_ray_fp R L map angle fuel (R.float (dist + map.resolution))
      else some none := rfl

/-- The inner loop of `raycast`, when it returns a point: the point is the sample at some
value of the counter, it is a hit, and no sample at an earlier value of the counter is. -/
theorem raycast_ray_fp_spec (R : Rounding α) (L : Libm α) (map : OccupancyGrid α)
    (angle : α) :
    ∀ (fuel : Nat) (dist : α) (pt : Point α),
      raycast_ray_fp R L map angle fuel dist = some (some pt) →
      ∃ k : Nat,
        pt = ray_point_fp R L angle ((fun d => R.float (d + map.resolution))^[k] dist) ∧
        cell_hit_fp R map pt ∧
        ∀ j < k, ¬ cell_hit_fp R map
          (ray_point_fp R L angle ((fun d => R.float (d + map.resolution))^[j] dist)) := by
  intro fuel
  induction fuel with
  | zero => intro dist pt h; simp [raycast_ray_fp] at h
  | succ n ih =>
    intro dist pt h
    rw [raycast_ray_fp_succ] at h
    have hnext : ¬ cell_hit_fp R map (ray_point_fp R L angle dist) →
        raycast_ray_fp R L map angle n (R.float (dist + map.resolution)) = some (some pt) →
        ∃ k : Nat,
          pt = ray_point_fp R L angle ((fun d => R.float (d + map.resolution))^[k] dist) ∧
          cell_hit_fp R map pt ∧
          ∀ j < k, ¬ cell_hit_fp R map
            (ray_point_fp R L angle ((fun d => R.float (d + map.resolution))^[j] dist)) := by
      intro hno hrec
      obtain ⟨k, h1, h2, h3⟩ := ih _ pt hrec
      refine ⟨k + 1, by rw [Function.iterate_succ_apply]; exact h1, h2, ?_⟩
      intro j hj
      cases j with
      | zero => simpa using hno
      | succ i =>
        rw [Function.iterate_succ_apply]
        exact h3 i (by omega)
    by_cases hd : dist ≤ L.hypot map.origin_x map.origin_y
    · rw [if_pos hd] at h
      by_cases hin : (0 ≤ ⌊R.double (R.double ((ray_point_fp R L angle dist).x - map.origin_x) /
                map.resolution)⌋ ∧
              ⌊R.double (R.double ((ray_point_fp R L angle dist).x - map.origin_x) /
                map.resolution)⌋ < (map.width : Int)) ∧
            (0 ≤ ⌊R.double (R.double ((ray_point_fp R L angle dist).y - map.origin_y) /
                map.resolution)⌋ ∧
              ⌊R.double (R.double ((ray_point_fp R L angle dist).y - map.origin_y) /
                map.resolution)⌋ < (map.height : Int))
      · rw [if_pos hin] at h
        cases hcell : map.data.get? (cell_index_fp R map (ray_point_fp R L angle dist)) with
        | none =>
          rw [hcell] at h
          simp at h
        | some cell =>
          rw [hcell] at h
          simp only [] at h
          by_cases hc : cell = 100
          · rw [if_pos hc] at h
            have hpt : ray_point_fp R L angle dist = pt := Option.some.inj (Option.some.inj h)
            refine ⟨0, by simpa using hpt.symm, ?_, by simp⟩
            rw [← hpt]
            exact ⟨hin, by rw [hcell, hc]⟩
          · rw [if_neg hc] at h
            apply hnext _ h
            rintro ⟨_, hh⟩
            rw [hcell] at hh
            exact hc (Option.some.inj hh)
      · rw [if_neg hin] at h
        apply hnext _ h
        rintro ⟨hh, _⟩
        exact hin hh
    · rw [if_neg hd] at h
      simp at h

theorem raycast_loop_fp_succ (R : Rounding α) (L : Libm α) (p : DWAPlanner α)
    (map : OccupancyGrid α) (ray_fuel fuel : Nat) (angle : α) (obs : List (Point α)) :
    raycast_loop_fp R L p map ray_fuel (fuel + 1) angle obs =
      if angle ≤ M_PI then
        match raycast_ray_fp R L map angle ray_fuel 0 with
        | none => none
        | some none =>
          raycast_loop_fp R L p map ray_fuel fuel
            (R.float (R.double (angle + p.angle_resolution_))) obs
        | some (some pose) =>
          raycast_loop_fp R L p map ray_fuel fuel
            (R.float (R.double (angle + p.angle_resolution_))) (obs ++ [pose])
      else some obs := rfl

theorem loop_fp_succ (R : Rounding α) (hi step t : α) (fuel : Nat) :
    loop_fp R hi step (fuel + 1) t =
      if t ≤ hi then
        (loop_fp R hi step fuel (R.float (R.double (t + step)))).map (fun ts => t :: ts)
      else some [] := rfl

/-- The outer loop of `raycast`, when it returns: the angle counter has taken the values
of a list `angles`, at most one point per value was appended, and each appended point is
the first hit of the ray of one of these values. -/
theorem raycast_loop_fp_spec (R : Rounding α) (L : Libm α) (p : DWAPlanner α)
    (map : OccupancyGrid α) (ray_fuel : Nat) :
    ∀ (fuel : Nat) (angle : α) (obs0 obs : List (Point α)),
      raycast_loop_fp R L p map ray_fuel fuel angle obs0 = some obs →
      ∃ new angles, obs = obs0 ++ new ∧
        loop_fp R M_PI p.angle_resolution_ fuel angle = some angles ∧
        new.length ≤ angles.length ∧
        ∀ pt ∈ new, ∃ a ∈ angles, ∃ k : Nat,
          pt = ray_point_fp R L a (dist_at R map k) ∧ cell_hit_fp R map pt ∧
          ∀ j < k, ¬ cell_hit_fp R map (ray_point_fp R L a (dist_at R map j)) := by
  intro fuel
  induction fuel with
  | zero => intro angle obs0 obs h; simp [raycast_loop_fp] at h
  | succ n ih =>
    intro angle obs0 obs h
    rw [raycast_loop_fp_succ] at h
    rw [loop_fp_succ]
    by_cases ha : angle ≤ M_PI
    · rw [if_pos ha] at h
      rw [if_pos ha]
      cases hray : raycast_ray_fp R L map angle ray_fuel 0 with
      | none => simp [hray] at h
      | some r =>
        cases r with
        | none =>
          simp only [hray] at h
          obtain ⟨new, angles, h1, h2, h3, h4⟩ := ih _ obs0 obs h
          refine ⟨new, angle :: angles, h1, by rw [h2]; rfl,
            by simp only [List.length_cons]; omega, ?_⟩
          intro pt hpt
          obtain ⟨a, ha', rest⟩ := h4 pt hpt
          exact ⟨a, List.mem_cons_of_mem _ ha', rest⟩
        | some pose =>
          simp only [hray] at h
          obtain ⟨new, angles, h1, h2, h3, h4⟩ := ih _ (obs0 ++ [pose]) obs h
          refine ⟨pose :: new, angle :: angles, by rw [h1]; simp, by rw [h2]; rfl,
            by simp only [List.length_cons]; omega, ?_⟩
          intro pt hpt
          rcases List.mem_cons.mp hpt with rfl | hpt
          · obtain ⟨k, e1, e2, e3⟩ := raycast_ray_fp_spec R L map angle ray_fuel 0 pt hray
            exact ⟨angle, List.mem_cons_self _ _, k, e1, e2, e3⟩
          · obtain ⟨a, ha', rest⟩ := h4 pt hpt
            exact ⟨a, List.mem_cons_of_mem _ ha', rest⟩
    · rw [if_neg ha] at h
      rw [if_neg ha]
      refine ⟨[], [], ?_, rfl, le_refl _, by simp⟩
      simpa using (Option.some.inj h).symm

/-- When every ray returns the same result, the outer loop of `raycast` appends it once per
value of the angle counter. -/
theorem raycast_loop_fp_const (R : Rounding α) (L : Libm α) (p : DWAPlanner α)
    (map : OccupancyGrid α) (ray_fuel : Nat) (r : Option (Point α))
    (h : ∀ angle, raycast_ray_fp R L map angle ray_fuel 0 = some r) :
    ∀ (fuel : Nat) (angle : α) (obs0 : List (Point α)),
      raycast_loop_fp R L p map ray_fuel fuel angle obs0 =
        (loop_fp R M_PI p.angle_resolution_ fuel angle).map
          (fun angles => obs0 ++ (List.replicate angles.length r).reduceOption) := by
  intro fuel
  induction fuel with
  | zero => intro angle obs0; rfl
  | succ n ih =>
    intro angle obs0
    rw [raycast_loop_fp_succ, loop_fp_succ]
    by_cases ha : angle ≤ M_PI
    · rw [if_pos ha, if_pos ha, h angle]
      cases r with
      | none =>
        simp only []
        rw [ih]
        cases loop_fp R M_PI p.angle_resolution_ n
            (R.float (R.double (angle + p.angle_resolution_))) with
        | none => rfl
        | some angles =>
          simp [List.replicate_succ, List.reduceOption_cons_of_none]
      | some pose =>
        simp only []
        rw [ih]
        cases loop_fp R M_PI p.angle_resolution_ n
            (R.float (R.double (angle + p.angle_resolution_))) with
        | none => rfl
        | some angles =>
          simp [List.replicate_succ, List.reduceOption_cons_of_some]
    · rw [if_neg ha, if_neg ha]
      simp

/-- With the `double` nearest to 0.2 as angle step the `float` angle counter of `raycast`
takes 32 values. -/
theorem default_rays_fp (fuel : Nat) :
    ∃ angles, loop_fp Rounding.ieee M_PI DOUBLE_FIFTH (fuel + 33)
        (Rounding.ieee.float (-M_PI)) = some angles ∧ angles.length = 32 := by
  have hstart : Rounding.ieee.float (-(884279719003555 / 281474976710656 : ℚ)) = (-13176795 / 4194304 : ℚ) :=
    show round_to_bits 24 (-(884279719003555 / 281474976710656 : ℚ)) = (-13176795 / 4194304 : ℚ) from
    round_to_bits_cert_neg 24 22 884279719003555 281474976710656 13176795 13176795 4194304 _ _
      (by norm_num) (by norm_num) (by decide) (by decide) (by decide) (by decide)
      (by decide) (by decide) (by decide) (by decide)
  have h2 : Rounding.ieee.double ((-13176795 / 4194304 : ℚ) + (3602879701896397 / 18014398509481984 : ℚ)) = (-3311938993074995 / 1125899906842624 : ℚ) :=
    show round_to_bits 53 ((-13176795 / 4194304 : ℚ) + (3602879701896397 / 18014398509481984 : ℚ)) = (-3311938993074995 / 1125899906842624 : ℚ) from
    round_to_bits_cert_neg 53 51 52991023889199923 18014398509481984 6623877986149990 3311938993074995 1125899906842624 _ _
      (by norm_num) (by norm_num) (by decide) (by decide) (by decide) (by decide)
      (by decide) (by decide) (by decide) (by decide)
  have h3 : Rounding.ieee.float ((-3311938993074995 / 1125899906842624 : ℚ)) = (-6168967 / 2097152 : ℚ) :=
    show round_to_bits 24 ((-3311938993074995 / 1125899906842624 : ℚ)) = (-6168967 / 2097152 : ℚ) from
    round_to_bits_cert_neg 24 22 3311938993074995 1125899906842624 12337934 6168967 2097152 _ _
      (by norm_num) (by norm_num) (by decide) (by decide) (by decide) (by decide)
      (by decide) (by decide) (by decide) (by decide)
  have h4 : Rounding.ieee.double ((-6168967 / 2097152 : ℚ) + (3602879701896397 / 18014398509481984 : ℚ)) = (-3086758958019379 / 1125899906842624 : ℚ) :=
    show round_to_bits 53 ((-6168967 / 2097152 : ℚ) + (3602879701896397 / 18014398509481984 : ℚ)) = (-3086758958019379 / 1125899906842624 : ℚ) from
    round_to_bits_cert_neg 53 51 49388143328310067 18014398509481984 6173517916038758 3086758958019379 1125899906842624 _ _
      (by norm_num) (by norm_num) (by decide) (by decide) (by decide) (by decide)
      (by decide) (by decide) (by decide) (by decide)
  have h5 : Rounding.ieee.float ((-3086758958019379 / 1125899906842624 : ℚ)) = (-11499073 / 4194304 : ℚ) :=
    show round_to_bits 24 ((-3086758958019379 / 1125899906842624 : ℚ)) = (-11499073 / 4194304 : ℚ) from
    round_to_bits_cert_neg 24 22 3086758958019379 1125899906842624 11499073 11499073 4194304 _ _
      (by norm_num) (by norm_num) (by decide) (by decide) (by decide) (by decide)
      (by decide) (by decide) (by decide) (by decide)
  have h6 : Rounding.ieee.double ((-11499073 / 4194304 : ℚ) + (3602879701896397 / 18014398509481984 : ℚ)) = (-2861578922963763 / 1125899906842624 : ℚ) :=
    show round_to_bits 53 ((-11499073 / 4194304 : ℚ) + (3602879701896397 / 18014398509481984 : ℚ)) = (-2861578922963763 / 1125899906842624 : ℚ) from
    round_to_bits_cert_neg 53 51 45785262767420211 18014398509481984 5723157845927526 2861578922963763 1125899906842624 _ _
      (by norm_num) (by norm_num) (by decide) (by decide) (by decide) (by decide)
      (by decide) (by decide) (by decide) (by decide)
  have h7 : Rounding.ieee.float ((-2861578922963763 / 1125899906842624 : ℚ)) = (-2665053 / 1048576 : ℚ) :=
    show round_to_bits 24 ((-2861578922963763 / 1125899906842624 : ℚ)) = (-2665053 / 1048576 : ℚ) from
    round_to_bits_cert_neg 24 22 2861578922963763 1125899906842624 10660212 2665053 1048576 _ _
      (by norm_num) (by norm_num) (by decide) (by decide) (by decide) (by decide)
      (by decide) (by decide) (by decide) (by decide)
  have h8 : Rounding.ieee.double ((-2665053 / 1048576 : ℚ) + (3602879701896397 / 18014398509481984 : ℚ)) = (-2636398887908147 / 1125899906842624 : ℚ) :=
    show round_to_bits 53 ((-2665053 / 1048576 : ℚ) + (3602879701896397 / 18014398509481984 : ℚ)) = (-2636398887908147 / 1125899906842624 : ℚ) from
    round_to_bits_cert_neg 53 51 42182382206530355 18014398509481984 5272797775816294 2636398887908147 1125899906842624 _ _
      (by norm_num) (by norm_num) (by decide) (by decide) (by decide) (by decide)
      (by decide) (by decide) (by decide) (by decide)
  have h9 : Rounding.ieee.float ((-2636398887908147 / 1125899906842624 : ℚ)) = (-9821351 / 4194304 : ℚ) :=
    show round_to_bits 24 ((-2636398887908147 / 1125899906842624 : ℚ)) = (-9821351 / 4194304 : ℚ) from
    round_to_bits_cert_neg 24 22 2636398887908147 1125899906842624 9821351 9821351 4194304 _ _
      (by norm_num) (by norm_num) (by decide) (by decide) (by decide) (by decide)
      (by decide) (by decide) (by decide) (by decide)
  have h10 : Rounding.ieee.double ((-9821351 / 4194304 : ℚ) + (3602879701896397 / 18014398509481984 : ℚ)) = (-2411218852852531 / 1125899906842624 : ℚ) :=
    show round_to_bits 53 ((-9821351 / 4194304 : ℚ) + (3602879701896397 / 18014398509481984 : ℚ)) = (-2411218852852531 / 1125899906842624 : ℚ) from
    round_to_bits_cert_neg 53 51 38579501645640499 18014398509481984 4822437705705062 2411218852852531 1125899906842624 _ _
      (by norm_num) (by norm_num) (by decide) (by decide) (by decide) (by decide)
      (by decide) (by decide) (by decide) (by decide)
  have h11 : Rounding.ieee.float ((-2411218852852531 / 1125899906842624 : ℚ)) = (-4491245 / 2097152 : ℚ) :=
    show round_to_bits 24 ((-2411218852852531 / 1125899906842624 : ℚ)) = (-4491245 / 2097152 : ℚ) from
    round_to_bits_cert_neg 24 22 2411218852852531 1125899906842624 8982490 4491245 2097152 _ _
      (by norm_num) (by norm_num) (by decide) (by decide) (by decide) (by decide)
      (by decide) (by decide) (by decide) (by decide)
  have h12 : Rounding.ieee.double ((-4491245 / 2097152 : ℚ) + (3602879701896397 / 18014398509481984 : ℚ)) = (-8744155271187661 / 4503599627370496 : ℚ) :=
    show round_to_bits 53 ((-4491245 / 2097152 : ℚ) + (3602879701896397 / 18014398509481984 : ℚ)) = (-8744155271187661 / 4503599627370496 : ℚ) from
    round_to_bits_cert_neg 53 52 34976621084750643 18014398509481984 8744155271187661 8744155271187661 4503599627370496 _ _
      (by norm_num) (by norm_num) (by decide) (by decide) (by decide) (by decide)
      (by decide) (by decide) (by decide) (by decide)
  have h13 : Rounding.ieee.float ((-8744155271187661 / 4503599627370496 : ℚ)) = (-8143629 / 4194304 : ℚ) :=
    show round_to_bits 24 ((-8744155271187661 / 4503599627370496 : ℚ)) = (-8143629 / 4194304 : ℚ) from
    round_to_bits_cert_neg 24 23 8744155271187661 4503599627370496 16287258 8143629 4194304 _ _
      (by norm_num) (by norm_num) (by decide) (by decide) (by decide) (by decide)
      (by decide) (by decide) (by decide) (by decide)
  have h14 : Rounding.ieee.double ((-8143629 / 4194304 : ℚ) + (3602879701896397 / 18014398509481984 : ℚ)) = (-7843435130965197 / 4503599627370496 : ℚ) :=
    show round_to_bits 53 ((-8143629 / 4194304 : ℚ) + (3602879701896397 / 18014398509481984 : ℚ)) = (-7843435130965197 / 4503599627370496 : ℚ) from
    round_to_bits_cert_neg 53 52 31373740523860787 18014398509481984 7843435130965197 7843435130965197 4503599627370496 _ _
      (by norm_num) (by norm_num) (by decide) (by decide) (by decide) (by decide)
      (by decide) (by decide) (by decide) (by decide)
  have h15 : Rounding.ieee.float ((-7843435130965197 / 4503599627370496 : ℚ)) = (-114137 / 65536 : ℚ) :=
    show round_to_bits 24 ((-7843435130965197 / 4503599627370496 : ℚ)) = (-114137 / 65536 : ℚ) from
    round_to_bits_cert_neg 24 23 7843435130965197 4503599627370496 14609536 114137 65536 _ _
      (by norm_num) (by norm_num) (by decide) (by decide) (by decide) (by decide)
      (by decide) (by decide) (by decide) (by decide)
  have h16 : Rounding.ieee.double ((-114137 / 65536 : ℚ) + (3602879701896397 / 18014398509481984 : ℚ)) = (-6942714990742733 / 4503599627370496 : ℚ) :=
    show round_to_bits 53 ((-114137 / 65536 : ℚ) + (3602879701896397 / 18014398509481984 : ℚ)) = (-6942714990742733 / 4503599627370496 : ℚ) from
    round_to_bits_cert_neg 53 52 27770859962970931 18014398509481984 6942714990742733 6942714990742733 4503599627370496 _ _
      (by norm_num) (by norm_num) (by decide) (by decide) (by decide) (by decide)
      (by decide) (by decide) (by decide) (by decide)
  have h17 : Rounding.ieee.float ((-6942714990742733 / 4503599627370496 : ℚ)) = (-6465907 / 4194304 : ℚ) :=
    show round_to_bits 24 ((-6942714990742733 / 4503599627370496 : ℚ)) = (-6465907 / 4194304 : ℚ) from
    round_to_bits_cert_neg 24 23 6942714990742733 4503599627370496 12931814 6465907 4194304 _ _
      (by norm_num) (by norm_num) (by decide) (by decide) (by decide) (by decide)
      (by decide) (by decide) (by decide) (by decide)
  have h18 : Rounding.ieee.double ((-6465907 / 4194304 : ℚ) + (3602879701896397 / 18014398509481984 : ℚ)) = (-6041994850520269 / 4503599627370496 : ℚ) :=
    show round_to_bits 53 ((-6465907 / 4194304 : ℚ) + (3602879701896397 / 18014398509481984 : ℚ)) = (-6041994850520269 / 4503599627370496 : ℚ) from
    round_to_bits_cert_neg 53 52 24167979402081075 18014398509481984 6041994850520269 6041994850520269 4503599627370496 _ _
      (by norm_num) (by norm_num) (by decide) (by decide) (by decide) (by decide)
      (by decide) (by decide) (by decide) (by decide)
  have h19 : Rounding.ieee.float ((-6041994850520269 / 4503599627370496 : ℚ)) = (-2813523 / 2097152 : ℚ) :=
    show round_to_bits 24 ((-6041994850520269 / 4503599627370496 : ℚ)) = (-2813523 / 2097152 : ℚ) from
    round_to_bits_cert_neg 24 23 6041994850520269 4503599627370496 11254092 2813523 2097152 _ _
      (by norm_num) (by norm_num) (by decide) (by decide) (by decide) (by decide)
      (by decide) (by decide) (by decide) (by decide)
  have h20 : Rounding.ieee.double ((-2813523 / 2097152 : ℚ) + (3602879701896397 / 18014398509481984 : ℚ)) = (-5141274710297805 / 4503599627370496 : ℚ) :=
    show round_to_bits 53 ((-2813523 / 2097152 : ℚ) + (3602879701896397 / 18014398509481984 : ℚ)) = (-5141274710297805 / 4503599627370496 : ℚ) from
    round_to_bits_cert_neg 53 52 20565098841191219 18014398509481984 5141274710297805 5141274710297805 4503599627370496 _ _
      (by norm_num) (by norm_num) (by decide) (by decide) (by decide) (by decide)
      (by decide) (by decide) (by decide) (by decide)
  have h21 : Rounding.ieee.float ((-5141274710297805 / 4503599627370496 : ℚ)) = (-4788185 / 4194304 : ℚ) :=
    show round_to_bits 24 ((-5141274710297805 / 4503599627370496 : ℚ)) = (-4788185 / 4194304 : ℚ) from
    round_to_bits_cert_neg 24 23 5141274710297805 4503599627370496 9576370 4788185 4194304 _ _
      (by norm_num) (by norm_num) (by decide) (by decide) (by decide) (by decide)
      (by decide) (by decide) (by decide) (by decide)
  have h22 : Rounding.ieee.double ((-4788185 / 4194304 : ℚ) + (3602879701896397 / 18014398509481984 : ℚ)) = (-4240554570075341 / 4503599627370496 : ℚ) :=
    show round_to_bits 53 ((-4788185 / 4194304 : ℚ) + (3602879701896397 / 18014398509481984 : ℚ)) = (-4240554570075341 / 4503599627370496 : ℚ) from
    round_to_bits_cert_tie 53 53 16962218280301363 18014398509481984 8481109140150681 8481109140150682 4240554570075341 4503599627370496 _ _ true
      (by norm_num) (by norm_num) (by decide) (by decide) (by decide) (by decide)
      (by decide) (by decide) (by decide) (by decide)
  have h23 : Rounding.ieee.float ((-4240554570075341 / 4503599627370496 : ℚ)) = (-15797297 / 16777216 : ℚ) :=
    show round_to_bits 24 ((-4240554570075341 / 4503599627370496 : ℚ)) = (-15797297 / 16777216 : ℚ) from
    round_to_bits_cert_neg 24 24 4240554570075341 4503599627370496 15797297 15797297 16777216 _ _
      (by norm_num) (by norm_num) (by decide) (by decide) (by decide) (by decide)
      (by decide) (by decide) (by decide) (by decide)
  have h24 : Rounding.ieee.double ((-15797297 / 16777216 : ℚ) + (3602879701896397 / 18014398509481984 : ℚ)) = (-3339834698288333 / 4503599627370496 : ℚ) :=
    show round_to_bits 53 ((-15797297 / 16777216 : ℚ) + (3602879701896397 / 18014398509481984 : ℚ)) = (-3339834698288333 / 4503599627370496 : ℚ) from
    round_to_bits_cert_tie 53 53 13359338793153331 18014398509481984 6679669396576665 6679669396576666 3339834698288333 4503599627370496 _ _ true
      (by norm_num) (by norm_num) (by decide) (by decide) (by decide) (by decide)
      (by decide) (by decide) (by decide) (by decide)
  have h25 : Rounding.ieee.float ((-3339834698288333 / 4503599627370496 : ℚ)) = (-6220927 / 8388608 : ℚ) :=
    show round_to_bits 24 ((-3339834698288333 / 4503599627370496 : ℚ)) = (-6220927 / 8388608 : ℚ) from
    round_to_bits_cert_neg 24 24 3339834698288333 4503599627370496 12441854 6220927 8388608 _ _
      (by norm_num) (by norm_num) (by decide) (by decide) (by decide) (by decide)
      (by decide) (by decide) (by decide) (by decide)
  have h26 : Rounding.ieee.double ((-6220927 / 8388608 : ℚ) + (3602879701896397 / 18014398509481984 : ℚ)) = (-2439114826501325 / 4503599627370496 : ℚ) :=
    show round_to_bits 53 ((-6220927 / 8388608 : ℚ) + (3602879701896397 / 18014398509481984 : ℚ)) = (-2439114826501325 / 4503599627370496 : ℚ) from
    round_to_bits_cert_tie 53 53 9756459306005299 18014398509481984 4878229653002649 4878229653002650 2439114826501325 4503599627370496 _ _ true
      (by norm_num) (by norm_num) (by decide) (by decide) (by decide) (by decide)
      (by decide) (by decide) (by decide) (by decide)
  have h27 : Rounding.ieee.float ((-2439114826501325 / 4503599627370496 : ℚ)) = (-9086411 / 16777216 : ℚ) :=
    show round_to_bits 24 ((-2439114826501325 / 4503599627370496 : ℚ)) = (-9086411 / 16777216 : ℚ) from
    round_to_bits_cert_neg 24 24 2439114826501325 4503599627370496 9086411 9086411 16777216 _ _
      (by norm_num) (by norm_num) (by decide) (by decide) (by decide) (by decide)
      (by decide) (by decide) (by decide) (by decide)
  have h28 : Rounding.ieee.double ((-9086411 / 16777216 : ℚ) + (3602879701896397 / 18014398509481984 : ℚ)) = (-6153579818857267 / 18014398509481984 : ℚ) :=
    show round_to_bits 53 ((-9086411 / 16777216 : ℚ) + (3602879701896397 / 18014398509481984 : ℚ)) = (-6153579818857267 / 18014398509481984 : ℚ) from
    round_to_bits_cert_neg 53 54 6153579818857267 18014398509481984 6153579818857267 6153579818857267 18014398509481984 _ _
      (by norm_num) (by norm_num) (by decide) (by decide) (by decide) (by decide)
      (by decide) (by decide) (by decide) (by decide)
  have h29 : Rounding.ieee.float ((-6153579818857267 / 18014398509481984 : ℚ)) = (-716371 / 2097152 : ℚ) :=
    show round_to_bits 24 ((-6153579818857267 / 18014398509481984 : ℚ)) = (-716371 / 2097152 : ℚ) from
    round_to_bits_cert_neg 24 25 6153579818857267 18014398509481984 11461936 716371 2097152 _ _
      (by norm_num) (by norm_num) (by decide) (by decide) (by decide) (by decide)
      (by decide) (by decide) (by decide) (by decide)
  have h30 : Rounding.ieee.double ((-716371 / 2097152 : ℚ) + (3602879701896397 / 18014398509481984 : ℚ)) = (-2550700331709235 / 18014398509481984 : ℚ) :=
    show round_to_bits 53 ((-716371 / 2097152 : ℚ) + (3602879701896397 / 18014398509481984 : ℚ)) = (-2550700331709235 / 18014398509481984 : ℚ) from
    round_to_bits_cert_neg 53 55 2550700331709235 18014398509481984 5101400663418470 2550700331709235 18014398509481984 _ _
      (by norm_num) (by norm_num) (by decide) (by decide) (by decide) (by decide)
      (by decide) (by decide) (by decide) (by decide)
  have h31 : Rounding.ieee.float ((-2550700331709235 / 18014398509481984 : ℚ)) = (-9502099 / 67108864 : ℚ) :=
    show round_to_bits 24 ((-2550700331709235 / 18014398509481984 : ℚ)) = (-9502099 / 67108864 : ℚ) from
    round_to_bits_cert_neg 24 26 2550700331709235 18014398509481984 9502099 9502099 67108864 _ _
      (by norm_num) (by norm_num) (by decide) (by decide) (by decide) (by decide)
      (by decide) (by decide) (by decide) (by decide)
  have h32 : Rounding.ieee.double ((-9502099 / 67108864 : ℚ) + (3602879701896397 / 18014398509481984 : ℚ)) = (1052179423874253 / 18014398509481984 : ℚ) :=
    show round_to_bits 53 ((-9502099 / 67108864 : ℚ) + (3602879701896397 / 18014398509481984 : ℚ)) = (1052179423874253 / 18014398509481984 : ℚ) from
    round_to_bits_cert 53 57 1052179423874253 18014398509481984 8417435390994024 1052179423874253 18014398509481984 _ _
      (by norm_num) (by norm_num) (by decide) (by decide) (by decide) (by decide)
      (by decide) (by decide) (by decide) (by decide)
  have h33 : Rounding.ieee.float ((1052179423874253 / 18014398509481984 : ℚ)) = (15678695 / 268435456 : ℚ) :=
    show round_to_bits 24 ((1052179423874253 / 18014398509481984 : ℚ)) = (15678695 / 268435456 : ℚ) from
    round_to_bits_cert 24 28 1052179423874253 18014398509481984 15678695 15678695 268435456 _ _
      (by norm_num) (by norm_num) (by decide) (by decide) (by decide) (by decide)
      (by decide) (by decide) (by decide) (by decide)
  have h34 : Rounding.ieee.double ((15678695 / 268435456 : ℚ) + (3602879701896397 / 18014398509481984 : ℚ)) = (4655059112348877 / 18014398509481984 : ℚ) :=
    show round_to_bits 53 ((15678695 / 268435456 : ℚ) + (3602879701896397 / 18014398509481984 : ℚ)) = (4655059112348877 / 18014398509481984 : ℚ) from
    round_to_bits_cert 53 54 4655059112348877 18014398509481984 4655059112348877 4655059112348877 18014398509481984 _ _
      (by norm_num) (by norm_num) (by decide) (by decide) (by decide) (by decide)
      (by decide) (by decide) (by decide) (by decide)
  have h35 : Rounding.ieee.float ((4655059112348877 / 18014398509481984 : ℚ)) = (8670723 / 33554432 : ℚ) :=
    show round_to_bits 24 ((4655059112348877 / 18014398509481984 : ℚ)) = (8670723 / 33554432 : ℚ) from
    round_to_bits_cert 24 25 4655059112348877 18014398509481984 8670723 8670723 33554432 _ _
      (by norm_num) (by norm_num) (by decide) (by decide) (by decide) (by decide)
      (by decide) (by decide) (by decide) (by decide)
  have h36 : Rounding.ieee.double ((8670723 / 33554432 : ℚ) + (3602879701896397 / 18014398509481984 : ℚ)) = (8257938666605773 / 18014398509481984 : ℚ) :=
    show round_to_bits 53 ((8670723 / 33554432 : ℚ) + (3602879701896397 / 18014398509481984 : ℚ)) = (8257938666605773 / 18014398509481984 : ℚ) from
    round_to_bits_cert 53 54 8257938666605773 18014398509481984 8257938666605773 8257938666605773 18014398509481984 _ _
      (by norm_num) (by norm_num) (by decide) (by decide) (by decide) (by decide)
      (by decide) (by decide) (by decide) (by decide)
  have h37 : Rounding.ieee.float ((8257938666605773 / 18014398509481984 : ℚ)) = (15381609 / 33554432 : ℚ) :=
    show round_to_bits 24 ((8257938666605773 / 18014398509481984 : ℚ)) = (15381609 / 33554432 : ℚ) from
    round_to_bits_cert 24 25 8257938666605773 18014398509481984 15381609 15381609 33554432 _ _
      (by norm_num) (by norm_num) (by decide) (by decide) (by decide) (by decide)
      (by decide) (by decide) (by decide) (by decide)
  have h38 : Rounding.ieee.double ((15381609 / 33554432 : ℚ) + (3602879701896397 / 18014398509481984 : ℚ)) = (2965204538438451 / 4503599627370496 : ℚ) :=
    show round_to_bits 53 ((15381609 / 33554432 : ℚ) + (3602879701896397 / 18014398509481984 : ℚ)) = (2965204538438451 / 4503599627370496 : ℚ) from
    round_to_bits_cert_tie 53 53 11860818153753805 18014398509481984 5930409076876902 5930409076876902 2965204538438451 4503599627370496 _ _ false
      (by norm_num) (by norm_num) (by decide) (by decide) (by decide) (by decide)
      (by decide) (by decide) (by decide) (by decide)
  have h39 : Rounding.ieee.float ((2965204538438451 / 4503599627370496 : ℚ)) = (1380781 / 2097152 : ℚ) :=
    show round_to_bits 24 ((2965204538438451 / 4503599627370496 : ℚ)) = (1380781 / 2097152 : ℚ) from
    round_to_bits_cert 24 24 2965204538438451 4503599627370496 11046248 1380781 2097152 _ _
      (by norm_num) (by norm_num) (by decide) (by decide) (by decide) (by decide)
      (by decide) (by decide) (by decide) (by decide)
  have h40 : Rounding.ieee.double ((1380781 / 2097152 : ℚ) + (3602879701896397 / 18014398509481984 : ℚ)) = (3865924544443187 / 4503599627370496 : ℚ) :=
    show round_to_bits 53 ((1380781 / 2097152 : ℚ) + (3602879701896397 / 18014398509481984 : ℚ)) = (3865924544443187 / 4503599627370496 : ℚ) from
    round_to_bits_cert_tie 53 53 15463698177772749 18014398509481984 7731849088886374 7731849088886374 3865924544443187 4503599627370496 _ _ false
      (by norm_num) (by norm_num) (by decide) (by decide) (by decide) (by decide)
      (by decide) (by decide) (by decide) (by decide)
  have h41 : Rounding.ieee.float ((3865924544443187 / 4503599627370496 : ℚ)) = (14401691 / 16777216 : ℚ) :=
    show round_to_bits 24 ((3865924544443187 / 4503599627370496 : ℚ)) = (14401691 / 16777216 : ℚ) from
    round_to_bits_cert 24 24 3865924544443187 4503599627370496 14401691 14401691 16777216 _ _
      (by norm_num) (by norm_num) (by decide) (by decide) (by decide) (by decide)
      (by decide) (by decide) (by decide) (by decide)
  have h42 : Rounding.ieee.double ((14401691 / 16777216 : ℚ) + (3602879701896397 / 18014398509481984 : ℚ)) = (4766644416230195 / 4503599627370496 : ℚ) :=
    show round_to_bits 53 ((14401691 / 16777216 : ℚ) + (3602879701896397 / 18014398509481984 : ℚ)) = (4766644416230195 / 4503599627370496 : ℚ) from
    round_to_bits_cert 53 52 19066577664920781 18014398509481984 4766644416230195 4766644416230195 4503599627370496 _ _
      (by norm_num) (by norm_num) (by decide) (by decide) (by decide) (by decide)
      (by decide) (by decide) (by decide) (by decide)
  have h43 : Rounding.ieee.float ((4766644416230195 / 4503599627370496 : ℚ)) = (8878567 / 8388608 : ℚ) :=
    show round_to_bits 24 ((4766644416230195 / 4503599627370496 : ℚ)) = (8878567 / 8388608 : ℚ) from
    round_to_bits_cert 24 23 4766644416230195 4503599627370496 8878567 8878567 8388608 _ _
      (by norm_num) (by norm_num) (by decide) (by decide) (by decide) (by decide)
      (by decide) (by decide) (by decide) (by decide)
  have h44 : Rounding.ieee.double ((8878567 / 8388608 : ℚ) + (3602879701896397 / 18014398509481984 : ℚ)) = (5667364288017203 / 4503599627370496 : ℚ) :=
    show round_to_bits 53 ((8878567 / 8388608 : ℚ) + (3602879701896397 / 18014398509481984 : ℚ)) = (5667364288017203 / 4503599627370496 : ℚ) from
    round_to_bits_cert 53 52 22669457152068813 18014398509481984 5667364288017203 5667364288017203 4503599627370496 _ _
      (by norm_num) (by norm_num) (by decide) (by decide) (by decide) (by decide)
      (by decide) (by decide) (by decide) (by decide)
  have h45 : Rounding.ieee.float ((5667364288017203 / 4503599627370496 : ℚ)) = (10556289 / 8388608 : ℚ) :=
    show round_to_bits 24 ((5667364288017203 / 4503599627370496 : ℚ)) = (10556289 / 8388608 : ℚ) from
    round_to_bits_cert 24 23 5667364288017203 4503599627370496 10556289 10556289 8388608 _ _
      (by norm_num) (by norm_num) (by decide) (by decide) (by decide) (by decide)
      (by decide) (by decide) (by decide) (by decide)
  have h46 : Rounding.ieee.double ((10556289 / 8388608 : ℚ) + (3602879701896397 / 18014398509481984 : ℚ)) = (6568084428239667 / 4503599627370496 : ℚ) :=
    show round_to_bits 53 ((10556289 / 8388608 : ℚ) + (3602879701896397 / 18014398509481984 : ℚ)) = (6568084428239667 / 4503599627370496 : ℚ) from
    round_to_bits_cert 53 52 26272337712958669 18014398509481984 6568084428239667 6568084428239667 4503599627370496 _ _
      (by norm_num) (by norm_num) (by decide) (by decide) (by decide) (by decide)
      (by decide) (by decide) (by decide) (by decide)
  have h47 : Rounding.ieee.float ((6568084428239667 / 4503599627370496 : ℚ)) = (12234011 / 8388608 : ℚ) :=
    show round_to_bits 24 ((6568084428239667 / 4503599627370496 : ℚ)) = (12234011 / 8388608 : ℚ) from
    round_to_bits_cert 24 23 6568084428239667 4503599627370496 12234011 12234011 8388608 _ _
      (by norm_num) (by norm_num) (by decide) (by decide) (by decide) (by decide)
      (by decide) (by decide) (by decide) (by decide)
  have h48 : Rounding.ieee.double ((12234011 / 8388608 : ℚ) + (3602879701896397 / 18014398509481984 : ℚ)) = (7468804568462131 / 4503599627370496 : ℚ) :=
    show round_to_bits 53 ((12234011 / 8388608 : ℚ) + (3602879701896397 / 18014398509481984 : ℚ)) = (7468804568462131 / 4503599627370496 : ℚ) from
    round_to_bits_cert 53 52 29875218273848525 18014398509481984 7468804568462131 7468804568462131 4503599627370496 _ _
      (by norm_num) (by norm_num) (by decide) (by decide) (by decide) (by decide)
      (by decide) (by decide) (by decide) (by decide)
  have h49 : Rounding.ieee.float ((7468804568462131 / 4503599627370496 : ℚ)) = (13911733 / 8388608 : ℚ) :=
    show round_to_bits 24 ((7468804568462131 / 4503599627370496 : ℚ)) = (13911733 / 8388608 : ℚ) from
    round_to_bits_cert 24 23 7468804568462131 4503599627370496 13911733 13911733 8388608 _ _
      (by norm_num) (by norm_num) (by decide) (by decide) (by decide) (by decide)
      (by decide) (by decide) (by decide) (by decide)
  have h50 : Rounding.ieee.double ((13911733 / 8388608 : ℚ) + (3602879701896397 / 18014398509481984 : ℚ)) = (8369524708684595 / 4503599627370496 : ℚ) :=
    show round_to_bits 53 ((13911733 / 8388608 : ℚ) + (3602879701896397 / 18014398509481984 : ℚ)) = (8369524708684595 / 4503599627370496 : ℚ) from
    round_to_bits_cert 53 52 33478098834738381 18014398509481984 8369524708684595 8369524708684595 4503599627370496 _ _
      (by norm_num) (by norm_num) (by decide) (by decide) (by decide) (by decide)
      (by decide) (by decide) (by decide) (by decide)
  have h51 : Rounding.ieee.float ((8369524708684595 / 4503599627370496 : ℚ)) = (15589455 / 8388608 : ℚ) :=
    show round_to_bits 24 ((8369524708684595 / 4503599627370496 : ℚ)) = (15589455 / 8388608 : ℚ) from
    round_to_bits_cert 24 23 8369524708684595 4503599627370496 15589455 15589455 8388608 _ _
      (by norm_num) (by norm_num) (by decide) (by decide) (by decide) (by decide)
      (by decide) (by decide) (by decide) (by decide)
  have h52 : Rounding.ieee.double ((15589455 / 8388608 : ℚ) + (3602879701896397 / 18014398509481984 : ℚ)) = (2317561212226765 / 1125899906842624 : ℚ) :=
    show round_to_bits 53 ((15589455 / 8388608 : ℚ) + (3602879701896397 / 18014398509481984 : ℚ)) = (2317561212226765 / 1125899906842624 : ℚ) from
    round_to_bits_cert 53 51 37080979395628237 18014398509481984 4635122424453530 2317561212226765 1125899906842624 _ _
      (by norm_num) (by norm_num) (by decide) (by decide) (by decide) (by decide)
      (by decide) (by decide) (by decide) (by decide)
  have h53 : Rounding.ieee.float ((2317561212226765 / 1125899906842624 : ℚ)) = (2158397 / 1048576 : ℚ) :=
    show round_to_bits 24 ((2317561212226765 / 1125899906842624 : ℚ)) = (2158397 / 1048576 : ℚ) from
    round_to_bits_cert 24 22 2317561212226765 1125899906842624 8633588 2158397 1048576 _ _
      (by norm_num) (by norm_num) (by decide) (by decide) (by decide) (by decide)
      (by decide) (by decide) (by decide) (by decide)
  have h54 : Rounding.ieee.double ((2158397 / 1048576 : ℚ) + (3602879701896397 / 18014398509481984 : ℚ)) = (2542741113064653 / 1125899906842624 : ℚ) :=
    show round_to_bits 53 ((2158397 / 1048576 : ℚ) + (3602879701896397 / 18014398509481984 : ℚ)) = (2542741113064653 / 1125899906842624 : ℚ) from
    round_to_bits_cert 53 51 40683857809034445 18014398509481984 5085482226129306 2542741113064653 1125899906842624 _ _
      (by norm_num) (by norm_num) (by decide) (by decide) (by decide) (by decide)
      (by decide) (by decide) (by decide) (by decide)
  have h55 : Rounding.ieee.float ((2542741113064653 / 1125899906842624 : ℚ)) = (9472449 / 4194304 : ℚ) :=
    show round_to_bits 24 ((2542741113064653 / 1125899906842624 : ℚ)) = (9472449 / 4194304 : ℚ) from
    round_to_bits_cert 24 22 2542741113064653 1125899906842624 9472449 9472449 4194304 _ _
      (by norm_num) (by norm_num) (by decide) (by decide) (by decide) (by decide)
      (by decide) (by decide) (by decide) (by decide)
  have h56 : Rounding.ieee.double ((9472449 / 4194304 : ℚ) + (3602879701896397 / 18014398509481984 : ℚ)) = (2767921148120269 / 1125899906842624 : ℚ) :=
    show round_to_bits 53 ((9472449 / 4194304 : ℚ) + (3602879701896397 / 18014398509481984 : ℚ)) = (2767921148120269 / 1125899906842624 : ℚ) from
    round_to_bits_cert 53 51 44286738369924301 18014398509481984 5535842296240538 2767921148120269 1125899906842624 _ _
      (by norm_num) (by norm_num) (by decide) (by decide) (by decide) (by decide)
      (by decide) (by decide) (by decide) (by decide)
  have h57 : Rounding.ieee.float ((2767921148120269 / 1125899906842624 : ℚ)) = (5155655 / 2097152 : ℚ) :=
    show round_to_bits 24 ((2767921148120269 / 1125899906842624 : ℚ)) = (5155655 / 2097152 : ℚ) from
    round_to_bits_cert 24 22 2767921148120269 1125899906842624 10311310 5155655 2097152 _ _
      (by norm_num) (by norm_num) (by decide) (by decide) (by decide) (by decide)
      (by decide) (by decide) (by decide) (by decide)
  have h58 : Rounding.ieee.double ((5155655 / 2097152 : ℚ) + (3602879701896397 / 18014398509481984 : ℚ)) = (2993101183175885 / 1125899906842624 : ℚ) :=
    show round_to_bits 53 ((5155655 / 2097152 : ℚ) + (3602879701896397 / 18014398509481984 : ℚ)) = (2993101183175885 / 1125899906842624 : ℚ) from
    round_to_bits_cert 53 51 47889618930814157 18014398509481984 5986202366351770 2993101183175885 1125899906842624 _ _
      (by norm_num) (by norm_num) (by decide) (by decide) (by decide) (by decide)
      (by decide) (by decide) (by decide) (by decide)
  have h59 : Rounding.ieee.float ((2993101183175885 / 1125899906842624 : ℚ)) = (11150171 / 4194304 : ℚ) :=
    show round_to_bits 24 ((2993101183175885 / 1125899906842624 : ℚ)) = (11150171 / 4194304 : ℚ) from
    round_to_bits_cert 24 22 2993101183175885 1125899906842624 11150171 11150171 4194304 _ _
      (by norm_num) (by norm_num) (by decide) (by decide) (by decide) (by decide)
      (by decide) (by decide) (by decide) (by decide)
  have h60 : Rounding.ieee.double ((11150171 / 4194304 : ℚ) + (3602879701896397 / 18014398509481984 : ℚ)) = (3218281218231501 / 1125899906842624 : ℚ) :=
    show round_to_bits 53 ((11150171 / 4194304 : ℚ) + (3602879701896397 / 18014398509481984 : ℚ)) = (3218281218231501 / 1125899906842624 : ℚ) from
    round_to_bits_cert 53 51 51492499491704013 18014398509481984 6436562436463002 3218281218231501 1125899906842624 _ _
      (by norm_num) (by norm_num) (by decide) (by decide) (by decide) (by decide)
      (by decide) (by decide) (by decide) (by decide)
  have h61 : Rounding.ieee.float ((3218281218231501 / 1125899906842624 : ℚ)) = (1498629 / 524288 : ℚ) :=
    show round_to_bits 24 ((3218281218231501 / 1125899906842624 : ℚ)) = (1498629 / 524288 : ℚ) from
    round_to_bits_cert 24 22 3218281218231501 1125899906842624 11989032 1498629 524288 _ _
      (by norm_num) (by norm_num) (by decide) (by decide) (by decide) (by decide)
      (by decide) (by decide) (by decide) (by decide)
  have h62 : Rounding.ieee.double ((1498629 / 524288 : ℚ) + (3602879701896397 / 18014398509481984 : ℚ)) = (3443461253287117 / 1125899906842624 : ℚ) :=
    show round_to_bits 53 ((1498629 / 524288 : ℚ) + (3602879701896397 / 18014398509481984 : ℚ)) = (3443461253287117 / 1125899906842624 : ℚ) from
    round_to_bits_cert 53 51 55095380052593869 18014398509481984 6886922506574234 3443461253287117 1125899906842624 _ _
      (by norm_num) (by norm_num) (by decide) (by decide) (by decide) (by decide)
      (by decide) (by decide) (by decide) (by decide)
  have h63 : Rounding.ieee.float ((3443461253287117 / 1125899906842624 : ℚ)) = (12827893 / 4194304 : ℚ) :=
    show round_to_bits 24 ((3443461253287117 / 1125899906842624 : ℚ)) = (12827893 / 4194304 : ℚ) from
    round_to_bits_cert 24 22 3443461253287117 1125899906842624 12827893 12827893 4194304 _ _
      (by norm_num) (by norm_num) (by decide) (by decide) (by decide) (by decide)
      (by decide) (by decide) (by decide) (by decide)
  have h64 : Rounding.ieee.double ((12827893 / 4194304 : ℚ) + (3602879701896397 / 18014398509481984 : ℚ)) = (3668641288342733 / 1125899906842624 : ℚ) :=
    show round_to_bits 53 ((12827893 / 4194304 : ℚ) + (3602879701896397 / 18014398509481984 : ℚ)) = (3668641288342733 / 1125899906842624 : ℚ) from
    round_to_bits_cert 53 51 58698260613483725 18014398509481984 7337282576685466 3668641288342733 1125899906842624 _ _
      (by norm_num) (by norm_num) (by decide) (by decide) (by decide) (by decide)
      (by decide) (by decide) (by decide) (by decide)
  have h65 : Rounding.ieee.float ((3668641288342733 / 1125899906842624 : ℚ)) = (6833377 / 2097152 : ℚ) :=
    show round_to_bits 24 ((3668641288342733 / 1125899906842624 : ℚ)) = (6833377 / 2097152 : ℚ) from
    round_to_bits_cert 24 22 3668641288342733 1125899906842624 13666754 6833377 2097152 _ _
      (by norm_num) (by norm_num) (by decide) (by decide) (by decide) (by decide)
      (by decide) (by decide) (by decide) (by decide)
  refine ⟨[-13176795 / 4194304,
    -6168967 / 2097152,
    -11499073 / 4194304,
    -2665053 / 1048576,
    -9821351 / 4194304,
    -4491245 / 2097152,
    -8143629 / 4194304,
    -114137 / 65536,
    -6465907 / 4194304,
    -2813523 / 2097152,
    -4788185 / 4194304,
    -15797297 / 16777216,
    -6220927 / 8388608,
    -9086411 / 16777216,
    -716371 / 2097152,
    -9502099 / 67108864,
    15678695 / 268435456,
    8670723 / 33554432,
    15381609 / 33554432,
    1380781 / 2097152,
    14401691 / 16777216,
    8878567 / 8388608,
    10556289 / 8388608,
    12234011 / 8388608,
    13911733 / 8388608,
    15589455 / 8388608,
    2158397 / 1048576,
    9472449 / 4194304,
    5155655 / 2097152,
    11150171 / 4194304,
    1498629 / 524288,
    12827893 / 4194304], ?_, rfl⟩
  have hs : Rounding.ieee.float (-M_PI) = (-13176795 / 4194304 : ℚ) := hstart
  rw [hs]
  show loop_fp Rounding.ieee M_PI (3602879701896397 / 18014398509481984 : ℚ) _ _ = _
  rw [loop_fp_succ, if_pos (by norm_num [M_PI]), h2, h3]
  rw [loop_fp_succ, if_pos (by norm_num [M_PI]), h4, h5]
  rw [loop_fp_succ, if_pos (by norm_num [M_PI]), h6, h7]
  rw [loop_fp_succ, if_pos (by norm_num [M_PI]), h8, h9]
  rw [loop_fp_succ, if_pos (by norm_num [M_PI]), h10, h11]
  rw [loop_fp_succ, if_pos (by norm_num [M_PI]), h12, h13]
  rw [loop_fp_succ, if_pos (by norm_num [M_PI]), h14, h15]
  rw [loop_fp_succ, if_pos (by norm_num [M_PI]), h16, h17]
  rw [loop_fp_succ, if_pos (by norm_num [M_PI]), h18, h19]
  rw [loop_fp_succ, if_pos (by norm_num [M_PI]), h20, h21]
  rw [loop_fp_succ, if_pos (by norm_num [M_PI]), h22, h23]
  rw [loop_fp_succ, if_pos (by norm_num [M_PI]), h24, h25]
  rw [loop_fp_succ, if_pos (by norm_num [M_PI]), h26, h27]
  rw [loop_fp_succ, if_pos (by norm_num [M_PI]), h28, h29]
  rw [loop_fp_succ, if_pos (by norm_num [M_PI]), h30, h31]
  rw [loop_fp_succ, if_pos (by norm_num [M_PI]), h32, h33]
  rw [loop_fp_succ, if_pos (by norm_num [M_PI]), h34, h35]
  rw [loop_fp_succ, if_pos (by norm_num [M_PI]), h36, h37]
  rw [loop_fp_succ, if_pos (by norm_num [M_PI]), h38, h39]
  rw [loop_fp_succ, if_pos (by norm_num [M_PI]), h40, h41]
  rw [loop_fp_succ, if_pos (by norm_num [M_PI]), h42, h43]
  rw [loop_fp_succ, if_pos (by norm_num [M_PI]), h44, h45]
  rw [loop_fp_succ, if_pos (by norm_num [M_PI]), h46, h47]
  rw [loop_fp_succ, if_pos (by norm_num [M_PI]), h48, h49]
  rw [loop_fp_succ, if_pos (by norm_num [M_PI]), h50, h51]
  rw [loop_fp_succ, if_pos (by norm_num [M_PI]), h52, h53]
  rw [loop_fp_succ, if_pos (by norm_num [M_PI]), h54, h55]
  rw [loop_fp_succ, if_pos (by norm_num [M_PI]), h56, h57]
  rw [loop_fp_succ, if_pos (by norm_num [M_PI]), h58, h59]
  rw [loop_fp_succ, if_pos (by norm_num [M_PI]), h60, h61]
  rw [loop_fp_succ, if_pos (by norm_num [M_PI]), h62, h63]
  rw [loop_fp_succ, if_pos (by norm_num [M_PI]), h64, h65]
  rw [loop_fp_succ, if_neg (by norm_num [M_PI])]
  rfl

/-- The outer loop of `raycast` reads no member of the planner but the angle resolution. -/
theorem raycast_loop_fp_congr (R : Rounding α) (L : Libm α) (p q : DWAPlanner α)
    (map : OccupancyGrid α) (ray_fuel : Nat) (hres : q.angle_resolution_ = p.angle_resolution_)
    (fuel : Nat) (angle : α) (obs : List (Point α)) :
    raycast_loop_fp R L q map ray_fuel fuel angle obs =
      raycast_loop_fp R L p map ray_fuel fuel angle obs := by
  induction fuel generalizing angle obs with
  | zero => rfl
  | succ n ih =>
    rw [raycast_loop_fp_succ, raycast_loop_fp_succ, hres]
    by_cases ha : angle ≤ M_PI
    · rw [if_pos ha, if_pos ha]
      cases raycast_ray_fp R L map angle ray_fuel 0 with
      | none => rfl
      | some r =>
        cases r with
        | none => exact ih _ _
        | some pose => exact ih _ _
    · rw [if_neg ha, if_neg ha]

/-- Dropping the misses of a list of equal hits keeps them all. -/
theorem reduceOption_replicate_some {β : Type} (n : Nat) (a : β) :
    (List.replicate n (some a)).reduceOption = List.replicate n a := by
  induction n with
  | zero => rfl
  | succ n ih => rw [List.replicate_succ, List.reduceOption_cons_of_some, ih, List.replicate_succ]

/-- Dropping the misses of a list of misses leaves nothing. -/
theorem reduceOption_replicate_none {β : Type} (n : Nat) :
    (List.replicate n (none : Option β)).reduceOption = [] := by
  induction n with
  | zero => rfl
  | succ n ih => rw [List.replicate_succ, List.reduceOption_cons_of_none, ih]

/-- On the grid of one occupied cell under the robot every ray hits at the first sample,
the origin. -/
theorem own_cell_ray_fp (L : Libm ℚ) (hhyp : L.hypot (-1 / 2) 0 = 1 / 2) (angle : ℚ)
    (fuel : Nat) :
    raycast_ray_fp Rounding.ieee L own_cell_grid angle (fuel + 1) 0 = some (some ⟨0, 0⟩) := by
  have hz : ∀ x : ℚ, Rounding.ieee.float (0 * x) = 0 :=
    fun x => round_to_bits_zero 24 _ (zero_mul x)
  have hpt : ray_point_fp Rounding.ieee L angle 0 = ⟨0, 0⟩ := by
    simp only [ray_point_fp, hz]
  have h1 : Rounding.ieee.double ((0 : ℚ) - -1 / 2) = 1 / 2 :=
    show round_to_bits 53 ((0 : ℚ) - -1 / 2) = 1 / 2 from
    round_to_bits_pos 53 _ _ (-1) 4503599627370496 (by norm_num [zpow_neg])
      (by norm_num [zpow_neg]) (by norm_num [zpow_neg]) (by norm_num [zpow_neg])
      (by norm_num [zpow_neg])
  have h2 : Rounding.ieee.double ((1 / 2 : ℚ) / 1) = 1 / 2 :=
    show round_to_bits 53 ((1 / 2 : ℚ) / 1) = 1 / 2 from
    round_to_bits_pos 53 _ _ (-1) 4503599627370496 (by norm_num [zpow_neg])
      (by norm_num [zpow_neg]) (by norm_num [zpow_neg]) (by norm_num [zpow_neg])
      (by norm_num [zpow_neg])
  have h3 : Rounding.ieee.double ((0 : ℚ) - 0) = 0 := round_to_bits_zero 53 _ (by norm_num)
  have h4 : Rounding.ieee.double ((0 : ℚ) / 1) = 0 := round_to_bits_zero 53 _ (by norm_num)
  have hf : ⌊(1 / 2 : ℚ)⌋ = 0 := by
    rw [Int.floor_eq_iff]
    constructor <;> norm_num
  rw [raycast_ray_fp_succ]
  simp only [hpt, cell_index_fp, own_cell_grid, hhyp, h1, h2, h3, h4, hf, Int.floor_zero]
  norm_num

/-- On the grid that starts at the robot no ray hits: the search distance is 0, and the
only sample, the origin, lies in the free cell. -/
theorem off_ray_ray_fp (L : Libm ℚ) (hhyp : L.hypot 0 0 = 0) (angle : ℚ) (fuel : Nat) :
    raycast_ray_fp Rounding.ieee L off_ray_grid angle (fuel + 2) 0 = some none := by
  have hz : ∀ x : ℚ, Rounding.ieee.float (0 * x) = 0 :=
    fun x => round_to_bits_zero 24 _ (zero_mul x)
  have hpt : ray_point_fp Rounding.ieee L angle 0 = ⟨0, 0⟩ := by
    simp only [ray_point_fp, hz]
  have h3 : Rounding.ieee.double ((0 : ℚ) - 0) = 0 := round_to_bits_zero 53 _ (by norm_num)
  have h4 : Rounding.ieee.double ((0 : ℚ) / 1) = 0 := round_to_bits_zero 53 _ (by norm_num)
  have h5 : Rounding.ieee.float ((0 : ℚ) + 1) = 1 :=
    show round_to_bits 24 ((0 : ℚ) + 1) = 1 from
    round_to_bits_pos 24 _ _ 0 8388608 (by norm_num [zpow_neg]) (by norm_num [zpow_neg])
      (by norm_num [zpow_neg]) (by norm_num [zpow_neg]) (by norm_num [zpow_neg])
  rw [raycast_ray_fp_succ]
  simp only [hpt, cell_index_fp, off_ray_grid, hhyp, h3, h4, h5, Int.floor_zero]
  norm_num
  rw [raycast_ray_fp_succ]
  norm_num [hhyp]

/-- The function `raycast` on the grid of one occupied cell under the robot, in IEEE
arithmetic: 32 points, all the origin. -/
theorem raycast_fp_own_cell (fuel : Nat) :
    raycast_fp Rounding.ieee Libm.onAxes rays_planner own_cell_grid (fuel + 33) =
      some (List.replicate 32 ⟨0, 0⟩) := by
  obtain ⟨angles, h1, h2⟩ := default_rays_fp fuel
  unfold raycast_fp
  rw [raycast_loop_fp_const Rounding.ieee Libm.onAxes rays_planner own_cell_grid (fuel + 33)
    (some ⟨0, 0⟩) (fun angle => own_cell_ray_fp Libm.onAxes (by norm_num [Libm.onAxes]) angle
      (fuel + 32))]
  have h1' : loop_fp Rounding.ieee M_PI rays_planner.angle_resolution_ (fuel + 33)
      (Rounding.ieee.float (-M_PI)) = some angles := h1
  rw [h1']
  simp only [Option.map_some', List.nil_append, reduceOption_replicate_some, h2]

/-- The function `raycast` on the grid of two cells that starts at the robot, in IEEE
arithmetic: no point. -/
theorem raycast_fp_off_ray (fuel : Nat) :
    raycast_fp Rounding.ieee Libm.onAxes rays_planner off_ray_grid (fuel + 33) = some [] := by
  obtain ⟨angles, h1, h2⟩ := default_rays_fp fuel
  unfold raycast_fp
  rw [raycast_loop_fp_const Rounding.ieee Libm.onAxes rays_planner off_ray_grid (fuel + 33)
    none (fun angle => off_ray_ray_fp Libm.onAxes (by norm_num [Libm.onAxes]) angle
      (fuel + 31))]
  have h1' : loop_fp Rounding.ieee M_PI rays_planner.angle_resolution_ (fuel + 33)
      (Rounding.ieee.float (-M_PI)) = some angles := h1
  rw [h1']
  simp only [Option.map_some', List.nil_append, reduceOption_replicate_none]

/-- C18 (as stated, refuted both ways): in IEEE arithmetic, with the default angle
resolution, the grid of one cell, occupied, under the robot has exactly one cell of value 100
and `raycast` returns 32 obstacle points, one per ray, all of them the origin; the grid of
two cells that starts at the robot, the far one occupied, has exactly one cell of value 100
and `raycast` returns no point. -/
theorem C18_one_occupied_cell_many_points_or_none :
    (own_cell_grid.data.count 100 = 1 ∧
      raycast_fp Rounding.ieee Libm.onAxes rays_planner own_cell_grid 33 =
        some (List.replicate 32 ⟨0, 0⟩)) ∧
    (off_ray_grid.data.count 100 = 1 ∧
      raycast_fp Rounding.ieee Libm.onAxes rays_planner off_ray_grid 33 = some []) :=
  ⟨⟨rfl, raycast_fp_own_cell 0⟩, rfl, raycast_fp_off_ray 0⟩

/-- C18 (amended): in machine arithmetic, whatever the roundings, for a grid with exactly
one cell of `data` of value 100 (the one of index `k0`): when `raycast` returns, the angle
counter has taken the values of a list `angles`, the list returned has at most one point
per value, and every point of it converts by the floor index formula to an in-bounds cell
of index `k0`. -/
theorem C18_raycast_points_in_the_occupied_cell (R : Rounding α) (L : Libm α)
    (p : DWAPlanner α) (map : OccupancyGrid α) (k0 fuel : Nat) (obs : List (Point α))
    (hone : ∀ k, map.data.get? k = some 100 ↔ k = k0)
    (h : raycast_fp R L p map fuel = some obs) :
    ∃ angles, loop_fp R M_PI p.angle_resolution_ fuel (R.float (-M_PI)) = some angles ∧
      obs.length ≤ angles.length ∧
      ∀ pt ∈ obs, cell_hit_fp R map pt ∧ cell_index_fp R map pt = k0 := by
  obtain ⟨new, angles, h1, h2, h3, h4⟩ := raycast_loop_fp_spec R L p map fuel fuel _ [] obs h
  rw [List.nil_append] at h1
  subst h1
  refine ⟨angles, h2, h3, ?_⟩
  intro pt hpt
  obtain ⟨_, _, _, _, hhit, _⟩ := h4 pt hpt
  exact ⟨hhit, (hone _).mp hhit.2⟩

theorem C18_raycast_points_in_the_occupied_cell_witness :
    (∀ k, own_cell_grid.data.get? k = some 100 ↔ k = 0) ∧
    raycast_fp Rounding.ieee Libm.onAxes rays_planner own_cell_grid 33 =
      some (List.replicate 32 ⟨0, 0⟩) ∧
    ∃ angles, loop_fp Rounding.ieee M_PI rays_planner.angle_resolution_ 33
        (Rounding.ieee.float (-M_PI)) = some angles ∧
      (List.replicate 32 (⟨0, 0⟩ : Point ℚ)).length ≤ angles.length ∧
      ∀ pt ∈ List.replicate 32 (⟨0, 0⟩ : Point ℚ),
        cell_hit_fp Rounding.ieee own_cell_grid pt ∧
          cell_index_fp Rounding.ieee own_cell_grid pt = 0 :=
  have hone : ∀ k, own_cell_grid.data.get? k = some 100 ↔ k = 0 := by
    intro k
    cases k with
    | zero => simp [own_cell_grid]
    | succ n => simp [own_cell_grid]
  ⟨hone, raycast_fp_own_cell 0,
    C18_raycast_points_in_the_occupied_cell Rounding.ieee Libm.onAxes rays_planner
      own_cell_grid 0 33 _ hone (raycast_fp_own_cell 0)⟩

/-- C19: in machine arithmetic, whatever the roundings, for every grid and every previous
obstacle list: when `raycast` returns, it returns the same list whatever the previous
`obs_list_`, the angle counter has taken the values of a list `angles`, the list returned is
no longer than `angles`, and every point of it is the sample at some value `dist_at k` of the
distance counter on the ray of one of these angles, converts by the floor index formula to an
in-bounds cell of value 100, while no sample of that ray at an earlier value of the counter
does. -/
theorem C19_raycast_returns_first_hit_of_each_ray (R : Rounding α) (L : Libm α)
    (p : DWAPlanner α) (map : OccupancyGrid α) (fuel : Nat) (obs : List (Point α))
    (h : raycast_fp R L p map fuel = some obs) :
    (∀ prev, raycast_fp R L { p with obs_list_ := prev } map fuel = some obs) ∧
    ∃ angles, loop_fp R M_PI p.angle_resolution_ fuel (R.float (-M_PI)) = some angles ∧
      obs.length ≤ angles.length ∧
      ∀ pt ∈ obs, ∃ angle ∈ angles, ∃ k : Nat,
        pt = ray_point_fp R L angle (dist_at R map k) ∧ cell_hit_fp R map pt ∧
        ∀ j < k, ¬ cell_hit_fp R map (ray_point_fp R L angle (dist_at R map j)) := by
  obtain ⟨new, angles, h1, h2, h3, h4⟩ := raycast_loop_fp_spec R L p map fuel fuel _ [] obs h
  rw [List.nil_append] at h1
  subst h1
  exact ⟨fun prev => (raycast_loop_fp_congr R L p { p with obs_list_ := prev } map fuel rfl
    fuel _ []).trans h, angles, h2, h3, h4⟩

theorem C19_raycast_returns_first_hit_of_each_ray_witness :
    raycast_fp Rounding.ieee Libm.onAxes rays_planner own_cell_grid 33 =
      some (List.replicate 32 ⟨0, 0⟩) ∧
    (∀ prev, raycast_fp Rounding.ieee Libm.onAxes { rays_planner with obs_list_ := prev }
      own_cell_grid 33 = some (List.replicate 32 ⟨0, 0⟩)) ∧
    ∃ angles, loop_fp Rounding.ieee M_PI rays_planner.angle_resolution_ 33
        (Rounding.ieee.float (-M_PI)) = some angles ∧
      (List.replicate 32 (⟨0, 0⟩ : Point ℚ)).length ≤ angles.length ∧
      ∀ pt ∈ List.replicate 32 (⟨0, 0⟩ : Point ℚ), ∃ angle ∈ angles, ∃ k : Nat,
        pt = ray_point_fp Rounding.ieee Libm.onAxes angle (dist_at Rounding.ieee own_cell_grid k) ∧
        cell_hit_fp Rounding.ieee own_cell_grid pt ∧
        ∀ j < k, ¬ cell_hit_fp Rounding.ieee own_cell_grid
          (ray_point_fp Rounding.ieee Libm.onAxes angle (dist_at Rounding.ieee own_cell_grid j)) :=
  ⟨raycast_fp_own_cell 0,
    C19_raycast_returns_first_hit_of_each_ray Rounding.ieee Libm.onAxes rays_planner
      own_cell_grid 33 _ (raycast_fp_own_cell 0)⟩

/-! ## The crossing of the footprint boundary in machine arithmetic -/

/-- In IEEE arithmetic `calc_intersection` crosses no edge of the unit square on the way
from `corner_obstacle` to the origin: it returns the sentinel. -/
theorem calc_intersection_fp_corner :
    calc_intersection_fp Rounding.ieee corner_obstacle State.origin (square_footprint 1) =
      some ⟨SENTINEL, SENTINEL⟩ := by
  have hbax : Rounding.ieee.double ((0 : ℚ) - (-6781843979134105 / 2251799813685248 : ℚ)) = (6781843979134105 / 2251799813685248 : ℚ) :=
    show round_to_bits 53 ((0 : ℚ) - (-6781843979134105 / 2251799813685248 : ℚ)) = (6781843979134105 / 2251799813685248 : ℚ) from
    round_to_bits_cert 53 51 6781843979134105 2251799813685248 6781843979134105 6781843979134105 2251799813685248 _ _
      (by norm_num) (by norm_num) (by decide) (by decide) (by decide) (by decide)
      (by decide) (by decide) (by decide) (by decide)
  have hbay : Rounding.ieee.double ((0 : ℚ) - (-6781843979134103 / 2251799813685248 : ℚ)) = (6781843979134103 / 2251799813685248 : ℚ) :=
    show round_to_bits 53 ((0 : ℚ) - (-6781843979134103 / 2251799813685248 : ℚ)) = (6781843979134103 / 2251799813685248 : ℚ) from
    round_to_bits_cert 53 51 6781843979134103 2251799813685248 6781843979134103 6781843979134103 2251799813685248 _ _
      (by norm_num) (by norm_num) (by decide) (by decide) (by decide) (by decide)
      (by decide) (by decide) (by decide) (by decide)
  have hdx0 : Rounding.ieee.double ((-1 : ℚ) - (1 : ℚ)) = (-2 : ℚ) :=
    show round_to_bits 53 ((-1 : ℚ) - (1 : ℚ)) = (-2 : ℚ) from
    round_to_bits_cert_neg 53 51 2 1 4503599627370496 2 1 _ _
      (by norm_num) (by norm_num) (by decide) (by decide) (by decide) (by decide)
      (by decide) (by decide) (by decide) (by decide)
  have hdy0 : Rounding.ieee.double ((1 : ℚ) - (1 : ℚ)) = (0 : ℚ) :=
    show round_to_bits 53 ((1 : ℚ) - (1 : ℚ)) = (0 : ℚ) from
    round_to_bits_zero 53 _ (by norm_num)
  have h5 : Rounding.ieee.double ((6781843979134105 / 2251799813685248 : ℚ) * (0 : ℚ)) = (0 : ℚ) :=
    show round_to_bits 53 ((6781843979134105 / 2251799813685248 : ℚ) * (0 : ℚ)) = (0 : ℚ) from
    round_to_bits_zero 53 _ (by norm_num)
  have h6 : Rounding.ieee.double ((6781843979134103 / 2251799813685248 : ℚ) * (-2 : ℚ)) = (-6781843979134103 / 1125899906842624 : ℚ) :=
    show round_to_bits 53 ((6781843979134103 / 2251799813685248 : ℚ) * (-2 : ℚ)) = (-6781843979134103 / 1125899906842624 : ℚ) from
    round_to_bits_cert_neg 53 50 6781843979134103 1125899906842624 6781843979134103 6781843979134103 1125899906842624 _ _
      (by norm_num) (by norm_num) (by decide) (by decide) (by decide) (by decide)
      (by decide) (by decide) (by decide) (by decide)
  have h7 : Rounding.ieee.double ((0 : ℚ) - (-6781843979134103 / 1125899906842624 : ℚ)) = (6781843979134103 / 1125899906842624 : ℚ) :=
    show round_to_bits 53 ((0 : ℚ) - (-6781843979134103 / 1125899906842624 : ℚ)) = (6781843979134103 / 1125899906842624 : ℚ) from
    round_to_bits_cert 53 50 6781843979134103 1125899906842624 6781843979134103 6781843979134103 1125899906842624 _ _
      (by norm_num) (by norm_num) (by decide) (by decide) (by decide) (by decide)
      (by decide) (by decide) (by decide) (by decide)
  have hdeno0 : cross_fp Rounding.ieee (6781843979134105 / 2251799813685248 : ℚ) (6781843979134103 / 2251799813685248 : ℚ) (-2 : ℚ) (0 : ℚ) = (6781843979134103 / 1125899906842624 : ℚ) :=
    cross_fp_eq _ _ _ _ _ _ _ _ h5 h6 h7
  have hcax0 : Rounding.ieee.double ((1 : ℚ) - (-6781843979134105 / 2251799813685248 : ℚ)) = (1129205474102419 / 281474976710656 : ℚ) :=
    show round_to_bits 53 ((1 : ℚ) - (-6781843979134105 / 2251799813685248 : ℚ)) = (1129205474102419 / 281474976710656 : ℚ) from
    round_to_bits_cert_tie 53 50 9033643792819353 2251799813685248 4516821896409676 4516821896409676 1129205474102419 281474976710656 _ _ false
      (by norm_num) (by norm_num) (by decide) (by decide) (by decide) (by decide)
      (by decide) (by decide) (by decide) (by decide)
  have hcay0 : Rounding.ieee.double ((1 : ℚ) - (-6781843979134103 / 2251799813685248 : ℚ)) = (1129205474102419 / 281474976710656 : ℚ) :=
    show round_to_bits 53 ((1 : ℚ) - (-6781843979134103 / 2251799813685248 : ℚ)) = (1129205474102419 / 281474976710656 : ℚ) from
    round_to_bits_cert_tie 53 50 9033643792819351 2251799813685248 4516821896409675 4516821896409676 1129205474102419 281474976710656 _ _ false
      (by norm_num) (by norm_num) (by decide) (by decide) (by decide) (by decide)
      (by decide) (by decide) (by decide) (by decide)
  have h11 : Rounding.ieee.double ((1129205474102419 / 281474976710656 : ℚ) * (0 : ℚ)) = (0 : ℚ) :=
    show round_to_bits 53 ((1129205474102419 / 281474976710656 : ℚ) * (0 : ℚ)) = (0 : ℚ) from
    round_to_bits_zero 53 _ (by norm_num)
  have h12 : Rounding.ieee.double ((1129205474102419 / 281474976710656 : ℚ) * (-2 : ℚ)) = (-1129205474102419 / 140737488355328 : ℚ) :=
    show round_to_bits 53 ((1129205474102419 / 281474976710656 : ℚ) * (-2 : ℚ)) = (-1129205474102419 / 140737488355328 : ℚ) from
    round_to_bits_cert_neg 53 49 1129205474102419 140737488355328 4516821896409676 1129205474102419 140737488355328 _ _
      (by norm_num) (by norm_num) (by decide) (by decide) (by decide) (by decide)
      (by decide) (by decide) (by decide) (by decide)
  have h13 : Rounding.ieee.double ((0 : ℚ) - (-1129205474102419 / 140737488355328 : ℚ)) = (1129205474102419 / 140737488355328 : ℚ) :=
    show round_to_bits 53 ((0 : ℚ) - (-1129205474102419 / 140737488355328 : ℚ)) = (1129205474102419 / 140737488355328 : ℚ) from
    round_to_bits_cert 53 49 1129205474102419 140737488355328 4516821896409676 1129205474102419 140737488355328 _ _
      (by norm_num) (by norm_num) (by decide) (by decide) (by decide) (by decide)
      (by decide) (by decide) (by decide) (by decide)
  have hsn0 : cross_fp Rounding.ieee (1129205474102419 / 281474976710656 : ℚ) (1129205474102419 / 281474976710656 : ℚ) (-2 : ℚ) (0 : ℚ) = (1129205474102419 / 140737488355328 : ℚ) :=
    cross_fp_eq _ _ _ _ _ _ _ _ h11 h12 h13
  have h15 : Rounding.ieee.double ((1129205474102419 / 140737488355328 : ℚ) / (6781843979134103 / 1125899906842624 : ℚ)) = (5998945853710645 / 4503599627370496 : ℚ) :=
    show round_to_bits 53 ((1129205474102419 / 140737488355328 : ℚ) / (6781843979134103 / 1125899906842624 : ℚ)) = (5998945853710645 / 4503599627370496 : ℚ) from
    round_to_bits_cert 53 52 9033643792819352 6781843979134103 5998945853710645 5998945853710645 4503599627370496 _ _
      (by norm_num) (by norm_num) (by decide) (by decide) (by decide) (by decide)
      (by decide) (by decide) (by decide) (by decide)
  have hdx1 : Rounding.ieee.double ((-1 : ℚ) - (-1 : ℚ)) = (0 : ℚ) :=
    show round_to_bits 53 ((-1 : ℚ) - (-1 : ℚ)) = (0 : ℚ) from
    round_to_bits_zero 53 _ (by norm_num)
  have h17 : Rounding.ieee.double ((6781843979134105 / 2251799813685248 : ℚ) * (-2 : ℚ)) = (-6781843979134105 / 1125899906842624 : ℚ) :=
    show round_to_bits 53 ((6781843979134105 / 2251799813685248 : ℚ) * (-2 : ℚ)) = (-6781843979134105 / 1125899906842624 : ℚ) from
    round_to_bits_cert_neg 53 50 6781843979134105 1125899906842624 6781843979134105 6781843979134105 1125899906842624 _ _
      (by norm_num) (by norm_num) (by decide) (by decide) (by decide) (by decide)
      (by decide) (by decide) (by decide) (by decide)
  have h18 : Rounding.ieee.double ((6781843979134103 / 2251799813685248 : ℚ) * (0 : ℚ)) = (0 : ℚ) :=
    show round_to_bits 53 ((6781843979134103 / 2251799813685248 : ℚ) * (0 : ℚ)) = (0 : ℚ) from
    round_to_bits_zero 53 _ (by norm_num)
  have h19 : Rounding.ieee.double ((-6781843979134105 / 1125899906842624 : ℚ) - (0 : ℚ)) = (-6781843979134105 / 1125899906842624 : ℚ) :=
    show round_to_bits 53 ((-6781843979134105 / 1125899906842624 : ℚ) - (0 : ℚ)) = (-6781843979134105 / 1125899906842624 : ℚ) from
    round_to_bits_cert_neg 53 50 6781843979134105 1125899906842624 6781843979134105 6781843979134105 1125899906842624 _ _
      (by norm_num) (by norm_num) (by decide) (by decide) (by decide) (by decide)
      (by decide) (by decide) (by decide) (by decide)
  have hdeno1 : cross_fp Rounding.ieee (6781843979134105 / 2251799813685248 : ℚ) (6781843979134103 / 2251799813685248 : ℚ) (0 : ℚ) (-2 : ℚ) = (-6781843979134105 / 1125899906842624 : ℚ) :=
    cross_fp_eq _ _ _ _ _ _ _ _ h17 h18 h19
  have hacx1 : Rounding.ieee.double ((-6781843979134105 / 2251799813685248 : ℚ) - (-1 : ℚ)) = (-4530044165448857 / 2251799813685248 : ℚ) :=
    show round_to_bits 53 ((-6781843979134105 / 2251799813685248 : ℚ) - (-1 : ℚ)) = (-4530044165448857 / 2251799813685248 : ℚ) from
    round_to_bits_cert_neg 53 51 4530044165448857 2251799813685248 4530044165448857 4530044165448857 2251799813685248 _ _
      (by norm_num) (by norm_num) (by decide) (by decide) (by decide) (by decide)
      (by decide) (by decide) (by decide) (by decide)
  have hacy1 : Rounding.ieee.double ((-6781843979134103 / 2251799813685248 : ℚ) - (1 : ℚ)) = (-1129205474102419 / 281474976710656 : ℚ) :=
    show round_to_bits 53 ((-6781843979134103 / 2251799813685248 : ℚ) - (1 : ℚ)) = (-1129205474102419 / 281474976710656 : ℚ) from
    round_to_bits_cert_tie 53 50 9033643792819351 2251799813685248 4516821896409675 4516821896409676 1129205474102419 281474976710656 _ _ true
      (by norm_num) (by norm_num) (by decide) (by decide) (by decide) (by decide)
      (by decide) (by decide) (by decide) (by decide)
  have h23 : Rounding.ieee.double ((6781843979134105 / 2251799813685248 : ℚ) * (-1129205474102419 / 281474976710656 : ℚ)) = (-1700438755524561 / 140737488355328 : ℚ) :=
    show round_to_bits 53 ((6781843979134105 / 2251799813685248 : ℚ) * (-1129205474102419 / 281474976710656 : ℚ)) = (-1700438755524561 / 140737488355328 : ℚ) from
    round_to_bits_cert_neg 53 49 7658095345746762824589705899995 633825300114114700748351602688 6801755022098244 1700438755524561 140737488355328 _ _
      (by norm_num) (by norm_num) (by decide) (by decide) (by decide) (by decide)
      (by decide) (by decide) (by decide) (by decide)
  have h24 : Rounding.ieee.double ((6781843979134103 / 2251799813685248 : ℚ) * (-4530044165448857 / 2251799813685248 : ℚ)) = (-3410833032531191 / 562949953421312 : ℚ) :=
    show round_to_bits 53 ((6781843979134103 / 2251799813685248 : ℚ) * (-4530044165448857 / 2251799813685248 : ℚ)) = (-3410833032531191 / 562949953421312 : ℚ) from
    round_to_bits_cert_neg 53 50 30722052748660903190601191070271 5070602400912917605986812821504 6821666065062382 3410833032531191 562949953421312 _ _
      (by norm_num) (by norm_num) (by decide) (by decide) (by decide) (by decide)
      (by decide) (by decide) (by decide) (by decide)
  have h25 : Rounding.ieee.double ((-1700438755524561 / 140737488355328 : ℚ) - (-3410833032531191 / 562949953421312 : ℚ)) = (-3390921989567053 / 562949953421312 : ℚ) :=
    show round_to_bits 53 ((-1700438755524561 / 140737488355328 : ℚ) - (-3410833032531191 / 562949953421312 : ℚ)) = (-3390921989567053 / 562949953421312 : ℚ) from
    round_to_bits_cert_neg 53 50 3390921989567053 562949953421312 6781843979134106 3390921989567053 562949953421312 _ _
      (by norm_num) (by norm_num) (by decide) (by decide) (by decide) (by decide)
      (by decide) (by decide) (by decide) (by decide)
  have htn1 : cross_fp Rounding.ieee (6781843979134105 / 2251799813685248 : ℚ) (6781843979134103 / 2251799813685248 : ℚ) (-4530044165448857 / 2251799813685248 : ℚ) (-1129205474102419 / 281474976710656 : ℚ) = (-3390921989567053 / 562949953421312 : ℚ) :=
    cross_fp_eq _ _ _ _ _ _ _ _ h23 h24 h25
  have h27 : Rounding.ieee.double ((-3390921989567053 / 562949953421312 : ℚ) / (-6781843979134105 / 1125899906842624 : ℚ)) = (4503599627370497 / 4503599627370496 : ℚ) :=
    show round_to_bits 53 ((-3390921989567053 / 562949953421312 : ℚ) / (-6781843979134105 / 1125899906842624 : ℚ)) = (4503599627370497 / 4503599627370496 : ℚ) from
    round_to_bits_cert 53 52 6781843979134106 6781843979134105 4503599627370497 4503599627370497 4503599627370496 _ _
      (by norm_num) (by norm_num) (by decide) (by decide) (by decide) (by decide)
      (by decide) (by decide) (by decide) (by decide)
  have hdx2 : Rounding.ieee.double ((1 : ℚ) - (-1 : ℚ)) = (2 : ℚ) :=
    show round_to_bits 53 ((1 : ℚ) - (-1 : ℚ)) = (2 : ℚ) from
    round_to_bits_cert 53 51 2 1 4503599627370496 2 1 _ _
      (by norm_num) (by norm_num) (by decide) (by decide) (by decide) (by decide)
      (by decide) (by decide) (by decide) (by decide)
  have h29 : Rounding.ieee.double ((6781843979134103 / 2251799813685248 : ℚ) * (2 : ℚ)) = (6781843979134103 / 1125899906842624 : ℚ) :=
    show round_to_bits 53 ((6781843979134103 / 2251799813685248 : ℚ) * (2 : ℚ)) = (6781843979134103 / 1125899906842624 : ℚ) from
    round_to_bits_cert 53 50 6781843979134103 1125899906842624 6781843979134103 6781843979134103 1125899906842624 _ _
      (by norm_num) (by norm_num) (by decide) (by decide) (by decide) (by decide)
      (by decide) (by decide) (by decide) (by decide)
  have h30 : Rounding.ieee.double ((0 : ℚ) - (6781843979134103 / 1125899906842624 : ℚ)) = (-6781843979134103 / 1125899906842624 : ℚ) :=
    show round_to_bits 53 ((0 : ℚ) - (6781843979134103 / 1125899906842624 : ℚ)) = (-6781843979134103 / 1125899906842624 : ℚ) from
    round_to_bits_cert_neg 53 50 6781843979134103 1125899906842624 6781843979134103 6781843979134103 1125899906842624 _ _
      (by norm_num) (by norm_num) (by decide) (by decide) (by decide) (by decide)
      (by decide) (by decide) (by decide) (by decide)
  have hdeno2 : cross_fp Rounding.ieee (6781843979134105 / 2251799813685248 : ℚ) (6781843979134103 / 2251799813685248 : ℚ) (2 : ℚ) (0 : ℚ) = (-6781843979134103 / 1125899906842624 : ℚ) :=
    cross_fp_eq _ _ _ _ _ _ _ _ h5 h29 h30
  have hacy2 : Rounding.ieee.double ((-6781843979134103 / 2251799813685248 : ℚ) - (-1 : ℚ)) = (-4530044165448855 / 2251799813685248 : ℚ) :=
    show round_to_bits 53 ((-6781843979134103 / 2251799813685248 : ℚ) - (-1 : ℚ)) = (-4530044165448855 / 2251799813685248 : ℚ) from
    round_to_bits_cert_neg 53 51 4530044165448855 2251799813685248 4530044165448855 4530044165448855 2251799813685248 _ _
      (by norm_num) (by norm_num) (by decide) (by decide) (by decide) (by decide)
      (by decide) (by decide) (by decide) (by decide)
  have h33 : Rounding.ieee.double ((6781843979134105 / 2251799813685248 : ℚ) * (-4530044165448855 / 2251799813685248 : ℚ)) = (-6821666065062381 / 1125899906842624 : ℚ) :=
    show round_to_bits 53 ((6781843979134105 / 2251799813685248 : ℚ) * (-4530044165448855 / 2251799813685248 : ℚ)) = (-6821666065062381 / 1125899906842624 : ℚ) from
    round_to_bits_cert_neg 53 50 30722052748660898687001563699775 5070602400912917605986812821504 6821666065062381 6821666065062381 1125899906842624 _ _
      (by norm_num) (by norm_num) (by decide) (by decide) (by decide) (by decide)
      (by decide) (by decide) (by decide) (by decide)
  have h34 : Rounding.ieee.double ((-6821666065062381 / 1125899906842624 : ℚ) - (-3410833032531191 / 562949953421312 : ℚ)) = (1 / 1125899906842624 : ℚ) :=
    show round_to_bits 53 ((-6821666065062381 / 1125899906842624 : ℚ) - (-3410833032531191 / 562949953421312 : ℚ)) = (1 / 1125899906842624 : ℚ) from
    round_to_bits_cert 53 102 1 1125899906842624 4503599627370496 1 1125899906842624 _ _
      (by norm_num) (by norm_num) (by decide) (by decide) (by decide) (by decide)
      (by decide) (by decide) (by decide) (by decide)
  have htn2 : cross_fp Rounding.ieee (6781843979134105 / 2251799813685248 : ℚ) (6781843979134103 / 2251799813685248 : ℚ) (-4530044165448857 / 2251799813685248 : ℚ) (-4530044165448855 / 2251799813685248 : ℚ) = (1 / 1125899906842624 : ℚ) :=
    cross_fp_eq _ _ _ _ _ _ _ _ h33 h24 h34
  have h36 : Rounding.ieee.double ((1 / 1125899906842624 : ℚ) / (-6781843979134103 / 1125899906842624 : ℚ)) = (-5981384905360593 / 40564819207303340847894502572032 : ℚ) :=
    show round_to_bits 53 ((1 / 1125899906842624 : ℚ) / (-6781843979134103 / 1125899906842624 : ℚ)) = (-5981384905360593 / 40564819207303340847894502572032 : ℚ) from
    round_to_bits_cert_neg 53 105 1 6781843979134103 5981384905360593 5981384905360593 40564819207303340847894502572032 _ _
      (by norm_num) (by norm_num) (by decide) (by decide) (by decide) (by decide)
      (by decide) (by decide) (by decide) (by decide)
  have h37 : Rounding.ieee.double ((6781843979134105 / 2251799813685248 : ℚ) * (2 : ℚ)) = (6781843979134105 / 1125899906842624 : ℚ) :=
    show round_to_bits 53 ((6781843979134105 / 2251799813685248 : ℚ) * (2 : ℚ)) = (6781843979134105 / 1125899906842624 : ℚ) from
    round_to_bits_cert 53 50 6781843979134105 1125899906842624 6781843979134105 6781843979134105 1125899906842624 _ _
      (by norm_num) (by norm_num) (by decide) (by decide) (by decide) (by decide)
      (by decide) (by decide) (by decide) (by decide)
  have h38 : Rounding.ieee.double ((6781843979134105 / 1125899906842624 : ℚ) - (0 : ℚ)) = (6781843979134105 / 1125899906842624 : ℚ) :=
    show round_to_bits 53 ((6781843979134105 / 1125899906842624 : ℚ) - (0 : ℚ)) = (6781843979134105 / 1125899906842624 : ℚ) from
    round_to_bits_cert 53 50 6781843979134105 1125899906842624 6781843979134105 6781843979134105 1125899906842624 _ _
      (by norm_num) (by norm_num) (by decide) (by decide) (by decide) (by decide)
      (by decide) (by decide) (by decide) (by decide)
  have hdeno3 : cross_fp Rounding.ieee (6781843979134105 / 2251799813685248 : ℚ) (6781843979134103 / 2251799813685248 : ℚ) (0 : ℚ) (2 : ℚ) = (6781843979134105 / 1125899906842624 : ℚ) :=
    cross_fp_eq _ _ _ _ _ _ _ _ h37 h18 h38
  have hcay3 : Rounding.ieee.double ((-1 : ℚ) - (-6781843979134103 / 2251799813685248 : ℚ)) = (4530044165448855 / 2251799813685248 : ℚ) :=
    show round_to_bits 53 ((-1 : ℚ) - (-6781843979134103 / 2251799813685248 : ℚ)) = (4530044165448855 / 2251799813685248 : ℚ) from
    round_to_bits_cert 53 51 4530044165448855 2251799813685248 4530044165448855 4530044165448855 2251799813685248 _ _
      (by norm_num) (by norm_num) (by decide) (by decide) (by decide) (by decide)
      (by decide) (by decide) (by decide) (by decide)
  have h41 : Rounding.ieee.double ((1129205474102419 / 281474976710656 : ℚ) * (2 : ℚ)) = (1129205474102419 / 140737488355328 : ℚ) :=
    show round_to_bits 53 ((1129205474102419 / 281474976710656 : ℚ) * (2 : ℚ)) = (1129205474102419 / 140737488355328 : ℚ) from
    round_to_bits_cert 53 49 1129205474102419 140737488355328 4516821896409676 1129205474102419 140737488355328 _ _
      (by norm_num) (by norm_num) (by decide) (by decide) (by decide) (by decide)
      (by decide) (by decide) (by decide) (by decide)
  have h42 : Rounding.ieee.double ((4530044165448855 / 2251799813685248 : ℚ) * (0 : ℚ)) = (0 : ℚ) :=
    show round_to_bits 53 ((4530044165448855 / 2251799813685248 : ℚ) * (0 : ℚ)) = (0 : ℚ) from
    round_to_bits_zero 53 _ (by norm_num)
  have h43 : Rounding.ieee.double ((1129205474102419 / 140737488355328 : ℚ) - (0 : ℚ)) = (1129205474102419 / 140737488355328 : ℚ) :=
    show round_to_bits 53 ((1129205474102419 / 140737488355328 : ℚ) - (0 : ℚ)) = (1129205474102419 / 140737488355328 : ℚ) from
    round_to_bits_cert 53 49 1129205474102419 140737488355328 4516821896409676 1129205474102419 140737488355328 _ _
      (by norm_num) (by norm_num) (by decide) (by decide) (by decide) (by decide)
      (by decide) (by decide) (by decide) (by decide)
  have hsn3 : cross_fp Rounding.ieee (1129205474102419 / 281474976710656 : ℚ) (4530044165448855 / 2251799813685248 : ℚ) (0 : ℚ) (2 : ℚ) = (1129205474102419 / 140737488355328 : ℚ) :=
    cross_fp_eq _ _ _ _ _ _ _ _ h41 h42 h43
  have h45 : Rounding.ieee.double ((1129205474102419 / 140737488355328 : ℚ) / (6781843979134105 / 1125899906842624 : ℚ)) = (5998945853710643 / 4503599627370496 : ℚ) :=
    show round_to_bits 53 ((1129205474102419 / 140737488355328 : ℚ) / (6781843979134105 / 1125899906842624 : ℚ)) = (5998945853710643 / 4503599627370496 : ℚ) from
    round_to_bits_cert 53 52 1290520541831336 968834854162015 5998945853710643 5998945853710643 4503599627370496 _ _
      (by norm_num) (by norm_num) (by decide) (by decide) (by decide) (by decide)
      (by decide) (by decide) (by decide) (by decide)
  unfold calc_intersection_fp
  rw [edges_square_footprint]
  rw [calc_intersection_loop_fp_reject_s Rounding.ieee _ _ _ _ _ _ _ _ _ _ _ _ _ _
      hbax hbay hdx0 hdy0 hcax0 hcay0 hdeno0 hsn0 h15 (by norm_num) (by norm_num)]
  rw [calc_intersection_loop_fp_reject_t Rounding.ieee _ _ _ _ _ _ _ _ _ _ _ _ _ _
      hbax hbay hdx1 hdx0 hacx1 hacy1 hdeno1 htn1 h27 (by norm_num) (by norm_num)]
  rw [calc_intersection_loop_fp_reject_t Rounding.ieee _ _ _ _ _ _ _ _ _ _ _ _ _ _
      hbax hbay hdx2 hdx1 hacx1 hacy2 hdeno2 htn2 h36 (by norm_num) (by norm_num)]
  rw [calc_intersection_loop_fp_reject_s Rounding.ieee _ _ _ _ _ _ _ _ _ _ _ _ _ _
      hbax hbay hdy0 hdx2 hcax0 hcay3 hdeno3 hsn3 h45 (by norm_num) (by norm_num)]
  rfl

/-- In IEEE arithmetic `is_inside_of_robot` reports `corner_obstacle` outside the unit
square around the origin. -/
theorem is_inside_of_robot_fp_corner :
    is_inside_of_robot_fp Rounding.ieee corner_obstacle (square_footprint 1) State.origin =
      false := by
  have h1 : Rounding.ieee.double ((1 : ℚ) - (0 : ℚ)) = (1 : ℚ) :=
    show round_to_bits 53 ((1 : ℚ) - (0 : ℚ)) = (1 : ℚ) from
    round_to_bits_cert 53 52 1 1 4503599627370496 1 1 _ _
      (by norm_num) (by norm_num) (by decide) (by decide) (by decide) (by decide)
      (by decide) (by decide) (by decide) (by decide)
  have h2 : Rounding.ieee.double ((-6781843979134105 / 2251799813685248 : ℚ) - (1 : ℚ)) = (-1129205474102419 / 281474976710656 : ℚ) :=
    show round_to_bits 53 ((-6781843979134105 / 2251799813685248 : ℚ) - (1 : ℚ)) = (-1129205474102419 / 281474976710656 : ℚ) from
    round_to_bits_cert_tie 53 50 9033643792819353 2251799813685248 4516821896409676 4516821896409676 1129205474102419 281474976710656 _ _ true
      (by norm_num) (by norm_num) (by decide) (by decide) (by decide) (by decide)
      (by decide) (by decide) (by decide) (by decide)
  have h3 : Rounding.ieee.double ((-6781843979134103 / 2251799813685248 : ℚ) - (1 : ℚ)) = (-1129205474102419 / 281474976710656 : ℚ) :=
    show round_to_bits 53 ((-6781843979134103 / 2251799813685248 : ℚ) - (1 : ℚ)) = (-1129205474102419 / 281474976710656 : ℚ) from
    round_to_bits_cert_tie 53 50 9033643792819351 2251799813685248 4516821896409675 4516821896409676 1129205474102419 281474976710656 _ _ true
      (by norm_num) (by norm_num) (by decide) (by decide) (by decide) (by decide)
      (by decide) (by decide) (by decide) (by decide)
  have h4 : Rounding.ieee.double ((-1 : ℚ) - (1 : ℚ)) = (-2 : ℚ) :=
    show round_to_bits 53 ((-1 : ℚ) - (1 : ℚ)) = (-2 : ℚ) from
    round_to_bits_cert_neg 53 51 2 1 4503599627370496 2 1 _ _
      (by norm_num) (by norm_num) (by decide) (by decide) (by decide) (by decide)
      (by decide) (by decide) (by decide) (by decide)
  have h5 : Rounding.ieee.double ((1 : ℚ) - (1 : ℚ)) = (0 : ℚ) :=
    show round_to_bits 53 ((1 : ℚ) - (1 : ℚ)) = (0 : ℚ) from
    round_to_bits_zero 53 _ (by norm_num)
  have h6 : Rounding.ieee.double ((-6781843979134105 / 2251799813685248 : ℚ) - (-1 : ℚ)) = (-4530044165448857 / 2251799813685248 : ℚ) :=
    show round_to_bits 53 ((-6781843979134105 / 2251799813685248 : ℚ) - (-1 : ℚ)) = (-4530044165448857 / 2251799813685248 : ℚ) from
    round_to_bits_cert_neg 53 51 4530044165448857 2251799813685248 4530044165448857 4530044165448857 2251799813685248 _ _
      (by norm_num) (by norm_num) (by decide) (by decide) (by decide) (by decide)
      (by decide) (by decide) (by decide) (by decide)
  have h7 : Rounding.ieee.double ((0 : ℚ) - (-1 : ℚ)) = (1 : ℚ) :=
    show round_to_bits 53 ((0 : ℚ) - (-1 : ℚ)) = (1 : ℚ) from
    round_to_bits_cert 53 52 1 1 4503599627370496 1 1 _ _
      (by norm_num) (by norm_num) (by decide) (by decide) (by decide) (by decide)
      (by decide) (by decide) (by decide) (by decide)
  have h8 : Rounding.ieee.double ((0 : ℚ) - (1 : ℚ)) = (-1 : ℚ) :=
    show round_to_bits 53 ((0 : ℚ) - (1 : ℚ)) = (-1 : ℚ) from
    round_to_bits_cert_neg 53 52 1 1 4503599627370496 1 1 _ _
      (by norm_num) (by norm_num) (by decide) (by decide) (by decide) (by decide)
      (by decide) (by decide) (by decide) (by decide)
  have h9 : Rounding.ieee.double ((-6781843979134105 / 2251799813685248 : ℚ) - (0 : ℚ)) = (-6781843979134105 / 2251799813685248 : ℚ) :=
    show round_to_bits 53 ((-6781843979134105 / 2251799813685248 : ℚ) - (0 : ℚ)) = (-6781843979134105 / 2251799813685248 : ℚ) from
    round_to_bits_cert_neg 53 51 6781843979134105 2251799813685248 6781843979134105 6781843979134105 2251799813685248 _ _
      (by norm_num) (by norm_num) (by decide) (by decide) (by decide) (by decide)
      (by decide) (by decide) (by decide) (by decide)
  have h10 : Rounding.ieee.double ((-6781843979134103 / 2251799813685248 : ℚ) - (0 : ℚ)) = (-6781843979134103 / 2251799813685248 : ℚ) :=
    show round_to_bits 53 ((-6781843979134103 / 2251799813685248 : ℚ) - (0 : ℚ)) = (-6781843979134103 / 2251799813685248 : ℚ) from
    round_to_bits_cert_neg 53 51 6781843979134103 2251799813685248 6781843979134103 6781843979134103 2251799813685248 _ _
      (by norm_num) (by norm_num) (by decide) (by decide) (by decide) (by decide)
      (by decide) (by decide) (by decide) (by decide)
  have h11 : Rounding.ieee.double ((1 : ℚ) * (-1129205474102419 / 281474976710656 : ℚ)) = (-1129205474102419 / 281474976710656 : ℚ) :=
    show round_to_bits 53 ((1 : ℚ) * (-1129205474102419 / 281474976710656 : ℚ)) = (-1129205474102419 / 281474976710656 : ℚ) from
    round_to_bits_cert_neg 53 50 1129205474102419 281474976710656 4516821896409676 1129205474102419 281474976710656 _ _
      (by norm_num) (by norm_num) (by decide) (by decide) (by decide) (by decide)
      (by decide) (by decide) (by decide) (by decide)
  have h12 : Rounding.ieee.double ((-1129205474102419 / 281474976710656 : ℚ) - (-1129205474102419 / 281474976710656 : ℚ)) = (0 : ℚ) :=
    show round_to_bits 53 ((-1129205474102419 / 281474976710656 : ℚ) - (-1129205474102419 / 281474976710656 : ℚ)) = (0 : ℚ) from
    round_to_bits_zero 53 _ (by norm_num)
  have hc1_0 : cross_fp Rounding.ieee (1 : ℚ) (1 : ℚ) (-1129205474102419 / 281474976710656 : ℚ) (-1129205474102419 / 281474976710656 : ℚ) = (0 : ℚ) :=
    cross_fp_eq _ _ _ _ _ _ _ _ h11 h11 h12
  have h14 : Rounding.ieee.double ((-2 : ℚ) * (-1129205474102419 / 281474976710656 : ℚ)) = (1129205474102419 / 140737488355328 : ℚ) :=
    show round_to_bits 53 ((-2 : ℚ) * (-1129205474102419 / 281474976710656 : ℚ)) = (1129205474102419 / 140737488355328 : ℚ) from
    round_to_bits_cert 53 49 1129205474102419 140737488355328 4516821896409676 1129205474102419 140737488355328 _ _
      (by norm_num) (by norm_num) (by decide) (by decide) (by decide) (by decide)
      (by decide) (by decide) (by decide) (by decide)
  have h15 : Rounding.ieee.double ((0 : ℚ) * (-4530044165448857 / 2251799813685248 : ℚ)) = (0 : ℚ) :=
    show round_to_bits 53 ((0 : ℚ) * (-4530044165448857 / 2251799813685248 : ℚ)) = (0 : ℚ) from
    round_to_bits_zero 53 _ (by norm_num)
  have h16 : Rounding.ieee.double ((1129205474102419 / 140737488355328 : ℚ) - (0 : ℚ)) = (1129205474102419 / 140737488355328 : ℚ) :=
    show round_to_bits 53 ((1129205474102419 / 140737488355328 : ℚ) - (0 : ℚ)) = (1129205474102419 / 140737488355328 : ℚ) from
    round_to_bits_cert 53 49 1129205474102419 140737488355328 4516821896409676 1129205474102419 140737488355328 _ _
      (by norm_num) (by norm_num) (by decide) (by decide) (by decide) (by decide)
      (by decide) (by decide) (by decide) (by decide)
  have hc2_0 : cross_fp Rounding.ieee (-2 : ℚ) (0 : ℚ) (-4530044165448857 / 2251799813685248 : ℚ) (-1129205474102419 / 281474976710656 : ℚ) = (1129205474102419 / 140737488355328 : ℚ) :=
    cross_fp_eq _ _ _ _ _ _ _ _ h14 h15 h16
  have h18 : Rounding.ieee.double ((1 : ℚ) * (-6781843979134103 / 2251799813685248 : ℚ)) = (-6781843979134103 / 2251799813685248 : ℚ) :=
    show round_to_bits 53 ((1 : ℚ) * (-6781843979134103 / 2251799813685248 : ℚ)) = (-6781843979134103 / 2251799813685248 : ℚ) from
    round_to_bits_cert_neg 53 51 6781843979134103 2251799813685248 6781843979134103 6781843979134103 2251799813685248 _ _
      (by norm_num) (by norm_num) (by decide) (by decide) (by decide) (by decide)
      (by decide) (by decide) (by decide) (by decide)
  have h19 : Rounding.ieee.double ((-1 : ℚ) * (-6781843979134105 / 2251799813685248 : ℚ)) = (6781843979134105 / 2251799813685248 : ℚ) :=
    show round_to_bits 53 ((-1 : ℚ) * (-6781843979134105 / 2251799813685248 : ℚ)) = (6781843979134105 / 2251799813685248 : ℚ) from
    round_to_bits_cert 53 51 6781843979134105 2251799813685248 6781843979134105 6781843979134105 2251799813685248 _ _
      (by norm_num) (by norm_num) (by decide) (by decide) (by decide) (by decide)
      (by decide) (by decide) (by decide) (by decide)
  have h20 : Rounding.ieee.double ((-6781843979134103 / 2251799813685248 : ℚ) - (6781843979134105 / 2251799813685248 : ℚ)) = (-847730497391763 / 140737488355328 : ℚ) :=
    show round_to_bits 53 ((-6781843979134103 / 2251799813685248 : ℚ) - (6781843979134105 / 2251799813685248 : ℚ)) = (-847730497391763 / 140737488355328 : ℚ) from
    round_to_bits_cert_neg 53 50 847730497391763 140737488355328 6781843979134104 847730497391763 140737488355328 _ _
      (by norm_num) (by norm_num) (by decide) (by decide) (by decide) (by decide)
      (by decide) (by decide) (by decide) (by decide)
  have hc3_0 : cross_fp Rounding.ieee (1 : ℚ) (-1 : ℚ) (-6781843979134105 / 2251799813685248 : ℚ) (-6781843979134103 / 2251799813685248 : ℚ) = (-847730497391763 / 140737488355328 : ℚ) :=
    cross_fp_eq _ _ _ _ _ _ _ _ h18 h19 h20
  have htri0 : is_inside_of_triangle_fp Rounding.ieee ⟨(-6781843979134105 / 2251799813685248 : ℚ), (-6781843979134103 / 2251799813685248 : ℚ)⟩ ⟨(0 : ℚ), (0 : ℚ)⟩ ⟨(1 : ℚ), (1 : ℚ)⟩ ⟨(-1 : ℚ), (1 : ℚ)⟩ = false := by
    simp only [is_inside_of_triangle_fp, h1, h2, h3, h4, h5, h6, h7, h8, h9, h10, hc1_0, hc2_0, hc3_0]
    norm_num
  have h22 : Rounding.ieee.double ((-1 : ℚ) - (0 : ℚ)) = (-1 : ℚ) :=
    show round_to_bits 53 ((-1 : ℚ) - (0 : ℚ)) = (-1 : ℚ) from
    round_to_bits_cert_neg 53 52 1 1 4503599627370496 1 1 _ _
      (by norm_num) (by norm_num) (by decide) (by decide) (by decide) (by decide)
      (by decide) (by decide) (by decide) (by decide)
  have h23 : Rounding.ieee.double ((-1 : ℚ) - (-1 : ℚ)) = (0 : ℚ) :=
    show round_to_bits 53 ((-1 : ℚ) - (-1 : ℚ)) = (0 : ℚ) from
    round_to_bits_zero 53 _ (by norm_num)
  have h24 : Rounding.ieee.double ((-6781843979134103 / 2251799813685248 : ℚ) - (-1 : ℚ)) = (-4530044165448855 / 2251799813685248 : ℚ) :=
    show round_to_bits 53 ((-6781843979134103 / 2251799813685248 : ℚ) - (-1 : ℚ)) = (-4530044165448855 / 2251799813685248 : ℚ) from
    round_to_bits_cert_neg 53 51 4530044165448855 2251799813685248 4530044165448855 4530044165448855 2251799813685248 _ _
      (by norm_num) (by norm_num) (by decide) (by decide) (by decide) (by decide)
      (by decide) (by decide) (by decide) (by decide)
  have h25 : Rounding.ieee.double ((-1 : ℚ) * (-1129205474102419 / 281474976710656 : ℚ)) = (1129205474102419 / 281474976710656 : ℚ) :=
    show round_to_bits 53 ((-1 : ℚ) * (-1129205474102419 / 281474976710656 : ℚ)) = (1129205474102419 / 281474976710656 : ℚ) from
    round_to_bits_cert 53 50 1129205474102419 281474976710656 4516821896409676 1129205474102419 281474976710656 _ _
      (by norm_num) (by norm_num) (by decide) (by decide) (by decide) (by decide)
      (by decide) (by decide) (by decide) (by decide)
  have h26 : Rounding.ieee.double ((1 : ℚ) * (-4530044165448857 / 2251799813685248 : ℚ)) = (-4530044165448857 / 2251799813685248 : ℚ) :=
    show round_to_bits 53 ((1 : ℚ) * (-4530044165448857 / 2251799813685248 : ℚ)) = (-4530044165448857 / 2251799813685248 : ℚ) from
    round_to_bits_cert_neg 53 51 4530044165448857 2251799813685248 4530044165448857 4530044165448857 2251799813685248 _ _
      (by norm_num) (by norm_num) (by decide) (by decide) (by decide) (by decide)
      (by decide) (by decide) (by decide) (by decide)
  have h27 : Rounding.ieee.double ((1129205474102419 / 281474976710656 : ℚ) - (-4530044165448857 / 2251799813685248 : ℚ)) = (847730497391763 / 140737488355328 : ℚ) :=
    show round_to_bits 53 ((1129205474102419 / 281474976710656 : ℚ) - (-4530044165448857 / 2251799813685248 : ℚ)) = (847730497391763 / 140737488355328 : ℚ) from
    round_to_bits_cert_tie 53 50 13563687958268209 2251799813685248 6781843979134104 6781843979134104 847730497391763 140737488355328 _ _ false
      (by norm_num) (by norm_num) (by decide) (by decide) (by decide) (by decide)
      (by decide) (by decide) (by decide) (by decide)
  have hc1_1 : cross_fp Rounding.ieee (-1 : ℚ) (1 : ℚ) (-4530044165448857 / 2251799813685248 : ℚ) (-1129205474102419 / 281474976710656 : ℚ) = (847730497391763 / 140737488355328 : ℚ) :=
    cross_fp_eq _ _ _ _ _ _ _ _ h25 h26 h27
  have h29 : Rounding.ieee.double ((0 : ℚ) * (-4530044165448855 / 2251799813685248 : ℚ)) = (0 : ℚ) :=
    show round_to_bits 53 ((0 : ℚ) * (-4530044165448855 / 2251799813685248 : ℚ)) = (0 : ℚ) from
    round_to_bits_zero 53 _ (by norm_num)
  have h30 : Rounding.ieee.double ((-2 : ℚ) * (-4530044165448857 / 2251799813685248 : ℚ)) = (4530044165448857 / 1125899906842624 : ℚ) :=
    show round_to_bits 53 ((-2 : ℚ) * (-4530044165448857 / 2251799813685248 : ℚ)) = (4530044165448857 / 1125899906842624 : ℚ) from
    round_to_bits_cert 53 50 4530044165448857 1125899906842624 4530044165448857 4530044165448857 1125899906842624 _ _
      (by norm_num) (by norm_num) (by decide) (by decide) (by decide) (by decide)
      (by decide) (by decide) (by decide) (by decide)
  have h31 : Rounding.ieee.double ((0 : ℚ) - (4530044165448857 / 1125899906842624 : ℚ)) = (-4530044165448857 / 1125899906842624 : ℚ) :=
    show round_to_bits 53 ((0 : ℚ) - (4530044165448857 / 1125899906842624 : ℚ)) = (-4530044165448857 / 1125899906842624 : ℚ) from
    round_to_bits_cert_neg 53 50 4530044165448857 1125899906842624 4530044165448857 4530044165448857 1125899906842624 _ _
      (by norm_num) (by norm_num) (by decide) (by decide) (by decide) (by decide)
      (by decide) (by decide) (by decide) (by decide)
  have hc2_1 : cross_fp Rounding.ieee (0 : ℚ) (-2 : ℚ) (-4530044165448857 / 2251799813685248 : ℚ) (-4530044165448855 / 2251799813685248 : ℚ) = (-4530044165448857 / 1125899906842624 : ℚ) :=
    cross_fp_eq _ _ _ _ _ _ _ _ h29 h30 h31
  have h33 : Rounding.ieee.double ((1 : ℚ) * (-6781843979134105 / 2251799813685248 : ℚ)) = (-6781843979134105 / 2251799813685248 : ℚ) :=
    show round_to_bits 53 ((1 : ℚ) * (-6781843979134105 / 2251799813685248 : ℚ)) = (-6781843979134105 / 2251799813685248 : ℚ) from
    round_to_bits_cert_neg 53 51 6781843979134105 2251799813685248 6781843979134105 6781843979134105 2251799813685248 _ _
      (by norm_num) (by norm_num) (by decide) (by decide) (by decide) (by decide)
      (by decide) (by decide) (by decide) (by decide)
  have h34 : Rounding.ieee.double ((-6781843979134103 / 2251799813685248 : ℚ) - (-6781843979134105 / 2251799813685248 : ℚ)) = (1 / 1125899906842624 : ℚ) :=
    show round_to_bits 53 ((-6781843979134103 / 2251799813685248 : ℚ) - (-6781843979134105 / 2251799813685248 : ℚ)) = (1 / 1125899906842624 : ℚ) from
    round_to_bits_cert 53 102 1 1125899906842624 4503599627370496 1 1125899906842624 _ _
      (by norm_num) (by norm_num) (by decide) (by decide) (by decide) (by decide)
      (by decide) (by decide) (by decide) (by decide)
  have hc3_1 : cross_fp Rounding.ieee (1 : ℚ) (1 : ℚ) (-6781843979134105 / 2251799813685248 : ℚ) (-6781843979134103 / 2251799813685248 : ℚ) = (1 / 1125899906842624 : ℚ) :=
    cross_fp_eq _ _ _ _ _ _ _ _ h18 h33 h34
  have htri1 : is_inside_of_triangle_fp Rounding.ieee ⟨(-6781843979134105 / 2251799813685248 : ℚ), (-6781843979134103 / 2251799813685248 : ℚ)⟩ ⟨(0 : ℚ), (0 : ℚ)⟩ ⟨(-1 : ℚ), (1 : ℚ)⟩ ⟨(-1 : ℚ), (-1 : ℚ)⟩ = false := by
    simp only [is_inside_of_triangle_fp, h22, h1, h6, h3, h23, h4, h24, h7, h9, h10, hc1_1, hc2_1, hc3_1]
    norm_num
  have h36 : Rounding.ieee.double ((1 : ℚ) - (-1 : ℚ)) = (2 : ℚ) :=
    show round_to_bits 53 ((1 : ℚ) - (-1 : ℚ)) = (2 : ℚ) from
    round_to_bits_cert 53 51 2 1 4503599627370496 2 1 _ _
      (by norm_num) (by norm_num) (by decide) (by decide) (by decide) (by decide)
      (by decide) (by decide) (by decide) (by decide)
  have h37 : Rounding.ieee.double ((-1 : ℚ) * (-4530044165448855 / 2251799813685248 : ℚ)) = (4530044165448855 / 2251799813685248 : ℚ) :=
    show round_to_bits 53 ((-1 : ℚ) * (-4530044165448855 / 2251799813685248 : ℚ)) = (4530044165448855 / 2251799813685248 : ℚ) from
    round_to_bits_cert 53 51 4530044165448855 2251799813685248 4530044165448855 4530044165448855 2251799813685248 _ _
      (by norm_num) (by norm_num) (by decide) (by decide) (by decide) (by decide)
      (by decide) (by decide) (by decide) (by decide)
  have h38 : Rounding.ieee.double ((-1 : ℚ) * (-4530044165448857 / 2251799813685248 : ℚ)) = (4530044165448857 / 2251799813685248 : ℚ) :=
    show round_to_bits 53 ((-1 : ℚ) * (-4530044165448857 / 2251799813685248 : ℚ)) = (4530044165448857 / 2251799813685248 : ℚ) from
    round_to_bits_cert 53 51 4530044165448857 2251799813685248 4530044165448857 4530044165448857 2251799813685248 _ _
      (by norm_num) (by norm_num) (by decide) (by decide) (by decide) (by decide)
      (by decide) (by decide) (by decide) (by decide)
  have h39 : Rounding.ieee.double ((4530044165448855 / 2251799813685248 : ℚ) - (4530044165448857 / 2251799813685248 : ℚ)) = (-1 / 1125899906842624 : ℚ) :=
    show round_to_bits 53 ((4530044165448855 / 2251799813685248 : ℚ) - (4530044165448857 / 2251799813685248 : ℚ)) = (-1 / 1125899906842624 : ℚ) from
    round_to_bits_cert_neg 53 102 1 1125899906842624 4503599627370496 1 1125899906842624 _ _
      (by norm_num) (by norm_num) (by decide) (by decide) (by decide) (by decide)
      (by decide) (by decide) (by decide) (by decide)
  have hc1_2 : cross_fp Rounding.ieee (-1 : ℚ) (-1 : ℚ) (-4530044165448857 / 2251799813685248 : ℚ) (-4530044165448855 / 2251799813685248 : ℚ) = (-1 / 1125899906842624 : ℚ) :=
    cross_fp_eq _ _ _ _ _ _ _ _ h37 h38 h39
  have h41 : Rounding.ieee.double ((2 : ℚ) * (-4530044165448855 / 2251799813685248 : ℚ)) = (-4530044165448855 / 1125899906842624 : ℚ) :=
    show round_to_bits 53 ((2 : ℚ) * (-4530044165448855 / 2251799813685248 : ℚ)) = (-4530044165448855 / 1125899906842624 : ℚ) from
    round_to_bits_cert_neg 53 50 4530044165448855 1125899906842624 4530044165448855 4530044165448855 1125899906842624 _ _
      (by norm_num) (by norm_num) (by decide) (by decide) (by decide) (by decide)
      (by decide) (by decide) (by decide) (by decide)
  have h42 : Rounding.ieee.double ((0 : ℚ) * (-1129205474102419 / 281474976710656 : ℚ)) = (0 : ℚ) :=
    show round_to_bits 53 ((0 : ℚ) * (-1129205474102419 / 281474976710656 : ℚ)) = (0 : ℚ) from
    round_to_bits_zero 53 _ (by norm_num)
  have h43 : Rounding.ieee.double ((-4530044165448855 / 1125899906842624 : ℚ) - (0 : ℚ)) = (-4530044165448855 / 1125899906842624 : ℚ) :=
    show round_to_bits 53 ((-4530044165448855 / 1125899906842624 : ℚ) - (0 : ℚ)) = (-4530044165448855 / 1125899906842624 : ℚ) from
    round_to_bits_cert_neg 53 50 4530044165448855 1125899906842624 4530044165448855 4530044165448855 1125899906842624 _ _
      (by norm_num) (by norm_num) (by decide) (by decide) (by decide) (by decide)
      (by decide) (by decide) (by decide) (by decide)
  have hc2_2 : cross_fp Rounding.ieee (2 : ℚ) (0 : ℚ) (-1129205474102419 / 281474976710656 : ℚ) (-4530044165448855 / 2251799813685248 : ℚ) = (-4530044165448855 / 1125899906842624 : ℚ) :=
    cross_fp_eq _ _ _ _ _ _ _ _ h41 h42 h43
  have h45 : Rounding.ieee.double ((-1 : ℚ) * (-6781843979134103 / 2251799813685248 : ℚ)) = (6781843979134103 / 2251799813685248 : ℚ) :=
    show round_to_bits 53 ((-1 : ℚ) * (-6781843979134103 / 2251799813685248 : ℚ)) = (6781843979134103 / 2251799813685248 : ℚ) from
    round_to_bits_cert 53 51 6781843979134103 2251799813685248 6781843979134103 6781843979134103 2251799813685248 _ _
      (by norm_num) (by norm_num) (by decide) (by decide) (by decide) (by decide)
      (by decide) (by decide) (by decide) (by decide)
  have h46 : Rounding.ieee.double ((6781843979134103 / 2251799813685248 : ℚ) - (-6781843979134105 / 2251799813685248 : ℚ)) = (847730497391763 / 140737488355328 : ℚ) :=
    show round_to_bits 53 ((6781843979134103 / 2251799813685248 : ℚ) - (-6781843979134105 / 2251799813685248 : ℚ)) = (847730497391763 / 140737488355328 : ℚ) from
    round_to_bits_cert 53 50 847730497391763 140737488355328 6781843979134104 847730497391763 140737488355328 _ _
      (by norm_num) (by norm_num) (by decide) (by decide) (by decide) (by decide)
      (by decide) (by decide) (by decide) (by decide)
  have hc3_2 : cross_fp Rounding.ieee (-1 : ℚ) (1 : ℚ) (-6781843979134105 / 2251799813685248 : ℚ) (-6781843979134103 / 2251799813685248 : ℚ) = (847730497391763 / 140737488355328 : ℚ) :=
    cross_fp_eq _ _ _ _ _ _ _ _ h45 h33 h46
  have htri2 : is_inside_of_triangle_fp Rounding.ieee ⟨(-6781843979134105 / 2251799813685248 : ℚ), (-6781843979134103 / 2251799813685248 : ℚ)⟩ ⟨(0 : ℚ), (0 : ℚ)⟩ ⟨(-1 : ℚ), (-1 : ℚ)⟩ ⟨(1 : ℚ), (-1 : ℚ)⟩ = false := by
    simp only [is_inside_of_triangle_fp, h22, h6, h24, h36, h23, h2, h8, h7, h9, h10, hc1_2, hc2_2, hc3_2]
    norm_num
  have h48 : Rounding.ieee.double ((1 : ℚ) * (-4530044165448855 / 2251799813685248 : ℚ)) = (-4530044165448855 / 2251799813685248 : ℚ) :=
    show round_to_bits 53 ((1 : ℚ) * (-4530044165448855 / 2251799813685248 : ℚ)) = (-4530044165448855 / 2251799813685248 : ℚ) from
    round_to_bits_cert_neg 53 51 4530044165448855 2251799813685248 4530044165448855 4530044165448855 2251799813685248 _ _
      (by norm_num) (by norm_num) (by decide) (by decide) (by decide) (by decide)
      (by decide) (by decide) (by decide) (by decide)
  have h49 : Rounding.ieee.double ((-4530044165448855 / 2251799813685248 : ℚ) - (1129205474102419 / 281474976710656 : ℚ)) = (-847730497391763 / 140737488355328 : ℚ) :=
    show round_to_bits 53 ((-4530044165448855 / 2251799813685248 : ℚ) - (1129205474102419 / 281474976710656 : ℚ)) = (-847730497391763 / 140737488355328 : ℚ) from
    round_to_bits_cert_tie 53 50 13563687958268207 2251799813685248 6781843979134103 6781843979134104 847730497391763 140737488355328 _ _ true
      (by norm_num) (by norm_num) (by decide) (by decide) (by decide) (by decide)
      (by decide) (by decide) (by decide) (by decide)
  have hc1_3 : cross_fp Rounding.ieee (1 : ℚ) (-1 : ℚ) (-1129205474102419 / 281474976710656 : ℚ) (-4530044165448855 / 2251799813685248 : ℚ) = (-847730497391763 / 140737488355328 : ℚ) :=
    cross_fp_eq _ _ _ _ _ _ _ _ h48 h25 h49
  have h51 : Rounding.ieee.double ((2 : ℚ) * (-1129205474102419 / 281474976710656 : ℚ)) = (-1129205474102419 / 140737488355328 : ℚ) :=
    show round_to_bits 53 ((2 : ℚ) * (-1129205474102419 / 281474976710656 : ℚ)) = (-1129205474102419 / 140737488355328 : ℚ) from
    round_to_bits_cert_neg 53 49 1129205474102419 140737488355328 4516821896409676 1129205474102419 140737488355328 _ _
      (by norm_num) (by norm_num) (by decide) (by decide) (by decide) (by decide)
      (by decide) (by decide) (by decide) (by decide)
  have h52 : Rounding.ieee.double ((0 : ℚ) - (-1129205474102419 / 140737488355328 : ℚ)) = (1129205474102419 / 140737488355328 : ℚ) :=
    show round_to_bits 53 ((0 : ℚ) - (-1129205474102419 / 140737488355328 : ℚ)) = (1129205474102419 / 140737488355328 : ℚ) from
    round_to_bits_cert 53 49 1129205474102419 140737488355328 4516821896409676 1129205474102419 140737488355328 _ _
      (by norm_num) (by norm_num) (by decide) (by decide) (by decide) (by decide)
      (by decide) (by decide) (by decide) (by decide)
  have hc2_3 : cross_fp Rounding.ieee (0 : ℚ) (2 : ℚ) (-1129205474102419 / 281474976710656 : ℚ) (-1129205474102419 / 281474976710656 : ℚ) = (1129205474102419 / 140737488355328 : ℚ) :=
    cross_fp_eq _ _ _ _ _ _ _ _ h42 h51 h52
  have h54 : Rounding.ieee.double ((6781843979134103 / 2251799813685248 : ℚ) - (6781843979134105 / 2251799813685248 : ℚ)) = (-1 / 1125899906842624 : ℚ) :=
    show round_to_bits 53 ((6781843979134103 / 2251799813685248 : ℚ) - (6781843979134105 / 2251799813685248 : ℚ)) = (-1 / 1125899906842624 : ℚ) from
    round_to_bits_cert_neg 53 102 1 1125899906842624 4503599627370496 1 1125899906842624 _ _
      (by norm_num) (by norm_num) (by decide) (by decide) (by decide) (by decide)
      (by decide) (by decide) (by decide) (by decide)
  have hc3_3 : cross_fp Rounding.ieee (-1 : ℚ) (-1 : ℚ) (-6781843979134105 / 2251799813685248 : ℚ) (-6781843979134103 / 2251799813685248 : ℚ) = (-1 / 1125899906842624 : ℚ) :=
    cross_fp_eq _ _ _ _ _ _ _ _ h45 h19 h54
  have htri3 : is_inside_of_triangle_fp Rounding.ieee ⟨(-6781843979134105 / 2251799813685248 : ℚ), (-6781843979134103 / 2251799813685248 : ℚ)⟩ ⟨(0 : ℚ), (0 : ℚ)⟩ ⟨(1 : ℚ), (-1 : ℚ)⟩ ⟨(1 : ℚ), (1 : ℚ)⟩ = false := by
    simp only [is_inside_of_triangle_fp, h1, h22, h2, h24, h5, h36, h3, h8, h9, h10, hc1_3, hc2_3, hc3_3]
    norm_num
  have hz : Rounding.ieee.float (0 : ℚ) = 0 := round_to_bits_zero 24 _ rfl
  unfold is_inside_of_robot_fp
  rw [edges_square_footprint]
  simp only [List.any_cons, List.any_nil, State.origin, hz]
  have e0 : is_inside_of_triangle_fp Rounding.ieee corner_obstacle ⟨(0 : ℚ), (0 : ℚ)⟩ ⟨1, 1⟩ ⟨-1, 1⟩ = false := htri0
  have e1 : is_inside_of_triangle_fp Rounding.ieee corner_obstacle ⟨(0 : ℚ), (0 : ℚ)⟩ ⟨-1, 1⟩ ⟨-1, -1⟩ = false := htri1
  have e2 : is_inside_of_triangle_fp Rounding.ieee corner_obstacle ⟨(0 : ℚ), (0 : ℚ)⟩ ⟨-1, -1⟩ ⟨1, -1⟩ = false := htri2
  have e3 : is_inside_of_triangle_fp Rounding.ieee corner_obstacle ⟨(0 : ℚ), (0 : ℚ)⟩ ⟨1, -1⟩ ⟨1, 1⟩ = false := htri3
  rw [e0, e1, e2, e3]
  rfl

/-- At the origin pose the footprint is stored unchanged by `transform_footprint` in IEEE
arithmetic, the library being exact at yaw 0. -/
theorem transform_footprint_fp_origin (L : Libm ℚ) (p : DWAPlanner ℚ)
    (hfp : p.footprint_ = square_footprint 1) (hcos : L.cos 0 = 1) (hsin : L.sin 0 = 0) :
    transform_footprint_fp Rounding.ieee L p State.origin = square_footprint 1 := by
  have h1 : Rounding.ieee.float ((1 : ℚ) * (1 : ℚ)) = (1 : ℚ) :=
    show round_to_bits 24 ((1 : ℚ) * (1 : ℚ)) = (1 : ℚ) from
    round_to_bits_cert 24 23 1 1 8388608 1 1 _ _
      (by norm_num) (by norm_num) (by decide) (by decide) (by decide) (by decide)
      (by decide) (by decide) (by decide) (by decide)
  have h2 : Rounding.ieee.float ((0 : ℚ) * (1 : ℚ)) = (0 : ℚ) :=
    show round_to_bits 24 ((0 : ℚ) * (1 : ℚ)) = (0 : ℚ) from
    round_to_bits_zero 24 _ (by norm_num)
  have h3 : Rounding.ieee.float ((1 : ℚ) - (0 : ℚ)) = (1 : ℚ) :=
    show round_to_bits 24 ((1 : ℚ) - (0 : ℚ)) = (1 : ℚ) from
    round_to_bits_cert 24 23 1 1 8388608 1 1 _ _
      (by norm_num) (by norm_num) (by decide) (by decide) (by decide) (by decide)
      (by decide) (by decide) (by decide) (by decide)
  have h4 : Rounding.ieee.double ((1 : ℚ) + (0 : ℚ)) = (1 : ℚ) :=
    show round_to_bits 53 ((1 : ℚ) + (0 : ℚ)) = (1 : ℚ) from
    round_to_bits_cert 53 52 1 1 4503599627370496 1 1 _ _
      (by norm_num) (by norm_num) (by decide) (by decide) (by decide) (by decide)
      (by decide) (by decide) (by decide) (by decide)
  have h5 : Rounding.ieee.float ((1 : ℚ)) = (1 : ℚ) :=
    show round_to_bits 24 ((1 : ℚ)) = (1 : ℚ) from
    round_to_bits_cert 24 23 1 1 8388608 1 1 _ _
      (by norm_num) (by norm_num) (by decide) (by decide) (by decide) (by decide)
      (by decide) (by decide) (by decide) (by decide)
  have h6 : Rounding.ieee.float ((0 : ℚ) + (1 : ℚ)) = (1 : ℚ) :=
    show round_to_bits 24 ((0 : ℚ) + (1 : ℚ)) = (1 : ℚ) from
    round_to_bits_cert 24 23 1 1 8388608 1 1 _ _
      (by norm_num) (by norm_num) (by decide) (by decide) (by decide) (by decide)
      (by decide) (by decide) (by decide) (by decide)
  have hvx0 : Rounding.ieee.float (Rounding.ieee.double (Rounding.ieee.float (Rounding.ieee.float ((1 : ℚ) * (1 : ℚ)) - Rounding.ieee.float ((0 : ℚ) * (1 : ℚ))) + (0 : ℚ))) = (1 : ℚ) := by
    rw [h1, h2, h3, h4, h5]
  have hvy0 : Rounding.ieee.float (Rounding.ieee.double (Rounding.ieee.float (Rounding.ieee.float ((0 : ℚ) * (1 : ℚ)) + Rounding.ieee.float ((1 : ℚ) * (1 : ℚ))) + (0 : ℚ))) = (1 : ℚ) := by
    rw [h2, h1, h6, h4, h5]
  have h7 : Rounding.ieee.float ((1 : ℚ) * (-1 : ℚ)) = (-1 : ℚ) :=
    show round_to_bits 24 ((1 : ℚ) * (-1 : ℚ)) = (-1 : ℚ) from
    round_to_bits_cert_neg 24 23 1 1 8388608 1 1 _ _
      (by norm_num) (by norm_num) (by decide) (by decide) (by decide) (by decide)
      (by decide) (by decide) (by decide) (by decide)
  have h8 : Rounding.ieee.float ((-1 : ℚ) - (0 : ℚ)) = (-1 : ℚ) :=
    show round_to_bits 24 ((-1 : ℚ) - (0 : ℚ)) = (-1 : ℚ) from
    round_to_bits_cert_neg 24 23 1 1 8388608 1 1 _ _
      (by norm_num) (by norm_num) (by decide) (by decide) (by decide) (by decide)
      (by decide) (by decide) (by decide) (by decide)
  have h9 : Rounding.ieee.double ((-1 : ℚ) + (0 : ℚ)) = (-1 : ℚ) :=
    show round_to_bits 53 ((-1 : ℚ) + (0 : ℚ)) = (-1 : ℚ) from
    round_to_bits_cert_neg 53 52 1 1 4503599627370496 1 1 _ _
      (by norm_num) (by norm_num) (by decide) (by decide) (by decide) (by decide)
      (by decide) (by decide) (by decide) (by decide)
  have h10 : Rounding.ieee.float ((-1 : ℚ)) = (-1 : ℚ) :=
    show round_to_bits 24 ((-1 : ℚ)) = (-1 : ℚ) from
    round_to_bits_cert_neg 24 23 1 1 8388608 1 1 _ _
      (by norm_num) (by norm_num) (by decide) (by decide) (by decide) (by decide)
      (by decide) (by decide) (by decide) (by decide)
  have h11 : Rounding.ieee.float ((0 : ℚ) * (-1 : ℚ)) = (0 : ℚ) :=
    show round_to_bits 24 ((0 : ℚ) * (-1 : ℚ)) = (0 : ℚ) from
    round_to_bits_zero 24 _ (by norm_num)
  have hvx1 : Rounding.ieee.float (Rounding.ieee.double (Rounding.ieee.float (Rounding.ieee.float ((1 : ℚ) * (-1 : ℚ)) - Rounding.ieee.float ((0 : ℚ) * (1 : ℚ))) + (0 : ℚ))) = (-1 : ℚ) := by
    rw [h7, h2, h8, h9, h10]
  have hvy1 : Rounding.ieee.float (Rounding.ieee.double (Rounding.ieee.float (Rounding.ieee.float ((0 : ℚ) * (-1 : ℚ)) + Rounding.ieee.float ((1 : ℚ) * (1 : ℚ))) + (0 : ℚ))) = (1 : ℚ) := by
    rw [h11, h1, h6, h4, h5]
  have h12 : Rounding.ieee.float ((0 : ℚ) + (-1 : ℚ)) = (-1 : ℚ) :=
    show round_to_bits 24 ((0 : ℚ) + (-1 : ℚ)) = (-1 : ℚ) from
    round_to_bits_cert_neg 24 23 1 1 8388608 1 1 _ _
      (by norm_num) (by norm_num) (by decide) (by decide) (by decide) (by decide)
      (by decide) (by decide) (by decide) (by decide)
  have hvx2 : Rounding.ieee.float (Rounding.ieee.double (Rounding.ieee.float (Rounding.ieee.float ((1 : ℚ) * (-1 : ℚ)) - Rounding.ieee.float ((0 : ℚ) * (-1 : ℚ))) + (0 : ℚ))) = (-1 : ℚ) := by
    rw [h7, h11, h8, h9, h10]
  have hvy2 : Rounding.ieee.float (Rounding.ieee.double (Rounding.ieee.float (Rounding.ieee.float ((0 : ℚ) * (-1 : ℚ)) + Rounding.ieee.float ((1 : ℚ) * (-1 : ℚ))) + (0 : ℚ))) = (-1 : ℚ) := by
    rw [h11, h7, h12, h9, h10]
  have hvx3 : Rounding.ieee.float (Rounding.ieee.double (Rounding.ieee.float (Rounding.ieee.float ((1 : ℚ) * (1 : ℚ)) - Rounding.ieee.float ((0 : ℚ) * (-1 : ℚ))) + (0 : ℚ))) = (1 : ℚ) := by
    rw [h1, h11, h3, h4, h5]
  have hvy3 : Rounding.ieee.float (Rounding.ieee.double (Rounding.ieee.float (Rounding.ieee.float ((0 : ℚ) * (1 : ℚ)) + Rounding.ieee.float ((1 : ℚ) * (-1 : ℚ))) + (0 : ℚ))) = (-1 : ℚ) := by
    rw [h2, h7, h12, h9, h10]
  have hyaw : Rounding.ieee.float (0 : ℚ) = 0 := round_to_bits_zero 24 _ rfl
  simp only [transform_footprint_fp, hfp, square_footprint, List.map, State.origin, hyaw, hcos, hsin]
  rw [hvx0, hvy0, hvx1, hvy1, hvx2, hvy2, hvx3, hvy3]

/-- C20 (the code contradicts it): the square footprint of half-width 1, the robot at the
origin pose, the obstacle `corner_obstacle`, about 3 away on either axis and so strictly
outside the square. In IEEE arithmetic `transform_footprint` returns the square itself,
`is_inside_of_robot` reports the obstacle outside, `calc_intersection` rejects all four
edges and falls through to the sentinel `(1e6, 1e6)`, and `calc_dist_from_robot` returns
the distance from the obstacle to the sentinel. -/
theorem C20_corner_obstacle_falls_through_to_sentinel (L : Libm ℚ) (p : DWAPlanner ℚ)
    (hfp : p.footprint_ = square_footprint 1) (hcos : L.cos 0 = 1) (hsin : L.sin 0 = 0) :
    (1 < abs (robot_frame L State.origin corner_obstacle).x ∧
      1 < abs (robot_frame L State.origin corner_obstacle).y) ∧
    transform_footprint_fp Rounding.ieee L p State.origin = square_footprint 1 ∧
    is_inside_of_robot_fp Rounding.ieee corner_obstacle (square_footprint 1) State.origin =
      false ∧
    calc_intersection_fp Rounding.ieee corner_obstacle State.origin (square_footprint 1) =
      some ⟨SENTINEL, SENTINEL⟩ ∧
    calc_dist_from_robot_fp Rounding.ieee L p corner_obstacle State.origin =
      some (Rounding.ieee.float (L.hypot
        (Rounding.ieee.double (corner_obstacle.x - SENTINEL))
        (Rounding.ieee.double (corner_obstacle.y - SENTINEL)))) := by
  have htr := transform_footprint_fp_origin L p hfp hcos hsin
  refine ⟨?_, htr, is_inside_of_robot_fp_corner, calc_intersection_fp_corner, ?_⟩
  · simp only [robot_frame, State.origin, hcos, hsin, corner_obstacle]
    constructor <;> norm_num [abs_of_neg, abs_of_pos]
  · unfold calc_dist_from_robot_fp
    simp only [htr, is_inside_of_robot_fp_corner, calc_intersection_fp_corner]
    rfl

theorem C20_corner_obstacle_falls_through_to_sentinel_witness :
    (square_planner (1 : ℚ)).footprint_ = square_footprint 1 ∧
    Libm.onAxes.cos (0 : ℚ) = 1 ∧ Libm.onAxes.sin (0 : ℚ) = 0 ∧
    calc_intersection_fp Rounding.ieee corner_obstacle State.origin (square_footprint 1) =
      some ⟨SENTINEL, SENTINEL⟩ :=
  ⟨rfl, by norm_num [Libm.onAxes], by norm_num [Libm.onAxes],
    (C20_corner_obstacle_falls_through_to_sentinel Libm.onAxes (square_planner 1) rfl
      (by norm_num [Libm.onAxes]) (by norm_num [Libm.onAxes])).2.2.2.1⟩

/-! ## The footprint test in machine arithmetic -/

/-- The function `transform_footprint` in IEEE arithmetic at the pose `(0, 0.1, 0)`, the
library being exact at yaw 0. -/
theorem transform_footprint_fp_lifted (L : Libm ℚ) (p : DWAPlanner ℚ) (hfp : p.footprint_ = square_footprint 1)
    (hcos : L.cos 0 = 1) (hsin : L.sin 0 = 0) :
    transform_footprint_fp Rounding.ieee L p ⟨0, DOUBLE_TENTH, 0, 0, 0⟩ = lifted_square := by
  have h1 : Rounding.ieee.float ((1 : ℚ) * (1 : ℚ)) = (1 : ℚ) :=
    show round_to_bits 24 ((1 : ℚ) * (1 : ℚ)) = (1 : ℚ) from
    round_to_bits_cert 24 23 1 1 8388608 1 1 _ _
      (by norm_num) (by norm_num) (by decide) (by decide) (by decide) (by decide)
      (by decide) (by decide) (by decide) (by decide)
  have h2 : Rounding.ieee.float ((0 : ℚ) * (1 : ℚ)) = (0 : ℚ) :=
    show round_to_bits 24 ((0 : ℚ) * (1 : ℚ)) = (0 : ℚ) from
    round_to_bits_zero 24 _ (by norm_num)
  have h3 : Rounding.ieee.float ((1 : ℚ) - (0 : ℚ)) = (1 : ℚ) :=
    show round_to_bits 24 ((1 : ℚ) - (0 : ℚ)) = (1 : ℚ) from
    round_to_bits_cert 24 23 1 1 8388608 1 1 _ _
      (by norm_num) (by norm_num) (by decide) (by decide) (by decide) (by decide)
      (by decide) (by decide) (by decide) (by decide)
  have h4 : Rounding.ieee.double ((1 : ℚ) + (0 : ℚ)) = (1 : ℚ) :=
    show round_to_bits 53 ((1 : ℚ) + (0 : ℚ)) = (1 : ℚ) from
    round_to_bits_cert 53 52 1 1 4503599627370496 1 1 _ _
      (by norm_num) (by norm_num) (by decide) (by decide) (by decide) (by decide)
      (by decide) (by decide) (by decide) (by decide)
  have h5 : Rounding.ieee.float ((1 : ℚ)) = (1 : ℚ) :=
    show round_to_bits 24 ((1 : ℚ)) = (1 : ℚ) from
    round_to_bits_cert 24 23 1 1 8388608 1 1 _ _
      (by norm_num) (by norm_num) (by decide) (by decide) (by decide) (by decide)
      (by decide) (by decide) (by decide) (by decide)
  have h6 : Rounding.ieee.float ((0 : ℚ) + (1 : ℚ)) = (1 : ℚ) :=
    show round_to_bits 24 ((0 : ℚ) + (1 : ℚ)) = (1 : ℚ) from
    round_to_bits_cert 24 23 1 1 8388608 1 1 _ _
      (by norm_num) (by norm_num) (by decide) (by decide) (by decide) (by decide)
      (by decide) (by decide) (by decide) (by decide)
  have h7 : Rounding.ieee.double ((1 : ℚ) + (3602879701896397 / 36028797018963968 : ℚ)) = (2476979795053773 / 2251799813685248 : ℚ) :=
    show round_to_bits 53 ((1 : ℚ) + (3602879701896397 / 36028797018963968 : ℚ)) = (2476979795053773 / 2251799813685248 : ℚ) from
    round_to_bits_cert 53 52 39631676720860365 36028797018963968 4953959590107546 2476979795053773 2251799813685248 _ _
      (by norm_num) (by norm_num) (by decide) (by decide) (by decide) (by decide)
      (by decide) (by decide) (by decide) (by decide)
  have h8 : Rounding.ieee.float ((2476979795053773 / 2251799813685248 : ℚ)) = (9227469 / 8388608 : ℚ) :=
    show round_to_bits 24 ((2476979795053773 / 2251799813685248 : ℚ)) = (9227469 / 8388608 : ℚ) from
    round_to_bits_cert 24 23 2476979795053773 2251799813685248 9227469 9227469 8388608 _ _
      (by norm_num) (by norm_num) (by decide) (by decide) (by decide) (by decide)
      (by decide) (by decide) (by decide) (by decide)
  have hvx0 : Rounding.ieee.float (Rounding.ieee.double (Rounding.ieee.float (Rounding.ieee.float ((1 : ℚ) * (1 : ℚ)) - Rounding.ieee.float ((0 : ℚ) * (1 : ℚ))) + (0 : ℚ))) = (1 : ℚ) := by
    rw [h1, h2, h3, h4, h5]
  have hvy0 : Rounding.ieee.float (Rounding.ieee.double (Rounding.ieee.float (Rounding.ieee.float ((0 : ℚ) * (1 : ℚ)) + Rounding.ieee.float ((1 : ℚ) * (1 : ℚ))) + (3602879701896397 / 36028797018963968 : ℚ))) = (9227469 / 8388608 : ℚ) := by
    rw [h2, h1, h6, h7, h8]
  have h9 : Rounding.ieee.float ((1 : ℚ) * (-1 : ℚ)) = (-1 : ℚ) :=
    show round_to_bits 24 ((1 : ℚ) * (-1 : ℚ)) = (-1 : ℚ) from
    round_to_bits_cert_neg 24 23 1 1 8388608 1 1 _ _
      (by norm_num) (by norm_num) (by decide) (by decide) (by decide) (by decide)
      (by decide) (by decide) (by decide) (by decide)
  have h10 : Rounding.ieee.float ((-1 : ℚ) - (0 : ℚ)) = (-1 : ℚ) :=
    show round_to_bits 24 ((-1 : ℚ) - (0 : ℚ)) = (-1 : ℚ) from
    round_to_bits_cert_neg 24 23 1 1 8388608 1 1 _ _
      (by norm_num) (by norm_num) (by decide) (by decide) (by decide) (by decide)
      (by decide) (by decide) (by decide) (by decide)
  have h11 : Rounding.ieee.double ((-1 : ℚ) + (0 : ℚ)) = (-1 : ℚ) :=
    show round_to_bits 53 ((-1 : ℚ) + (0 : ℚ)) = (-1 : ℚ) from
    round_to_bits_cert_neg 53 52 1 1 4503599627370496 1 1 _ _
      (by norm_num) (by norm_num) (by decide) (by decide) (by decide) (by decide)
      (by decide) (by decide) (by decide) (by decide)
  have h12 : Rounding.ieee.float ((-1 : ℚ)) = (-1 : ℚ) :=
    show round_to_bits 24 ((-1 : ℚ)) = (-1 : ℚ) from
    round_to_bits_cert_neg 24 23 1 1 8388608 1 1 _ _
      (by norm_num) (by norm_num) (by decide) (by decide) (by decide) (by decide)
      (by decide) (by decide) (by decide) (by decide)
  have h13 : Rounding.ieee.float ((0 : ℚ) * (-1 : ℚ)) = (0 : ℚ) :=
    show round_to_bits 24 ((0 : ℚ) * (-1 : ℚ)) = (0 : ℚ) from
    round_to_bits_zero 24 _ (by norm_num)
  have hvx1 : Rounding.ieee.float (Rounding.ieee.double (Rounding.ieee.float (Rounding.ieee.float ((1 : ℚ) * (-1 : ℚ)) - Rounding.ieee.float ((0 : ℚ) * (1 : ℚ))) + (0 : ℚ))) = (-1 : ℚ) := by
    rw [h9, h2, h10, h11, h12]
  have hvy1 : Rounding.ieee.float (Rounding.ieee.double (Rounding.ieee.float (Rounding.ieee.float ((0 : ℚ) * (-1 : ℚ)) + Rounding.ieee.float ((1 : ℚ) * (1 : ℚ))) + (3602879701896397 / 36028797018963968 : ℚ))) = (9227469 / 8388608 : ℚ) := by
    rw [h13, h1, h6, h7, h8]
  have h14 : Rounding.ieee.float ((0 : ℚ) + (-1 : ℚ)) = (-1 : ℚ) :=
    show round_to_bits 24 ((0 : ℚ) + (-1 : ℚ)) = (-1 : ℚ) from
    round_to_bits_cert_neg 24 23 1 1 8388608 1 1 _ _
      (by norm_num) (by norm_num) (by decide) (by decide) (by decide) (by decide)
      (by decide) (by decide) (by decide) (by decide)
  have h15 : Rounding.ieee.double ((-1 : ℚ) + (3602879701896397 / 36028797018963968 : ℚ)) = (-8106479329266893 / 9007199254740992 : ℚ) :=
    show round_to_bits 53 ((-1 : ℚ) + (3602879701896397 / 36028797018963968 : ℚ)) = (-8106479329266893 / 9007199254740992 : ℚ) from
    round_to_bits_cert_neg 53 53 32425917317067571 36028797018963968 8106479329266893 8106479329266893 9007199254740992 _ _
      (by norm_num) (by norm_num) (by decide) (by decide) (by decide) (by decide)
      (by decide) (by decide) (by decide) (by decide)
  have h16 : Rounding.ieee.float ((-8106479329266893 / 9007199254740992 : ℚ)) = (-7549747 / 8388608 : ℚ) :=
    show round_to_bits 24 ((-8106479329266893 / 9007199254740992 : ℚ)) = (-7549747 / 8388608 : ℚ) from
    round_to_bits_cert_neg 24 24 8106479329266893 9007199254740992 15099494 7549747 8388608 _ _
      (by norm_num) (by norm_num) (by decide) (by decide) (by decide) (by decide)
      (by decide) (by decide) (by decide) (by decide)
  have hvx2 : Rounding.ieee.float (Rounding.ieee.double (Rounding.ieee.float (Rounding.ieee.float ((1 : ℚ) * (-1 : ℚ)) - Rounding.ieee.float ((0 : ℚ) * (-1 : ℚ))) + (0 : ℚ))) = (-1 : ℚ) := by
    rw [h9, h13, h10, h11, h12]
  have hvy2 : Rounding.ieee.float (Rounding.ieee.double (Rounding.ieee.float (Rounding.ieee.float ((0 : ℚ) * (-1 : ℚ)) + Rounding.ieee.float ((1 : ℚ) * (-1 : ℚ))) + (3602879701896397 / 36028797018963968 : ℚ))) = (-7549747 / 8388608 : ℚ) := by
    rw [h13, h9, h14, h15, h16]
  have hvx3 : Rounding.ieee.float (Rounding.ieee.double (Rounding.ieee.float (Rounding.ieee.float ((1 : ℚ) * (1 : ℚ)) - Rounding.ieee.float ((0 : ℚ) * (-1 : ℚ))) + (0 : ℚ))) = (1 : ℚ) := by
    rw [h1, h13, h3, h4, h5]
  have hvy3 : Rounding.ieee.float (Rounding.ieee.double (Rounding.ieee.float (Rounding.ieee.float ((0 : ℚ) * (1 : ℚ)) + Rounding.ieee.float ((1 : ℚ) * (-1 : ℚ))) + (3602879701896397 / 36028797018963968 : ℚ))) = (-7549747 / 8388608 : ℚ) := by
    rw [h2, h9, h14, h15, h16]
  have hyaw : Rounding.ieee.float (0 : ℚ) = 0 := round_to_bits_zero 24 _ rfl
  simp only [transform_footprint_fp, hfp, square_footprint, List.map, hyaw, hcos, hsin, DOUBLE_TENTH, lifted_square]
  rw [hvx0, hvy0, hvx1, hvy1, hvx2, hvy2, hvx3, hvy3]

/-- In IEEE arithmetic the first triangle of the fan around `(0, 0.1)` reports the point
`(0, 1.10000001)` inside. -/
theorem is_inside_of_robot_fp_lifted :
    is_inside_of_robot_fp Rounding.ieee ⟨0, DOUBLE_NEAR_EDGE⟩ lifted_square ⟨0, DOUBLE_TENTH, 0, 0, 0⟩ = true := by
  have h1 : Rounding.ieee.float ((0 : ℚ)) = (0 : ℚ) :=
    show round_to_bits 24 ((0 : ℚ)) = (0 : ℚ) from
    round_to_bits_zero 24 _ (by norm_num)
  have h2 : Rounding.ieee.float ((3602879701896397 / 36028797018963968 : ℚ)) = (13421773 / 134217728 : ℚ) :=
    show round_to_bits 24 ((3602879701896397 / 36028797018963968 : ℚ)) = (13421773 / 134217728 : ℚ) from
    round_to_bits_cert 24 27 3602879701896397 36028797018963968 13421773 13421773 134217728 _ _
      (by norm_num) (by norm_num) (by decide) (by decide) (by decide) (by decide)
      (by decide) (by decide) (by decide) (by decide)
  have h3 : Rounding.ieee.double ((1 : ℚ) - (0 : ℚ)) = (1 : ℚ) :=
    show round_to_bits 53 ((1 : ℚ) - (0 : ℚ)) = (1 : ℚ) from
    round_to_bits_cert 53 52 1 1 4503599627370496 1 1 _ _
      (by norm_num) (by norm_num) (by decide) (by decide) (by decide) (by decide)
      (by decide) (by decide) (by decide) (by decide)
  have h4 : Rounding.ieee.double ((9227469 / 8388608 : ℚ) - (13421773 / 134217728 : ℚ)) = (134217731 / 134217728 : ℚ) :=
    show round_to_bits 53 ((9227469 / 8388608 : ℚ) - (13421773 / 134217728 : ℚ)) = (134217731 / 134217728 : ℚ) from
    round_to_bits_cert 53 52 134217731 134217728 4503599728033792 134217731 134217728 _ _
      (by norm_num) (by norm_num) (by decide) (by decide) (by decide) (by decide)
      (by decide) (by decide) (by decide) (by decide)
  have h5 : Rounding.ieee.double ((0 : ℚ) - (1 : ℚ)) = (-1 : ℚ) :=
    show round_to_bits 53 ((0 : ℚ) - (1 : ℚ)) = (-1 : ℚ) from
    round_to_bits_cert_neg 53 52 1 1 4503599627370496 1 1 _ _
      (by norm_num) (by norm_num) (by decide) (by decide) (by decide) (by decide)
      (by decide) (by decide) (by decide) (by decide)
  have h6 : Rounding.ieee.double ((2476979817571771 / 2251799813685248 : ℚ) - (9227469 / 8388608 : ℚ)) = (-31169093 / 2251799813685248 : ℚ) :=
    show round_to_bits 53 ((2476979817571771 / 2251799813685248 : ℚ) - (9227469 / 8388608 : ℚ)) = (-31169093 / 2251799813685248 : ℚ) from
    round_to_bits_cert_neg 53 79 31169093 2251799813685248 8366889692561408 31169093 2251799813685248 _ _
      (by norm_num) (by norm_num) (by decide) (by decide) (by decide) (by decide)
      (by decide) (by decide) (by decide) (by decide)
  have h7 : Rounding.ieee.double ((1 : ℚ) * (-31169093 / 2251799813685248 : ℚ)) = (-31169093 / 2251799813685248 : ℚ) :=
    show round_to_bits 53 ((1 : ℚ) * (-31169093 / 2251799813685248 : ℚ)) = (-31169093 / 2251799813685248 : ℚ) from
    round_to_bits_cert_neg 53 79 31169093 2251799813685248 8366889692561408 31169093 2251799813685248 _ _
      (by norm_num) (by norm_num) (by decide) (by decide) (by decide) (by decide)
      (by decide) (by decide) (by decide) (by decide)
  have h8 : Rounding.ieee.double ((134217731 / 134217728 : ℚ) * (-1 : ℚ)) = (-134217731 / 134217728 : ℚ) :=
    show round_to_bits 53 ((134217731 / 134217728 : ℚ) * (-1 : ℚ)) = (-134217731 / 134217728 : ℚ) from
    round_to_bits_cert_neg 53 52 134217731 134217728 4503599728033792 134217731 134217728 _ _
      (by norm_num) (by norm_num) (by decide) (by decide) (by decide) (by decide)
      (by decide) (by decide) (by decide) (by decide)
  have h9 : Rounding.ieee.double ((-31169093 / 2251799813685248 : ℚ) - (-134217731 / 134217728 : ℚ)) = (2251799832847803 / 2251799813685248 : ℚ) :=
    show round_to_bits 53 ((-31169093 / 2251799813685248 : ℚ) - (-134217731 / 134217728 : ℚ)) = (2251799832847803 / 2251799813685248 : ℚ) from
    round_to_bits_cert 53 52 2251799832847803 2251799813685248 4503599665695606 2251799832847803 2251799813685248 _ _
      (by norm_num) (by norm_num) (by decide) (by decide) (by decide) (by decide)
      (by decide) (by decide) (by decide) (by decide)
  have hc1 : cross_fp Rounding.ieee (1 : ℚ) (134217731 / 134217728 : ℚ) (-1 : ℚ) (-31169093 / 2251799813685248 : ℚ) = (2251799832847803 / 2251799813685248 : ℚ) :=
    cross_fp_eq _ _ _ _ _ _ _ _ h7 h8 h9
  have h10 : Rounding.ieee.double ((-1 : ℚ) - (1 : ℚ)) = (-2 : ℚ) :=
    show round_to_bits 53 ((-1 : ℚ) - (1 : ℚ)) = (-2 : ℚ) from
    round_to_bits_cert_neg 53 51 2 1 4503599627370496 2 1 _ _
      (by norm_num) (by norm_num) (by decide) (by decide) (by decide) (by decide)
      (by decide) (by decide) (by decide) (by decide)
  have h11 : Rounding.ieee.double ((9227469 / 8388608 : ℚ) - (9227469 / 8388608 : ℚ)) = (0 : ℚ) :=
    show round_to_bits 53 ((9227469 / 8388608 : ℚ) - (9227469 / 8388608 : ℚ)) = (0 : ℚ) from
    round_to_bits_zero 53 _ (by norm_num)
  have h12 : Rounding.ieee.double ((0 : ℚ) - (-1 : ℚ)) = (1 : ℚ) :=
    show round_to_bits 53 ((0 : ℚ) - (-1 : ℚ)) = (1 : ℚ) from
    round_to_bits_cert 53 52 1 1 4503599627370496 1 1 _ _
      (by norm_num) (by norm_num) (by decide) (by decide) (by decide) (by decide)
      (by decide) (by decide) (by decide) (by decide)
  have h13 : Rounding.ieee.double ((-2 : ℚ) * (-31169093 / 2251799813685248 : ℚ)) = (31169093 / 1125899906842624 : ℚ) :=
    show round_to_bits 53 ((-2 : ℚ) * (-31169093 / 2251799813685248 : ℚ)) = (31169093 / 1125899906842624 : ℚ) from
    round_to_bits_cert 53 78 31169093 1125899906842624 8366889692561408 31169093 1125899906842624 _ _
      (by norm_num) (by norm_num) (by decide) (by decide) (by decide) (by decide)
      (by decide) (by decide) (by decide) (by decide)
  have h14 : Rounding.ieee.double ((0 : ℚ) * (1 : ℚ)) = (0 : ℚ) :=
    show round_to_bits 53 ((0 : ℚ) * (1 : ℚ)) = (0 : ℚ) from
    round_to_bits_zero 53 _ (by norm_num)
  have h15 : Rounding.ieee.double ((31169093 / 1125899906842624 : ℚ) - (0 : ℚ)) = (31169093 / 1125899906842624 : ℚ) :=
    show round_to_bits 53 ((31169093 / 1125899906842624 : ℚ) - (0 : ℚ)) = (31169093 / 1125899906842624 : ℚ) from
    round_to_bits_cert 53 78 31169093 1125899906842624 8366889692561408 31169093 1125899906842624 _ _
      (by norm_num) (by norm_num) (by decide) (by decide) (by decide) (by decide)
      (by decide) (by decide) (by decide) (by decide)
  have hc2 : cross_fp Rounding.ieee (-2 : ℚ) (0 : ℚ) (1 : ℚ) (-31169093 / 2251799813685248 : ℚ) = (31169093 / 1125899906842624 : ℚ) :=
    cross_fp_eq _ _ _ _ _ _ _ _ h13 h14 h15
  have h16 : Rounding.ieee.double ((13421773 / 134217728 : ℚ) - (9227469 / 8388608 : ℚ)) = (-134217731 / 134217728 : ℚ) :=
    show round_to_bits 53 ((13421773 / 134217728 : ℚ) - (9227469 / 8388608 : ℚ)) = (-134217731 / 134217728 : ℚ) from
    round_to_bits_cert_neg 53 52 134217731 134217728 4503599728033792 134217731 134217728 _ _
      (by norm_num) (by norm_num) (by decide) (by decide) (by decide) (by decide)
      (by decide) (by decide) (by decide) (by decide)
  have h17 : Rounding.ieee.double ((0 : ℚ) - (0 : ℚ)) = (0 : ℚ) :=
    show round_to_bits 53 ((0 : ℚ) - (0 : ℚ)) = (0 : ℚ) from
    round_to_bits_zero 53 _ (by norm_num)
  have h18 : Rounding.ieee.double ((2476979817571771 / 2251799813685248 : ℚ) - (13421773 / 134217728 : ℚ)) = (2251799832847803 / 2251799813685248 : ℚ) :=
    show round_to_bits 53 ((2476979817571771 / 2251799813685248 : ℚ) - (13421773 / 134217728 : ℚ)) = (2251799832847803 / 2251799813685248 : ℚ) from
    round_to_bits_cert 53 52 2251799832847803 2251799813685248 4503599665695606 2251799832847803 2251799813685248 _ _
      (by norm_num) (by norm_num) (by decide) (by decide) (by decide) (by decide)
      (by decide) (by decide) (by decide) (by decide)
  have h19 : Rounding.ieee.double ((1 : ℚ) * (2251799832847803 / 2251799813685248 : ℚ)) = (2251799832847803 / 2251799813685248 : ℚ) :=
    show round_to_bits 53 ((1 : ℚ) * (2251799832847803 / 2251799813685248 : ℚ)) = (2251799832847803 / 2251799813685248 : ℚ) from
    round_to_bits_cert 53 52 2251799832847803 2251799813685248 4503599665695606 2251799832847803 2251799813685248 _ _
      (by norm_num) (by norm_num) (by decide) (by decide) (by decide) (by decide)
      (by decide) (by decide) (by decide) (by decide)
  have h20 : Rounding.ieee.double ((-134217731 / 134217728 : ℚ) * (0 : ℚ)) = (0 : ℚ) :=
    show round_to_bits 53 ((-134217731 / 134217728 : ℚ) * (0 : ℚ)) = (0 : ℚ) from
    round_to_bits_zero 53 _ (by norm_num)
  have h21 : Rounding.ieee.double ((2251799832847803 / 2251799813685248 : ℚ) - (0 : ℚ)) = (2251799832847803 / 2251799813685248 : ℚ) :=
    show round_to_bits 53 ((2251799832847803 / 2251799813685248 : ℚ) - (0 : ℚ)) = (2251799832847803 / 2251799813685248 : ℚ) from
    round_to_bits_cert 53 52 2251799832847803 2251799813685248 4503599665695606 2251799832847803 2251799813685248 _ _
      (by norm_num) (by norm_num) (by decide) (by decide) (by decide) (by decide)
      (by decide) (by decide) (by decide) (by decide)
  have hc3 : cross_fp Rounding.ieee (1 : ℚ) (-134217731 / 134217728 : ℚ) (0 : ℚ) (2251799832847803 / 2251799813685248 : ℚ) = (2251799832847803 / 2251799813685248 : ℚ) :=
    cross_fp_eq _ _ _ _ _ _ _ _ h19 h20 h21
  have htri : is_inside_of_triangle_fp Rounding.ieee ⟨(0 : ℚ), (2476979817571771 / 2251799813685248 : ℚ)⟩ ⟨(0 : ℚ), (13421773 / 134217728 : ℚ)⟩ ⟨1, 9227469 / 8388608⟩ ⟨-1, 9227469 / 8388608⟩ = true := by
    simp only [is_inside_of_triangle_fp, h3, h4, h5, h6, h10, h11, h12, h6, h12, h16, h17, h18, hc1, hc2, hc3]
    norm_num
  have hax : Rounding.ieee.float (0 : ℚ) = 0 := h1
  have hay : Rounding.ieee.float DOUBLE_TENTH = (13421773 / 134217728 : ℚ) := h2
  apply is_inside_of_robot_fp_first
  show is_inside_of_triangle_fp Rounding.ieee ⟨(0 : ℚ), DOUBLE_NEAR_EDGE⟩
    ⟨Rounding.ieee.float (0 : ℚ), Rounding.ieee.float DOUBLE_TENTH⟩ _ _ = true
  rw [hax, hay]
  exact htri

/-- The function `transform_footprint` in IEEE arithmetic at the pose `(0, 0, 0.75)`, for a
library with the values of `cosf` and `sinf` at 0.75. -/
theorem transform_footprint_fp_turned (L : Libm ℚ) (p : DWAPlanner ℚ)
    (hfp : p.footprint_ = square_footprint 1) (hcos : L.cos (3 / 4) = COSF_THREE_QUARTERS)
    (hsin : L.sin (3 / 4) = SINF_THREE_QUARTERS) :
    transform_footprint_fp Rounding.ieee L p ⟨0, 0, 3 / 4, 0, 0⟩ = turned_square := by
  have h1 : Rounding.ieee.float ((6137851 / 8388608 : ℚ) * (1 : ℚ)) = (6137851 / 8388608 : ℚ) :=
    show round_to_bits 24 ((6137851 / 8388608 : ℚ) * (1 : ℚ)) = (6137851 / 8388608 : ℚ) from
    round_to_bits_cert 24 24 6137851 8388608 12275702 6137851 8388608 _ _
      (by norm_num) (by norm_num) (by decide) (by decide) (by decide) (by decide)
      (by decide) (by decide) (by decide) (by decide)
  have h2 : Rounding.ieee.float ((11436001 / 16777216 : ℚ) * (1 : ℚ)) = (11436001 / 16777216 : ℚ) :=
    show round_to_bits 24 ((11436001 / 16777216 : ℚ) * (1 : ℚ)) = (11436001 / 16777216 : ℚ) from
    round_to_bits_cert 24 24 11436001 16777216 11436001 11436001 16777216 _ _
      (by norm_num) (by norm_num) (by decide) (by decide) (by decide) (by decide)
      (by decide) (by decide) (by decide) (by decide)
  have h3 : Rounding.ieee.float ((6137851 / 8388608 : ℚ) - (11436001 / 16777216 : ℚ)) = (839701 / 16777216 : ℚ) :=
    show round_to_bits 24 ((6137851 / 8388608 : ℚ) - (11436001 / 16777216 : ℚ)) = (839701 / 16777216 : ℚ) from
    round_to_bits_cert 24 28 839701 16777216 13435216 839701 16777216 _ _
      (by norm_num) (by norm_num) (by decide) (by decide) (by decide) (by decide)
      (by decide) (by decide) (by decide) (by decide)
  have h4 : Rounding.ieee.double ((839701 / 16777216 : ℚ) + (0 : ℚ)) = (839701 / 16777216 : ℚ) :=
    show round_to_bits 53 ((839701 / 16777216 : ℚ) + (0 : ℚ)) = (839701 / 16777216 : ℚ) from
    round_to_bits_cert 53 57 839701 16777216 7212976666836992 839701 16777216 _ _
      (by norm_num) (by norm_num) (by decide) (by decide) (by decide) (by decide)
      (by decide) (by decide) (by decide) (by decide)
  have h5 : Rounding.ieee.float ((839701 / 16777216 : ℚ)) = (839701 / 16777216 : ℚ) :=
    show round_to_bits 24 ((839701 / 16777216 : ℚ)) = (839701 / 16777216 : ℚ) from
    round_to_bits_cert 24 28 839701 16777216 13435216 839701 16777216 _ _
      (by norm_num) (by norm_num) (by decide) (by decide) (by decide) (by decide)
      (by decide) (by decide) (by decide) (by decide)
  have h6 : Rounding.ieee.float ((11436001 / 16777216 : ℚ) + (6137851 / 8388608 : ℚ)) = (2963963 / 2097152 : ℚ) :=
    show round_to_bits 24 ((11436001 / 16777216 : ℚ) + (6137851 / 8388608 : ℚ)) = (2963963 / 2097152 : ℚ) from
    round_to_bits_cert_tie 24 23 23711703 16777216 11855851 11855852 2963963 2097152 _ _ false
      (by norm_num) (by norm_num) (by decide) (by decide) (by decide) (by decide)
      (by decide) (by decide) (by decide) (by decide)
  have h7 : Rounding.ieee.double ((2963963 / 2097152 : ℚ) + (0 : ℚ)) = (2963963 / 2097152 : ℚ) :=
    show round_to_bits 53 ((2963963 / 2097152 : ℚ) + (0 : ℚ)) = (2963963 / 2097152 : ℚ) from
    round_to_bits_cert 53 52 2963963 2097152 6365062075777024 2963963 2097152 _ _
      (by norm_num) (by norm_num) (by decide) (by decide) (by decide) (by decide)
      (by decide) (by decide) (by decide) (by decide)
  have h8 : Rounding.ieee.float ((2963963 / 2097152 : ℚ)) = (2963963 / 2097152 : ℚ) :=
    show round_to_bits 24 ((2963963 / 2097152 : ℚ)) = (2963963 / 2097152 : ℚ) from
    round_to_bits_cert 24 23 2963963 2097152 11855852 2963963 2097152 _ _
      (by norm_num) (by norm_num) (by decide) (by decide) (by decide) (by decide)
      (by decide) (by decide) (by decide) (by decide)
  have hvx0 : Rounding.ieee.float (Rounding.ieee.double (Rounding.ieee.float (Rounding.ieee.float ((6137851 / 8388608 : ℚ) * (1 : ℚ)) - Rounding.ieee.float ((11436001 / 16777216 : ℚ) * (1 : ℚ))) + (0 : ℚ))) = (839701 / 16777216 : ℚ) := by
    rw [h1, h2, h3, h4, h5]
  have hvy0 : Rounding.ieee.float (Rounding.ieee.double (Rounding.ieee.float (Rounding.ieee.float ((11436001 / 16777216 : ℚ) * (1 : ℚ)) + Rounding.ieee.float ((6137851 / 8388608 : ℚ) * (1 : ℚ))) + (0 : ℚ))) = (2963963 / 2097152 : ℚ) := by
    rw [h2, h1, h6, h7, h8]
  have h9 : Rounding.ieee.float ((6137851 / 8388608 : ℚ) * (-1 : ℚ)) = (-6137851 / 8388608 : ℚ) :=
    show round_to_bits 24 ((6137851 / 8388608 : ℚ) * (-1 : ℚ)) = (-6137851 / 8388608 : ℚ) from
    round_to_bits_cert_neg 24 24 6137851 8388608 12275702 6137851 8388608 _ _
      (by norm_num) (by norm_num) (by decide) (by decide) (by decide) (by decide)
      (by decide) (by decide) (by decide) (by decide)
  have h10 : Rounding.ieee.float ((-6137851 / 8388608 : ℚ) - (11436001 / 16777216 : ℚ)) = (-2963963 / 2097152 : ℚ) :=
    show round_to_bits 24 ((-6137851 / 8388608 : ℚ) - (11436001 / 16777216 : ℚ)) = (-2963963 / 2097152 : ℚ) from
    round_to_bits_cert_tie 24 23 23711703 16777216 11855851 11855852 2963963 2097152 _ _ true
      (by norm_num) (by norm_num) (by decide) (by decide) (by decide) (by decide)
      (by decide) (by decide) (by decide) (by decide)
  have h11 : Rounding.ieee.double ((-2963963 / 2097152 : ℚ) + (0 : ℚ)) = (-2963963 / 2097152 : ℚ) :=
    show round_to_bits 53 ((-2963963 / 2097152 : ℚ) + (0 : ℚ)) = (-2963963 / 2097152 : ℚ) from
    round_to_bits_cert_neg 53 52 2963963 2097152 6365062075777024 2963963 2097152 _ _
      (by norm_num) (by norm_num) (by decide) (by decide) (by decide) (by decide)
      (by decide) (by decide) (by decide) (by decide)
  have h12 : Rounding.ieee.float ((-2963963 / 2097152 : ℚ)) = (-2963963 / 2097152 : ℚ) :=
    show round_to_bits 24 ((-2963963 / 2097152 : ℚ)) = (-2963963 / 2097152 : ℚ) from
    round_to_bits_cert_neg 24 23 2963963 2097152 11855852 2963963 2097152 _ _
      (by norm_num) (by norm_num) (by decide) (by decide) (by decide) (by decide)
      (by decide) (by decide) (by decide) (by decide)
  have h13 : Rounding.ieee.float ((11436001 / 16777216 : ℚ) * (-1 : ℚ)) = (-11436001 / 16777216 : ℚ) :=
    show round_to_bits 24 ((11436001 / 16777216 : ℚ) * (-1 : ℚ)) = (-11436001 / 16777216 : ℚ) from
    round_to_bits_cert_neg 24 24 11436001 16777216 11436001 11436001 16777216 _ _
      (by norm_num) (by norm_num) (by decide) (by decide) (by decide) (by decide)
      (by decide) (by decide) (by decide) (by decide)
  have h14 : Rounding.ieee.float ((-11436001 / 16777216 : ℚ) + (6137851 / 8388608 : ℚ)) = (839701 / 16777216 : ℚ) :=
    show round_to_bits 24 ((-11436001 / 16777216 : ℚ) + (6137851 / 8388608 : ℚ)) = (839701 / 16777216 : ℚ) from
    round_to_bits_cert 24 28 839701 16777216 13435216 839701 16777216 _ _
      (by norm_num) (by norm_num) (by decide) (by decide) (by decide) (by decide)
      (by decide) (by decide) (by decide) (by decide)
  have hvx1 : Rounding.ieee.float (Rounding.ieee.double (Rounding.ieee.float (Rounding.ieee.float ((6137851 / 8388608 : ℚ) * (-1 : ℚ)) - Rounding.ieee.float ((11436001 / 16777216 : ℚ) * (1 : ℚ))) + (0 : ℚ))) = (-2963963 / 2097152 : ℚ) := by
    rw [h9, h2, h10, h11, h12]
  have hvy1 : Rounding.ieee.float (Rounding.ieee.double (Rounding.ieee.float (Rounding.ieee.float ((11436001 / 16777216 : ℚ) * (-1 : ℚ)) + Rounding.ieee.float ((6137851 / 8388608 : ℚ) * (1 : ℚ))) + (0 : ℚ))) = (839701 / 16777216 : ℚ) := by
    rw [h13, h1, h14, h4, h5]
  have h15 : Rounding.ieee.float ((-6137851 / 8388608 : ℚ) - (-11436001 / 16777216 : ℚ)) = (-839701 / 16777216 : ℚ) :=
    show round_to_bits 24 ((-6137851 / 8388608 : ℚ) - (-11436001 / 16777216 : ℚ)) = (-839701 / 16777216 : ℚ) from
    round_to_bits_cert_neg 24 28 839701 16777216 13435216 839701 16777216 _ _
      (by norm_num) (by norm_num) (by decide) (by decide) (by decide) (by decide)
      (by decide) (by decide) (by decide) (by decide)
  have h16 : Rounding.ieee.double ((-839701 / 16777216 : ℚ) + (0 : ℚ)) = (-839701 / 16777216 : ℚ) :=
    show round_to_bits 53 ((-839701 / 16777216 : ℚ) + (0 : ℚ)) = (-839701 / 16777216 : ℚ) from
    round_to_bits_cert_neg 53 57 839701 16777216 7212976666836992 839701 16777216 _ _
      (by norm_num) (by norm_num) (by decide) (by decide) (by decide) (by decide)
      (by decide) (by decide) (by decide) (by decide)
  have h17 : Rounding.ieee.float ((-839701 / 16777216 : ℚ)) = (-839701 / 16777216 : ℚ) :=
    show round_to_bits 24 ((-839701 / 16777216 : ℚ)) = (-839701 / 16777216 : ℚ) from
    round_to_bits_cert_neg 24 28 839701 16777216 13435216 839701 16777216 _ _
      (by norm_num) (by norm_num) (by decide) (by decide) (by decide) (by decide)
      (by decide) (by decide) (by decide) (by decide)
  have h18 : Rounding.ieee.float ((-11436001 / 16777216 : ℚ) + (-6137851 / 8388608 : ℚ)) = (-2963963 / 2097152 : ℚ) :=
    show round_to_bits 24 ((-11436001 / 16777216 : ℚ) + (-6137851 / 8388608 : ℚ)) = (-2963963 / 2097152 : ℚ) from
    round_to_bits_cert_tie 24 23 23711703 16777216 11855851 11855852 2963963 2097152 _ _ true
      (by norm_num) (by norm_num) (by decide) (by decide) (by decide) (by decide)
      (by decide) (by decide) (by decide) (by decide)
  have hvx2 : Rounding.ieee.float (Rounding.ieee.double (Rounding.ieee.float (Rounding.ieee.float ((6137851 / 8388608 : ℚ) * (-1 : ℚ)) - Rounding.ieee.float ((11436001 / 16777216 : ℚ) * (-1 : ℚ))) + (0 : ℚ))) = (-839701 / 16777216 : ℚ) := by
    rw [h9, h13, h15, h16, h17]
  have hvy2 : Rounding.ieee.float (Rounding.ieee.double (Rounding.ieee.float (Rounding.ieee.float ((11436001 / 16777216 : ℚ) * (-1 : ℚ)) + Rounding.ieee.float ((6137851 / 8388608 : ℚ) * (-1 : ℚ))) + (0 : ℚ))) = (-2963963 / 2097152 : ℚ) := by
    rw [h13, h9, h18, h11, h12]
  have h19 : Rounding.ieee.float ((6137851 / 8388608 : ℚ) - (-11436001 / 16777216 : ℚ)) = (2963963 / 2097152 : ℚ) :=
    show round_to_bits 24 ((6137851 / 8388608 : ℚ) - (-11436001 / 16777216 : ℚ)) = (2963963 / 2097152 : ℚ) from
    round_to_bits_cert_tie 24 23 23711703 16777216 11855851 11855852 2963963 2097152 _ _ false
      (by norm_num) (by norm_num) (by decide) (by decide) (by decide) (by decide)
      (by decide) (by decide) (by decide) (by decide)
  have h20 : Rounding.ieee.float ((11436001 / 16777216 : ℚ) + (-6137851 / 8388608 : ℚ)) = (-839701 / 16777216 : ℚ) :=
    show round_to_bits 24 ((11436001 / 16777216 : ℚ) + (-6137851 / 8388608 : ℚ)) = (-839701 / 16777216 : ℚ) from
    round_to_bits_cert_neg 24 28 839701 16777216 13435216 839701 16777216 _ _
      (by norm_num) (by norm_num) (by decide) (by decide) (by decide) (by decide)
      (by decide) (by decide) (by decide) (by decide)
  have hvx3 : Rounding.ieee.float (Rounding.ieee.double (Rounding.ieee.float (Rounding.ieee.float ((6137851 / 8388608 : ℚ) * (1 : ℚ)) - Rounding.ieee.float ((11436001 / 16777216 : ℚ) * (-1 : ℚ))) + (0 : ℚ))) = (2963963 / 2097152 : ℚ) := by
    rw [h1, h13, h19, h7, h8]
  have hvy3 : Rounding.ieee.float (Rounding.ieee.double (Rounding.ieee.float (Rounding.ieee.float ((11436001 / 16777216 : ℚ) * (1 : ℚ)) + Rounding.ieee.float ((6137851 / 8388608 : ℚ) * (-1 : ℚ))) + (0 : ℚ))) = (-839701 / 16777216 : ℚ) := by
    rw [h2, h9, h20, h16, h17]
  have hyaw : Rounding.ieee.float (3 / 4 : ℚ) = 3 / 4 :=
    show round_to_bits 24 ((3 / 4 : ℚ)) = (3 / 4 : ℚ) from
    round_to_bits_cert 24 24 3 4 12582912 3 4 _ _
      (by norm_num) (by norm_num) (by decide) (by decide) (by decide) (by decide)
      (by decide) (by decide) (by decide) (by decide)
  simp only [transform_footprint_fp, hfp, square_footprint, List.map, hyaw, hcos, hsin,
    COSF_THREE_QUARTERS, SINF_THREE_QUARTERS, turned_square]
  rw [hvx0, hvy0, hvx1, hvy1, hvx2, hvy2, hvx3, hvy3]

/-- In IEEE arithmetic the first triangle of the fan reports `near_edge_point` inside
`turned_square`: the cross product with the first edge, negative in exact arithmetic, is
computed as `2 ^ (-52)`. -/
theorem is_inside_of_robot_fp_turned :
    is_inside_of_robot_fp Rounding.ieee near_edge_point turned_square ⟨0, 0, 3 / 4, 0, 0⟩ =
      true := by
  have h1 : Rounding.ieee.float ((0 : ℚ)) = (0 : ℚ) :=
    show round_to_bits 24 ((0 : ℚ)) = (0 : ℚ) from
    round_to_bits_zero 24 _ (by norm_num)
  have h2 : Rounding.ieee.double ((839701 / 16777216 : ℚ) - (0 : ℚ)) = (839701 / 16777216 : ℚ) :=
    show round_to_bits 53 ((839701 / 16777216 : ℚ) - (0 : ℚ)) = (839701 / 16777216 : ℚ) from
    round_to_bits_cert 53 57 839701 16777216 7212976666836992 839701 16777216 _ _
      (by norm_num) (by norm_num) (by decide) (by decide) (by decide) (by decide)
      (by decide) (by decide) (by decide) (by decide)
  have h3 : Rounding.ieee.double ((2963963 / 2097152 : ℚ) - (0 : ℚ)) = (2963963 / 2097152 : ℚ) :=
    show round_to_bits 53 ((2963963 / 2097152 : ℚ) - (0 : ℚ)) = (2963963 / 2097152 : ℚ) from
    round_to_bits_cert 53 52 2963963 2097152 6365062075777024 2963963 2097152 _ _
      (by norm_num) (by norm_num) (by decide) (by decide) (by decide) (by decide)
      (by decide) (by decide) (by decide) (by decide)
  have h4 : Rounding.ieee.double ((-7860710184939409 / 18014398509481984 : ℚ) - (839701 / 16777216 : ℚ)) = (-8762332268294033 / 18014398509481984 : ℚ) :=
    show round_to_bits 53 ((-7860710184939409 / 18014398509481984 : ℚ) - (839701 / 16777216 : ℚ)) = (-8762332268294033 / 18014398509481984 : ℚ) from
    round_to_bits_cert_neg 53 54 8762332268294033 18014398509481984 8762332268294033 8762332268294033 18014398509481984 _ _
      (by norm_num) (by norm_num) (by decide) (by decide) (by decide) (by decide)
      (by decide) (by decide) (by decide) (by decide)
  have h5 : Rounding.ieee.double ((8648645109368521 / 9007199254740992 : ℚ) - (2963963 / 2097152 : ℚ)) = (-4081479042185527 / 9007199254740992 : ℚ) :=
    show round_to_bits 53 ((8648645109368521 / 9007199254740992 : ℚ) - (2963963 / 2097152 : ℚ)) = (-4081479042185527 / 9007199254740992 : ℚ) from
    round_to_bits_cert_neg 53 54 4081479042185527 9007199254740992 8162958084371054 4081479042185527 9007199254740992 _ _
      (by norm_num) (by norm_num) (by decide) (by decide) (by decide) (by decide)
      (by decide) (by decide) (by decide) (by decide)
  have h6 : Rounding.ieee.double ((839701 / 16777216 : ℚ) * (-4081479042185527 / 9007199254740992 : ℚ)) = (-1634226814843287 / 72057594037927936 : ℚ) :=
    show round_to_bits 53 ((839701 / 16777216 : ℚ) * (-4081479042185527 / 9007199254740992 : ℚ)) = (-1634226814843287 / 72057594037927936 : ℚ) from
    round_to_bits_cert_neg 53 58 3427222033202229207427 151115727451828646838272 6536907259373148 1634226814843287 72057594037927936 _ _
      (by norm_num) (by norm_num) (by decide) (by decide) (by decide) (by decide)
      (by decide) (by decide) (by decide) (by decide)
  have h7 : Rounding.ieee.double ((2963963 / 2097152 : ℚ) * (-8762332268294033 / 18014398509481984 : ℚ)) = (-3096011714569281 / 4503599627370496 : ℚ) :=
    show round_to_bits 53 ((2963963 / 2097152 : ℚ) * (-8762332268294033 / 18014398509481984 : ℚ)) = (-3096011714569281 / 4503599627370496 : ℚ) from
    round_to_bits_cert_neg 53 53 25971228636929586932779 37778931862957161709568 6192023429138562 3096011714569281 4503599627370496 _ _
      (by norm_num) (by norm_num) (by decide) (by decide) (by decide) (by decide)
      (by decide) (by decide) (by decide) (by decide)
  have h8 : Rounding.ieee.double ((-1634226814843287 / 72057594037927936 : ℚ) - (-3096011714569281 / 4503599627370496 : ℚ)) = (5987745077283151 / 9007199254740992 : ℚ) :=
    show round_to_bits 53 ((-1634226814843287 / 72057594037927936 : ℚ) - (-3096011714569281 / 4503599627370496 : ℚ)) = (5987745077283151 / 9007199254740992 : ℚ) from
    round_to_bits_cert 53 53 47901960618265209 72057594037927936 5987745077283151 5987745077283151 9007199254740992 _ _
      (by norm_num) (by norm_num) (by decide) (by decide) (by decide) (by decide)
      (by decide) (by decide) (by decide) (by decide)
  have hc1 : cross_fp Rounding.ieee (839701 / 16777216 : ℚ) (2963963 / 2097152 : ℚ) (-8762332268294033 / 18014398509481984 : ℚ) (-4081479042185527 / 9007199254740992 : ℚ) = (5987745077283151 / 9007199254740992 : ℚ) :=
    cross_fp_eq _ _ _ _ _ _ _ _ h6 h7 h8
  have h9 : Rounding.ieee.double ((-2963963 / 2097152 : ℚ) - (839701 / 16777216 : ℚ)) = (-24551405 / 16777216 : ℚ) :=
    show round_to_bits 53 ((-2963963 / 2097152 : ℚ) - (839701 / 16777216 : ℚ)) = (-24551405 / 16777216 : ℚ) from
    round_to_bits_cert_neg 53 52 24551405 16777216 6590467596615680 24551405 16777216 _ _
      (by norm_num) (by norm_num) (by decide) (by decide) (by decide) (by decide)
      (by decide) (by decide) (by decide) (by decide)
  have h10 : Rounding.ieee.double ((839701 / 16777216 : ℚ) - (2963963 / 2097152 : ℚ)) = (-22872003 / 16777216 : ℚ) :=
    show round_to_bits 53 ((839701 / 16777216 : ℚ) - (2963963 / 2097152 : ℚ)) = (-22872003 / 16777216 : ℚ) from
    round_to_bits_cert_neg 53 52 22872003 16777216 6139656554938368 22872003 16777216 _ _
      (by norm_num) (by norm_num) (by decide) (by decide) (by decide) (by decide)
      (by decide) (by decide) (by decide) (by decide)
  have h11 : Rounding.ieee.double ((-7860710184939409 / 18014398509481984 : ℚ) - (-2963963 / 2097152 : ℚ)) = (1099971132385543 / 1125899906842624 : ℚ) :=
    show round_to_bits 53 ((-7860710184939409 / 18014398509481984 : ℚ) - (-2963963 / 2097152 : ℚ)) = (1099971132385543 / 1125899906842624 : ℚ) from
    round_to_bits_cert_tie 53 53 17599538118168687 18014398509481984 8799769059084343 8799769059084344 1099971132385543 1125899906842624 _ _ false
      (by norm_num) (by norm_num) (by decide) (by decide) (by decide) (by decide)
      (by decide) (by decide) (by decide) (by decide)
  have h12 : Rounding.ieee.double ((8648645109368521 / 9007199254740992 : ℚ) - (839701 / 16777216 : ℚ)) = (8197834067691209 / 9007199254740992 : ℚ) :=
    show round_to_bits 53 ((8648645109368521 / 9007199254740992 : ℚ) - (839701 / 16777216 : ℚ)) = (8197834067691209 / 9007199254740992 : ℚ) from
    round_to_bits_cert 53 53 8197834067691209 9007199254740992 8197834067691209 8197834067691209 9007199254740992 _ _
      (by norm_num) (by norm_num) (by decide) (by decide) (by decide) (by decide)
      (by decide) (by decide) (by decide) (by decide)
  have h13 : Rounding.ieee.double ((-24551405 / 16777216 : ℚ) * (8197834067691209 / 9007199254740992 : ℚ)) = (-5998264083823093 / 4503599627370496 : ℚ) :=
    show round_to_bits 53 ((-24551405 / 16777216 : ℚ) * (8197834067691209 / 9007199254740992 : ℚ)) = (-5998264083823093 / 4503599627370496 : ℚ) from
    round_to_bits_cert_neg 53 52 201268344318684287098645 151115727451828646838272 5998264083823093 5998264083823093 4503599627370496 _ _
      (by norm_num) (by norm_num) (by decide) (by decide) (by decide) (by decide)
      (by decide) (by decide) (by decide) (by decide)
  have h14 : Rounding.ieee.double ((-22872003 / 16777216 : ℚ) * (1099971132385543 / 1125899906842624 : ℚ)) = (-2999132041911547 / 2251799813685248 : ℚ) :=
    show round_to_bits 53 ((-22872003 / 16777216 : ℚ) * (1099971132385543 / 1125899906842624 : ℚ)) = (-2999132041911547 / 2251799813685248 : ℚ) from
    round_to_bits_cert_neg 53 52 25158543039835536652629 18889465931478580854784 5998264083823094 2999132041911547 2251799813685248 _ _
      (by norm_num) (by norm_num) (by decide) (by decide) (by decide) (by decide)
      (by decide) (by decide) (by decide) (by decide)
  have h15 : Rounding.ieee.double ((-5998264083823093 / 4503599627370496 : ℚ) - (-2999132041911547 / 2251799813685248 : ℚ)) = (1 / 4503599627370496 : ℚ) :=
    show round_to_bits 53 ((-5998264083823093 / 4503599627370496 : ℚ) - (-2999132041911547 / 2251799813685248 : ℚ)) = (1 / 4503599627370496 : ℚ) from
    round_to_bits_cert 53 104 1 4503599627370496 4503599627370496 1 4503599627370496 _ _
      (by norm_num) (by norm_num) (by decide) (by decide) (by decide) (by decide)
      (by decide) (by decide) (by decide) (by decide)
  have hc2 : cross_fp Rounding.ieee (-24551405 / 16777216 : ℚ) (-22872003 / 16777216 : ℚ) (1099971132385543 / 1125899906842624 : ℚ) (8197834067691209 / 9007199254740992 : ℚ) = (1 / 4503599627370496 : ℚ) :=
    cross_fp_eq _ _ _ _ _ _ _ _ h13 h14 h15
  have h16 : Rounding.ieee.double ((0 : ℚ) - (-2963963 / 2097152 : ℚ)) = (2963963 / 2097152 : ℚ) :=
    show round_to_bits 53 ((0 : ℚ) - (-2963963 / 2097152 : ℚ)) = (2963963 / 2097152 : ℚ) from
    round_to_bits_cert 53 52 2963963 2097152 6365062075777024 2963963 2097152 _ _
      (by norm_num) (by norm_num) (by decide) (by decide) (by decide) (by decide)
      (by decide) (by decide) (by decide) (by decide)
  have h17 : Rounding.ieee.double ((0 : ℚ) - (839701 / 16777216 : ℚ)) = (-839701 / 16777216 : ℚ) :=
    show round_to_bits 53 ((0 : ℚ) - (839701 / 16777216 : ℚ)) = (-839701 / 16777216 : ℚ) from
    round_to_bits_cert_neg 53 57 839701 16777216 7212976666836992 839701 16777216 _ _
      (by norm_num) (by norm_num) (by decide) (by decide) (by decide) (by decide)
      (by decide) (by decide) (by decide) (by decide)
  have h18 : Rounding.ieee.double ((-7860710184939409 / 18014398509481984 : ℚ) - (0 : ℚ)) = (-7860710184939409 / 18014398509481984 : ℚ) :=
    show round_to_bits 53 ((-7860710184939409 / 18014398509481984 : ℚ) - (0 : ℚ)) = (-7860710184939409 / 18014398509481984 : ℚ) from
    round_to_bits_cert_neg 53 54 7860710184939409 18014398509481984 7860710184939409 7860710184939409 18014398509481984 _ _
      (by norm_num) (by norm_num) (by decide) (by decide) (by decide) (by decide)
      (by decide) (by decide) (by decide) (by decide)
  have h19 : Rounding.ieee.double ((8648645109368521 / 9007199254740992 : ℚ) - (0 : ℚ)) = (8648645109368521 / 9007199254740992 : ℚ) :=
    show round_to_bits 53 ((8648645109368521 / 9007199254740992 : ℚ) - (0 : ℚ)) = (8648645109368521 / 9007199254740992 : ℚ) from
    round_to_bits_cert 53 53 8648645109368521 9007199254740992 8648645109368521 8648645109368521 9007199254740992 _ _
      (by norm_num) (by norm_num) (by decide) (by decide) (by decide) (by decide)
      (by decide) (by decide) (by decide) (by decide)
  have h20 : Rounding.ieee.double ((2963963 / 2097152 : ℚ) * (8648645109368521 / 9007199254740992 : ℚ)) = (6111684824061215 / 4503599627370496 : ℚ) :=
    show round_to_bits 53 ((2963963 / 2097152 : ℚ) * (8648645109368521 / 9007199254740992 : ℚ)) = (6111684824061215 / 4503599627370496 : ℚ) from
    round_to_bits_cert 53 52 25634264104299249608723 18889465931478580854784 6111684824061215 6111684824061215 4503599627370496 _ _
      (by norm_num) (by norm_num) (by decide) (by decide) (by decide) (by decide)
      (by decide) (by decide) (by decide) (by decide)
  have h21 : Rounding.ieee.double ((-839701 / 16777216 : ℚ) * (-7860710184939409 / 18014398509481984 : ℚ)) = (6294866755489165 / 288230376151711744 : ℚ) :=
    show round_to_bits 53 ((-839701 / 16777216 : ℚ) * (-7860710184939409 / 18014398509481984 : ℚ)) = (6294866755489165 / 288230376151711744 : ℚ) from
    round_to_bits_cert 53 58 6600646203003806676709 302231454903657293676544 6294866755489165 6294866755489165 288230376151711744 _ _
      (by norm_num) (by norm_num) (by decide) (by decide) (by decide) (by decide)
      (by decide) (by decide) (by decide) (by decide)
  have h22 : Rounding.ieee.double ((6111684824061215 / 4503599627370496 : ℚ) - (6294866755489165 / 288230376151711744 : ℚ)) = (6013327531006697 / 4503599627370496 : ℚ) :=
    show round_to_bits 53 ((6111684824061215 / 4503599627370496 : ℚ) - (6294866755489165 / 288230376151711744 : ℚ)) = (6013327531006697 / 4503599627370496 : ℚ) from
    round_to_bits_cert 53 52 384852961984428595 288230376151711744 6013327531006697 6013327531006697 4503599627370496 _ _
      (by norm_num) (by norm_num) (by decide) (by decide) (by decide) (by decide)
      (by decide) (by decide) (by decide) (by decide)
  have hc3 : cross_fp Rounding.ieee (2963963 / 2097152 : ℚ) (-839701 / 16777216 : ℚ) (-7860710184939409 / 18014398509481984 : ℚ) (8648645109368521 / 9007199254740992 : ℚ) = (6013327531006697 / 4503599627370496 : ℚ) :=
    cross_fp_eq _ _ _ _ _ _ _ _ h20 h21 h22
  have htri : is_inside_of_triangle_fp Rounding.ieee ⟨(-7860710184939409 / 18014398509481984 : ℚ), (8648645109368521 / 9007199254740992 : ℚ)⟩ ⟨(0 : ℚ), (0 : ℚ)⟩ ⟨839701 / 16777216, 2963963 / 2097152⟩ ⟨-2963963 / 2097152, 839701 / 16777216⟩ = true := by
    simp only [is_inside_of_triangle_fp, h2, h3, h4, h5, h9, h10, h11, h12, h16, h17, h18, h19, hc1, hc2, hc3]
    norm_num
  have hax : Rounding.ieee.float (0 : ℚ) = 0 := h1
  apply is_inside_of_robot_fp_first
  show is_inside_of_triangle_fp Rounding.ieee near_edge_point
    ⟨Rounding.ieee.float (0 : ℚ), Rounding.ieee.float (0 : ℚ)⟩ _ _ = true
  rw [hax]
  exact htri

/-- C8 (the code contradicts it): the square footprint of half-width 1, in IEEE arithmetic.
First, the robot at the pose `(0, 0.1, 0)` and the point `(0, 1.10000001)`, as doubles, for
a library exact at yaw 0: the point lies strictly outside the transformed square, its
robot-frame ordinate exceeding 1; `transform_footprint` stores the vertices as `float`s, the
upper edge at `1.1000000238`, and `is_inside_of_robot` reports the point inside the footprint
that `transform_footprint` returns. Second, the robot at the pose `(0, 0, 0.75)` and the
point `near_edge_point`, for a library with the values of `cosf` and `sinf` at 0.75: the
robot-frame ordinate of the point exceeds 1, the point lies strictly on the outer side of
the line through the first edge of the footprint that `transform_footprint` returns, while
every vertex of that footprint lies on the line or on its inner side, and
`is_inside_of_robot` reports the point inside. -/
theorem C8_point_outside_square_reported_inside (L : Libm ℚ) (p : DWAPlanner ℚ)
    (hfp : p.footprint_ = square_footprint 1) (hcos : L.cos 0 = 1) (hsin : L.sin 0 = 0)
    (hcosf : L.cos (3 / 4) = COSF_THREE_QUARTERS)
    (hsinf : L.sin (3 / 4) = SINF_THREE_QUARTERS) :
    (1 < abs (robot_frame L ⟨0, DOUBLE_TENTH, 0, 0, 0⟩ (⟨0, DOUBLE_NEAR_EDGE⟩ : Point ℚ)).y ∧
      transform_footprint_fp Rounding.ieee L p ⟨0, DOUBLE_TENTH, 0, 0, 0⟩ = lifted_square ∧
      is_inside_of_robot_fp Rounding.ieee ⟨0, DOUBLE_NEAR_EDGE⟩
        (transform_footprint_fp Rounding.ieee L p ⟨0, DOUBLE_TENTH, 0, 0, 0⟩)
        ⟨0, DOUBLE_TENTH, 0, 0, 0⟩ = true) ∧
    (1 < abs (robot_frame L ⟨0, 0, 3 / 4, 0, 0⟩ near_edge_point).y ∧
      transform_footprint_fp Rounding.ieee L p ⟨0, 0, 3 / 4, 0, 0⟩ = turned_square ∧
      cross_z (-2963963 / 2097152 - 839701 / 16777216) (839701 / 16777216 - 2963963 / 2097152)
        (near_edge_point.x - 839701 / 16777216) (near_edge_point.y - 2963963 / 2097152) < 0 ∧
      (∀ v ∈ turned_square,
        0 ≤ cross_z (-2963963 / 2097152 - 839701 / 16777216)
          (839701 / 16777216 - 2963963 / 2097152)
          (v.x - 839701 / 16777216) (v.y - 2963963 / 2097152)) ∧
      is_inside_of_robot_fp Rounding.ieee near_edge_point
        (transform_footprint_fp Rounding.ieee L p ⟨0, 0, 3 / 4, 0, 0⟩)
        ⟨0, 0, 3 / 4, 0, 0⟩ = true) := by
  have htr := transform_footprint_fp_lifted L p hfp hcos hsin
  have htr2 := transform_footprint_fp_turned L p hfp hcosf hsinf
  refine ⟨⟨?_, htr, ?_⟩, ?_, htr2, ?_, ?_, ?_⟩
  · simp only [robot_frame, hcos, hsin, DOUBLE_TENTH, DOUBLE_NEAR_EDGE]
    norm_num [abs_of_pos]
  · rw [htr]
    exact is_inside_of_robot_fp_lifted
  · simp only [robot_frame, hcosf, hsinf, near_edge_point, COSF_THREE_QUARTERS,
      SINF_THREE_QUARTERS]
    norm_num [abs_of_pos]
  · norm_num [cross_z, near_edge_point]
  · intro v hv
    simp only [turned_square, List.mem_cons, List.mem_singleton, List.mem_nil_iff,
      or_false] at hv
    rcases hv with rfl | rfl | rfl | rfl <;> norm_num [cross_z]
  · rw [htr2]
    exact is_inside_of_robot_fp_turned

theorem C8_point_outside_square_reported_inside_witness :
    (square_planner (1 : ℚ)).footprint_ = square_footprint 1 ∧
    Libm.atThreeQuarters.cos 0 = 1 ∧ Libm.atThreeQuarters.sin 0 = 0 ∧
    Libm.atThreeQuarters.cos (3 / 4) = COSF_THREE_QUARTERS ∧
    Libm.atThreeQuarters.sin (3 / 4) = SINF_THREE_QUARTERS ∧
    is_inside_of_robot_fp Rounding.ieee ⟨0, DOUBLE_NEAR_EDGE⟩
      (transform_footprint_fp Rounding.ieee Libm.atThreeQuarters (square_planner 1)
        ⟨0, DOUBLE_TENTH, 0, 0, 0⟩)
      ⟨0, DOUBLE_TENTH, 0, 0, 0⟩ = true ∧
    is_inside_of_robot_fp Rounding.ieee near_edge_point
      (transform_footprint_fp Rounding.ieee Libm.atThreeQuarters (square_planner 1)
        ⟨0, 0, 3 / 4, 0, 0⟩)
      ⟨0, 0, 3 / 4, 0, 0⟩ = true :=
  have h0 : Libm.atThreeQuarters.cos 0 = 1 := by norm_num [Libm.atThreeQuarters, Libm.onAxes]
  have h1 : Libm.atThreeQuarters.sin 0 = 0 := by norm_num [Libm.atThreeQuarters, Libm.onAxes]
  have h2 : Libm.atThreeQuarters.cos (3 / 4) = COSF_THREE_QUARTERS := by
    simp [Libm.atThreeQuarters]
  have h3 : Libm.atThreeQuarters.sin (3 / 4) = SINF_THREE_QUARTERS := by
    simp [Libm.atThreeQuarters]
  ⟨rfl, h0, h1, h2, h3,
    (C8_point_outside_square_reported_inside Libm.atThreeQuarters (square_planner 1) rfl
      h0 h1 h2 h3).1.2.2,
    (C8_point_outside_square_reported_inside Libm.atThreeQuarters (square_planner 1) rfl
      h0 h1 h2 h3).2.2.2.2.2⟩

/-! ## The search in machine arithmetic -/

/-- Every state of a rollout carries the sample it was rolled out with. -/
theorem rollout_fp_sample (R : Rounding α) (L : Libm α) (p : DWAPlanner α) (v y : α) :
    ∀ (ts : List α) (s0 : State α), ∀ s ∈ rollout_fp R L p v y ts s0,
      s.velocity_ = v ∧ s.yawrate_ = y := by
  intro ts
  induction ts with
  | nil =>
    intro s0 s hs
    simp [rollout_fp] at hs
  | cons t ts ih =>
    intro s0 s hs
    simp only [rollout_fp, List.mem_cons] at hs
    rcases hs with rfl | hs
    · exact ⟨rfl, rfl⟩
    · exact ih _ s hs

/-- When the loop of `generate_trajectory` makes a pass, the trajectory starts with the
state after one `motion` from the origin, and every state carries the sample. -/
theorem generate_trajectory_fp_of_loop (R : Rounding α) (L : Libm α) (p : DWAPlanner α)
    (v y : α) (fuel : Nat) (t : α) (ts : List α)
    (h : loop_fp R p.predict_time_ p.dt_ fuel 0 = some (t :: ts)) :
    ∃ rest, generate_trajectory_fp R L p v y fuel =
        some (motion_fp R L p State.origin v y :: rest) ∧
      ∀ s ∈ motion_fp R L p State.origin v y :: rest, s.velocity_ = v ∧ s.yawrate_ = y := by
  refine ⟨rollout_fp R L p v y ts (motion_fp R L p State.origin v y), ?_, ?_⟩
  · simp only [generate_trajectory_fp, h, Option.map_some', rollout_fp]
  · intro s hs
    exact rollout_fp_sample R L p v y (t :: ts) State.origin s (by simp only [rollout_fp]; exact hs)

/-- With no obstacle in `obs_list_`, `calc_obs_cost` is the `float` of `1.0 / 1e3`. -/
theorem calc_obs_cost_fp_no_obstacle (R : Rounding α) (L : Libm α) (p : DWAPlanner α)
    (traj : List (State α)) (hobs : p.obs_list_ = []) :
    calc_obs_cost_fp R L p traj = R.float (R.double (1 / 1000)) := by
  have h : traj.flatMap (fun state =>
      p.obs_list_.map (fun obs => clearance_fp R L p state obs)) = [] := by
    rw [hobs]
    induction traj with
    | nil => rfl
    | cons s rest ih =>
      simp only [List.flatMap_cons, List.map_nil, List.nil_append]
      exact ih
  unfold calc_obs_cost_fp
  rw [h]
  rfl

/-- The total cost of a sample when the goal term has weight 0 and there is no obstacle: the
`float` sum of 0, the weighted speed term and the weighted obstacle term. -/
theorem candidate_cost_fp_speed_only (R : Rounding α) (L : Libm α) (p : DWAPlanner α)
    (goal : Goal α) (v y : α) (fuel : Nat) (t : α) (ts : List α)
    (h : loop_fp R p.predict_time_ p.dt_ fuel 0 = some (t :: ts))
    (hgain : p.to_goal_cost_gain_ = 0) (hobs : p.obs_list_ = []) :
    candidate_cost_fp R L p goal fuel (v, y) =
      some (R.float (R.float (R.float (R.double 0) +
        R.float (R.double (p.speed_cost_gain_ *
          R.float (abs (R.double (p.target_velocity_ - abs v)))))) +
        R.float (R.double (p.obs_cost_gain_ * R.float (R.double (1 / 1000)))))) := by
  obtain ⟨rest, hgen, hall⟩ := generate_trajectory_fp_of_loop R L p v y fuel t ts h
  have hlast : ∃ last, (motion_fp R L p State.origin v y :: rest).getLast? = some last ∧
      last.velocity_ = v := by
    cases hq : (motion_fp R L p State.origin v y :: rest).getLast? with
    | none => simp at hq
    | some last =>
      exact ⟨last, rfl, (hall last (List.mem_of_getLast?_eq_some hq)).1⟩
  obtain ⟨last, hl, hv⟩ := hlast
  simp only [candidate_cost_fp, hgen, evaluate_trajectory_fp, hl, Option.map_some', hgain,
    zero_mul, hv, calc_obs_cost_fp_no_obstacle R L p _ hobs]

/-- What `try_candidate_fp` does when the rollout returns: it records the trajectory and
overwrites the best when `min_cost >= total_cost`. -/
theorem try_candidate_fp_eq (R : Rounding α) (L : Libm α) (p : DWAPlanner α) (goal : Goal α)
    (fuel : Nat) (s : Search α) (c : α × α) (traj : List (State α)) (k : α)
    (hgen : generate_trajectory_fp R L p c.1 c.2 fuel = some traj)
    (hcost : candidate_cost_fp R L p goal fuel c = some k) :
    try_candidate_fp R L p goal fuel s c =
      some (if s.min_cost ≥ k then ⟨k, traj, s.trajectories ++ [traj]⟩
        else ⟨s.min_cost, s.best_traj, s.trajectories ++ [traj]⟩) := by
  simp only [candidate_cost_fp, hgen] at hcost
  simp only [try_candidate_fp, hgen, hcost]
  split <;> rfl

/-- When `try_candidate_fp` returns, the rollout and the cost of the sample are defined. -/
theorem try_candidate_fp_some (R : Rounding α) (L : Libm α) (p : DWAPlanner α)
    (goal : Goal α) (fuel : Nat) (s s1 : Search α) (c : α × α)
    (h : try_candidate_fp R L p goal fuel s c = some s1) :
    ∃ traj k, generate_trajectory_fp R L p c.1 c.2 fuel = some traj ∧
      candidate_cost_fp R L p goal fuel c = some k := by
  unfold try_candidate_fp at h
  cases hgen : generate_trajectory_fp R L p c.1 c.2 fuel with
  | none => simp [hgen] at h
  | some traj =>
    cases hc : evaluate_trajectory_fp R L p traj goal with
    | none => simp [hgen, hc] at h
    | some k => exact ⟨traj, k, rfl, by simp [candidate_cost_fp, hgen, hc]⟩

/-- The state of the search after the samples `cs`, started from `s0`, when the loop
returns: either no sample cost was at most `s0.min_cost` and the best is unchanged, or the
best is the sample of least cost, the last one among equals. -/
theorem fold_try_candidate_fp_spec (R : Rounding α) (L : Libm α) (p : DWAPlanner α)
    (goal : Goal α) (fuel : Nat) :
    ∀ (cs : List (α × α)) (s0 s : Search α),
      cs.foldlM (try_candidate_fp R L p goal fuel) s0 = some s →
        ((s.min_cost = s0.min_cost ∧ s.best_traj = s0.best_traj ∧
            ∀ (j : Nat) (c : α × α) (k : α), cs[j]? = some c →
              candidate_cost_fp R L p goal fuel c = some k → s0.min_cost < k) ∨
          (∃ (i : Nat) (c : α × α) (traj : List (State α)) (k : α),
            cs[i]? = some c ∧ generate_trajectory_fp R L p c.1 c.2 fuel = some traj ∧
            candidate_cost_fp R L p goal fuel c = some k ∧ s.min_cost = k ∧
            s.best_traj = traj ∧ k ≤ s0.min_cost ∧
            ∀ (j : Nat) (c' : α × α) (k' : α), cs[j]? = some c' →
              candidate_cost_fp R L p goal fuel c' = some k' → k ≤ k' ∧ (i < j → k < k'))) := by
  intro cs
  induction cs with
  | nil =>
    intro s0 s h
    simp only [List.foldlM_nil] at h
    have hs : s0 = s := by simpa using h
    subst hs
    refine Or.inl ⟨rfl, rfl, ?_⟩
    intro j c k hj
    simp at hj
  | cons c cs ih =>
    intro s0 s h
    rw [List.foldlM_cons] at h
    cases hstep : try_candidate_fp R L p goal fuel s0 c with
    | none => simp [hstep] at h
    | some s1 =>
      obtain ⟨traj, k, hgen, hcost⟩ := try_candidate_fp_some R L p goal fuel s0 s1 c hstep
      have heq := try_candidate_fp_eq R L p goal fuel s0 c traj k hgen hcost
      rw [hstep] at h
      simp only [Option.some_bind, Option.bind_eq_bind] at h
      rw [heq] at hstep
      simp only [Option.some.injEq] at hstep
      by_cases hk : s0.min_cost ≥ k
      · simp only [hk, if_true] at hstep
        subst hstep
        rcases ih _ s h with ⟨hmin, hbest, hall⟩ |
          ⟨i, c', traj', k', hi, hgen', hcost', hmin, hbest, hle, hall⟩
        · refine Or.inr ⟨0, c, traj, k, by simp, hgen, hcost, hmin, hbest, hk, ?_⟩
          intro j c2 k2 hj hc2
          cases j with
          | zero =>
            simp only [List.getElem?_cons_zero, Option.some.injEq] at hj
            subst hj
            rw [hcost] at hc2
            simp only [Option.some.injEq] at hc2
            subst hc2
            exact ⟨le_refl _, fun h => absurd h (lt_irrefl 0)⟩
          | succ j =>
            simp only [List.getElem?_cons_succ] at hj
            have := hall j c2 k2 hj hc2
            exact ⟨this.le, fun _ => this⟩
        · refine Or.inr ⟨i + 1, c', traj', k', by simpa using hi, hgen', hcost', hmin, hbest,
            le_trans hle hk, ?_⟩
          intro j c2 k2 hj hc2
          cases j with
          | zero =>
            simp only [List.getElem?_cons_zero, Option.some.injEq] at hj
            subst hj
            rw [hcost] at hc2
            simp only [Option.some.injEq] at hc2
            subst hc2
            exact ⟨hle, fun h => absurd h (Nat.not_lt_zero _)⟩
          | succ j =>
            simp only [List.getElem?_cons_succ] at hj
            have := hall j c2 k2 hj hc2
            exact ⟨this.1, fun h => this.2 (Nat.lt_of_succ_lt_succ h)⟩
      · simp only [hk, if_false] at hstep
        subst hstep
        have hlt : s0.min_cost < k := not_le.mp hk
        rcases ih _ s h with ⟨hmin, hbest, hall⟩ |
          ⟨i, c', traj', k', hi, hgen', hcost', hmin, hbest, hle, hall⟩
        · refine Or.inl ⟨hmin, hbest, ?_⟩
          intro j c2 k2 hj hc2
          cases j with
          | zero =>
            simp only [List.getElem?_cons_zero, Option.some.injEq] at hj
            subst hj
            rw [hcost] at hc2
            simp only [Option.some.injEq] at hc2
            subst hc2
            exact hlt
          | succ j =>
            simp only [List.getElem?_cons_succ] at hj
            exact hall j c2 k2 hj hc2
        · refine Or.inr ⟨i + 1, c', traj', k', by simpa using hi, hgen', hcost', hmin,
            hbest, hle, ?_⟩
          intro j c2 k2 hj hc2
          cases j with
          | zero =>
            simp only [List.getElem?_cons_zero, Option.some.injEq] at hj
            subst hj
            rw [hcost] at hc2
            simp only [Option.some.injEq] at hc2
            subst hc2
            have hle' : k' ≤ s0.min_cost := hle
            exact ⟨(lt_of_le_of_lt hle' hlt).le, fun h => absurd h (Nat.not_lt_zero _)⟩
          | succ j =>
            simp only [List.getElem?_cons_succ] at hj
            have := hall j c2 k2 hj hc2
            exact ⟨this.1, fun h => this.2 (Nat.lt_of_succ_lt_succ h)⟩

/-- The outcome of `dwa_planning` in machine arithmetic, when it returns and some sample
costs less than `1e6`: the trajectory of the sample of least cost, the last one among
equals. -/
theorem dwa_planning_fp_spec (R : Rounding α) (L : Libm α) (p : DWAPlanner α)
    (goal : Goal α) (fuel : Nat) (cs : List (α × α)) (best : List (State α))
    (hcs : candidates_fp R p fuel = some cs)
    (hex : ∃ c ∈ cs, ∃ k, candidate_cost_fp R L p goal fuel c = some k ∧ k < SENTINEL)
    (hret : dwa_planning_fp R L p goal fuel = some best) :
    ∃ (i : Nat) (c : α × α) (k : α),
      cs[i]? = some c ∧ generate_trajectory_fp R L p c.1 c.2 fuel = some best ∧
      candidate_cost_fp R L p goal fuel c = some k ∧ k < SENTINEL ∧
      ∀ (j : Nat) (c' : α × α) (k' : α), cs[j]? = some c' →
        candidate_cost_fp R L p goal fuel c' = some k' → k ≤ k' ∧ (i < j → k < k') := by
  unfold dwa_planning_fp at hret
  rw [hcs] at hret
  simp only at hret
  cases hfold : cs.foldlM (try_candidate_fp R L p goal fuel) ⟨SENTINEL, [], []⟩ with
  | none => simp [hfold] at hret
  | some s =>
    rw [hfold] at hret
    simp only at hret
    obtain ⟨c0, hc0, k0, hk0, hlt0⟩ := hex
    obtain ⟨j0, hj0⟩ := List.getElem?_of_mem hc0
    rcases fold_try_candidate_fp_spec R L p goal fuel cs _ s hfold with
      ⟨_, _, hall⟩ | ⟨i, c, traj, k, hi, hgen, hcost, hmin, hbest, hle, hall⟩
    · exact absurd (hall j0 c0 k0 hj0 hk0) (not_lt.mpr hlt0.le)
    · have hklt : k < SENTINEL := lt_of_le_of_lt (hall j0 c0 k0 hj0 hk0).1 hlt0
      have hne : s.min_cost ≠ SENTINEL := by
        rw [hmin]
        exact ne_of_lt hklt
      rw [if_neg hne] at hret
      simp only [Option.some.injEq] at hret
      refine ⟨i, c, k, hi, ?_, hcost, hklt, hall⟩
      rw [hgen, ← hbest, hret]

/-- The dynamic window of `hard_turn_planner` in IEEE arithmetic: velocities from 0.4 to 0.6,
yaw-rates from `-max_yawrate_` to -0.50000001, as doubles. -/
theorem hard_turn_window :
    calc_dynamic_window_fp Rounding.ieee hard_turn_planner =
      ⟨3602879701896397 / 9007199254740992, 5404319552844595 / 9007199254740992, -DOUBLE_FOUR_FIFTHS, -562949964680311 / 1125899906842624⟩ := by
  have ha : Rounding.ieee.double ((1 : ℚ) * (3602879701896397 / 36028797018963968 : ℚ)) = (3602879701896397 / 36028797018963968 : ℚ) :=
    show round_to_bits 53 ((1 : ℚ) * (3602879701896397 / 36028797018963968 : ℚ)) = (3602879701896397 / 36028797018963968 : ℚ) from
    round_to_bits_cert 53 56 3602879701896397 36028797018963968 7205759403792794 3602879701896397 36028797018963968 _ _
      (by norm_num) (by norm_num) (by decide) (by decide) (by decide) (by decide)
      (by decide) (by decide) (by decide) (by decide)
  have hlov : Rounding.ieee.double ((1 / 2 : ℚ) - (3602879701896397 / 36028797018963968 : ℚ)) = (3602879701896397 / 9007199254740992 : ℚ) :=
    show round_to_bits 53 ((1 / 2 : ℚ) - (3602879701896397 / 36028797018963968 : ℚ)) = (3602879701896397 / 9007199254740992 : ℚ) from
    round_to_bits_cert_tie 53 54 14411518807585587 36028797018963968 7205759403792793 7205759403792794 3602879701896397 9007199254740992 _ _ false
      (by norm_num) (by norm_num) (by decide) (by decide) (by decide) (by decide)
      (by decide) (by decide) (by decide) (by decide)
  have hhiv : Rounding.ieee.double ((1 / 2 : ℚ) + (3602879701896397 / 36028797018963968 : ℚ)) = (5404319552844595 / 9007199254740992 : ℚ) :=
    show round_to_bits 53 ((1 / 2 : ℚ) + (3602879701896397 / 36028797018963968 : ℚ)) = (5404319552844595 / 9007199254740992 : ℚ) from
    round_to_bits_cert 53 53 21617278211378381 36028797018963968 5404319552844595 5404319552844595 9007199254740992 _ _
      (by norm_num) (by norm_num) (by decide) (by decide) (by decide) (by decide)
      (by decide) (by decide) (by decide) (by decide)
  have hd : Rounding.ieee.double ((2 : ℚ) * (3602879701896397 / 36028797018963968 : ℚ)) = (3602879701896397 / 18014398509481984 : ℚ) :=
    show round_to_bits 53 ((2 : ℚ) * (3602879701896397 / 36028797018963968 : ℚ)) = (3602879701896397 / 18014398509481984 : ℚ) from
    round_to_bits_cert 53 55 3602879701896397 18014398509481984 7205759403792794 3602879701896397 18014398509481984 _ _
      (by norm_num) (by norm_num) (by decide) (by decide) (by decide) (by decide)
      (by decide) (by decide) (by decide) (by decide)
  have hloy : Rounding.ieee.double ((-6305039568390687 / 9007199254740992 : ℚ) - (3602879701896397 / 18014398509481984 : ℚ)) = (-4053239709669443 / 4503599627370496 : ℚ) :=
    show round_to_bits 53 ((-6305039568390687 / 9007199254740992 : ℚ) - (3602879701896397 / 18014398509481984 : ℚ)) = (-4053239709669443 / 4503599627370496 : ℚ) from
    round_to_bits_cert_tie 53 53 16212958838677771 18014398509481984 8106479419338885 8106479419338886 4053239709669443 4503599627370496 _ _ true
      (by norm_num) (by norm_num) (by decide) (by decide) (by decide) (by decide)
      (by decide) (by decide) (by decide) (by decide)
  have hhiy : Rounding.ieee.double ((-6305039568390687 / 9007199254740992 : ℚ) + (3602879701896397 / 18014398509481984 : ℚ)) = (-562949964680311 / 1125899906842624 : ℚ) :=
    show round_to_bits 53 ((-6305039568390687 / 9007199254740992 : ℚ) + (3602879701896397 / 18014398509481984 : ℚ)) = (-562949964680311 / 1125899906842624 : ℚ) from
    round_to_bits_cert_tie 53 53 9007199434884977 18014398509481984 4503599717442488 4503599717442488 562949964680311 1125899906842624 _ _ true
      (by norm_num) (by norm_num) (by decide) (by decide) (by decide) (by decide)
      (by decide) (by decide) (by decide) (by decide)
  have e1 : (calc_dynamic_window_fp Rounding.ieee hard_turn_planner).min_velocity_ = (3602879701896397 / 9007199254740992 : ℚ) := by
    show max (Rounding.ieee.double ((1 / 2 : ℚ) - Rounding.ieee.double ((1 : ℚ) * (3602879701896397 / 36028797018963968 : ℚ)))) (0 : ℚ) = _
    rw [ha, hlov]
    norm_num
  have e2 : (calc_dynamic_window_fp Rounding.ieee hard_turn_planner).max_velocity_ = (5404319552844595 / 9007199254740992 : ℚ) := by
    show min (Rounding.ieee.double ((1 / 2 : ℚ) + Rounding.ieee.double ((1 : ℚ) * (3602879701896397 / 36028797018963968 : ℚ)))) (1 : ℚ) = _
    rw [ha, hhiv]
    norm_num
  have e3 : (calc_dynamic_window_fp Rounding.ieee hard_turn_planner).min_yawrate_ =
      -DOUBLE_FOUR_FIFTHS := by
    show max (Rounding.ieee.double ((-6305039568390687 / 9007199254740992 : ℚ) - Rounding.ieee.double ((2 : ℚ) * (3602879701896397 / 36028797018963968 : ℚ))))
      (-((3602879701896397 / 4503599627370496 : ℚ))) = -((3602879701896397 / 4503599627370496 : ℚ))
    rw [hd, hloy]
    norm_num
  have e4 : (calc_dynamic_window_fp Rounding.ieee hard_turn_planner).max_yawrate_ = (-562949964680311 / 1125899906842624 : ℚ) := by
    show min (Rounding.ieee.double ((-6305039568390687 / 9007199254740992 : ℚ) + Rounding.ieee.double ((2 : ℚ) * (3602879701896397 / 36028797018963968 : ℚ))))
      (3602879701896397 / 4503599627370496 : ℚ) = _
    rw [hd, hhiy]
    norm_num
  calc calc_dynamic_window_fp Rounding.ieee hard_turn_planner
      = ⟨(calc_dynamic_window_fp Rounding.ieee hard_turn_planner).min_velocity_,
          (calc_dynamic_window_fp Rounding.ieee hard_turn_planner).max_velocity_,
          (calc_dynamic_window_fp Rounding.ieee hard_turn_planner).min_yawrate_,
          (calc_dynamic_window_fp Rounding.ieee hard_turn_planner).max_yawrate_⟩ := rfl
    _ = _ := by rw [e1, e2, e3, e4]

/-- The velocity loop of `hard_turn_planner` in IEEE arithmetic: three values; the fourth,
`0.60000002384`, is past the upper bound 0.6. -/
theorem hard_turn_velocities (fuel : Nat) :
    samples_fp Rounding.ieee (3602879701896397 / 9007199254740992 : ℚ) (5404319552844595 / 9007199254740992 : ℚ) 3 (fuel + 32) =
      some [13421773 / 33554432, 15658735 / 33554432, 8947849 / 16777216] := by
  have hwidth : Rounding.ieee.double ((5404319552844595 / 9007199254740992 : ℚ) - (3602879701896397 / 9007199254740992 : ℚ)) = (900719925474099 / 4503599627370496 : ℚ) :=
    show round_to_bits 53 ((5404319552844595 / 9007199254740992 : ℚ) - (3602879701896397 / 9007199254740992 : ℚ)) = (900719925474099 / 4503599627370496 : ℚ) from
    round_to_bits_cert 53 55 900719925474099 4503599627370496 7205759403792792 900719925474099 4503599627370496 _ _
      (by norm_num) (by norm_num) (by decide) (by decide) (by decide) (by decide)
      (by decide) (by decide) (by decide) (by decide)
  have hquot : Rounding.ieee.double ((900719925474099 / 4503599627370496 : ℚ) / (3 : ℚ)) = (300239975158033 / 4503599627370496 : ℚ) :=
    show round_to_bits 53 ((900719925474099 / 4503599627370496 : ℚ) / (3 : ℚ)) = (300239975158033 / 4503599627370496 : ℚ) from
    round_to_bits_cert 53 56 300239975158033 4503599627370496 4803839602528528 300239975158033 4503599627370496 _ _
      (by norm_num) (by norm_num) (by decide) (by decide) (by decide) (by decide)
      (by decide) (by decide) (by decide) (by decide)
  have hstart : Rounding.ieee.float ((3602879701896397 / 9007199254740992 : ℚ)) = (13421773 / 33554432 : ℚ) :=
    show round_to_bits 24 ((3602879701896397 / 9007199254740992 : ℚ)) = (13421773 / 33554432 : ℚ) from
    round_to_bits_cert 24 25 3602879701896397 9007199254740992 13421773 13421773 33554432 _ _
      (by norm_num) (by norm_num) (by decide) (by decide) (by decide) (by decide)
      (by decide) (by decide) (by decide) (by decide)
  have h4 : Rounding.ieee.double ((13421773 / 33554432 : ℚ) + (300239975158033 / 4503599627370496 : ℚ)) = (2101679852949777 / 4503599627370496 : ℚ) :=
    show round_to_bits 53 ((13421773 / 33554432 : ℚ) + (300239975158033 / 4503599627370496 : ℚ)) = (2101679852949777 / 4503599627370496 : ℚ) from
    round_to_bits_cert 53 54 2101679852949777 4503599627370496 8406719411799108 2101679852949777 4503599627370496 _ _
      (by norm_num) (by norm_num) (by decide) (by decide) (by decide) (by decide)
      (by decide) (by decide) (by decide) (by decide)
  have h5 : Rounding.ieee.float ((2101679852949777 / 4503599627370496 : ℚ)) = (15658735 / 33554432 : ℚ) :=
    show round_to_bits 24 ((2101679852949777 / 4503599627370496 : ℚ)) = (15658735 / 33554432 : ℚ) from
    round_to_bits_cert 24 25 2101679852949777 4503599627370496 15658735 15658735 33554432 _ _
      (by norm_num) (by norm_num) (by decide) (by decide) (by decide) (by decide)
      (by decide) (by decide) (by decide) (by decide)
  have h6 : Rounding.ieee.double ((15658735 / 33554432 : ℚ) + (300239975158033 / 4503599627370496 : ℚ)) = (2401919810212113 / 4503599627370496 : ℚ) :=
    show round_to_bits 53 ((15658735 / 33554432 : ℚ) + (300239975158033 / 4503599627370496 : ℚ)) = (2401919810212113 / 4503599627370496 : ℚ) from
    round_to_bits_cert 53 53 2401919810212113 4503599627370496 4803839620424226 2401919810212113 4503599627370496 _ _
      (by norm_num) (by norm_num) (by decide) (by decide) (by decide) (by decide)
      (by decide) (by decide) (by decide) (by decide)
  have h7 : Rounding.ieee.float ((2401919810212113 / 4503599627370496 : ℚ)) = (8947849 / 16777216 : ℚ) :=
    show round_to_bits 24 ((2401919810212113 / 4503599627370496 : ℚ)) = (8947849 / 16777216 : ℚ) from
    round_to_bits_cert 24 24 2401919810212113 4503599627370496 8947849 8947849 16777216 _ _
      (by norm_num) (by norm_num) (by decide) (by decide) (by decide) (by decide)
      (by decide) (by decide) (by decide) (by decide)
  have h8 : Rounding.ieee.double ((8947849 / 16777216 : ℚ) + (300239975158033 / 4503599627370496 : ℚ)) = (2702159901692177 / 4503599627370496 : ℚ) :=
    show round_to_bits 53 ((8947849 / 16777216 : ℚ) + (300239975158033 / 4503599627370496 : ℚ)) = (2702159901692177 / 4503599627370496 : ℚ) from
    round_to_bits_cert 53 53 2702159901692177 4503599627370496 5404319803384354 2702159901692177 4503599627370496 _ _
      (by norm_num) (by norm_num) (by decide) (by decide) (by decide) (by decide)
      (by decide) (by decide) (by decide) (by decide)
  have h9 : Rounding.ieee.float ((2702159901692177 / 4503599627370496 : ℚ)) = (5033165 / 8388608 : ℚ) :=
    show round_to_bits 24 ((2702159901692177 / 4503599627370496 : ℚ)) = (5033165 / 8388608 : ℚ) from
    round_to_bits_cert 24 24 2702159901692177 4503599627370496 10066330 5033165 8388608 _ _
      (by norm_num) (by norm_num) (by decide) (by decide) (by decide) (by decide)
      (by decide) (by decide) (by decide) (by decide)
  have hcast : (((3 : Int) : ℚ)) = (3 : ℚ) := by norm_num
  have hstep : max (Rounding.ieee.double (Rounding.ieee.double ((5404319552844595 / 9007199254740992 : ℚ) - (3602879701896397 / 9007199254740992 : ℚ)) / (((3 : Int) : ℚ))))
      DBL_EPSILON = (300239975158033 / 4503599627370496 : ℚ) := by
    rw [hcast, hwidth, hquot]
    norm_num [DBL_EPSILON]
  unfold samples_fp
  rw [if_neg (by norm_num), hstep, hstart]
  rw [loop_fp_succ, if_pos (by norm_num), h4, h5]
  rw [loop_fp_succ, if_pos (by norm_num), h6, h7]
  rw [loop_fp_succ, if_pos (by norm_num), h8, h9]
  rw [loop_fp_succ, if_neg (by norm_num)]
  rfl

/-- The yaw-rate loop of `hard_turn_planner` in IEEE arithmetic: one value, the `float`
nearest to -0.8; the next, -0.5, is past the upper bound -0.50000001. -/
theorem hard_turn_yawrates (fuel : Nat) :
    samples_fp Rounding.ieee (-3602879701896397 / 4503599627370496 : ℚ) (-562949964680311 / 1125899906842624 : ℚ) 1 (fuel + 32) =
      some [-13421773 / 16777216] := by
  have hwidth : Rounding.ieee.double ((-562949964680311 / 1125899906842624 : ℚ) - (-3602879701896397 / 4503599627370496 : ℚ)) = (1351079843175153 / 4503599627370496 : ℚ) :=
    show round_to_bits 53 ((-562949964680311 / 1125899906842624 : ℚ) - (-3602879701896397 / 4503599627370496 : ℚ)) = (1351079843175153 / 4503599627370496 : ℚ) from
    round_to_bits_cert 53 54 1351079843175153 4503599627370496 5404319372700612 1351079843175153 4503599627370496 _ _
      (by norm_num) (by norm_num) (by decide) (by decide) (by decide) (by decide)
      (by decide) (by decide) (by decide) (by decide)
  have hquot : Rounding.ieee.double ((1351079843175153 / 4503599627370496 : ℚ) / (1 : ℚ)) = (1351079843175153 / 4503599627370496 : ℚ) :=
    show round_to_bits 53 ((1351079843175153 / 4503599627370496 : ℚ) / (1 : ℚ)) = (1351079843175153 / 4503599627370496 : ℚ) from
    round_to_bits_cert 53 54 1351079843175153 4503599627370496 5404319372700612 1351079843175153 4503599627370496 _ _
      (by norm_num) (by norm_num) (by decide) (by decide) (by decide) (by decide)
      (by decide) (by decide) (by decide) (by decide)
  have hstart : Rounding.ieee.float ((-3602879701896397 / 4503599627370496 : ℚ)) = (-13421773 / 16777216 : ℚ) :=
    show round_to_bits 24 ((-3602879701896397 / 4503599627370496 : ℚ)) = (-13421773 / 16777216 : ℚ) from
    round_to_bits_cert_neg 24 24 3602879701896397 4503599627370496 13421773 13421773 16777216 _ _
      (by norm_num) (by norm_num) (by decide) (by decide) (by decide) (by decide)
      (by decide) (by decide) (by decide) (by decide)
  have h4 : Rounding.ieee.double ((-13421773 / 16777216 : ℚ) + (1351079843175153 / 4503599627370496 : ℚ)) = (-2251799912408335 / 4503599627370496 : ℚ) :=
    show round_to_bits 53 ((-13421773 / 16777216 : ℚ) + (1351079843175153 / 4503599627370496 : ℚ)) = (-2251799912408335 / 4503599627370496 : ℚ) from
    round_to_bits_cert_neg 53 53 2251799912408335 4503599627370496 4503599824816670 2251799912408335 4503599627370496 _ _
      (by norm_num) (by norm_num) (by decide) (by decide) (by decide) (by decide)
      (by decide) (by decide) (by decide) (by decide)
  have h5 : Rounding.ieee.float ((-2251799912408335 / 4503599627370496 : ℚ)) = (-1 / 2 : ℚ) :=
    show round_to_bits 24 ((-2251799912408335 / 4503599627370496 : ℚ)) = (-1 / 2 : ℚ) from
    round_to_bits_cert_neg 24 24 2251799912408335 4503599627370496 8388608 1 2 _ _
      (by norm_num) (by norm_num) (by decide) (by decide) (by decide) (by decide)
      (by decide) (by decide) (by decide) (by decide)
  have hcast : (((1 : Int) : ℚ)) = (1 : ℚ) := by norm_num
  have hstep : max (Rounding.ieee.double (Rounding.ieee.double ((-562949964680311 / 1125899906842624 : ℚ) - (-3602879701896397 / 4503599627370496 : ℚ)) / (((1 : Int) : ℚ))))
      DBL_EPSILON = (1351079843175153 / 4503599627370496 : ℚ) := by
    rw [hcast, hwidth, hquot]
    norm_num [DBL_EPSILON]
  unfold samples_fp
  rw [if_neg (by norm_num), hstep, hstart]
  rw [loop_fp_succ, if_pos (by norm_num), h4, h5]
  rw [loop_fp_succ, if_neg (by norm_num)]
  rfl

/-- The counter of `generate_trajectory` for `hard_turn_planner` in IEEE arithmetic takes
31 values. -/
theorem hard_turn_steps (fuel : Nat) :
    ∃ ts, loop_fp Rounding.ieee hard_turn_planner.predict_time_ hard_turn_planner.dt_
      (fuel + 32) 0 = some (0 :: ts) ∧ ts.length = 30 := by
  have h1 : Rounding.ieee.double ((0 : ℚ) + (3602879701896397 / 36028797018963968 : ℚ)) = (3602879701896397 / 36028797018963968 : ℚ) :=
    show round_to_bits 53 ((0 : ℚ) + (3602879701896397 / 36028797018963968 : ℚ)) = (3602879701896397 / 36028797018963968 : ℚ) from
    round_to_bits_cert 53 56 3602879701896397 36028797018963968 7205759403792794 3602879701896397 36028797018963968 _ _
      (by norm_num) (by norm_num) (by decide) (by decide) (by decide) (by decide)
      (by decide) (by decide) (by decide) (by decide)
  have h2 : Rounding.ieee.float ((3602879701896397 / 36028797018963968 : ℚ)) = (13421773 / 134217728 : ℚ) :=
    show round_to_bits 24 ((3602879701896397 / 36028797018963968 : ℚ)) = (13421773 / 134217728 : ℚ) from
    round_to_bits_cert 24 27 3602879701896397 36028797018963968 13421773 13421773 134217728 _ _
      (by norm_num) (by norm_num) (by decide) (by decide) (by decide) (by decide)
      (by decide) (by decide) (by decide) (by decide)
  have h3 : Rounding.ieee.double ((13421773 / 134217728 : ℚ) + (3602879701896397 / 36028797018963968 : ℚ)) = (7205759457479885 / 36028797018963968 : ℚ) :=
    show round_to_bits 53 ((13421773 / 134217728 : ℚ) + (3602879701896397 / 36028797018963968 : ℚ)) = (7205759457479885 / 36028797018963968 : ℚ) from
    round_to_bits_cert 53 55 7205759457479885 36028797018963968 7205759457479885 7205759457479885 36028797018963968 _ _
      (by norm_num) (by norm_num) (by decide) (by decide) (by decide) (by decide)
      (by decide) (by decide) (by decide) (by decide)
  have h4 : Rounding.ieee.float ((7205759457479885 / 36028797018963968 : ℚ)) = (13421773 / 67108864 : ℚ) :=
    show round_to_bits 24 ((7205759457479885 / 36028797018963968 : ℚ)) = (13421773 / 67108864 : ℚ) from
    round_to_bits_cert 24 26 7205759457479885 36028797018963968 13421773 13421773 67108864 _ _
      (by norm_num) (by norm_num) (by decide) (by decide) (by decide) (by decide)
      (by decide) (by decide) (by decide) (by decide)
  have h5 : Rounding.ieee.double ((13421773 / 67108864 : ℚ) + (3602879701896397 / 36028797018963968 : ℚ)) = (2702159803265843 / 9007199254740992 : ℚ) :=
    show round_to_bits 53 ((13421773 / 67108864 : ℚ) + (3602879701896397 / 36028797018963968 : ℚ)) = (2702159803265843 / 9007199254740992 : ℚ) from
    round_to_bits_cert_tie 53 54 10808639213063373 36028797018963968 5404319606531686 5404319606531686 2702159803265843 9007199254740992 _ _ false
      (by norm_num) (by norm_num) (by decide) (by decide) (by decide) (by decide)
      (by decide) (by decide) (by decide) (by decide)
  have h6 : Rounding.ieee.float ((2702159803265843 / 9007199254740992 : ℚ)) = (5033165 / 16777216 : ℚ) :=
    show round_to_bits 24 ((2702159803265843 / 9007199254740992 : ℚ)) = (5033165 / 16777216 : ℚ) from
    round_to_bits_cert 24 25 2702159803265843 9007199254740992 10066330 5033165 16777216 _ _
      (by norm_num) (by norm_num) (by decide) (by decide) (by decide) (by decide)
      (by decide) (by decide) (by decide) (by decide)
  have h7 : Rounding.ieee.double ((5033165 / 16777216 : ℚ) + (3602879701896397 / 36028797018963968 : ℚ)) = (3602879809270579 / 9007199254740992 : ℚ) :=
    show round_to_bits 53 ((5033165 / 16777216 : ℚ) + (3602879701896397 / 36028797018963968 : ℚ)) = (3602879809270579 / 9007199254740992 : ℚ) from
    round_to_bits_cert_tie 53 54 14411519237082317 36028797018963968 7205759618541158 7205759618541158 3602879809270579 9007199254740992 _ _ false
      (by norm_num) (by norm_num) (by decide) (by decide) (by decide) (by decide)
      (by decide) (by decide) (by decide) (by decide)
  have h8 : Rounding.ieee.float ((3602879809270579 / 9007199254740992 : ℚ)) = (13421773 / 33554432 : ℚ) :=
    show round_to_bits 24 ((3602879809270579 / 9007199254740992 : ℚ)) = (13421773 / 33554432 : ℚ) from
    round_to_bits_cert 24 25 3602879809270579 9007199254740992 13421773 13421773 33554432 _ _
      (by norm_num) (by norm_num) (by decide) (by decide) (by decide) (by decide)
      (by decide) (by decide) (by decide) (by decide)
  have h9 : Rounding.ieee.double ((13421773 / 33554432 : ℚ) + (3602879701896397 / 36028797018963968 : ℚ)) = (4503599681057587 / 9007199254740992 : ℚ) :=
    show round_to_bits 53 ((13421773 / 33554432 : ℚ) + (3602879701896397 / 36028797018963968 : ℚ)) = (4503599681057587 / 9007199254740992 : ℚ) from
    round_to_bits_cert 53 53 18014398724230349 36028797018963968 4503599681057587 4503599681057587 9007199254740992 _ _
      (by norm_num) (by norm_num) (by decide) (by decide) (by decide) (by decide)
      (by decide) (by decide) (by decide) (by decide)
  have h10 : Rounding.ieee.float ((4503599681057587 / 9007199254740992 : ℚ)) = (1 / 2 : ℚ) :=
    show round_to_bits 24 ((4503599681057587 / 9007199254740992 : ℚ)) = (1 / 2 : ℚ) from
    round_to_bits_cert 24 24 4503599681057587 9007199254740992 8388608 1 2 _ _
      (by norm_num) (by norm_num) (by decide) (by decide) (by decide) (by decide)
      (by decide) (by decide) (by decide) (by decide)
  have h11 : Rounding.ieee.double ((1 / 2 : ℚ) + (3602879701896397 / 36028797018963968 : ℚ)) = (5404319552844595 / 9007199254740992 : ℚ) :=
    show round_to_bits 53 ((1 / 2 : ℚ) + (3602879701896397 / 36028797018963968 : ℚ)) = (5404319552844595 / 9007199254740992 : ℚ) from
    round_to_bits_cert 53 53 21617278211378381 36028797018963968 5404319552844595 5404319552844595 9007199254740992 _ _
      (by norm_num) (by norm_num) (by decide) (by decide) (by decide) (by decide)
      (by decide) (by decide) (by decide) (by decide)
  have h12 : Rounding.ieee.float ((5404319552844595 / 9007199254740992 : ℚ)) = (5033165 / 8388608 : ℚ) :=
    show round_to_bits 24 ((5404319552844595 / 9007199254740992 : ℚ)) = (5033165 / 8388608 : ℚ) from
    round_to_bits_cert 24 24 5404319552844595 9007199254740992 10066330 5033165 8388608 _ _
      (by norm_num) (by norm_num) (by decide) (by decide) (by decide) (by decide)
      (by decide) (by decide) (by decide) (by decide)
  have h13 : Rounding.ieee.double ((5033165 / 8388608 : ℚ) + (3602879701896397 / 36028797018963968 : ℚ)) = (6305039693067059 / 9007199254740992 : ℚ) :=
    show round_to_bits 53 ((5033165 / 8388608 : ℚ) + (3602879701896397 / 36028797018963968 : ℚ)) = (6305039693067059 / 9007199254740992 : ℚ) from
    round_to_bits_cert 53 53 25220158772268237 36028797018963968 6305039693067059 6305039693067059 9007199254740992 _ _
      (by norm_num) (by norm_num) (by decide) (by decide) (by decide) (by decide)
      (by decide) (by decide) (by decide) (by decide)
  have h14 : Rounding.ieee.float ((6305039693067059 / 9007199254740992 : ℚ)) = (2936013 / 4194304 : ℚ) :=
    show round_to_bits 24 ((6305039693067059 / 9007199254740992 : ℚ)) = (2936013 / 4194304 : ℚ) from
    round_to_bits_cert 24 24 6305039693067059 9007199254740992 11744052 2936013 4194304 _ _
      (by norm_num) (by norm_num) (by decide) (by decide) (by decide) (by decide)
      (by decide) (by decide) (by decide) (by decide)
  have h15 : Rounding.ieee.double ((2936013 / 4194304 : ℚ) + (3602879701896397 / 36028797018963968 : ℚ)) = (7205759833289523 / 9007199254740992 : ℚ) :=
    show round_to_bits 53 ((2936013 / 4194304 : ℚ) + (3602879701896397 / 36028797018963968 : ℚ)) = (7205759833289523 / 9007199254740992 : ℚ) from
    round_to_bits_cert 53 53 28823039333158093 36028797018963968 7205759833289523 7205759833289523 9007199254740992 _ _
      (by norm_num) (by norm_num) (by decide) (by decide) (by decide) (by decide)
      (by decide) (by decide) (by decide) (by decide)
  have h16 : Rounding.ieee.float ((7205759833289523 / 9007199254740992 : ℚ)) = (6710887 / 8388608 : ℚ) :=
    show round_to_bits 24 ((7205759833289523 / 9007199254740992 : ℚ)) = (6710887 / 8388608 : ℚ) from
    round_to_bits_cert 24 24 7205759833289523 9007199254740992 13421774 6710887 8388608 _ _
      (by norm_num) (by norm_num) (by decide) (by decide) (by decide) (by decide)
      (by decide) (by decide) (by decide) (by decide)
  have h17 : Rounding.ieee.double ((6710887 / 8388608 : ℚ) + (3602879701896397 / 36028797018963968 : ℚ)) = (8106479973511987 / 9007199254740992 : ℚ) :=
    show round_to_bits 53 ((6710887 / 8388608 : ℚ) + (3602879701896397 / 36028797018963968 : ℚ)) = (8106479973511987 / 9007199254740992 : ℚ) from
    round_to_bits_cert 53 53 32425919894047949 36028797018963968 8106479973511987 8106479973511987 9007199254740992 _ _
      (by norm_num) (by norm_num) (by decide) (by decide) (by decide) (by decide)
      (by decide) (by decide) (by decide) (by decide)
  have h18 : Rounding.ieee.float ((8106479973511987 / 9007199254740992 : ℚ)) = (1887437 / 2097152 : ℚ) :=
    show round_to_bits 24 ((8106479973511987 / 9007199254740992 : ℚ)) = (1887437 / 2097152 : ℚ) from
    round_to_bits_cert 24 24 8106479973511987 9007199254740992 15099496 1887437 2097152 _ _
      (by norm_num) (by norm_num) (by decide) (by decide) (by decide) (by decide)
      (by decide) (by decide) (by decide) (by decide)
  have h19 : Rounding.ieee.double ((1887437 / 2097152 : ℚ) + (3602879701896397 / 36028797018963968 : ℚ)) = (2251800028433613 / 2251799813685248 : ℚ) :=
    show round_to_bits 53 ((1887437 / 2097152 : ℚ) + (3602879701896397 / 36028797018963968 : ℚ)) = (2251800028433613 / 2251799813685248 : ℚ) from
    round_to_bits_cert 53 52 36028800454937805 36028797018963968 4503600056867226 2251800028433613 2251799813685248 _ _
      (by norm_num) (by norm_num) (by decide) (by decide) (by decide) (by decide)
      (by decide) (by decide) (by decide) (by decide)
  have h20 : Rounding.ieee.float ((2251800028433613 / 2251799813685248 : ℚ)) = (8388609 / 8388608 : ℚ) :=
    show round_to_bits 24 ((2251800028433613 / 2251799813685248 : ℚ)) = (8388609 / 8388608 : ℚ) from
    round_to_bits_cert 24 23 2251800028433613 2251799813685248 8388609 8388609 8388608 _ _
      (by norm_num) (by norm_num) (by decide) (by decide) (by decide) (by decide)
      (by decide) (by decide) (by decide) (by decide)
  have h21 : Rounding.ieee.double ((8388609 / 8388608 : ℚ) + (3602879701896397 / 36028797018963968 : ℚ)) = (2476980063489229 / 2251799813685248 : ℚ) :=
    show round_to_bits 53 ((8388609 / 8388608 : ℚ) + (3602879701896397 / 36028797018963968 : ℚ)) = (2476980063489229 / 2251799813685248 : ℚ) from
    round_to_bits_cert 53 52 39631681015827661 36028797018963968 4953960126978458 2476980063489229 2251799813685248 _ _
      (by norm_num) (by norm_num) (by decide) (by decide) (by decide) (by decide)
      (by decide) (by decide) (by decide) (by decide)
  have h22 : Rounding.ieee.float ((2476980063489229 / 2251799813685248 : ℚ)) = (4613735 / 4194304 : ℚ) :=
    show round_to_bits 24 ((2476980063489229 / 2251799813685248 : ℚ)) = (4613735 / 4194304 : ℚ) from
    round_to_bits_cert 24 23 2476980063489229 2251799813685248 9227470 4613735 4194304 _ _
      (by norm_num) (by norm_num) (by decide) (by decide) (by decide) (by decide)
      (by decide) (by decide) (by decide) (by decide)
  have h23 : Rounding.ieee.double ((4613735 / 4194304 : ℚ) + (3602879701896397 / 36028797018963968 : ℚ)) = (2702160098544845 / 2251799813685248 : ℚ) :=
    show round_to_bits 53 ((4613735 / 4194304 : ℚ) + (3602879701896397 / 36028797018963968 : ℚ)) = (2702160098544845 / 2251799813685248 : ℚ) from
    round_to_bits_cert 53 52 43234561576717517 36028797018963968 5404320197089690 2702160098544845 2251799813685248 _ _
      (by norm_num) (by norm_num) (by decide) (by decide) (by decide) (by decide)
      (by decide) (by decide) (by decide) (by decide)
  have h24 : Rounding.ieee.float ((2702160098544845 / 2251799813685248 : ℚ)) = (10066331 / 8388608 : ℚ) :=
    show round_to_bits 24 ((2702160098544845 / 2251799813685248 : ℚ)) = (10066331 / 8388608 : ℚ) from
    round_to_bits_cert 24 23 2702160098544845 2251799813685248 10066331 10066331 8388608 _ _
      (by norm_num) (by norm_num) (by decide) (by decide) (by decide) (by decide)
      (by decide) (by decide) (by decide) (by decide)
  have h25 : Rounding.ieee.double ((10066331 / 8388608 : ℚ) + (3602879701896397 / 36028797018963968 : ℚ)) = (2927340133600461 / 2251799813685248 : ℚ) :=
    show round_to_bits 53 ((10066331 / 8388608 : ℚ) + (3602879701896397 / 36028797018963968 : ℚ)) = (2927340133600461 / 2251799813685248 : ℚ) from
    round_to_bits_cert 53 52 46837442137607373 36028797018963968 5854680267200922 2927340133600461 2251799813685248 _ _
      (by norm_num) (by norm_num) (by decide) (by decide) (by decide) (by decide)
      (by decide) (by decide) (by decide) (by decide)
  have h26 : Rounding.ieee.float ((2927340133600461 / 2251799813685248 : ℚ)) = (1363149 / 1048576 : ℚ) :=
    show round_to_bits 24 ((2927340133600461 / 2251799813685248 : ℚ)) = (1363149 / 1048576 : ℚ) from
    round_to_bits_cert 24 23 2927340133600461 2251799813685248 10905192 1363149 1048576 _ _
      (by norm_num) (by norm_num) (by decide) (by decide) (by decide) (by decide)
      (by decide) (by decide) (by decide) (by decide)
  have h27 : Rounding.ieee.double ((1363149 / 1048576 : ℚ) + (3602879701896397 / 36028797018963968 : ℚ)) = (3152520168656077 / 2251799813685248 : ℚ) :=
    show round_to_bits 53 ((1363149 / 1048576 : ℚ) + (3602879701896397 / 36028797018963968 : ℚ)) = (3152520168656077 / 2251799813685248 : ℚ) from
    round_to_bits_cert 53 52 50440322698497229 36028797018963968 6305040337312154 3152520168656077 2251799813685248 _ _
      (by norm_num) (by norm_num) (by decide) (by decide) (by decide) (by decide)
      (by decide) (by decide) (by decide) (by decide)
  have h28 : Rounding.ieee.float ((3152520168656077 / 2251799813685248 : ℚ)) = (11744053 / 8388608 : ℚ) :=
    show round_to_bits 24 ((3152520168656077 / 2251799813685248 : ℚ)) = (11744053 / 8388608 : ℚ) from
    round_to_bits_cert 24 23 3152520168656077 2251799813685248 11744053 11744053 8388608 _ _
      (by norm_num) (by norm_num) (by decide) (by decide) (by decide) (by decide)
      (by decide) (by decide) (by decide) (by decide)
  have h29 : Rounding.ieee.double ((11744053 / 8388608 : ℚ) + (3602879701896397 / 36028797018963968 : ℚ)) = (3377700203711693 / 2251799813685248 : ℚ) :=
    show round_to_bits 53 ((11744053 / 8388608 : ℚ) + (3602879701896397 / 36028797018963968 : ℚ)) = (3377700203711693 / 2251799813685248 : ℚ) from
    round_to_bits_cert 53 52 54043203259387085 36028797018963968 6755400407423386 3377700203711693 2251799813685248 _ _
      (by norm_num) (by norm_num) (by decide) (by decide) (by decide) (by decide)
      (by decide) (by decide) (by decide) (by decide)
  have h30 : Rounding.ieee.float ((3377700203711693 / 2251799813685248 : ℚ)) = (6291457 / 4194304 : ℚ) :=
    show round_to_bits 24 ((3377700203711693 / 2251799813685248 : ℚ)) = (6291457 / 4194304 : ℚ) from
    round_to_bits_cert 24 23 3377700203711693 2251799813685248 12582914 6291457 4194304 _ _
      (by norm_num) (by norm_num) (by decide) (by decide) (by decide) (by decide)
      (by decide) (by decide) (by decide) (by decide)
  have h31 : Rounding.ieee.double ((6291457 / 4194304 : ℚ) + (3602879701896397 / 36028797018963968 : ℚ)) = (3602880238767309 / 2251799813685248 : ℚ) :=
    show round_to_bits 53 ((6291457 / 4194304 : ℚ) + (3602879701896397 / 36028797018963968 : ℚ)) = (3602880238767309 / 2251799813685248 : ℚ) from
    round_to_bits_cert 53 52 57646083820276941 36028797018963968 7205760477534618 3602880238767309 2251799813685248 _ _
      (by norm_num) (by norm_num) (by decide) (by decide) (by decide) (by decide)
      (by decide) (by decide) (by decide) (by decide)
  have h32 : Rounding.ieee.float ((3602880238767309 / 2251799813685248 : ℚ)) = (13421775 / 8388608 : ℚ) :=
    show round_to_bits 24 ((3602880238767309 / 2251799813685248 : ℚ)) = (13421775 / 8388608 : ℚ) from
    round_to_bits_cert 24 23 3602880238767309 2251799813685248 13421775 13421775 8388608 _ _
      (by norm_num) (by norm_num) (by decide) (by decide) (by decide) (by decide)
      (by decide) (by decide) (by decide) (by decide)
  have h33 : Rounding.ieee.double ((13421775 / 8388608 : ℚ) + (3602879701896397 / 36028797018963968 : ℚ)) = (3828060273822925 / 2251799813685248 : ℚ) :=
    show round_to_bits 53 ((13421775 / 8388608 : ℚ) + (3602879701896397 / 36028797018963968 : ℚ)) = (3828060273822925 / 2251799813685248 : ℚ) from
    round_to_bits_cert 53 52 61248964381166797 36028797018963968 7656120547645850 3828060273822925 2251799813685248 _ _
      (by norm_num) (by norm_num) (by decide) (by decide) (by decide) (by decide)
      (by decide) (by decide) (by decide) (by decide)
  have h34 : Rounding.ieee.float ((3828060273822925 / 2251799813685248 : ℚ)) = (3565159 / 2097152 : ℚ) :=
    show round_to_bits 24 ((3828060273822925 / 2251799813685248 : ℚ)) = (3565159 / 2097152 : ℚ) from
    round_to_bits_cert 24 23 3828060273822925 2251799813685248 14260636 3565159 2097152 _ _
      (by norm_num) (by norm_num) (by decide) (by decide) (by decide) (by decide)
      (by decide) (by decide) (by decide) (by decide)
  have h35 : Rounding.ieee.double ((3565159 / 2097152 : ℚ) + (3602879701896397 / 36028797018963968 : ℚ)) = (4053240308878541 / 2251799813685248 : ℚ) :=
    show round_to_bits 53 ((3565159 / 2097152 : ℚ) + (3602879701896397 / 36028797018963968 : ℚ)) = (4053240308878541 / 2251799813685248 : ℚ) from
    round_to_bits_cert 53 52 64851844942056653 36028797018963968 8106480617757082 4053240308878541 2251799813685248 _ _
      (by norm_num) (by norm_num) (by decide) (by decide) (by decide) (by decide)
      (by decide) (by decide) (by decide) (by decide)
  have h36 : Rounding.ieee.float ((4053240308878541 / 2251799813685248 : ℚ)) = (15099497 / 8388608 : ℚ) :=
    show round_to_bits 24 ((4053240308878541 / 2251799813685248 : ℚ)) = (15099497 / 8388608 : ℚ) from
    round_to_bits_cert 24 23 4053240308878541 2251799813685248 15099497 15099497 8388608 _ _
      (by norm_num) (by norm_num) (by decide) (by decide) (by decide) (by decide)
      (by decide) (by decide) (by decide) (by decide)
  have h37 : Rounding.ieee.double ((15099497 / 8388608 : ℚ) + (3602879701896397 / 36028797018963968 : ℚ)) = (4278420343934157 / 2251799813685248 : ℚ) :=
    show round_to_bits 53 ((15099497 / 8388608 : ℚ) + (3602879701896397 / 36028797018963968 : ℚ)) = (4278420343934157 / 2251799813685248 : ℚ) from
    round_to_bits_cert 53 52 68454725502946509 36028797018963968 8556840687868314 4278420343934157 2251799813685248 _ _
      (by norm_num) (by norm_num) (by decide) (by decide) (by decide) (by decide)
      (by decide) (by decide) (by decide) (by decide)
  have h38 : Rounding.ieee.float ((4278420343934157 / 2251799813685248 : ℚ)) = (7969179 / 4194304 : ℚ) :=
    show round_to_bits 24 ((4278420343934157 / 2251799813685248 : ℚ)) = (7969179 / 4194304 : ℚ) from
    round_to_bits_cert 24 23 4278420343934157 2251799813685248 15938358 7969179 4194304 _ _
      (by norm_num) (by norm_num) (by decide) (by decide) (by decide) (by decide)
      (by decide) (by decide) (by decide) (by decide)
  have h39 : Rounding.ieee.double ((7969179 / 4194304 : ℚ) + (3602879701896397 / 36028797018963968 : ℚ)) = (4503600378989773 / 2251799813685248 : ℚ) :=
    show round_to_bits 53 ((7969179 / 4194304 : ℚ) + (3602879701896397 / 36028797018963968 : ℚ)) = (4503600378989773 / 2251799813685248 : ℚ) from
    round_to_bits_cert 53 51 72057606063836365 36028797018963968 4503600378989773 4503600378989773 2251799813685248 _ _
      (by norm_num) (by norm_num) (by decide) (by decide) (by decide) (by decide)
      (by decide) (by decide) (by decide) (by decide)
  have h40 : Rounding.ieee.float ((4503600378989773 / 2251799813685248 : ℚ)) = (8388609 / 4194304 : ℚ) :=
    show round_to_bits 24 ((4503600378989773 / 2251799813685248 : ℚ)) = (8388609 / 4194304 : ℚ) from
    round_to_bits_cert 24 22 4503600378989773 2251799813685248 8388609 8388609 4194304 _ _
      (by norm_num) (by norm_num) (by decide) (by decide) (by decide) (by decide)
      (by decide) (by decide) (by decide) (by decide)
  have h41 : Rounding.ieee.double ((8388609 / 4194304 : ℚ) + (3602879701896397 / 36028797018963968 : ℚ)) = (4728780145609933 / 2251799813685248 : ℚ) :=
    show round_to_bits 53 ((8388609 / 4194304 : ℚ) + (3602879701896397 / 36028797018963968 : ℚ)) = (4728780145609933 / 2251799813685248 : ℚ) from
    round_to_bits_cert 53 51 75660482329758925 36028797018963968 4728780145609933 4728780145609933 2251799813685248 _ _
      (by norm_num) (by norm_num) (by decide) (by decide) (by decide) (by decide)
      (by decide) (by decide) (by decide) (by decide)
  have h42 : Rounding.ieee.float ((4728780145609933 / 2251799813685248 : ℚ)) = (8808039 / 4194304 : ℚ) :=
    show round_to_bits 24 ((4728780145609933 / 2251799813685248 : ℚ)) = (8808039 / 4194304 : ℚ) from
    round_to_bits_cert 24 22 4728780145609933 2251799813685248 8808039 8808039 4194304 _ _
      (by norm_num) (by norm_num) (by decide) (by decide) (by decide) (by decide)
      (by decide) (by decide) (by decide) (by decide)
  have h43 : Rounding.ieee.double ((8808039 / 4194304 : ℚ) + (3602879701896397 / 36028797018963968 : ℚ)) = (4953959912230093 / 2251799813685248 : ℚ) :=
    show round_to_bits 53 ((8808039 / 4194304 : ℚ) + (3602879701896397 / 36028797018963968 : ℚ)) = (4953959912230093 / 2251799813685248 : ℚ) from
    round_to_bits_cert 53 51 79263358595681485 36028797018963968 4953959912230093 4953959912230093 2251799813685248 _ _
      (by norm_num) (by norm_num) (by decide) (by decide) (by decide) (by decide)
      (by decide) (by decide) (by decide) (by decide)
  have h44 : Rounding.ieee.float ((4953959912230093 / 2251799813685248 : ℚ)) = (9227469 / 4194304 : ℚ) :=
    show round_to_bits 24 ((4953959912230093 / 2251799813685248 : ℚ)) = (9227469 / 4194304 : ℚ) from
    round_to_bits_cert 24 22 4953959912230093 2251799813685248 9227469 9227469 4194304 _ _
      (by norm_num) (by norm_num) (by decide) (by decide) (by decide) (by decide)
      (by decide) (by decide) (by decide) (by decide)
  have h45 : Rounding.ieee.double ((9227469 / 4194304 : ℚ) + (3602879701896397 / 36028797018963968 : ℚ)) = (5179139678850253 / 2251799813685248 : ℚ) :=
    show round_to_bits 53 ((9227469 / 4194304 : ℚ) + (3602879701896397 / 36028797018963968 : ℚ)) = (5179139678850253 / 2251799813685248 : ℚ) from
    round_to_bits_cert 53 51 82866234861604045 36028797018963968 5179139678850253 5179139678850253 2251799813685248 _ _
      (by norm_num) (by norm_num) (by decide) (by decide) (by decide) (by decide)
      (by decide) (by decide) (by decide) (by decide)
  have h46 : Rounding.ieee.float ((5179139678850253 / 2251799813685248 : ℚ)) = (9646899 / 4194304 : ℚ) :=
    show round_to_bits 24 ((5179139678850253 / 2251799813685248 : ℚ)) = (9646899 / 4194304 : ℚ) from
    round_to_bits_cert 24 22 5179139678850253 2251799813685248 9646899 9646899 4194304 _ _
      (by norm_num) (by norm_num) (by decide) (by decide) (by decide) (by decide)
      (by decide) (by decide) (by decide) (by decide)
  have h47 : Rounding.ieee.double ((9646899 / 4194304 : ℚ) + (3602879701896397 / 36028797018963968 : ℚ)) = (5404319445470413 / 2251799813685248 : ℚ) :=
    show round_to_bits 53 ((9646899 / 4194304 : ℚ) + (3602879701896397 / 36028797018963968 : ℚ)) = (5404319445470413 / 2251799813685248 : ℚ) from
    round_to_bits_cert 53 51 86469111127526605 36028797018963968 5404319445470413 5404319445470413 2251799813685248 _ _
      (by norm_num) (by norm_num) (by decide) (by decide) (by decide) (by decide)
      (by decide) (by decide) (by decide) (by decide)
  have h48 : Rounding.ieee.float ((5404319445470413 / 2251799813685248 : ℚ)) = (10066329 / 4194304 : ℚ) :=
    show round_to_bits 24 ((5404319445470413 / 2251799813685248 : ℚ)) = (10066329 / 4194304 : ℚ) from
    round_to_bits_cert 24 22 5404319445470413 2251799813685248 10066329 10066329 4194304 _ _
      (by norm_num) (by norm_num) (by decide) (by decide) (by decide) (by decide)
      (by decide) (by decide) (by decide) (by decide)
  have h49 : Rounding.ieee.double ((10066329 / 4194304 : ℚ) + (3602879701896397 / 36028797018963968 : ℚ)) = (5629499212090573 / 2251799813685248 : ℚ) :=
    show round_to_bits 53 ((10066329 / 4194304 : ℚ) + (3602879701896397 / 36028797018963968 : ℚ)) = (5629499212090573 / 2251799813685248 : ℚ) from
    round_to_bits_cert 53 51 90071987393449165 36028797018963968 5629499212090573 5629499212090573 2251799813685248 _ _
      (by norm_num) (by norm_num) (by decide) (by decide) (by decide) (by decide)
      (by decide) (by decide) (by decide) (by decide)
  have h50 : Rounding.ieee.float ((5629499212090573 / 2251799813685248 : ℚ)) = (10485759 / 4194304 : ℚ) :=
    show round_to_bits 24 ((5629499212090573 / 2251799813685248 : ℚ)) = (10485759 / 4194304 : ℚ) from
    round_to_bits_cert 24 22 5629499212090573 2251799813685248 10485759 10485759 4194304 _ _
      (by norm_num) (by norm_num) (by decide) (by decide) (by decide) (by decide)
      (by decide) (by decide) (by decide) (by decide)
  have h51 : Rounding.ieee.double ((10485759 / 4194304 : ℚ) + (3602879701896397 / 36028797018963968 : ℚ)) = (5854678978710733 / 2251799813685248 : ℚ) :=
    show round_to_bits 53 ((10485759 / 4194304 : ℚ) + (3602879701896397 / 36028797018963968 : ℚ)) = (5854678978710733 / 2251799813685248 : ℚ) from
    round_to_bits_cert 53 51 93674863659371725 36028797018963968 5854678978710733 5854678978710733 2251799813685248 _ _
      (by norm_num) (by norm_num) (by decide) (by decide) (by decide) (by decide)
      (by decide) (by decide) (by decide) (by decide)
  have h52 : Rounding.ieee.float ((5854678978710733 / 2251799813685248 : ℚ)) = (10905189 / 4194304 : ℚ) :=
    show round_to_bits 24 ((5854678978710733 / 2251799813685248 : ℚ)) = (10905189 / 4194304 : ℚ) from
    round_to_bits_cert 24 22 5854678978710733 2251799813685248 10905189 10905189 4194304 _ _
      (by norm_num) (by norm_num) (by decide) (by decide) (by decide) (by decide)
      (by decide) (by decide) (by decide) (by decide)
  have h53 : Rounding.ieee.double ((10905189 / 4194304 : ℚ) + (3602879701896397 / 36028797018963968 : ℚ)) = (6079858745330893 / 2251799813685248 : ℚ) :=
    show round_to_bits 53 ((10905189 / 4194304 : ℚ) + (3602879701896397 / 36028797018963968 : ℚ)) = (6079858745330893 / 2251799813685248 : ℚ) from
    round_to_bits_cert 53 51 97277739925294285 36028797018963968 6079858745330893 6079858745330893 2251799813685248 _ _
      (by norm_num) (by norm_num) (by decide) (by decide) (by decide) (by decide)
      (by decide) (by decide) (by decide) (by decide)
  have h54 : Rounding.ieee.float ((6079858745330893 / 2251799813685248 : ℚ)) = (11324619 / 4194304 : ℚ) :=
    show round_to_bits 24 ((6079858745330893 / 2251799813685248 : ℚ)) = (11324619 / 4194304 : ℚ) from
    round_to_bits_cert 24 22 6079858745330893 2251799813685248 11324619 11324619 4194304 _ _
      (by norm_num) (by norm_num) (by decide) (by decide) (by decide) (by decide)
      (by decide) (by decide) (by decide) (by decide)
  have h55 : Rounding.ieee.double ((11324619 / 4194304 : ℚ) + (3602879701896397 / 36028797018963968 : ℚ)) = (6305038511951053 / 2251799813685248 : ℚ) :=
    show round_to_bits 53 ((11324619 / 4194304 : ℚ) + (3602879701896397 / 36028797018963968 : ℚ)) = (6305038511951053 / 2251799813685248 : ℚ) from
    round_to_bits_cert 53 51 100880616191216845 36028797018963968 6305038511951053 6305038511951053 2251799813685248 _ _
      (by norm_num) (by norm_num) (by decide) (by decide) (by decide) (by decide)
      (by decide) (by decide) (by decide) (by decide)
  have h56 : Rounding.ieee.float ((6305038511951053 / 2251799813685248 : ℚ)) = (11744049 / 4194304 : ℚ) :=
    show round_to_bits 24 ((6305038511951053 / 2251799813685248 : ℚ)) = (11744049 / 4194304 : ℚ) from
    round_to_bits_cert 24 22 6305038511951053 2251799813685248 11744049 11744049 4194304 _ _
      (by norm_num) (by norm_num) (by decide) (by decide) (by decide) (by decide)
      (by decide) (by decide) (by decide) (by decide)
  have h57 : Rounding.ieee.double ((11744049 / 4194304 : ℚ) + (3602879701896397 / 36028797018963968 : ℚ)) = (6530218278571213 / 2251799813685248 : ℚ) :=
    show round_to_bits 53 ((11744049 / 4194304 : ℚ) + (3602879701896397 / 36028797018963968 : ℚ)) = (6530218278571213 / 2251799813685248 : ℚ) from
    round_to_bits_cert 53 51 104483492457139405 36028797018963968 6530218278571213 6530218278571213 2251799813685248 _ _
      (by norm_num) (by norm_num) (by decide) (by decide) (by decide) (by decide)
      (by decide) (by decide) (by decide) (by decide)
  have h58 : Rounding.ieee.float ((6530218278571213 / 2251799813685248 : ℚ)) = (12163479 / 4194304 : ℚ) :=
    show round_to_bits 24 ((6530218278571213 / 2251799813685248 : ℚ)) = (12163479 / 4194304 : ℚ) from
    round_to_bits_cert 24 22 6530218278571213 2251799813685248 12163479 12163479 4194304 _ _
      (by norm_num) (by norm_num) (by decide) (by decide) (by decide) (by decide)
      (by decide) (by decide) (by decide) (by decide)
  have h59 : Rounding.ieee.double ((12163479 / 4194304 : ℚ) + (3602879701896397 / 36028797018963968 : ℚ)) = (6755398045191373 / 2251799813685248 : ℚ) :=
    show round_to_bits 53 ((12163479 / 4194304 : ℚ) + (3602879701896397 / 36028797018963968 : ℚ)) = (6755398045191373 / 2251799813685248 : ℚ) from
    round_to_bits_cert 53 51 108086368723061965 36028797018963968 6755398045191373 6755398045191373 2251799813685248 _ _
      (by norm_num) (by norm_num) (by decide) (by decide) (by decide) (by decide)
      (by decide) (by decide) (by decide) (by decide)
  have h60 : Rounding.ieee.float ((6755398045191373 / 2251799813685248 : ℚ)) = (12582909 / 4194304 : ℚ) :=
    show round_to_bits 24 ((6755398045191373 / 2251799813685248 : ℚ)) = (12582909 / 4194304 : ℚ) from
    round_to_bits_cert 24 22 6755398045191373 2251799813685248 12582909 12582909 4194304 _ _
      (by norm_num) (by norm_num) (by decide) (by decide) (by decide) (by decide)
      (by decide) (by decide) (by decide) (by decide)
  have h61 : Rounding.ieee.double ((12582909 / 4194304 : ℚ) + (3602879701896397 / 36028797018963968 : ℚ)) = (6980577811811533 / 2251799813685248 : ℚ) :=
    show round_to_bits 53 ((12582909 / 4194304 : ℚ) + (3602879701896397 / 36028797018963968 : ℚ)) = (6980577811811533 / 2251799813685248 : ℚ) from
    round_to_bits_cert 53 51 111689244988984525 36028797018963968 6980577811811533 6980577811811533 2251799813685248 _ _
      (by norm_num) (by norm_num) (by decide) (by decide) (by decide) (by decide)
      (by decide) (by decide) (by decide) (by decide)
  have h62 : Rounding.ieee.float ((6980577811811533 / 2251799813685248 : ℚ)) = (13002339 / 4194304 : ℚ) :=
    show round_to_bits 24 ((6980577811811533 / 2251799813685248 : ℚ)) = (13002339 / 4194304 : ℚ) from
    round_to_bits_cert 24 22 6980577811811533 2251799813685248 13002339 13002339 4194304 _ _
      (by norm_num) (by norm_num) (by decide) (by decide) (by decide) (by decide)
      (by decide) (by decide) (by decide) (by decide)
  refine ⟨[13421773 / 134217728,
    13421773 / 67108864,
    5033165 / 16777216,
    13421773 / 33554432,
    1 / 2,
    5033165 / 8388608,
    2936013 / 4194304,
    6710887 / 8388608,
    1887437 / 2097152,
    8388609 / 8388608,
    4613735 / 4194304,
    10066331 / 8388608,
    1363149 / 1048576,
    11744053 / 8388608,
    6291457 / 4194304,
    13421775 / 8388608,
    3565159 / 2097152,
    15099497 / 8388608,
    7969179 / 4194304,
    8388609 / 4194304,
    8808039 / 4194304,
    9227469 / 4194304,
    9646899 / 4194304,
    10066329 / 4194304,
    10485759 / 4194304,
    10905189 / 4194304,
    11324619 / 4194304,
    11744049 / 4194304,
    12163479 / 4194304,
    12582909 / 4194304], ?_, rfl⟩
  show loop_fp Rounding.ieee (3 : ℚ) (3602879701896397 / 36028797018963968 : ℚ) _ (0 : ℚ) = _
  rw [loop_fp_succ, if_pos (by norm_num), h1, h2]
  rw [loop_fp_succ, if_pos (by norm_num), h3, h4]
  rw [loop_fp_succ, if_pos (by norm_num), h5, h6]
  rw [loop_fp_succ, if_pos (by norm_num), h7, h8]
  rw [loop_fp_succ, if_pos (by norm_num), h9, h10]
  rw [loop_fp_succ, if_pos (by norm_num), h11, h12]
  rw [loop_fp_succ, if_pos (by norm_num), h13, h14]
  rw [loop_fp_succ, if_pos (by norm_num), h15, h16]
  rw [loop_fp_succ, if_pos (by norm_num), h17, h18]
  rw [loop_fp_succ, if_pos (by norm_num), h19, h20]
  rw [loop_fp_succ, if_pos (by norm_num), h21, h22]
  rw [loop_fp_succ, if_pos (by norm_num), h23, h24]
  rw [loop_fp_succ, if_pos (by norm_num), h25, h26]
  rw [loop_fp_succ, if_pos (by norm_num), h27, h28]
  rw [loop_fp_succ, if_pos (by norm_num), h29, h30]
  rw [loop_fp_succ, if_pos (by norm_num), h31, h32]
  rw [loop_fp_succ, if_pos (by norm_num), h33, h34]
  rw [loop_fp_succ, if_pos (by norm_num), h35, h36]
  rw [loop_fp_succ, if_pos (by norm_num), h37, h38]
  rw [loop_fp_succ, if_pos (by norm_num), h39, h40]
  rw [loop_fp_succ, if_pos (by norm_num), h41, h42]
  rw [loop_fp_succ, if_pos (by norm_num), h43, h44]
  rw [loop_fp_succ, if_pos (by norm_num), h45, h46]
  rw [loop_fp_succ, if_pos (by norm_num), h47, h48]
  rw [loop_fp_succ, if_pos (by norm_num), h49, h50]
  rw [loop_fp_succ, if_pos (by norm_num), h51, h52]
  rw [loop_fp_succ, if_pos (by norm_num), h53, h54]
  rw [loop_fp_succ, if_pos (by norm_num), h55, h56]
  rw [loop_fp_succ, if_pos (by norm_num), h57, h58]
  rw [loop_fp_succ, if_pos (by norm_num), h59, h60]
  rw [loop_fp_succ, if_pos (by norm_num), h61, h62]
  rw [loop_fp_succ, if_neg (by norm_num)]
  rfl

/-- The total costs of the three samples of `hard_turn_planner` in IEEE arithmetic, for
every library: the goal term has weight 0 and there is no obstacle. -/
theorem hard_turn_costs (L : Libm ℚ) (goal : Goal ℚ) (y : ℚ) (fuel : Nat) :
    candidate_cost_fp Rounding.ieee L hard_turn_planner goal (fuel + 32) ((13421773 / 33554432 : ℚ), y) =
      some (13455327 / 33554432 : ℚ) ∧
    candidate_cost_fp Rounding.ieee L hard_turn_planner goal (fuel + 32) ((15658735 / 33554432 : ℚ), y) =
      some (11218365 / 33554432 : ℚ) ∧
    candidate_cost_fp Rounding.ieee L hard_turn_planner goal (fuel + 32) ((8947849 / 16777216 : ℚ), y) =
      some (4490701 / 16777216 : ℚ) := by
  have hzero : Rounding.ieee.double ((0 : ℚ)) = (0 : ℚ) :=
    show round_to_bits 53 ((0 : ℚ)) = (0 : ℚ) from
    round_to_bits_zero 53 _ (by norm_num)
  have hzerof : Rounding.ieee.float ((0 : ℚ)) = (0 : ℚ) :=
    show round_to_bits 24 ((0 : ℚ)) = (0 : ℚ) from
    round_to_bits_zero 24 _ (by norm_num)
  have ho1 : Rounding.ieee.double ((1 : ℚ) / 1000) = (1152921504606847 / 1152921504606846976 : ℚ) :=
    show round_to_bits 53 ((1 : ℚ) / 1000) = (1152921504606847 / 1152921504606846976 : ℚ) from
    round_to_bits_cert 53 62 1 1000 4611686018427388 1152921504606847 1152921504606846976 _ _
      (by norm_num) (by norm_num) (by decide) (by decide) (by decide) (by decide)
      (by decide) (by decide) (by decide) (by decide)
  have ho2 : Rounding.ieee.float ((1152921504606847 / 1152921504606846976 : ℚ)) = (8589935 / 8589934592 : ℚ) :=
    show round_to_bits 24 ((1152921504606847 / 1152921504606846976 : ℚ)) = (8589935 / 8589934592 : ℚ) from
    round_to_bits_cert 24 33 1152921504606847 1152921504606846976 8589935 8589935 8589934592 _ _
      (by norm_num) (by norm_num) (by decide) (by decide) (by decide) (by decide)
      (by decide) (by decide) (by decide) (by decide)
  have ho3 : Rounding.ieee.double ((1 : ℚ) * (8589935 / 8589934592 : ℚ)) = (8589935 / 8589934592 : ℚ) :=
    show round_to_bits 53 ((1 : ℚ) * (8589935 / 8589934592 : ℚ)) = (8589935 / 8589934592 : ℚ) from
    round_to_bits_cert 53 62 8589935 8589934592 4611686237470720 8589935 8589934592 _ _
      (by norm_num) (by norm_num) (by decide) (by decide) (by decide) (by decide)
      (by decide) (by decide) (by decide) (by decide)
  have ho4 : Rounding.ieee.float ((8589935 / 8589934592 : ℚ)) = (8589935 / 8589934592 : ℚ) :=
    show round_to_bits 24 ((8589935 / 8589934592 : ℚ)) = (8589935 / 8589934592 : ℚ) from
    round_to_bits_cert 24 33 8589935 8589934592 8589935 8589935 8589934592 _ _
      (by norm_num) (by norm_num) (by decide) (by decide) (by decide) (by decide)
      (by decide) (by decide) (by decide) (by decide)
  have hs1_0 : Rounding.ieee.double ((3602879701896397 / 4503599627370496 : ℚ) - |(13421773 / 33554432 : ℚ)|) = (1801439824104653 / 4503599627370496 : ℚ) :=
    show round_to_bits 53 ((3602879701896397 / 4503599627370496 : ℚ) - |(13421773 / 33554432 : ℚ)|) = (1801439824104653 / 4503599627370496 : ℚ) from
    round_to_bits_cert 53 54 1801439824104653 4503599627370496 7205759296418612 1801439824104653 4503599627370496 _ _
      (by norm_num [abs_of_pos, abs_of_neg]) (by norm_num) (by decide) (by decide) (by decide) (by decide)
      (by decide) (by decide) (by decide) (by decide)
  have hs2_0 : Rounding.ieee.float (|(1801439824104653 / 4503599627370496 : ℚ)|) = (13421773 / 33554432 : ℚ) :=
    show round_to_bits 24 (|(1801439824104653 / 4503599627370496 : ℚ)|) = (13421773 / 33554432 : ℚ) from
    round_to_bits_cert 24 25 1801439824104653 4503599627370496 13421773 13421773 33554432 _ _
      (by norm_num [abs_of_pos, abs_of_neg]) (by norm_num) (by decide) (by decide) (by decide) (by decide)
      (by decide) (by decide) (by decide) (by decide)
  have hs3_0 : Rounding.ieee.double ((1 : ℚ) * (13421773 / 33554432 : ℚ)) = (13421773 / 33554432 : ℚ) :=
    show round_to_bits 53 ((1 : ℚ) * (13421773 / 33554432 : ℚ)) = (13421773 / 33554432 : ℚ) from
    round_to_bits_cert 53 54 13421773 33554432 7205759511166976 13421773 33554432 _ _
      (by norm_num) (by norm_num) (by decide) (by decide) (by decide) (by decide)
      (by decide) (by decide) (by decide) (by decide)
  have hs4_0 : Rounding.ieee.float ((13421773 / 33554432 : ℚ)) = (13421773 / 33554432 : ℚ) :=
    show round_to_bits 24 ((13421773 / 33554432 : ℚ)) = (13421773 / 33554432 : ℚ) from
    round_to_bits_cert 24 25 13421773 33554432 13421773 13421773 33554432 _ _
      (by norm_num) (by norm_num) (by decide) (by decide) (by decide) (by decide)
      (by decide) (by decide) (by decide) (by decide)
  have hs5_0 : Rounding.ieee.float ((0 : ℚ) + (13421773 / 33554432 : ℚ)) = (13421773 / 33554432 : ℚ) :=
    show round_to_bits 24 ((0 : ℚ) + (13421773 / 33554432 : ℚ)) = (13421773 / 33554432 : ℚ) from
    round_to_bits_cert 24 25 13421773 33554432 13421773 13421773 33554432 _ _
      (by norm_num) (by norm_num) (by decide) (by decide) (by decide) (by decide)
      (by decide) (by decide) (by decide) (by decide)
  have hs6_0 : Rounding.ieee.float ((13421773 / 33554432 : ℚ) + (8589935 / 8589934592 : ℚ)) = (13455327 / 33554432 : ℚ) :=
    show round_to_bits 24 ((13421773 / 33554432 : ℚ) + (8589935 / 8589934592 : ℚ)) = (13455327 / 33554432 : ℚ) from
    round_to_bits_cert 24 25 3444563823 8589934592 13455327 13455327 33554432 _ _
      (by norm_num) (by norm_num) (by decide) (by decide) (by decide) (by decide)
      (by decide) (by decide) (by decide) (by decide)
  have hs1_1 : Rounding.ieee.double ((3602879701896397 / 4503599627370496 : ℚ) - |(15658735 / 33554432 : ℚ)|) = (1501199866842317 / 4503599627370496 : ℚ) :=
    show round_to_bits 53 ((3602879701896397 / 4503599627370496 : ℚ) - |(15658735 / 33554432 : ℚ)|) = (1501199866842317 / 4503599627370496 : ℚ) from
    round_to_bits_cert 53 54 1501199866842317 4503599627370496 6004799467369268 1501199866842317 4503599627370496 _ _
      (by norm_num [abs_of_pos, abs_of_neg]) (by norm_num) (by decide) (by decide) (by decide) (by decide)
      (by decide) (by decide) (by decide) (by decide)
  have hs2_1 : Rounding.ieee.float (|(1501199866842317 / 4503599627370496 : ℚ)|) = (11184811 / 33554432 : ℚ) :=
    show round_to_bits 24 (|(1501199866842317 / 4503599627370496 : ℚ)|) = (11184811 / 33554432 : ℚ) from
    round_to_bits_cert 24 25 1501199866842317 4503599627370496 11184811 11184811 33554432 _ _
      (by norm_num [abs_of_pos, abs_of_neg]) (by norm_num) (by decide) (by decide) (by decide) (by decide)
      (by decide) (by decide) (by decide) (by decide)
  have hs3_1 : Rounding.ieee.double ((1 : ℚ) * (11184811 / 33554432 : ℚ)) = (11184811 / 33554432 : ℚ) :=
    show round_to_bits 53 ((1 : ℚ) * (11184811 / 33554432 : ℚ)) = (11184811 / 33554432 : ℚ) from
    round_to_bits_cert 53 54 11184811 33554432 6004799682117632 11184811 33554432 _ _
      (by norm_num) (by norm_num) (by decide) (by decide) (by decide) (by decide)
      (by decide) (by decide) (by decide) (by decide)
  have hs4_1 : Rounding.ieee.float ((11184811 / 33554432 : ℚ)) = (11184811 / 33554432 : ℚ) :=
    show round_to_bits 24 ((11184811 / 33554432 : ℚ)) = (11184811 / 33554432 : ℚ) from
    round_to_bits_cert 24 25 11184811 33554432 11184811 11184811 33554432 _ _
      (by norm_num) (by norm_num) (by decide) (by decide) (by decide) (by decide)
      (by decide) (by decide) (by decide) (by decide)
  have hs5_1 : Rounding.ieee.float ((0 : ℚ) + (11184811 / 33554432 : ℚ)) = (11184811 / 33554432 : ℚ) :=
    show round_to_bits 24 ((0 : ℚ) + (11184811 / 33554432 : ℚ)) = (11184811 / 33554432 : ℚ) from
    round_to_bits_cert 24 25 11184811 33554432 11184811 11184811 33554432 _ _
      (by norm_num) (by norm_num) (by decide) (by decide) (by decide) (by decide)
      (by decide) (by decide) (by decide) (by decide)
  have hs6_1 : Rounding.ieee.float ((11184811 / 33554432 : ℚ) + (8589935 / 8589934592 : ℚ)) = (11218365 / 33554432 : ℚ) :=
    show round_to_bits 24 ((11184811 / 33554432 : ℚ) + (8589935 / 8589934592 : ℚ)) = (11218365 / 33554432 : ℚ) from
    round_to_bits_cert 24 25 2871901551 8589934592 11218365 11218365 33554432 _ _
      (by norm_num) (by norm_num) (by decide) (by decide) (by decide) (by decide)
      (by decide) (by decide) (by decide) (by decide)
  have hs1_2 : Rounding.ieee.double ((3602879701896397 / 4503599627370496 : ℚ) - |(8947849 / 16777216 : ℚ)|) = (1200959775362253 / 4503599627370496 : ℚ) :=
    show round_to_bits 53 ((3602879701896397 / 4503599627370496 : ℚ) - |(8947849 / 16777216 : ℚ)|) = (1200959775362253 / 4503599627370496 : ℚ) from
    round_to_bits_cert 53 54 1200959775362253 4503599627370496 4803839101449012 1200959775362253 4503599627370496 _ _
      (by norm_num [abs_of_pos, abs_of_neg]) (by norm_num) (by decide) (by decide) (by decide) (by decide)
      (by decide) (by decide) (by decide) (by decide)
  have hs2_2 : Rounding.ieee.float (|(1200959775362253 / 4503599627370496 : ℚ)|) = (1118481 / 4194304 : ℚ) :=
    show round_to_bits 24 (|(1200959775362253 / 4503599627370496 : ℚ)|) = (1118481 / 4194304 : ℚ) from
    round_to_bits_cert 24 25 1200959775362253 4503599627370496 8947848 1118481 4194304 _ _
      (by norm_num [abs_of_pos, abs_of_neg]) (by norm_num) (by decide) (by decide) (by decide) (by decide)
      (by decide) (by decide) (by decide) (by decide)
  have hs3_2 : Rounding.ieee.double ((1 : ℚ) * (1118481 / 4194304 : ℚ)) = (1118481 / 4194304 : ℚ) :=
    show round_to_bits 53 ((1 : ℚ) * (1118481 / 4194304 : ℚ)) = (1118481 / 4194304 : ℚ) from
    round_to_bits_cert 53 54 1118481 4194304 4803839316197376 1118481 4194304 _ _
      (by norm_num) (by norm_num) (by decide) (by decide) (by decide) (by decide)
      (by decide) (by decide) (by decide) (by decide)
  have hs4_2 : Rounding.ieee.float ((1118481 / 4194304 : ℚ)) = (1118481 / 4194304 : ℚ) :=
    show round_to_bits 24 ((1118481 / 4194304 : ℚ)) = (1118481 / 4194304 : ℚ) from
    round_to_bits_cert 24 25 1118481 4194304 8947848 1118481 4194304 _ _
      (by norm_num) (by norm_num) (by decide) (by decide) (by decide) (by decide)
      (by decide) (by decide) (by decide) (by decide)
  have hs5_2 : Rounding.ieee.float ((0 : ℚ) + (1118481 / 4194304 : ℚ)) = (1118481 / 4194304 : ℚ) :=
    show round_to_bits 24 ((0 : ℚ) + (1118481 / 4194304 : ℚ)) = (1118481 / 4194304 : ℚ) from
    round_to_bits_cert 24 25 1118481 4194304 8947848 1118481 4194304 _ _
      (by norm_num) (by norm_num) (by decide) (by decide) (by decide) (by decide)
      (by decide) (by decide) (by decide) (by decide)
  have hs6_2 : Rounding.ieee.float ((1118481 / 4194304 : ℚ) + (8589935 / 8589934592 : ℚ)) = (4490701 / 16777216 : ℚ) :=
    show round_to_bits 24 ((1118481 / 4194304 : ℚ) + (8589935 / 8589934592 : ℚ)) = (4490701 / 16777216 : ℚ) from
    round_to_bits_cert 24 25 2299239023 8589934592 8981402 4490701 16777216 _ _
      (by norm_num) (by norm_num) (by decide) (by decide) (by decide) (by decide)
      (by decide) (by decide) (by decide) (by decide)
  obtain ⟨ts, hloop, _⟩ := hard_turn_steps fuel
  have hcost := fun v => candidate_cost_fp_speed_only Rounding.ieee L hard_turn_planner goal v y
    (fuel + 32) 0 ts hloop rfl rfl
  have hp1 : hard_turn_planner.speed_cost_gain_ = 1 := rfl
  have hp2 : hard_turn_planner.obs_cost_gain_ = 1 := rfl
  have hp3 : hard_turn_planner.target_velocity_ = (3602879701896397 / 4503599627370496 : ℚ) := rfl
  refine ⟨?_, ?_, ?_⟩
  · rw [hcost, hp1, hp2, hp3, hzero, hzerof, ho1, ho2, ho3, ho4, hs1_0, hs2_0, hs3_0, hs4_0, hs5_0, hs6_0]
  · rw [hcost, hp1, hp2, hp3, hzero, hzerof, ho1, ho2, ho3, ho4, hs1_1, hs2_1, hs3_1, hs4_1, hs5_1, hs6_1]
  · rw [hcost, hp1, hp2, hp3, hzero, hzerof, ho1, ho2, ho3, ho4, hs1_2, hs2_2, hs3_2, hs4_2, hs5_2, hs6_2]

/-- The samples `dwa_planning` tries for `hard_turn_planner` in IEEE arithmetic: three
velocities, each with the one yaw-rate `-FLOAT_FOUR_FIFTHS`; the window does not straddle
zero, so no sample of yaw-rate 0 is added. -/
theorem hard_turn_candidates (fuel : Nat) :
    candidates_fp Rounding.ieee hard_turn_planner (fuel + 32) =
      some [(13421773 / 33554432, -FLOAT_FOUR_FIFTHS), (15658735 / 33554432, -FLOAT_FOUR_FIFTHS),
        (8947849 / 16777216, -FLOAT_FOUR_FIFTHS)] := by
  have hv := hard_turn_velocities fuel
  have hy := hard_turn_yawrates fuel
  have hn1 : hard_turn_planner.velocity_samples_ = 3 := rfl
  have hn2 : hard_turn_planner.yawrate_samples_ = 1 := rfl
  have hneg : (-DOUBLE_FOUR_FIFTHS : ℚ) = (-3602879701896397 / 4503599627370496 : ℚ) := by
    norm_num [DOUBLE_FOUR_FIFTHS]
  unfold candidates_fp
  rw [hard_turn_window]
  dsimp only
  rw [hn1, hn2, hneg, hv, hy]
  dsimp only
  norm_num [FLOAT_FOUR_FIFTHS]

/-- The function `dwa_planning` on `hard_turn_planner` in IEEE arithmetic, for every library
and goal: it returns the trajectory of the last sample, velocity `0.53333336`, yaw-rate
`-FLOAT_FOUR_FIFTHS`. -/
theorem hard_turn_planning (L : Libm ℚ) (goal : Goal ℚ) (fuel : Nat) :
    ∃ rest, dwa_planning_fp Rounding.ieee L hard_turn_planner goal (fuel + 32) =
        some (motion_fp Rounding.ieee L hard_turn_planner State.origin (8947849 / 16777216)
          (-FLOAT_FOUR_FIFTHS) :: rest) ∧
      generate_trajectory_fp Rounding.ieee L hard_turn_planner (8947849 / 16777216)
        (-FLOAT_FOUR_FIFTHS) (fuel + 32) =
        some (motion_fp Rounding.ieee L hard_turn_planner State.origin (8947849 / 16777216)
          (-FLOAT_FOUR_FIFTHS) :: rest) := by
  obtain ⟨ts, hloop, _⟩ := hard_turn_steps fuel
  obtain ⟨r0, hg0, _⟩ := generate_trajectory_fp_of_loop Rounding.ieee L hard_turn_planner
    (13421773 / 33554432) (-FLOAT_FOUR_FIFTHS) (fuel + 32) 0 ts hloop
  obtain ⟨r1, hg1, _⟩ := generate_trajectory_fp_of_loop Rounding.ieee L hard_turn_planner
    (15658735 / 33554432) (-FLOAT_FOUR_FIFTHS) (fuel + 32) 0 ts hloop
  obtain ⟨r2, hg2, _⟩ := generate_trajectory_fp_of_loop Rounding.ieee L hard_turn_planner
    (8947849 / 16777216) (-FLOAT_FOUR_FIFTHS) (fuel + 32) 0 ts hloop
  obtain ⟨hc0, hc1, hc2⟩ := hard_turn_costs L goal (-FLOAT_FOUR_FIFTHS) fuel
  refine ⟨r2, ?_, hg2⟩
  have s0 := fun s => try_candidate_fp_eq Rounding.ieee L hard_turn_planner goal (fuel + 32) s
    (13421773 / 33554432, -FLOAT_FOUR_FIFTHS) _ _ hg0 hc0
  have s1 := fun s => try_candidate_fp_eq Rounding.ieee L hard_turn_planner goal (fuel + 32) s
    (15658735 / 33554432, -FLOAT_FOUR_FIFTHS) _ _ hg1 hc1
  have s2 := fun s => try_candidate_fp_eq Rounding.ieee L hard_turn_planner goal (fuel + 32) s
    (8947849 / 16777216, -FLOAT_FOUR_FIFTHS) _ _ hg2 hc2
  unfold dwa_planning_fp
  rw [hard_turn_candidates]
  simp only [List.foldlM_cons, List.foldlM_nil, s0, s1, s2, Option.some_bind,
    Option.bind_eq_bind, Option.pure_def]
  norm_num [SENTINEL]

/-- The function `calc_cmd_vel` on `hard_turn_planner` in IEEE arithmetic, the library exact
at the goal `(2, 0)`: the full search runs and the command is the sample of velocity
`0.53333336` and yaw-rate `-FLOAT_FOUR_FIFTHS`. -/
theorem hard_turn_cmd_vel (L : Libm ℚ) (hatan : L.atan2 0 2 = 0) (hhyp : L.hypot 2 0 = 2)
    (fuel : Nat) :
    calc_cmd_vel_fp Rounding.ieee L hard_turn_planner (fuel + 32) =
      some (⟨8947849 / 16777216, -FLOAT_FOUR_FIFTHS⟩, hard_turn_planner) := by
  obtain ⟨rest, hplan, _⟩ := hard_turn_planning L ⟨2, 0, 0⟩ fuel
  have hgoal : hard_turn_planner.local_goal_ = ⟨2, 0, 0⟩ := rfl
  have hth : hard_turn_planner.dist_to_goal_th_ = DOUBLE_THREE_TENTHS := rfl
  have hang : hard_turn_planner.angle_to_goal_th_ = M_PI := rfl
  have hfoot : hard_turn_planner.use_footprint_ = false := rfl
  have hadj : can_adjust_robot_direction_fp Rounding.ieee L hard_turn_planner ⟨2, 0, 0⟩
      (fuel + 32) = some false := by
    unfold can_adjust_robot_direction_fp
    simp only [hatan, hang]
    rw [if_pos (by norm_num [M_PI])]
  unfold calc_cmd_vel_fp
  simp only [hgoal, hth, hhyp, hadj, hplan, List.head?_cons, publish_selected, hfoot,
    motion_fp, DOUBLE_THREE_TENTHS]
  norm_num

/-- C23 (the code contradicts it): the parameters at their defaults except
`TO_GOAL_COST_GAIN = 0` and `YAWRATE_SAMPLES = 1`, odometry `(0.5, -0.70000001)`, goal 2 m
ahead, no obstacle, so `max_yawrate_ = 0.8 ≥ 0`, `predict_time_ = 3 ≥ 0`, `dt_ = 0.1 > 0`.
In IEEE arithmetic the window returned by `calc_dynamic_window` has the lower yaw-rate bound
`-max_yawrate_`, `calc_cmd_vel` takes the full-search branch and returns a command that is
not the zero command and whose angular rate is the `float` nearest to -0.8,
`-0.800000011920929`, below `-max_yawrate_` and so outside the window. -/
theorem C23_command_below_the_yawrate_window (L : Libm ℚ) (hatan : L.atan2 0 2 = 0)
    (hhyp : L.hypot 2 0 = 2) (fuel : Nat) :
    (0 ≤ hard_turn_planner.max_yawrate_ ∧ 0 ≤ hard_turn_planner.predict_time_ ∧
      0 < hard_turn_planner.dt_) ∧
    (calc_dynamic_window_fp Rounding.ieee hard_turn_planner).min_yawrate_ =
      -hard_turn_planner.max_yawrate_ ∧
    calc_cmd_vel_fp Rounding.ieee L hard_turn_planner (fuel + 32) =
      some (⟨8947849 / 16777216, -FLOAT_FOUR_FIFTHS⟩, hard_turn_planner) ∧
    -FLOAT_FOUR_FIFTHS < -hard_turn_planner.max_yawrate_ := by
  have hmax : hard_turn_planner.max_yawrate_ = DOUBLE_FOUR_FIFTHS := rfl
  have hT : hard_turn_planner.predict_time_ = 3 := rfl
  have hdt : hard_turn_planner.dt_ = DOUBLE_TENTH := rfl
  refine ⟨⟨?_, ?_, ?_⟩, ?_, hard_turn_cmd_vel L hatan hhyp fuel, ?_⟩
  · rw [hmax]
    norm_num [DOUBLE_FOUR_FIFTHS]
  · rw [hT]
    norm_num
  · rw [hdt]
    norm_num [DOUBLE_TENTH]
  · rw [hard_turn_window, hmax]
  · rw [hmax]
    norm_num [DOUBLE_FOUR_FIFTHS, FLOAT_FOUR_FIFTHS]

theorem C23_command_below_the_yawrate_window_witness :
    Libm.onAxes.atan2 0 2 = 0 ∧ Libm.onAxes.hypot 2 0 = 2 ∧
    calc_cmd_vel_fp Rounding.ieee Libm.onAxes hard_turn_planner 32 =
      some (⟨8947849 / 16777216, -FLOAT_FOUR_FIFTHS⟩, hard_turn_planner) ∧
    -FLOAT_FOUR_FIFTHS < -hard_turn_planner.max_yawrate_ :=
  ⟨by norm_num [Libm.onAxes], by norm_num [Libm.onAxes],
    (C23_command_below_the_yawrate_window Libm.onAxes (by norm_num [Libm.onAxes])
      (by norm_num [Libm.onAxes]) 0).2.2⟩

/-- When the loop of `generate_trajectory` exits after at least one pass, the search loop
over any list of samples returns. -/
theorem fold_try_candidate_fp_isSome (R : Rounding α) (L : Libm α) (p : DWAPlanner α)
    (goal : Goal α) (fuel : Nat) (t : α) (ts : List α)
    (hloop : loop_fp R p.predict_time_ p.dt_ fuel 0 = some (t :: ts)) :
    ∀ (cs : List (α × α)) (s0 : Search α),
      ∃ s, cs.foldlM (try_candidate_fp R L p goal fuel) s0 = some s := by
  intro cs
  induction cs with
  | nil => exact fun s0 => ⟨s0, rfl⟩
  | cons c cs ih =>
    intro s0
    obtain ⟨rest, hgen, _⟩ := generate_trajectory_fp_of_loop R L p c.1 c.2 fuel t ts hloop
    have hcost : ∃ k, candidate_cost_fp R L p goal fuel c = some k := by
      cases hq : (motion_fp R L p State.origin c.1 c.2 :: rest).getLast? with
      | none => simp at hq
      | some last =>
        have h : (candidate_cost_fp R L p goal fuel c).isSome = true := by
          simp only [candidate_cost_fp, hgen, evaluate_trajectory_fp, hq, Option.map_some',
            Option.isSome_some]
        exact Option.isSome_iff_exists.mp h
    obtain ⟨k, hk⟩ := hcost
    rw [List.foldlM_cons, try_candidate_fp_eq R L p goal fuel s0 c _ k hgen hk]
    exact ih _

/-- C2 (amended): in machine arithmetic, whatever the roundings, for every window, goal and
obstacle set: when the two sample loops exit, enumerating the samples `cs`, the loop of
`generate_trajectory` exits after at least one pass, and some enumerated sample has total
cost below `1e6`, `dwa_planning` returns, and the trajectory it returns is the rollout of an
enumerated sample `i` whose total cost is at most that of every enumerated sample and
strictly below that of every sample enumerated after it. -/
theorem C2_returned_trajectory_is_last_cheapest (R : Rounding α) (L : Libm α)
    (p : DWAPlanner α) (goal : Goal α) (fuel : Nat) (cs : List (α × α)) (t : α)
    (ts : List α)
    (hcs : candidates_fp R p fuel = some cs)
    (hloop : loop_fp R p.predict_time_ p.dt_ fuel 0 = some (t :: ts))
    (hex : ∃ c ∈ cs, ∃ k, candidate_cost_fp R L p goal fuel c = some k ∧ k < SENTINEL) :
    ∃ (best : List (State α)) (i : Nat) (c : α × α) (k : α),
      dwa_planning_fp R L p goal fuel = some best ∧
      cs[i]? = some c ∧ generate_trajectory_fp R L p c.1 c.2 fuel = some best ∧
      candidate_cost_fp R L p goal fuel c = some k ∧
      ∀ (j : Nat) (c' : α × α) (k' : α), cs[j]? = some c' →
        candidate_cost_fp R L p goal fuel c' = some k' → k ≤ k' ∧ (i < j → k < k') := by
  have hret : ∃ best, dwa_planning_fp R L p goal fuel = some best := by
    obtain ⟨s, hs⟩ := fold_try_candidate_fp_isSome R L p goal fuel t ts hloop cs
      ⟨SENTINEL, [], []⟩
    obtain ⟨rest, hgen, _⟩ := generate_trajectory_fp_of_loop R L p 0 0 fuel t ts hloop
    unfold dwa_planning_fp
    rw [hcs]
    simp only [hs]
    split
    · exact ⟨_, hgen⟩
    · exact ⟨_, rfl⟩
  obtain ⟨best, hbest⟩ := hret
  obtain ⟨i, c, k, hi, hgen, hcost, _, hall⟩ :=
    dwa_planning_fp_spec R L p goal fuel cs best hcs hex hbest
  exact ⟨best, i, c, k, hbest, hi, hgen, hcost, hall⟩

theorem C2_returned_trajectory_is_last_cheapest_witness :
    candidates_fp Rounding.ieee hard_turn_planner 32 =
      some [(13421773 / 33554432, -FLOAT_FOUR_FIFTHS), (15658735 / 33554432, -FLOAT_FOUR_FIFTHS),
        (8947849 / 16777216, -FLOAT_FOUR_FIFTHS)] ∧
    (∃ ts, loop_fp Rounding.ieee hard_turn_planner.predict_time_ hard_turn_planner.dt_ 32 0 =
      some (0 :: ts)) ∧
    ∃ (best : List (State ℚ)) (i : Nat) (c : ℚ × ℚ) (k : ℚ),
      dwa_planning_fp Rounding.ieee Libm.onAxes hard_turn_planner ⟨2, 0, 0⟩ 32 = some best ∧
      [((13421773 / 33554432 : ℚ), -FLOAT_FOUR_FIFTHS),
        (15658735 / 33554432, -FLOAT_FOUR_FIFTHS),
        (8947849 / 16777216, -FLOAT_FOUR_FIFTHS)][i]? = some c ∧
      generate_trajectory_fp Rounding.ieee Libm.onAxes hard_turn_planner c.1 c.2 32 =
        some best ∧
      candidate_cost_fp Rounding.ieee Libm.onAxes hard_turn_planner ⟨2, 0, 0⟩ 32 c = some k ∧
      ∀ (j : Nat) (c' : ℚ × ℚ) (k' : ℚ),
        [((13421773 / 33554432 : ℚ), -FLOAT_FOUR_FIFTHS),
          (15658735 / 33554432, -FLOAT_FOUR_FIFTHS),
          (8947849 / 16777216, -FLOAT_FOUR_FIFTHS)][j]? = some c' →
        candidate_cost_fp Rounding.ieee Libm.onAxes hard_turn_planner ⟨2, 0, 0⟩ 32 c' =
          some k' → k ≤ k' ∧ (i < j → k < k') := by
  obtain ⟨ts, hloop, _⟩ := hard_turn_steps 0
  have hex : ∃ c ∈ [((13421773 / 33554432 : ℚ), -FLOAT_FOUR_FIFTHS),
      (15658735 / 33554432, -FLOAT_FOUR_FIFTHS), (8947849 / 16777216, -FLOAT_FOUR_FIFTHS)],
      ∃ k, candidate_cost_fp Rounding.ieee Libm.onAxes hard_turn_planner ⟨2, 0, 0⟩ 32 c =
        some k ∧ k < SENTINEL :=
    ⟨_, List.mem_cons_self _ _, _,
      (hard_turn_costs Libm.onAxes ⟨2, 0, 0⟩ (-FLOAT_FOUR_FIFTHS) 0).1,
      by norm_num [SENTINEL]⟩
  exact ⟨hard_turn_candidates 0, ⟨ts, hloop⟩,
    C2_returned_trajectory_is_last_cheapest Rounding.ieee Libm.onAxes hard_turn_planner
      ⟨2, 0, 0⟩ 32 _ 0 ts (hard_turn_candidates 0) hloop hex⟩

/-- With `has_reached_` set, a call of `calc_cmd_vel` in machine arithmetic that returns
leaves the planner as it was, whatever the roundings. -/
theorem calc_cmd_vel_fp_latched (R : Rounding α) (L : Libm α) (p p1 : DWAPlanner α)
    (fuel : Nat) (cmd_vel : Twist α) (hr : p.has_reached_ = true)
    (h : calc_cmd_vel_fp R L p fuel = some (cmd_vel, p1)) : p1 = p := by
  unfold calc_cmd_vel_fp at h
  simp only [hr, or_true, if_true] at h
  cases hadj : can_adjust_robot_direction_fp R L p p.local_goal_ fuel with
  | none => simp [hadj] at h
  | some b =>
    cases b with
    | true =>
      simp only [hadj] at h
      cases hgen : generate_trajectory_fp R L p 0
          (min (max (L.atan2 p.local_goal_.y p.local_goal_.x) (-p.max_yawrate_))
            p.max_yawrate_) fuel with
      | none => simp [hgen] at h
      | some best_traj =>
        simp only [hgen, publish_selected] at h
        split at h
        · simp at h
        · simp only [Option.some.injEq, Prod.mk.injEq] at h
          exact h.2.symm
    | false =>
      simp only [hadj] at h
      cases hplan : dwa_planning_fp R L p p.local_goal_ fuel with
      | none => simp [hplan] at h
      | some best_traj =>
        simp only [hplan] at h
        cases hfront : best_traj.head? with
        | none => simp [hfront] at h
        | some front =>
          simp only [hfront, publish_selected] at h
          split at h
          · simp at h
          · simp only [Option.some.injEq, Prod.mk.injEq] at h
            exact h.2.symm

/-- C21: with `has_reached_` set, for every goal, obstacle set and configuration: a call of
`calc_cmd_vel` that returns leaves the planner unchanged (so `has_reached_` is still set and
`has_finished_` is not raised by the call) and its command is the one of the rotate/search
branch; the same holds of the call in machine arithmetic, whatever the roundings; and every
run of the loop of `process` from such a planner that returns ends with `has_reached_` set
and, when it starts with `has_finished_` clear, publishes a clear finished flag in every
pass. -/
theorem C21_has_reached_stays_set (L : Libm α) (p : DWAPlanner α)
    (hr : p.has_reached_ = true) :
    (∀ cmd_vel p1, calc_cmd_vel L p = some (cmd_vel, p1) →
      p1 = p ∧
      ((can_adjust_robot_direction L p p.local_goal_ = some true ∧
          cmd_vel = ⟨0, min (max (L.atan2 p.local_goal_.y p.local_goal_.x) (-p.max_yawrate_))
            p.max_yawrate_⟩) ∨
        (can_adjust_robot_direction L p p.local_goal_ = some false ∧
          ∃ best_traj front, dwa_planning L p p.local_goal_ = some best_traj ∧
            best_traj.head? = some front ∧ cmd_vel = ⟨front.velocity_, front.yawrate_⟩))) ∧
    (∀ (R : Rounding α) (fuel : Nat) cmd_vel p1,
      calc_cmd_vel_fp R L p fuel = some (cmd_vel, p1) → p1 = p) ∧
    (∀ ticks outs p1, process L p ticks = some (outs, p1) →
      p1.has_reached_ = true ∧
        (p.has_finished_ = false → ∀ out ∈ outs, out.finish_flag = false)) := by
  refine ⟨?_, ?_, ?_⟩
  · intro cmd_vel p1 h
    exact ⟨calc_cmd_vel_latched L p p1 cmd_vel hr h,
      calc_cmd_vel_rotate_or_search L p p1 cmd_vel (Or.inr hr) h⟩
  · intro R fuel cmd_vel p1 h
    exact calc_cmd_vel_fp_latched R L p p1 fuel cmd_vel hr h
  · intro ticks outs p1 h
    obtain ⟨h1, h2⟩ := process_latch L ticks p p1 outs hr h
    refine ⟨h1, ?_⟩
    intro hf out ho
    cases hflag : out.finish_flag with
    | false => rfl
    | true =>
      have := h2 out ho hflag
      rw [hf] at this
      exact absurd this (by simp)

theorem C21_has_reached_stays_set_witness :
    latched_planner.has_reached_ = true ∧
    (∃ cmd_vel, calc_cmd_vel Libm.onAxes latched_planner = some (cmd_vel, latched_planner)) ∧
    (∀ cmd_vel p1, calc_cmd_vel Libm.onAxes latched_planner = some (cmd_vel, p1) →
      p1 = latched_planner) ∧
    ∀ ticks outs p1, process Libm.onAxes latched_planner ticks = some (outs, p1) →
      p1.has_reached_ = true ∧
        (latched_planner.has_finished_ = false → ∀ out ∈ outs, out.finish_flag = false) :=
  ⟨rfl,
    calc_cmd_vel_far_or_latched Libm.onAxes latched_planner
      (by norm_num [latched_planner, DWAPlanner.construct, Params.defaults])
      (by norm_num [latched_planner, DWAPlanner.construct, Params.defaults]) (Or.inr rfl),
    fun cmd_vel p1 h => ((C21_has_reached_stays_set Libm.onAxes latched_planner rfl).1
      cmd_vel p1 h).1,
    (C21_has_reached_stays_set Libm.onAxes latched_planner rfl).2.2⟩

end DWA
